import Mathlib

/-!
# DiligentSamples: the shadow-mapping sample and the terrain sample

A shallow embedding of `Samples/Shadows/src/ShadowsSample.cpp` and of
`Samples/TerrainRenderer/src/TerrainRenderer.cpp` with `Terrain/EarthMesh.cpp`.

* Engine objects (pipeline states, resource bindings, buffers, texture views) are
  plain records of what the sample passed when it created them, or handles. Engine calls
  do not fail.
* The immediate device context is the list of commands recorded on it, in issue order.
* A `std::vector` is a `List`; an out-of-range `operator[]` or a read past the end of a
  C array makes the enclosing function return `none`.
* `memcmp` over an array of `LayoutElement` compares the elements field by field: padding
  bytes are not modelled.
* Unsigned 32-bit conversions are written `% 2 ^ 32` where the source value can be wider;
  counters bounded by a 32-bit size are natural numbers.
* `float` values are exact rationals; nothing below depends on rounding.
* A smart pointer that may be null is an `Option`; a call through a null pointer makes the
  enclosing function return `none`. Memory allocation does not fail.
-/

namespace Diligent

/-! ## Engine declarations used by the sample -/

/-- Vertex semantics of an sdkmesh vertex declaration (`DXSDKMESH_VERTEX_SEMANTIC_*`).
The enumeration is declared by the engine; the sample names three of its members. -/
inductive DXSDKMESH_VERTEX_SEMANTIC
  | POSITION | BLENDWEIGHT | BLENDINDICES | NORMAL | PSIZE | TEXCOORD | TANGENT
  | BINORMAL | TESSFACTOR | POSITIONT | COLOR | FOG | DEPTH | SAMPLE
  deriving DecidableEq, Repr

/-- Vertex data types of an sdkmesh vertex declaration (`DXSDKMESH_VERTEX_DATA_TYPE_*`).
The enumeration is declared by the engine; the sample names two of its members. -/
inductive DXSDKMESH_VERTEX_DATA_TYPE
  | FLOAT1 | FLOAT2 | FLOAT3 | FLOAT4 | D3DCOLOR | UBYTE4 | SHORT2 | SHORT4 | UBYTE4N
  | SHORT2N | SHORT4N | USHORT2N | USHORT4N | UDEC3 | DEC3N | FLOAT16_2 | FLOAT16_4 | UNUSED
  deriving DecidableEq, Repr

/-- One entry of an sdkmesh vertex declaration. -/
structure DXSDKMESH_VERTEX_ELEMENT where
  Stream : Nat
  Offset : Nat
  Type_ : DXSDKMESH_VERTEX_DATA_TYPE
  Method : Nat
  Usage : DXSDKMESH_VERTEX_SEMANTIC
  UsageIndex : Nat
  deriving DecidableEq, Repr

/-- Component value types of the engine (`VT_*`). -/
inductive VALUE_TYPE
  | VT_UNDEFINED | VT_INT8 | VT_INT16 | VT_INT32 | VT_UINT8 | VT_UINT16 | VT_UINT32
  | VT_FLOAT16 | VT_FLOAT32
  deriving DecidableEq, Repr

/-- The fields of the engine's `LayoutElement` that the sample passes to its constructor, in
constructor order. The remaining fields take the constructor defaults, the same for every
element the sample builds. -/
structure LayoutElement where
  InputIndex : Nat
  BufferSlot : Nat
  NumComponents : Nat
  ValueType : VALUE_TYPE
  IsNormalized : Bool
  RelativeOffset : Nat
  Stride : Nat
  deriving DecidableEq, Repr

/-- The engine's `InputLayoutDesc`: the element array and its declared length. -/
structure InputLayoutDesc where
  LayoutElements : List LayoutElement := []
  NumElements : Nat := 0
  deriving DecidableEq, Repr

/-- Shader stages (`SHADER_TYPE_*`). -/
inductive SHADER_TYPE
  | SHADER_TYPE_VERTEX | SHADER_TYPE_PIXEL
  deriving DecidableEq, Repr

/-- Resource variable kinds (`SHADER_RESOURCE_VARIABLE_TYPE_*`). -/
inductive SHADER_RESOURCE_VARIABLE_TYPE
  | STATIC | MUTABLE | DYNAMIC
  deriving DecidableEq, Repr

/-- A shader as created by `CreateShader`: the creation attributes the sample filled in. -/
structure Shader where
  ShaderType : SHADER_TYPE
  Name : String
  EntryPoint : String
  FilePath : String
  Macros : List (String × Int)
  deriving DecidableEq, Repr

/-- The engine's `StaticSamplerDesc`; the sampler itself is named, not expanded. -/
structure StaticSamplerDesc where
  ShaderStages : SHADER_TYPE
  SamplerOrTextureName : String
  Desc : String
  deriving DecidableEq, Repr

/-- The engine's `ShaderResourceVariableDesc`. -/
structure ShaderResourceVariableDesc where
  ShaderStages : SHADER_TYPE
  Name : String
  Type_ : SHADER_RESOURCE_VARIABLE_TYPE
  deriving DecidableEq, Repr

/-- The engine's `PipelineResourceLayoutDesc`, its arrays as lists. -/
structure PipelineResourceLayoutDesc where
  Variables : List ShaderResourceVariableDesc := []
  NumVariables : Nat := 0
  StaticSamplers : List StaticSamplerDesc := []
  NumStaticSamplers : Nat := 0
  DefaultVariableType : SHADER_RESOURCE_VARIABLE_TYPE := SHADER_RESOURCE_VARIABLE_TYPE.STATIC
  deriving DecidableEq, Repr

/-- Texture formats are engine codes; `TEX_FORMAT_UNKNOWN` is code 0. -/
abbrev TEXTURE_FORMAT := Nat

/-- The unknown texture format. -/
def TEX_FORMAT_UNKNOWN : TEXTURE_FORMAT := 0

/-- Primitive topologies named by the sample and the engine default. -/
inductive PRIMITIVE_TOPOLOGY
  | PRIMITIVE_TOPOLOGY_TRIANGLE_LIST | PRIMITIVE_TOPOLOGY_TRIANGLE_STRIP
  deriving DecidableEq, Repr

/-- Comparison functions named by the sample and the engine default. -/
inductive COMPARISON_FUNCTION
  | COMPARISON_FUNC_LESS | COMPARISON_FUNC_LESS_EQUAL
  deriving DecidableEq, Repr

/-- Cull modes (`CULL_MODE_*`). -/
inductive CULL_MODE
  | CULL_MODE_NONE | CULL_MODE_FRONT | CULL_MODE_BACK
  deriving DecidableEq, Repr

/-- The fields of the engine's `GraphicsPipelineDesc` that the samples read or write. -/
structure GraphicsPipelineDesc where
  pVS : Option Shader := none
  pPS : Option Shader := none
  InputLayout : InputLayoutDesc := {}
  PrimitiveTopology : PRIMITIVE_TOPOLOGY := PRIMITIVE_TOPOLOGY.PRIMITIVE_TOPOLOGY_TRIANGLE_LIST
  NumRenderTargets : Nat := 0
  RTVFormats0 : TEXTURE_FORMAT := TEX_FORMAT_UNKNOWN
  DSVFormat : TEXTURE_FORMAT := TEX_FORMAT_UNKNOWN
  DepthFunc : COMPARISON_FUNCTION := COMPARISON_FUNCTION.COMPARISON_FUNC_LESS
  DepthClipEnable : Bool := true
  CullMode : CULL_MODE := CULL_MODE.CULL_MODE_BACK
  DepthEnable : Bool := true
  deriving DecidableEq, Repr

/-- The engine's `PipelineStateDesc`, restricted to what the sample touches. -/
structure PipelineStateDesc where
  Name : String := ""
  GraphicsPipeline : GraphicsPipelineDesc := {}
  ResourceLayout : PipelineResourceLayoutDesc := {}
  IsComputePipeline : Bool := false
  deriving DecidableEq, Repr

/-- Handles of engine objects (buffers, texture views) are numbers. -/
abbrev Handle := Nat

/-- A pipeline state object: the description it was created from (what `GetDesc` returns) and
the static variables set on it, latest first. -/
structure PipelineState where
  Desc : PipelineStateDesc
  StaticVars : List (SHADER_TYPE × String × Handle) := []
  deriving DecidableEq, Repr

/-- Method `GetDesc` of a pipeline state. -/
def PipelineState.GetDesc (p : PipelineState) : PipelineStateDesc := p.Desc

/-- Method `GetStaticVariableByName(Stage, Name)->Set(Obj)` of a pipeline state. -/
def PipelineState.SetStaticVariable (p : PipelineState) (Stage : SHADER_TYPE) (Name : String)
    (Obj : Handle) : PipelineState :=
  { p with StaticVars := (Stage, Name, Obj) :: p.StaticVars }

/-! ## The mesh -/

/-- A subset of a submesh: an index range and a material. The index fields are 64 bits wide
in the file format. -/
structure DXSDKMESH_SUBSET where
  MaterialID : Nat
  IndexStart : Nat
  IndexCount : Nat
  deriving DecidableEq, Repr

/-- A submesh. `VertexBuffers` is the fixed array of vertex-buffer indices, one per stream;
`IBFormat` is the index type of its index buffer, as `GetIBFormat` reports it; the subsets
are held directly, `NumSubsets` being their number. -/
structure DXSDKMESH_MESH where
  VertexBuffers : Fin 16 → Nat
  IndexBuffer : Nat
  IBFormat : VALUE_TYPE
  Subsets : List DXSDKMESH_SUBSET

/-- Number of subsets of a submesh. -/
def DXSDKMESH_MESH.NumSubsets (m : DXSDKMESH_MESH) : Nat := m.Subsets.length

/-- A vertex buffer header: the vertex declaration array and the vertex stride. -/
structure DXSDKMESH_VERTEX_BUFFER_HEADER where
  Decl : List DXSDKMESH_VERTEX_ELEMENT
  StrideBytes : Nat
  deriving DecidableEq, Repr

/-- A material: its diffuse texture view, if any. -/
structure DXSDKMESH_MATERIAL where
  pDiffuseRV : Option Handle
  deriving DecidableEq, Repr

/-- Modelled from the spec: the engine's loaded mesh `DXSDKMesh`, which is not among the
sources. Static geometry: vertex buffers, submeshes that reference a vertex-buffer index
and contain subsets, and materials. -/
structure DXSDKMesh where
  VertexBufferArray : List DXSDKMESH_VERTEX_BUFFER_HEADER
  MeshArray : List DXSDKMESH_MESH
  MaterialArray : List DXSDKMESH_MATERIAL

namespace DXSDKMesh

/-- Accessor `GetNumVBs`. -/
def GetNumVBs (m : DXSDKMesh) : Nat := m.VertexBufferArray.length

/-- Accessor `GetNumMeshes`. -/
def GetNumMeshes (m : DXSDKMesh) : Nat := m.MeshArray.length

/-- Accessor `GetNumMaterials`. -/
def GetNumMaterials (m : DXSDKMesh) : Nat := m.MaterialArray.length

/-- Accessor `VBElements(vb)`. -/
def VBElements (m : DXSDKMesh) (vb : Nat) : Option (List DXSDKMESH_VERTEX_ELEMENT) :=
  m.VertexBufferArray[vb]?.map (·.Decl)

/-- Accessor `GetVertexStride(vb)`. -/
def GetVertexStride (m : DXSDKMesh) (vb : Nat) : Option Nat :=
  m.VertexBufferArray[vb]?.map (·.StrideBytes)

/-- Accessor `GetMesh(meshIdx)`. -/
def GetMesh (m : DXSDKMesh) (meshIdx : Nat) : Option DXSDKMESH_MESH := m.MeshArray[meshIdx]?

/-- Accessor `GetMaterial(mat)`. -/
def GetMaterial (m : DXSDKMesh) (mat : Nat) : Option DXSDKMESH_MATERIAL := m.MaterialArray[mat]?

/-- Accessor `GetSubset(meshIdx, subsetIdx)`. -/
def GetSubset (m : DXSDKMesh) (meshIdx subsetIdx : Nat) : Option DXSDKMESH_SUBSET :=
  (m.MeshArray[meshIdx]?).bind (·.Subsets[subsetIdx]?)

/-- Accessor `GetMeshVertexBuffer(meshIdx, 0)`: the handle of the buffer of stream 0, which
is its index in the vertex buffer array. -/
def GetMeshVertexBuffer0 (m : DXSDKMesh) (meshIdx : Nat) : Option Handle :=
  (m.MeshArray[meshIdx]?).map (fun sm => sm.VertexBuffers 0)

/-- Accessor `GetMeshIndexBuffer(meshIdx)`: the handle of the submesh's index buffer. -/
def GetMeshIndexBuffer (m : DXSDKMesh) (meshIdx : Nat) : Option Handle :=
  (m.MeshArray[meshIdx]?).map (·.IndexBuffer)

/-- Accessor `GetIBFormat(meshIdx)`. -/
def GetIBFormat (m : DXSDKMesh) (meshIdx : Nat) : Option VALUE_TYPE :=
  (m.MeshArray[meshIdx]?).map (·.IBFormat)

end DXSDKMesh

/-! ## Math and shader constant blocks -/

/-- A 4x4 matrix of the engine's math library. -/
abbrev float4x4 := Matrix (Fin 4) (Fin 4) ℚ

/-- Method `Transpose` of a matrix. -/
def float4x4.Transpose (m : float4x4) : float4x4 := Matrix.transpose m

/-- Method `Inverse` of a matrix: the adjugate over the determinant. -/
def float4x4.Inverse (m : float4x4) : float4x4 := (Matrix.det m)⁻¹ • Matrix.adjugate m

/-- A four-component vector. -/
structure float4 where
  x : ℚ := 0
  y : ℚ := 0
  z : ℚ := 0
  w : ℚ := 0
  deriving DecidableEq

/-- The fields of the shader structure `CameraAttribs` that the sample writes. A field that a
write through a discard mapping leaves untouched holds no defined value: `none`. -/
structure CameraAttribs where
  f4Position : Option float4
  f4ViewportSize : Option float4
  mViewT : Option float4x4
  mProjT : Option float4x4
  mViewProjT : Option float4x4
  mViewProjInvT : Option float4x4
  deriving DecidableEq

/-- The fields of the shader structure `ShadowMapAttribs` that the sample reads or writes. -/
structure ShadowMapAttribs where
  mWorldToLightViewT : float4x4 := 0
  iNumCascades : Int := 0
  fNumCascades : ℚ := 0
  iFixedFilterSize : Int := 0
  iMaxAnisotropy : Int := 0
  fFixedDepthBias : ℚ := 0
  fCascadePartitioningFactor : ℚ := 0
  deriving DecidableEq

/-- The shader structure `LightAttribs`. -/
structure LightAttribs where
  f4Direction : float4 := {}
  f4AmbientLight : float4 := {}
  f4Intensity : float4 := {}
  ShadowAttribs : ShadowMapAttribs := {}
  deriving DecidableEq

/-! ## Resource bindings and the command stream -/

/-- A shader resource binding: the pipeline it was created from, whether static resources
were initialised, and the variables set on it, in the order they were set. -/
structure ShaderResourceBinding where
  pPSO : PipelineState
  InitStaticResources : Bool
  Vars : List (SHADER_TYPE × String × Option Handle) := []
  deriving DecidableEq

/-- Method `CreateShaderResourceBinding(&pSRB, InitStaticResources)` of a pipeline state. -/
def PipelineState.CreateShaderResourceBinding (p : PipelineState) (InitStaticResources : Bool) :
    ShaderResourceBinding :=
  { pPSO := p, InitStaticResources := InitStaticResources }

/-- Method `GetVariableByName(Stage, Name)->Set(Obj)` of a resource binding. -/
def ShaderResourceBinding.SetVariable (b : ShaderResourceBinding) (Stage : SHADER_TYPE)
    (Name : String) (Obj : Option Handle) : ShaderResourceBinding :=
  { b with Vars := b.Vars ++ [(Stage, Name, Obj)] }

/-- Resource state transition modes (`RESOURCE_STATE_TRANSITION_MODE_*`). -/
inductive RESOURCE_STATE_TRANSITION_MODE
  | NONE | TRANSITION | VERIFY
  deriving DecidableEq, Repr

/-- Flags of `ClearDepthStencil` (`CLEAR_*_FLAG`). -/
inductive CLEAR_DEPTH_STENCIL_FLAGS
  | CLEAR_DEPTH_FLAG_NONE | CLEAR_DEPTH_FLAG | CLEAR_STENCIL_FLAG
  deriving DecidableEq, Repr

/-- Flags of `SetVertexBuffers` (`SET_VERTEX_BUFFERS_FLAG_*`). -/
inductive SET_VERTEX_BUFFERS_FLAGS
  | SET_VERTEX_BUFFERS_FLAG_NONE | SET_VERTEX_BUFFERS_FLAG_RESET
  deriving DecidableEq, Repr

/-- Draw flags (`DRAW_FLAG_*`). -/
inductive DRAW_FLAGS
  | DRAW_FLAG_NONE | DRAW_FLAG_VERIFY_ALL
  deriving DecidableEq, Repr

/-- The engine's `DrawAttribs` as the sample fills it: an indexed draw. The counts are
32 bits wide. -/
structure DrawAttribs where
  NumIndices : Nat
  IndexType : VALUE_TYPE
  Flags : DRAW_FLAGS
  FirstIndexLocation : Nat := 0
  deriving DecidableEq, Repr

/-- One call on the immediate device context (or on the shadow map manager with that
context), with its arguments. -/
inductive Command
  | MapCameraAttribs (Buffer : Handle) (Data : CameraAttribs)
  | MapLightAttribs (Buffer : Handle) (Data : LightAttribs)
  | SetRenderTargets (NumRenderTargets : Nat) (ppRenderTargets : Option (List Handle))
      (pDepthStencil : Option Handle) (Mode : RESOURCE_STATE_TRANSITION_MODE)
  | ClearRenderTarget (pView : Option Handle) (RGBA : List ℚ)
      (Mode : RESOURCE_STATE_TRANSITION_MODE)
  | ClearDepthStencil (pView : Option Handle) (ClearFlags : CLEAR_DEPTH_STENCIL_FLAGS)
      (fDepth : ℚ) (Stencil : Nat) (Mode : RESOURCE_STATE_TRANSITION_MODE)
  | SetVertexBuffers (StartSlot NumBuffersSet : Nat) (ppBuffers : List Handle)
      (pOffsets : List Nat) (Mode : RESOURCE_STATE_TRANSITION_MODE)
      (Flags : SET_VERTEX_BUFFERS_FLAGS)
  | SetIndexBuffer (pIndexBuffer : Handle) (ByteOffset : Nat)
      (Mode : RESOURCE_STATE_TRANSITION_MODE)
  | SetPipelineState (pPipelineState : PipelineState)
  | CommitShaderResources (pShaderResourceBinding : Option ShaderResourceBinding)
      (Mode : RESOURCE_STATE_TRANSITION_MODE)
  | Draw (Attribs : DrawAttribs)
  | TransitionShaderResources (pPipelineState : PipelineState)
      (pShaderResourceBinding : Option ShaderResourceBinding)
  | ConvertToFilterable (ShadowAttribs : ShadowMapAttribs)
  deriving DecidableEq

/-- The immediate context: the commands recorded so far, oldest first. -/
abbrev DeviceContext := List Command

/-! ## The sample's state -/

/-- Shadow mode code of percentage-closer filtering, the shader header's `SHADOW_MODE_PCF`;
larger codes are the filterable modes. -/
def SHADOW_MODE_PCF : Int := 1

/-- Member `m_ShadowSetting`. -/
structure ShadowSettings where
  SnapCascades : Bool := true
  StabilizeExtents : Bool := true
  EqualizeExtents : Bool := true
  SearchBestCascade : Bool := true
  FilterAcrossCascades : Bool := true
  Resolution : Nat := 2048
  iShadowMode : Int := SHADOW_MODE_PCF
  Is32BitFilterableFmt : Bool := true
  Format : TEXTURE_FORMAT := TEX_FORMAT_UNKNOWN

/-- Filter types named by the sample and the engine default (`FILTER_TYPE_*`). -/
inductive FILTER_TYPE
  | FILTER_TYPE_LINEAR | FILTER_TYPE_ANISOTROPIC | FILTER_TYPE_COMPARISON_LINEAR
  deriving DecidableEq, Repr

/-- The fields of the engine's `SamplerDesc` that the sample writes, with the engine
defaults. -/
structure SamplerDesc where
  MinFilter : FILTER_TYPE := FILTER_TYPE.FILTER_TYPE_LINEAR
  MagFilter : FILTER_TYPE := FILTER_TYPE.FILTER_TYPE_LINEAR
  MipFilter : FILTER_TYPE := FILTER_TYPE.FILTER_TYPE_LINEAR
  ComparisonFunc : Option COMPARISON_FUNCTION := none
  MaxAnisotropy : Int := 0
  deriving DecidableEq, Repr

/-- The engine's shadow map manager as the sample sees it: the shadow map read view, and per
cascade the projection transform and the depth-stencil view. -/
structure ShadowMapManager where
  SRV : Handle
  CascadeProj : Nat → float4x4
  CascadeDSV : Nat → Handle

/-- Accessor `GetSRV`. -/
def ShadowMapManager.GetSRV (m : ShadowMapManager) : Handle := m.SRV

/-- Accessor `GetCascadeTranform(iCascade).Proj`. -/
def ShadowMapManager.GetCascadeTranformProj (m : ShadowMapManager) (iCascade : Nat) : float4x4 :=
  m.CascadeProj iCascade

/-- Accessor `GetCascadeDSV(iCascade)`. -/
def ShadowMapManager.GetCascadeDSV (m : ShadowMapManager) (iCascade : Nat) : Handle :=
  m.CascadeDSV iCascade

/-- The creation attributes `ShadowMapManager::InitInfo`, as the sample fills them. Samplers
are the descriptions they were created from. -/
structure ShadowMapManager.InitInfo where
  Fmt : TEXTURE_FORMAT
  Resolution : Nat
  NumCascades : Nat
  ShadowMode : Int
  Is32BitFilterableFmt : Bool
  pComparisonSampler : Option SamplerDesc
  pFilterableShadowMapSampler : Option SamplerDesc

/-- A three-component vector. -/
structure float3 where
  x : ℚ := 0
  y : ℚ := 0
  z : ℚ := 0
  deriving DecidableEq

/-- The mouse state of the engine's input controller. -/
structure MouseState where
  PosX : ℚ := -1
  PosY : ℚ := -1
  ButtonFlags : Nat := 0
  WheelDelta : ℚ := 0
  deriving DecidableEq

/-- The flag `MouseState::BUTTON_FLAG_RIGHT` of the engine. -/
def MouseState.BUTTON_FLAG_RIGHT : Nat := 4

/-- The engine's input controller as the sample reads it. -/
structure InputController where
  m_MouseState : MouseState := {}
  deriving DecidableEq

/-- Accessor `GetMouseState`. -/
def InputController.GetMouseState (c : InputController) : MouseState := c.m_MouseState

/-- The engine's first-person camera as the sample reads it. -/
structure FirstPersonCamera where
  ViewMatrix : float4x4
  WorldMatrix : float4x4
  ProjMatrix : float4x4

/-- The swap chain description fields the sample reads. -/
structure SwapChainDesc where
  ColorBufferFormat : TEXTURE_FORMAT
  DepthBufferFormat : TEXTURE_FORMAT
  Width : Nat := 0
  Height : Nat := 0

/-- The members of `ShadowsSample` that the embedded methods read or write. -/
structure ShadowsSample where
  m_Mesh : DXSDKMesh
  m_SwapChainDesc : SwapChainDesc
  m_CameraAttribsCB : Handle
  m_LightAttribsCB : Handle
  m_PSOIndex : List Nat
  m_RenderMeshPSO : List PipelineState
  m_RenderMeshShadowPSO : List PipelineState
  m_SRBs : List (Option ShaderResourceBinding)
  m_ShadowSRBs : List (Option ShaderResourceBinding)
  m_ShadowSetting : ShadowSettings
  m_LightAttribs : LightAttribs
  m_ShadowMapMgr : ShadowMapManager
  m_Camera : FirstPersonCamera
  m_pComparisonSampler : Option SamplerDesc := none
  m_pFilterableShadowMapSampler : Option SamplerDesc := none
  m_InputController : InputController := {}
  m_LastMouseState : MouseState := {}

/-- The engine calls of `CreateShadowMap`, `Update` and `WindowResize` whose effect the
sample does not compute itself. Each is a function of exactly the objects the call receives;
what it returns is not constrained. -/
structure Engine where
  /-- Method `ShadowMapManager::Initialize`. -/
  ShadowMapManagerInitialize : ShadowMapManager → ShadowMapManager.InitInfo → ShadowMapManager
  /-- Method `ShadowMapManager::DistributeCascades`, which updates the manager and the shadow
  attributes from the camera view, projection and position, the light direction and the
  three flags. -/
  DistributeCascades : ShadowMapManager → float4x4 → float4x4 → float3 → float3 →
    Bool → Bool → Bool → ShadowMapAttribs → ShadowMapManager × ShadowMapAttribs
  /-- Method `SampleBase::Update`, as far as it touches what the sample reads: the input
  controller. -/
  SampleBaseUpdate : InputController → ℚ → ℚ → InputController
  /-- Method `FirstPersonCamera::Update`. -/
  CameraUpdate : FirstPersonCamera → InputController → ℚ → FirstPersonCamera × InputController
  /-- Method `FirstPersonCamera::SetProjAttribs`. -/
  CameraSetProjAttribs : FirstPersonCamera → ℚ → ℚ → ℚ → ℚ → Bool → FirstPersonCamera
  /-- Accessor `FirstPersonCamera::GetWorldUp`. -/
  CameraGetWorldUp : FirstPersonCamera → float3
  /-- Accessor `FirstPersonCamera::GetWorldRight`. -/
  CameraGetWorldRight : FirstPersonCamera → float3
  /-- Accessor `FirstPersonCamera::GetPos`. -/
  CameraGetPos : FirstPersonCamera → float3
  /-- Function `float4x4::RotationArbitrary`. -/
  RotationArbitrary : float3 → ℚ → float4x4
  /-- Query `GetDeviceCaps().IsGLDevice()`. -/
  IsGLDevice : Bool

/-! ## Containers -/

/-- Method `clear()` of a vector. -/
def vectorClear {α : Type} (_v : List α) : List α := []

/-- Method `resize(n)` of a vector: keeps the first `n` elements and pads with `pad`. -/
def vectorResize {α : Type} (pad : α) (v : List α) (n : Nat) : List α :=
  v.take n ++ List.replicate (n - v.length) pad

/-- The assignment `v[i] = a`; it is defined only for `i` in range. -/
def vectorAssign {α : Type} (v : List α) (i : Nat) (a : α) : Option (List α) :=
  if i < v.length then some (v.set i a) else none

/-- A counted loop `for (i = 0; i < n; ++i) body`, whose body may fail. -/
def forLoop {σ : Type} (n : Nat) (body : σ → Nat → Option σ) (init : σ) : Option σ :=
  (List.range n).foldlM body init

/-! ## Vertex declaration to input layout -/

/-- The first `switch` of the conversion loop: the input index of a usage, `-1` when the
usage is none of the three handled. -/
def InputIndexOfUsage : DXSDKMESH_VERTEX_SEMANTIC → Int
  | DXSDKMESH_VERTEX_SEMANTIC.POSITION => 0
  | DXSDKMESH_VERTEX_SEMANTIC.NORMAL => 1
  | DXSDKMESH_VERTEX_SEMANTIC.TEXCOORD => 2
  | _ => -1

/-- The second `switch` of the conversion loop: component count, value type and normalisation
of a data type. The `default` branch only reports in debug builds and leaves the initial
values. -/
def ComponentsOfType : DXSDKMESH_VERTEX_DATA_TYPE → Nat × VALUE_TYPE × Bool
  | DXSDKMESH_VERTEX_DATA_TYPE.FLOAT2 => (2, VALUE_TYPE.VT_FLOAT32, false)
  | DXSDKMESH_VERTEX_DATA_TYPE.FLOAT3 => (3, VALUE_TYPE.VT_FLOAT32, false)
  | _ => (0, VALUE_TYPE.VT_UNDEFINED, false)

/-- The loop of `DXSDKMESH_VERTEX_ELEMENTtoInputLayoutDesc` over the declaration array, from
the current element on. Running off the array before an element with `Stream = 0xFF` is a
read out of bounds. -/
def DXSDKMESH_VERTEX_ELEMENTtoInputLayoutDesc.loop (Stride : Nat) :
    List DXSDKMESH_VERTEX_ELEMENT → List LayoutElement → Option (List LayoutElement)
  | [], _ => none
  | SrcElem :: rest, Elements =>
    if SrcElem.Stream = 0xFF then some Elements
    else
      let InputIndex := InputIndexOfUsage SrcElem.Usage
      if InputIndex ≥ 0 then
        let c := ComponentsOfType SrcElem.Type_
        DXSDKMESH_VERTEX_ELEMENTtoInputLayoutDesc.loop Stride rest
          (Elements ++ [{ InputIndex := InputIndex.toNat, BufferSlot := SrcElem.Stream,
                          NumComponents := c.1, ValueType := c.2.1, IsNormalized := c.2.2,
                          RelativeOffset := SrcElem.Offset, Stride := Stride }])
      else
        DXSDKMESH_VERTEX_ELEMENTtoInputLayoutDesc.loop Stride rest Elements

/-- Method `ShadowsSample::DXSDKMESH_VERTEX_ELEMENTtoInputLayoutDesc`. `Layout` and
`Elements` are the two output parameters; the result is their final value. -/
def DXSDKMESH_VERTEX_ELEMENTtoInputLayoutDesc (VertexElement : List DXSDKMESH_VERTEX_ELEMENT)
    (Stride : Nat) (Layout : InputLayoutDesc) (Elements : List LayoutElement) :
    Option (InputLayoutDesc × List LayoutElement) :=
  let Elements := vectorClear Elements
  match DXSDKMESH_VERTEX_ELEMENTtoInputLayoutDesc.loop Stride VertexElement Elements with
  | none => none
  | some Elements =>
    some ({ Layout with LayoutElements := Elements, NumElements := Elements.length }, Elements)

/-! ## Pipeline creation -/

/-- The comparison `memcmp(a, b, n * sizeof(LayoutElement)) == 0` of two element arrays over
their first `n` elements, field by field. -/
def memcmpLayoutElements (a b : List LayoutElement) (n : Nat) : Bool :=
  a.take n == b.take n

/-- The test `IsSameLayout` of `CreatePipelineStates`. -/
def IsSameLayout (PSOLayout InputLayout : InputLayoutDesc) : Bool :=
  PSOLayout.NumElements == InputLayout.NumElements &&
    memcmpLayoutElements PSOLayout.LayoutElements InputLayout.LayoutElements
      InputLayout.NumElements

namespace ShadowsSample

/-- The shader macros of the main shaders. -/
def Macros (self : ShadowsSample) : List (String × Int) :=
  [("SHADOW_MODE", self.m_ShadowSetting.iShadowMode),
   ("SHADOW_FILTER_SIZE", self.m_LightAttribs.ShadowAttribs.iFixedFilterSize),
   ("FILTER_ACROSS_CASCADES", if self.m_ShadowSetting.FilterAcrossCascades then 1 else 0),
   ("BEST_CASCADE_SEARCH", if self.m_ShadowSetting.SearchBestCascade then 1 else 0)]

/-- The vertex shader `pVS`. -/
def pVS (self : ShadowsSample) : Shader :=
  { ShaderType := SHADER_TYPE.SHADER_TYPE_VERTEX, Name := "Mesh VS", EntryPoint := "MeshVS",
    FilePath := "MeshVS.vsh", Macros := self.Macros }

/-- The pixel shader `pPS`. -/
def pPS (self : ShadowsSample) : Shader :=
  { ShaderType := SHADER_TYPE.SHADER_TYPE_PIXEL, Name := "Mesh PS", EntryPoint := "MeshPS",
    FilePath := "MeshPS.psh", Macros := self.Macros }

/-- The shadow-pass vertex shader `pShadowVS`. -/
def pShadowVS (self : ShadowsSample) : Shader :=
  { ShaderType := SHADER_TYPE.SHADER_TYPE_VERTEX, Name := "Mesh VS", EntryPoint := "MeshVS",
    FilePath := "MeshVS.vsh", Macros := self.Macros ++ [("SHADOW_PASS", 1)] }

/-- The name of the shadow map variable that `CreatePipelineStates` declares. -/
def ShadowMapVariableName (self : ShadowsSample) : String :=
  if self.m_ShadowSetting.iShadowMode = SHADOW_MODE_PCF then "g_tex2DShadowMap"
  else "g_tex2DFilterableShadowMap"

/-- The scan "try to find PSO with the same layout": the index of the first pipeline from
position `pso` on whose layout is the same, or the size of the vector. -/
def FindPSO (InputLayout : InputLayoutDesc) : List PipelineState → Nat → Nat
  | [], pso => pso
  | p :: rest, pso =>
    if IsSameLayout p.GetDesc.GraphicsPipeline.InputLayout InputLayout then pso
    else FindPSO InputLayout rest (pso + 1)

/-- The main pipeline created for a new input layout (`pRenderMeshPSO`). -/
def NewRenderMeshPSO (self : ShadowsSample) (InputLayout : InputLayoutDesc) : PipelineState :=
  let PSODesc : PipelineStateDesc := {}
  let PSODesc : PipelineStateDesc :=
    { PSODesc with
      GraphicsPipeline := { PSODesc.GraphicsPipeline with InputLayout := InputLayout } }
  let StaticSamplers : List StaticSamplerDesc :=
    [{ ShaderStages := SHADER_TYPE.SHADER_TYPE_PIXEL, SamplerOrTextureName := "g_tex2DDiffuse",
       Desc := "Sam_Aniso4xWrap" }]
  let Vars : List ShaderResourceVariableDesc :=
    [{ ShaderStages := SHADER_TYPE.SHADER_TYPE_PIXEL, Name := "g_tex2DDiffuse",
       Type_ := SHADER_RESOURCE_VARIABLE_TYPE.MUTABLE },
     { ShaderStages := SHADER_TYPE.SHADER_TYPE_PIXEL, Name := self.ShadowMapVariableName,
       Type_ := SHADER_RESOURCE_VARIABLE_TYPE.MUTABLE }]
  let PSODesc : PipelineStateDesc :=
    { PSODesc with
      Name := "Mesh PSO"
      ResourceLayout :=
        { PSODesc.ResourceLayout with
          StaticSamplers := StaticSamplers, NumStaticSamplers := StaticSamplers.length,
          Variables := Vars, NumVariables := Vars.length }
      GraphicsPipeline :=
        { PSODesc.GraphicsPipeline with
          pVS := some self.pVS, pPS := some self.pPS,
          RTVFormats0 := self.m_SwapChainDesc.ColorBufferFormat,
          NumRenderTargets := 1,
          DSVFormat := self.m_SwapChainDesc.DepthBufferFormat,
          PrimitiveTopology := PRIMITIVE_TOPOLOGY.PRIMITIVE_TOPOLOGY_TRIANGLE_LIST,
          DepthFunc := COMPARISON_FUNCTION.COMPARISON_FUNC_LESS_EQUAL } }
  let pRenderMeshPSO : PipelineState := { Desc := PSODesc }
  let pRenderMeshPSO := pRenderMeshPSO.SetStaticVariable SHADER_TYPE.SHADER_TYPE_VERTEX
    "cbCameraAttribs" self.m_CameraAttribsCB
  let pRenderMeshPSO := pRenderMeshPSO.SetStaticVariable SHADER_TYPE.SHADER_TYPE_PIXEL
    "cbLightAttribs" self.m_LightAttribsCB
  pRenderMeshPSO.SetStaticVariable SHADER_TYPE.SHADER_TYPE_VERTEX
    "cbLightAttribs" self.m_LightAttribsCB

/-- The shadow pipeline created for a new input layout (`pRenderMeshShadowPSO`): the
description of the main pipeline, modified. -/
def NewRenderMeshShadowPSO (self : ShadowsSample) (InputLayout : InputLayoutDesc) :
    PipelineState :=
  let PSODesc := (self.NewRenderMeshPSO InputLayout).Desc
  let PSODesc : PipelineStateDesc :=
    { PSODesc with
      Name := "Mesh Shadow PSO"
      GraphicsPipeline :=
        { PSODesc.GraphicsPipeline with
          pPS := none, pVS := some self.pShadowVS,
          NumRenderTargets := 0,
          RTVFormats0 := TEX_FORMAT_UNKNOWN,
          DSVFormat := self.m_ShadowSetting.Format,
          DepthClipEnable := false }
      ResourceLayout :=
        { PSODesc.ResourceLayout with
          StaticSamplers := [], NumStaticSamplers := 0, Variables := [], NumVariables := 0 } }
  let pRenderMeshShadowPSO : PipelineState := { Desc := PSODesc }
  pRenderMeshShadowPSO.SetStaticVariable SHADER_TYPE.SHADER_TYPE_VERTEX
    "cbCameraAttribs" self.m_CameraAttribsCB

/-- The body of the loop of `CreatePipelineStates` once the layout of the vertex buffer is
converted: the scan, the assignment to `m_PSOIndex[vb]`, and on a miss the creation of the
pipeline pair. -/
def CreatePipelineStates.resolve (self : ShadowsSample) (vb : Nat)
    (InputLayout : InputLayoutDesc) : Option ShadowsSample :=
  let pso := FindPSO InputLayout self.m_RenderMeshPSO 0
  match vectorAssign self.m_PSOIndex vb pso with
  | none => none
  | some PSOIndex =>
    let self := { self with m_PSOIndex := PSOIndex }
    if pso < self.m_RenderMeshPSO.length then
      some self
    else
      some { self with
        m_RenderMeshPSO := self.m_RenderMeshPSO ++ [self.NewRenderMeshPSO InputLayout]
        m_RenderMeshShadowPSO :=
          self.m_RenderMeshShadowPSO ++ [self.NewRenderMeshShadowPSO InputLayout] }

/-- The converted input layout of vertex buffer `vb`, as the loop of `CreatePipelineStates`
computes it. -/
def VBInputLayout (self : ShadowsSample) (vb : Nat) : Option InputLayoutDesc :=
  match self.m_Mesh.VBElements vb, self.m_Mesh.GetVertexStride vb with
  | some VertexElement, some Stride =>
    let PSODesc : PipelineStateDesc := {}
    (DXSDKMESH_VERTEX_ELEMENTtoInputLayoutDesc VertexElement Stride
      PSODesc.GraphicsPipeline.InputLayout []).map (·.1)
  | _, _ => none

/-- The body of the loop of `CreatePipelineStates` for vertex buffer `vb`. -/
def CreatePipelineStates.iteration (self : ShadowsSample) (vb : Nat) : Option ShadowsSample :=
  match self.VBInputLayout vb with
  | none => none
  | some InputLayout => CreatePipelineStates.resolve self vb InputLayout

/-- The state of `CreatePipelineStates` before its loop: `m_PSOIndex` resized, both pipeline
vectors cleared. -/
def CreatePipelineStates.begin (self : ShadowsSample) : ShadowsSample :=
  { self with
    m_PSOIndex := vectorResize 0 self.m_PSOIndex self.m_Mesh.GetNumVBs
    m_RenderMeshPSO := vectorClear self.m_RenderMeshPSO
    m_RenderMeshShadowPSO := vectorClear self.m_RenderMeshShadowPSO }

/-- The state of `CreatePipelineStates` after the first `k` iterations of its loop. -/
def CreatePipelineStates.upTo (self : ShadowsSample) (k : Nat) : Option ShadowsSample :=
  forLoop k CreatePipelineStates.iteration (CreatePipelineStates.begin self)

/-- Method `ShadowsSample::CreatePipelineStates`. -/
def CreatePipelineStates (self : ShadowsSample) : Option ShadowsSample :=
  CreatePipelineStates.upTo self self.m_Mesh.GetNumVBs

/-! ## Resource bindings -/

/-- The main resource binding that `InitializeResourceBindings` builds for a material. -/
def NewSRB (self : ShadowsSample) (pso0 : PipelineState) (Mat : DXSDKMESH_MATERIAL) :
    ShaderResourceBinding :=
  let pSRB := pso0.CreateShaderResourceBinding true
  let pSRB := pSRB.SetVariable SHADER_TYPE.SHADER_TYPE_PIXEL "g_tex2DDiffuse" Mat.pDiffuseRV
  if self.m_ShadowSetting.iShadowMode = SHADOW_MODE_PCF then
    pSRB.SetVariable SHADER_TYPE.SHADER_TYPE_PIXEL "g_tex2DShadowMap"
      (some self.m_ShadowMapMgr.GetSRV)
  else
    pSRB.SetVariable SHADER_TYPE.SHADER_TYPE_PIXEL "g_tex2DFilterableShadowMap"
      (some self.m_ShadowMapMgr.GetSRV)

/-- The body of the loop of `InitializeResourceBindings` for material `mat`. -/
def InitializeResourceBindings.iteration (self : ShadowsSample) (mat : Nat) :
    Option ShadowsSample :=
  match self.m_Mesh.GetMaterial mat with
  | none => none
  | some Mat =>
    match self.m_RenderMeshPSO[0]? with
    | none => none
    | some pso0 =>
      match vectorAssign self.m_SRBs mat (some (self.NewSRB pso0 Mat)) with
      | none => none
      | some SRBs =>
        let self := { self with m_SRBs := SRBs }
        match self.m_RenderMeshShadowPSO[0]? with
        | none => none
        | some shadowPso0 =>
          let pShadowSRB := shadowPso0.CreateShaderResourceBinding true
          match vectorAssign self.m_ShadowSRBs mat (some pShadowSRB) with
          | none => none
          | some ShadowSRBs => some { self with m_ShadowSRBs := ShadowSRBs }

/-- Method `ShadowsSample::InitializeResourceBindings`. -/
def InitializeResourceBindings (self : ShadowsSample) : Option ShadowsSample :=
  let self := { self with m_SRBs := vectorClear self.m_SRBs,
                          m_ShadowSRBs := vectorClear self.m_ShadowSRBs }
  let self := { self with m_SRBs := vectorResize none self.m_SRBs self.m_Mesh.GetNumMaterials }
  let self :=
    { self with m_ShadowSRBs := vectorResize none self.m_ShadowSRBs self.m_Mesh.GetNumMaterials }
  forLoop self.m_Mesh.GetNumMaterials InitializeResourceBindings.iteration self

/-! ## Drawing -/

/-- The conversion `static_cast<Uint32>` of an unsigned integer. -/
def toUint32 (n : Nat) : Nat := n % 2 ^ 32

/-- The body of the subset loop of `DrawMesh`. -/
def DrawMesh.subset (self : ShadowsSample) (bIsShadowPass : Bool) (meshIdx : Nat)
    (IBFormat : VALUE_TYPE) (pCtx : DeviceContext) (subsetIdx : Nat) : Option DeviceContext :=
  match self.m_Mesh.GetSubset meshIdx subsetIdx with
  | none => none
  | some Subset =>
    match (if bIsShadowPass then self.m_ShadowSRBs else self.m_SRBs)[Subset.MaterialID]? with
    | none => none
    | some pSRB =>
      let pCtx := pCtx ++
        [Command.CommitShaderResources pSRB RESOURCE_STATE_TRANSITION_MODE.VERIFY]
      let drawAttrs : DrawAttribs :=
        { NumIndices := toUint32 Subset.IndexCount, IndexType := IBFormat,
          Flags := DRAW_FLAGS.DRAW_FLAG_VERIFY_ALL }
      let drawAttrs := { drawAttrs with FirstIndexLocation := toUint32 Subset.IndexStart }
      some (pCtx ++ [Command.Draw drawAttrs])

/-- The body of the submesh loop of `DrawMesh`. -/
def DrawMesh.mesh (self : ShadowsSample) (bIsShadowPass : Bool) (pCtx : DeviceContext)
    (meshIdx : Nat) : Option DeviceContext :=
  match self.m_Mesh.GetMesh meshIdx, self.m_Mesh.GetMeshVertexBuffer0 meshIdx,
      self.m_Mesh.GetMeshIndexBuffer meshIdx, self.m_Mesh.GetIBFormat meshIdx with
  | some SubMesh, some pVB, some pIB, some IBFormat =>
    let pCtx := pCtx ++
      [Command.SetVertexBuffers 0 1 [pVB] [0] RESOURCE_STATE_TRANSITION_MODE.VERIFY
          SET_VERTEX_BUFFERS_FLAGS.SET_VERTEX_BUFFERS_FLAG_RESET]
    let pCtx := pCtx ++ [Command.SetIndexBuffer pIB 0 RESOURCE_STATE_TRANSITION_MODE.VERIFY]
    match self.m_PSOIndex[SubMesh.VertexBuffers 0]? with
    | none => none
    | some PSOIndex =>
      match (if bIsShadowPass then self.m_RenderMeshShadowPSO
             else self.m_RenderMeshPSO)[PSOIndex]? with
      | none => none
      | some pPSO =>
        let pCtx := pCtx ++ [Command.SetPipelineState pPSO]
        forLoop SubMesh.NumSubsets (DrawMesh.subset self bIsShadowPass meshIdx IBFormat) pCtx
  | _, _, _, _ => none

/-- Method `ShadowsSample::DrawMesh`. -/
def DrawMesh (self : ShadowsSample) (pCtx : DeviceContext) (bIsShadowPass : Bool) :
    Option DeviceContext :=
  forLoop self.m_Mesh.GetNumMeshes (DrawMesh.mesh self bIsShadowPass) pCtx

/-! ## The frame -/

/-- The camera block `ShadowCameraAttribs` that `RenderShadowMap` builds for a cascade. -/
def ShadowCameraAttribs (self : ShadowsSample) (iCascade : Nat) : CameraAttribs :=
  let CascadeProjMatr := self.m_ShadowMapMgr.GetCascadeTranformProj iCascade
  let WorldToLightViewSpaceMatr := self.m_LightAttribs.ShadowAttribs.mWorldToLightViewT.Transpose
  let WorldToLightProjSpaceMatr : float4x4 := WorldToLightViewSpaceMatr * CascadeProjMatr
  let x : ℚ := (self.m_ShadowSetting.Resolution : ℚ)
  let y : ℚ := (self.m_ShadowSetting.Resolution : ℚ)
  { f4Position := some {}
    f4ViewportSize := some { x := x, y := y, z := 1 / x, w := 1 / y }
    mViewT := some self.m_LightAttribs.ShadowAttribs.mWorldToLightViewT
    mProjT := some CascadeProjMatr.Transpose
    mViewProjT := some WorldToLightProjSpaceMatr.Transpose
    mViewProjInvT := some 0 }

/-- The body of the cascade loop of `RenderShadowMap`. -/
def RenderShadowMap.iteration (self : ShadowsSample) (pCtx : DeviceContext) (iCascade : Nat) :
    Option DeviceContext :=
  let pCtx := pCtx ++
    [Command.MapCameraAttribs self.m_CameraAttribsCB (self.ShadowCameraAttribs iCascade)]
  let pCascadeDSV := self.m_ShadowMapMgr.GetCascadeDSV iCascade
  let pCtx := pCtx ++
    [Command.SetRenderTargets 0 none (some pCascadeDSV) RESOURCE_STATE_TRANSITION_MODE.TRANSITION]
  let pCtx := pCtx ++
    [Command.ClearDepthStencil (some pCascadeDSV)
       CLEAR_DEPTH_STENCIL_FLAGS.CLEAR_DEPTH_FLAG 1 0 RESOURCE_STATE_TRANSITION_MODE.TRANSITION]
  self.DrawMesh pCtx true

/-- Method `ShadowsSample::RenderShadowMap`. The cascade counter is a signed `int`, so a
negative count runs no iteration. -/
def RenderShadowMap (self : ShadowsSample) (pCtx : DeviceContext) : Option DeviceContext :=
  let iNumShadowCascades := self.m_LightAttribs.ShadowAttribs.iNumCascades
  match forLoop iNumShadowCascades.toNat (RenderShadowMap.iteration self) pCtx with
  | none => none
  | some pCtx =>
    if self.m_ShadowSetting.iShadowMode > SHADOW_MODE_PCF then
      some (pCtx ++ [Command.ConvertToFilterable self.m_LightAttribs.ShadowAttribs])
    else
      some pCtx

/-- The camera block that `Render` writes for the main pass. Only four fields are written
through the discard mapping. -/
def MainCameraAttribs (self : ShadowsSample) : CameraAttribs :=
  let CameraView := self.m_Camera.ViewMatrix
  let CameraWorld := self.m_Camera.WorldMatrix
  let Proj := self.m_Camera.ProjMatrix
  let CameraViewProj : float4x4 := CameraView * Proj
  { f4Position := some { x := CameraWorld 3 0, y := CameraWorld 3 1, z := CameraWorld 3 2, w := 1 }
    f4ViewportSize := none
    mViewT := none
    mProjT := some Proj.Transpose
    mViewProjT := some CameraViewProj.Transpose
    mViewProjInvT := some CameraViewProj.Inverse.Transpose }

/-- Method `ShadowsSample::Render`. -/
def Render (self : ShadowsSample) (pCtx : DeviceContext) : Option DeviceContext :=
  match self.RenderShadowMap pCtx with
  | none => none
  | some pCtx =>
    let pCtx := pCtx ++
      [Command.SetRenderTargets 0 none none RESOURCE_STATE_TRANSITION_MODE.TRANSITION]
    let ClearColor : List ℚ := [32 / 1000, 32 / 1000, 32 / 1000, 1]
    let pCtx := pCtx ++
      [Command.ClearRenderTarget none ClearColor RESOURCE_STATE_TRANSITION_MODE.TRANSITION]
    let pCtx := pCtx ++
      [Command.ClearDepthStencil none CLEAR_DEPTH_STENCIL_FLAGS.CLEAR_DEPTH_FLAG 1 0
         RESOURCE_STATE_TRANSITION_MODE.TRANSITION]
    let pCtx := pCtx ++ [Command.MapLightAttribs self.m_LightAttribsCB self.m_LightAttribs]
    let pCtx := pCtx ++ [Command.MapCameraAttribs self.m_CameraAttribsCB self.MainCameraAttribs]
    match self.m_RenderMeshPSO[0]?, self.m_SRBs[0]? with
    | some pso0, some srb0 =>
      let pCtx := pCtx ++ [Command.TransitionShaderResources pso0 srb0]
      self.DrawMesh pCtx false
    | _, _ => none

/-! ## Shadow map creation, update and resize -/

/-- The conversion `static_cast<Uint32>` of a signed integer. -/
def intToUint32 (i : Int) : Nat := (i % 2 ^ 32).toNat

/-- The comparison sampler that `CreateShadowMap` creates when there is none. -/
def ComparsionSampler : SamplerDesc :=
  { ComparisonFunc := some COMPARISON_FUNCTION.COMPARISON_FUNC_LESS
    MinFilter := FILTER_TYPE.FILTER_TYPE_COMPARISON_LINEAR
    MagFilter := FILTER_TYPE.FILTER_TYPE_COMPARISON_LINEAR
    MipFilter := FILTER_TYPE.FILTER_TYPE_COMPARISON_LINEAR }

/-- The filterable shadow map sampler that `CreateShadowMap` creates when there is none. -/
def FilterableShadowMapSampler (self : ShadowsSample) : SamplerDesc :=
  { MinFilter := FILTER_TYPE.FILTER_TYPE_ANISOTROPIC
    MagFilter := FILTER_TYPE.FILTER_TYPE_ANISOTROPIC
    MipFilter := FILTER_TYPE.FILTER_TYPE_ANISOTROPIC
    MaxAnisotropy := self.m_LightAttribs.ShadowAttribs.iMaxAnisotropy }

/-- The part of `CreateShadowMap` before `InitializeResourceBindings`: the cascade count as
a float, the two samplers, created once, and the initialisation of the shadow map manager. -/
def CreateShadowMap.initialise (engine : Engine) (self : ShadowsSample) : ShadowsSample :=
  let self : ShadowsSample :=
    { self with
      m_LightAttribs :=
        { self.m_LightAttribs with
          ShadowAttribs :=
            { self.m_LightAttribs.ShadowAttribs with
              fNumCascades := (self.m_LightAttribs.ShadowAttribs.iNumCascades : ℚ) } } }
  let self : ShadowsSample :=
    if self.m_pComparisonSampler.isNone then
      { self with m_pComparisonSampler := some ComparsionSampler }
    else self
  let self : ShadowsSample :=
    if self.m_pFilterableShadowMapSampler.isNone then
      { self with m_pFilterableShadowMapSampler := some self.FilterableShadowMapSampler }
    else self
  let SMMgrInitInfo : ShadowMapManager.InitInfo :=
    { Fmt := self.m_ShadowSetting.Format
      Resolution := self.m_ShadowSetting.Resolution
      NumCascades := intToUint32 self.m_LightAttribs.ShadowAttribs.iNumCascades
      ShadowMode := self.m_ShadowSetting.iShadowMode
      Is32BitFilterableFmt := self.m_ShadowSetting.Is32BitFilterableFmt
      pComparisonSampler := self.m_pComparisonSampler
      pFilterableShadowMapSampler := self.m_pFilterableShadowMapSampler }
  { self with
    m_ShadowMapMgr := engine.ShadowMapManagerInitialize self.m_ShadowMapMgr SMMgrInitInfo }

/-- Method `ShadowsSample::CreateShadowMap`. -/
def CreateShadowMap (engine : Engine) (self : ShadowsSample) : Option ShadowsSample :=
  (CreateShadowMap.initialise engine self).InitializeResourceBindings

/-- The product `v * m` of a row vector and a matrix. -/
def mulVectorMatrix (v : float4) (m : float4x4) : float4 :=
  { x := v.x * m 0 0 + v.y * m 1 0 + v.z * m 2 0 + v.w * m 3 0
    y := v.x * m 0 1 + v.y * m 1 1 + v.z * m 2 1 + v.w * m 3 1
    z := v.x * m 0 2 + v.y * m 1 2 + v.z * m 2 2 + v.w * m 3 2
    w := v.x * m 0 3 + v.y * m 1 3 + v.z * m 2 3 + v.w * m 3 3 }

/-- The light rotation of `Update`: the first three components of the direction are
replaced by those of the rotated direction, the fourth is not written. -/
def Update.rotateLight (engine : Engine) (self : ShadowsSample) (mouseState : MouseState) :
    ShadowsSample :=
  let LightRotationSpeed : ℚ := 1 / 1000
  let fYawDelta : ℚ := (mouseState.PosX - self.m_LastMouseState.PosX) * LightRotationSpeed
  let fPitchDelta : ℚ := (mouseState.PosY - self.m_LastMouseState.PosY) * LightRotationSpeed
  let f4Direction := self.m_LightAttribs.f4Direction
  let rotated : float4 :=
    mulVectorMatrix
      (mulVectorMatrix { x := f4Direction.x, y := f4Direction.y, z := f4Direction.z, w := 0 }
        (engine.RotationArbitrary (engine.CameraGetWorldUp self.m_Camera) fYawDelta))
      (engine.RotationArbitrary (engine.CameraGetWorldRight self.m_Camera) fPitchDelta)
  { self with
    m_LightAttribs :=
      { self.m_LightAttribs with
        f4Direction := { f4Direction with x := rotated.x, y := rotated.y, z := rotated.z } } }

/-- Method `ShadowsSample::Update`. -/
def Update (engine : Engine) (self : ShadowsSample) (CurrTime ElapsedTime : ℚ) :
    ShadowsSample :=
  let self : ShadowsSample :=
    { self with
      m_InputController := engine.SampleBaseUpdate self.m_InputController CurrTime ElapsedTime }
  let updated := engine.CameraUpdate self.m_Camera self.m_InputController ElapsedTime
  let self : ShadowsSample := { self with m_Camera := updated.1, m_InputController := updated.2 }
  let mouseState := self.m_InputController.GetMouseState
  let self : ShadowsSample :=
    if self.m_LastMouseState.PosX ≥ 0 ∧ self.m_LastMouseState.PosY ≥ 0 ∧
        (self.m_LastMouseState.ButtonFlags &&& MouseState.BUTTON_FLAG_RIGHT) ≠ 0 then
      Update.rotateLight engine self mouseState
    else self
  let self : ShadowsSample := { self with m_LastMouseState := mouseState }
  let self : ShadowsSample :=
    { self with
      m_LightAttribs :=
        { self.m_LightAttribs with
          ShadowAttribs :=
            { self.m_LightAttribs.ShadowAttribs with fCascadePartitioningFactor := 1 } } }
  let CameraPos := engine.CameraGetPos self.m_Camera
  let f3LightDirection : float3 :=
    { x := self.m_LightAttribs.f4Direction.x, y := self.m_LightAttribs.f4Direction.y,
      z := self.m_LightAttribs.f4Direction.z }
  let distributed := engine.DistributeCascades self.m_ShadowMapMgr self.m_Camera.ViewMatrix
    self.m_Camera.ProjMatrix CameraPos f3LightDirection self.m_ShadowSetting.SnapCascades
    self.m_ShadowSetting.EqualizeExtents self.m_ShadowSetting.StabilizeExtents
    self.m_LightAttribs.ShadowAttribs
  { self with
    m_ShadowMapMgr := distributed.1
    m_LightAttribs := { self.m_LightAttribs with ShadowAttribs := distributed.2 } }

/-- The constant `PI_F`, the single-precision value nearest to pi. -/
def PI_F : ℚ := 13176795 / 4194304

/-- Method `ShadowsSample::WindowResize`. -/
def WindowResize (engine : Engine) (self : ShadowsSample) (Width Height : Nat) :
    ShadowsSample :=
  let NearPlane : ℚ := 1 / 10
  let FarPlane : ℚ := 250
  let AspectRatio : ℚ := (Width : ℚ) / (Height : ℚ)
  { self with
    m_Camera := engine.CameraSetProjAttribs self.m_Camera NearPlane FarPlane AspectRatio
      (PI_F / 4) engine.IsGLDevice }

/-! ## Vocabulary of the properties -/

/-- The input layout a pipeline was created with. -/
def PSOLayout (p : PipelineState) : InputLayoutDesc := p.GetDesc.GraphicsPipeline.InputLayout

/-- The converted layout of vertex buffer `vb`; the empty layout stands for a conversion
that is not defined. -/
def ConvertedLayout (self : ShadowsSample) (vb : Nat) : InputLayoutDesc :=
  (self.VBInputLayout vb).getD {}

/-- The converted layouts of vertex buffers `0 .. NumVBs-1`, in order. -/
def VBLayouts (self : ShadowsSample) : List InputLayoutDesc :=
  (List.range self.m_Mesh.GetNumVBs).map self.ConvertedLayout

/-- The layouts of the submeshes, in order: a submesh's layout is the converted layout of its
first vertex buffer. -/
def SubmeshLayouts (self : ShadowsSample) : List InputLayoutDesc :=
  self.m_Mesh.MeshArray.map (fun SubMesh => self.ConvertedLayout (SubMesh.VertexBuffers 0))

end ShadowsSample

/-- Every vertex declaration of the mesh has a terminating element, one with `Stream = 0xFF`. -/
def DXSDKMesh.DeclsTerminated (m : DXSDKMesh) : Prop :=
  ∀ hdr ∈ m.VertexBufferArray, ∃ e ∈ hdr.Decl, e.Stream = 0xFF

instance (m : DXSDKMesh) : Decidable m.DeclsTerminated :=
  inferInstanceAs (Decidable (∀ hdr ∈ m.VertexBufferArray, ∃ e ∈ hdr.Decl, e.Stream = 0xFF))

/-- An input layout whose declared length is the length of its element array. -/
def InputLayoutDesc.WellFormed (L : InputLayoutDesc) : Prop :=
  L.NumElements = L.LayoutElements.length

/-- Appends `x` to `acc` unless it is already there. -/
def insertNew {α : Type} [DecidableEq α] (acc : List α) (x : α) : List α :=
  if x ∈ acc then acc else acc ++ [x]

/-! ## Reading a command stream -/

/-- A command is a draw call. -/
def Command.isDraw : Command → Bool
  | Command.Draw _ => true
  | _ => false

/-- A command is the explicit resource state transition `TransitionShaderResources`. -/
def Command.isTransitionShaderResources : Command → Bool
  | Command.TransitionShaderResources _ _ => true
  | _ => false

/-- A command is the conversion of the shadow map to its filterable form. -/
def Command.isConvertToFilterable : Command → Bool
  | Command.ConvertToFilterable _ => true
  | _ => false

/-- A command binds render targets. -/
def Command.isSetRenderTargets : Command → Bool
  | Command.SetRenderTargets _ _ _ _ => true
  | _ => false

/-- A command binds no colour target and a depth-stencil target. -/
def Command.isSetDepthOnlyTargets : Command → Bool
  | Command.SetRenderTargets 0 none (some _) _ => true
  | _ => false

/-- A command writes a block to a camera constant buffer. -/
def Command.isMapCameraAttribs : Command → Bool
  | Command.MapCameraAttribs _ _ => true
  | _ => false

/-- A command writes a block to a light constant buffer. -/
def Command.isMapLightAttribs : Command → Bool
  | Command.MapLightAttribs _ _ => true
  | _ => false

/-- The pipeline `p` with the input layout of its description replaced, everything else
kept. -/
def PipelineState.withInputLayout (p : PipelineState) (InputLayout : InputLayoutDesc) :
    PipelineState :=
  { p with
    Desc :=
      { p.Desc with
        GraphicsPipeline := { p.Desc.GraphicsPipeline with InputLayout := InputLayout } } }

/-- A command is one that `DrawMesh` issues. -/
def Command.isMeshCommand : Command → Bool
  | Command.SetVertexBuffers _ _ _ _ _ _ => true
  | Command.SetIndexBuffer _ _ _ => true
  | Command.SetPipelineState _ => true
  | Command.CommitShaderResources _ _ => true
  | Command.Draw _ => true
  | _ => false

/-- What the commands issued so far have bound on the context, as far as the sample sets
it: the render targets of the last `SetRenderTargets`, the last block written to a camera
and to a light constant buffer, the last pipeline set and the last binding committed. -/
structure ContextState where
  RenderTargets : Option (Nat × Option (List Handle) × Option Handle) := none
  Camera : Option (Handle × CameraAttribs) := none
  Light : Option (Handle × LightAttribs) := none
  pPSO : Option PipelineState := none
  pSRB : Option ShaderResourceBinding := none

/-- The effect of one command on what is bound. -/
def ContextState.exec (c : ContextState) : Command → ContextState
  | Command.MapCameraAttribs Buffer Data => { c with Camera := some (Buffer, Data) }
  | Command.MapLightAttribs Buffer Data => { c with Light := some (Buffer, Data) }
  | Command.SetRenderTargets n rts dsv _ => { c with RenderTargets := some (n, rts, dsv) }
  | Command.SetPipelineState p => { c with pPSO := some p }
  | Command.CommitShaderResources b _ => { c with pSRB := b }
  | _ => c

/-- A draw call together with what was bound when it was issued. -/
structure DrawRecord where
  RenderTargets : Option (Nat × Option (List Handle) × Option Handle)
  Camera : Option (Handle × CameraAttribs)
  Light : Option (Handle × LightAttribs)
  pPSO : Option PipelineState
  pSRB : Option ShaderResourceBinding
  Attribs : DrawAttribs

/-- The draw, if the command is one, with what is bound. -/
def ContextState.drawOf (c : ContextState) : Command → List DrawRecord
  | Command.Draw Attribs =>
    [{ RenderTargets := c.RenderTargets, Camera := c.Camera, Light := c.Light, pPSO := c.pPSO,
       pSRB := c.pSRB, Attribs := Attribs }]
  | _ => []

/-- The draw calls of a command stream, in order, each with what was bound when it was
issued, starting from the bindings `c`. -/
def drawLog (c : ContextState) : List Command → List DrawRecord
  | [] => []
  | cmd :: rest => c.drawOf cmd ++ drawLog (c.exec cmd) rest

namespace ShadowsSample

/-- The pipeline vector that `DrawMesh` reads in the given pass. -/
def PSOVector (self : ShadowsSample) (bIsShadowPass : Bool) : List PipelineState :=
  if bIsShadowPass then self.m_RenderMeshShadowPSO else self.m_RenderMeshPSO

/-- The binding vector that `DrawMesh` reads in the given pass. -/
def SRBVector (self : ShadowsSample) (bIsShadowPass : Bool) :
    List (Option ShaderResourceBinding) :=
  if bIsShadowPass then self.m_ShadowSRBs else self.m_SRBs

/-- The pipeline of a submesh in the given pass: the entry of the pass's pipeline vector at
`m_PSOIndex[first vertex buffer]`. -/
def PSOOf (self : ShadowsSample) (bIsShadowPass : Bool) (SubMesh : DXSDKMESH_MESH) :
    Option PipelineState :=
  (self.m_PSOIndex[SubMesh.VertexBuffers 0]?).bind (fun i => (self.PSOVector bIsShadowPass)[i]?)

/-- The binding of a subset in the given pass: the entry of the pass's binding vector at
the subset's material id. -/
def SRBOf (self : ShadowsSample) (bIsShadowPass : Bool) (Subset : DXSDKMESH_SUBSET) :
    Option ShaderResourceBinding :=
  ((self.SRBVector bIsShadowPass)[Subset.MaterialID]?).join

/-- The draw attributes of a subset: its index count and index start, converted to 32 bits,
and the index type of the submesh. -/
def DrawAttribsOf (SubMesh : DXSDKMESH_MESH) (Subset : DXSDKMESH_SUBSET) : DrawAttribs :=
  { NumIndices := toUint32 Subset.IndexCount, IndexType := SubMesh.IBFormat,
    Flags := DRAW_FLAGS.DRAW_FLAG_VERIFY_ALL, FirstIndexLocation := toUint32 Subset.IndexStart }

/-- One draw per subset, submesh by submesh and subset by subset in index order, each with
the pipeline of its submesh and the binding of its material, under the given render
targets and constant blocks. -/
def MeshDraws (self : ShadowsSample) (bIsShadowPass : Bool)
    (RenderTargets : Option (Nat × Option (List Handle) × Option Handle))
    (Camera : Option (Handle × CameraAttribs)) (Light : Option (Handle × LightAttribs)) :
    List DrawRecord :=
  self.m_Mesh.MeshArray.flatMap (fun SubMesh =>
    SubMesh.Subsets.map (fun Subset =>
      { RenderTargets := RenderTargets, Camera := Camera, Light := Light,
        pPSO := self.PSOOf bIsShadowPass SubMesh, pSRB := self.SRBOf bIsShadowPass Subset,
        Attribs := DrawAttribsOf SubMesh Subset }))

/-- The commands of `DrawMesh` for one subset: commit the binding of its material, draw. -/
def SubsetCommands (self : ShadowsSample) (bIsShadowPass : Bool) (SubMesh : DXSDKMESH_MESH)
    (Subset : DXSDKMESH_SUBSET) : List Command :=
  [Command.CommitShaderResources (self.SRBOf bIsShadowPass Subset)
     RESOURCE_STATE_TRANSITION_MODE.VERIFY,
   Command.Draw (DrawAttribsOf SubMesh Subset)]

/-- The commands of `DrawMesh` for one submesh: set its vertex and index buffer, set its
pipeline, then the commands of its subsets in order. Nothing when the submesh has no
pipeline. -/
def SubMeshCommands (self : ShadowsSample) (bIsShadowPass : Bool) (SubMesh : DXSDKMESH_MESH) :
    List Command :=
  match self.PSOOf bIsShadowPass SubMesh with
  | some pPSO =>
    [Command.SetVertexBuffers 0 1 [SubMesh.VertexBuffers 0] [0]
       RESOURCE_STATE_TRANSITION_MODE.VERIFY
          SET_VERTEX_BUFFERS_FLAGS.SET_VERTEX_BUFFERS_FLAG_RESET,
     Command.SetIndexBuffer SubMesh.IndexBuffer 0 RESOURCE_STATE_TRANSITION_MODE.VERIFY,
     Command.SetPipelineState pPSO] ++
    SubMesh.Subsets.flatMap (self.SubsetCommands bIsShadowPass SubMesh)
  | none => []

/-- The commands of one `DrawMesh`: those of the submeshes, in index order. -/
def MeshCommands (self : ShadowsSample) (bIsShadowPass : Bool) : List Command :=
  self.m_Mesh.MeshArray.flatMap (self.SubMeshCommands bIsShadowPass)

/-- Every container access of `DrawMesh` is in range: the first vertex buffer of every
submesh indexes `m_PSOIndex`, the index found there indexes both pipeline vectors, and the
material id of every subset indexes both binding vectors. -/
def DrawReady (self : ShadowsSample) : Prop :=
  ∀ SubMesh ∈ self.m_Mesh.MeshArray,
    SubMesh.VertexBuffers 0 < self.m_PSOIndex.length ∧
    (∀ i ∈ self.m_PSOIndex[SubMesh.VertexBuffers 0]?,
      i < self.m_RenderMeshPSO.length ∧ i < self.m_RenderMeshShadowPSO.length) ∧
    ∀ Subset ∈ SubMesh.Subsets,
      Subset.MaterialID < self.m_SRBs.length ∧ Subset.MaterialID < self.m_ShadowSRBs.length

instance (self : ShadowsSample) : Decidable self.DrawReady :=
  inferInstanceAs (Decidable (∀ SubMesh ∈ self.m_Mesh.MeshArray,
    SubMesh.VertexBuffers 0 < self.m_PSOIndex.length ∧
    (∀ i ∈ self.m_PSOIndex[SubMesh.VertexBuffers 0]?,
      i < self.m_RenderMeshPSO.length ∧ i < self.m_RenderMeshShadowPSO.length) ∧
    ∀ Subset ∈ SubMesh.Subsets,
      Subset.MaterialID < self.m_SRBs.length ∧ Subset.MaterialID < self.m_ShadowSRBs.length))

/-- Every container access of `Render` is in range: those of `DrawMesh`, and entry 0 of the
main pipeline vector and of the main binding vector. -/
def FrameReady (self : ShadowsSample) : Prop :=
  self.DrawReady ∧ 0 < self.m_RenderMeshPSO.length ∧ 0 < self.m_SRBs.length

instance (self : ShadowsSample) : Decidable self.FrameReady :=
  inferInstanceAs (Decidable (self.DrawReady ∧ 0 < self.m_RenderMeshPSO.length ∧
    0 < self.m_SRBs.length))

/-- The commands of `RenderShadowMap` for one cascade that precede its `DrawMesh`. -/
def CascadePrologue (self : ShadowsSample) (iCascade : Nat) : List Command :=
  [Command.MapCameraAttribs self.m_CameraAttribsCB (self.ShadowCameraAttribs iCascade),
   Command.SetRenderTargets 0 none (some (self.m_ShadowMapMgr.GetCascadeDSV iCascade))
     RESOURCE_STATE_TRANSITION_MODE.TRANSITION,
   Command.ClearDepthStencil (some (self.m_ShadowMapMgr.GetCascadeDSV iCascade))
           CLEAR_DEPTH_STENCIL_FLAGS.CLEAR_DEPTH_FLAG 1 0
     RESOURCE_STATE_TRANSITION_MODE.TRANSITION]

/-- The commands of one shadow pass: the prologue of the cascade, then one `DrawMesh` in
shadow mode. -/
def ShadowPass (self : ShadowsSample) (iCascade : Nat) : List Command :=
  self.CascadePrologue iCascade ++ self.MeshCommands true

/-- The commands of the first `n` shadow passes, cascade 0 first. -/
def ShadowPasses (self : ShadowsSample) (n : Nat) : List Command :=
  (List.range n).flatMap self.ShadowPass

/-- The conversion step of `RenderShadowMap`, when the mode asks for it. -/
def ConversionStep (self : ShadowsSample) : List Command :=
  if self.m_ShadowSetting.iShadowMode > SHADOW_MODE_PCF then
    [Command.ConvertToFilterable self.m_LightAttribs.ShadowAttribs]
  else []

/-- The commands of `Render` between `RenderShadowMap` and `TransitionShaderResources`. -/
def MainPrologue (self : ShadowsSample) : List Command :=
  [Command.SetRenderTargets 0 none none RESOURCE_STATE_TRANSITION_MODE.TRANSITION,
   Command.ClearRenderTarget none [32 / 1000, 32 / 1000, 32 / 1000, 1]
     RESOURCE_STATE_TRANSITION_MODE.TRANSITION,
   Command.ClearDepthStencil none CLEAR_DEPTH_STENCIL_FLAGS.CLEAR_DEPTH_FLAG 1 0
     RESOURCE_STATE_TRANSITION_MODE.TRANSITION,
   Command.MapLightAttribs self.m_LightAttribsCB self.m_LightAttribs,
   Command.MapCameraAttribs self.m_CameraAttribsCB self.MainCameraAttribs]

end ShadowsSample

/-- One call, after start-up, of a method of the sample that returns: the sample before and
after it. `Render`, `RenderShadowMap` and `DrawMesh` write to the context only. -/
inductive ShadowsSample.Step (engine : Engine) : ShadowsSample → ShadowsSample → Prop
  | Update (self : ShadowsSample) (CurrTime ElapsedTime : ℚ) :
      Step engine self (self.Update engine CurrTime ElapsedTime)
  | Render (self : ShadowsSample) (pCtx out : DeviceContext) :
      self.Render pCtx = some out → Step engine self self
  | RenderShadowMap (self : ShadowsSample) (pCtx out : DeviceContext) :
      self.RenderShadowMap pCtx = some out → Step engine self self
  | DrawMesh (self : ShadowsSample) (pCtx out : DeviceContext) (bIsShadowPass : Bool) :
      self.DrawMesh pCtx bIsShadowPass = some out → Step engine self self
  | WindowResize (self : ShadowsSample) (Width Height : Nat) :
      Step engine self (self.WindowResize engine Width Height)
  | CreateShadowMap (self st : ShadowsSample) :
      self.CreateShadowMap engine = some st → Step engine self st
  | InitializeResourceBindings (self st : ShadowsSample) :
      self.InitializeResourceBindings = some st → Step engine self st
  | CreatePipelineStates (self st : ShadowsSample) :
      self.CreatePipelineStates = some st → Step engine self st

/-- One of the two names under which the main shaders see the shadow map. -/
def IsShadowMapVariableName (Name : String) : Bool :=
  Name == "g_tex2DShadowMap" || Name == "g_tex2DFilterableShadowMap"

/-- The shadow-map variable names that were set on a resource binding, in the order they
were set. -/
def ShaderResourceBinding.ShadowMapVariablesSet (b : ShaderResourceBinding) : List String :=
  (b.Vars.map (fun v => v.2.1)).filter IsShadowMapVariableName

/-- The shadow-map variables that a pipeline declares in its resource layout. -/
def PipelineState.ShadowMapVariables (p : PipelineState) : List ShaderResourceVariableDesc :=
  p.GetDesc.ResourceLayout.Variables.filter (fun v => IsShadowMapVariableName v.Name)

/-- The two steps of start-up that build the pipelines and then the resource bindings. -/
def ShadowsSample.CreatePipelinesAndBindings (self : ShadowsSample) : Option ShadowsSample :=
  self.CreatePipelineStates.bind ShadowsSample.InitializeResourceBindings

/-! ## Sample data -/

/-- A vertex declaration: position, normal and texture coordinate, then the terminator. -/
def declPositionNormalTexcoord : List DXSDKMESH_VERTEX_ELEMENT :=
  [{ Stream := 0, Offset := 0, Type_ := DXSDKMESH_VERTEX_DATA_TYPE.FLOAT3, Method := 0,
     Usage := DXSDKMESH_VERTEX_SEMANTIC.POSITION, UsageIndex := 0 },
   { Stream := 0, Offset := 12, Type_ := DXSDKMESH_VERTEX_DATA_TYPE.FLOAT3, Method := 0,
     Usage := DXSDKMESH_VERTEX_SEMANTIC.NORMAL, UsageIndex := 0 },
   { Stream := 0, Offset := 24, Type_ := DXSDKMESH_VERTEX_DATA_TYPE.FLOAT2, Method := 0,
     Usage := DXSDKMESH_VERTEX_SEMANTIC.TEXCOORD, UsageIndex := 0 },
   { Stream := 0xFF, Offset := 0, Type_ := DXSDKMESH_VERTEX_DATA_TYPE.UNUSED, Method := 0,
     Usage := DXSDKMESH_VERTEX_SEMANTIC.POSITION, UsageIndex := 0 }]

/-- A vertex declaration: position and normal, then the terminator. -/
def declPositionNormal : List DXSDKMESH_VERTEX_ELEMENT :=
  [{ Stream := 0, Offset := 0, Type_ := DXSDKMESH_VERTEX_DATA_TYPE.FLOAT3, Method := 0,
     Usage := DXSDKMESH_VERTEX_SEMANTIC.POSITION, UsageIndex := 0 },
   { Stream := 0, Offset := 12, Type_ := DXSDKMESH_VERTEX_DATA_TYPE.FLOAT3, Method := 0,
     Usage := DXSDKMESH_VERTEX_SEMANTIC.NORMAL, UsageIndex := 0 },
   { Stream := 0xFF, Offset := 0, Type_ := DXSDKMESH_VERTEX_DATA_TYPE.UNUSED, Method := 0,
     Usage := DXSDKMESH_VERTEX_SEMANTIC.POSITION, UsageIndex := 0 }]

/-- A mesh with two vertex buffers of different layouts and one submesh, which reads
vertex buffer 0 as its first stream and vertex buffer 1 as its second. -/
def twoStreamMesh : DXSDKMesh :=
  { VertexBufferArray :=
      [{ Decl := declPositionNormalTexcoord, StrideBytes := 32 },
       { Decl := declPositionNormal, StrideBytes := 24 }]
    MeshArray :=
      [{ VertexBuffers := fun i => if i = 1 then 1 else 0, IndexBuffer := 0,
         IBFormat := VALUE_TYPE.VT_UINT32,
         Subsets := [{ MaterialID := 0, IndexStart := 0, IndexCount := 36 }] }]
    MaterialArray := [{ pDiffuseRV := some 7 }] }

/-- A mesh with three vertex buffers, the first and the last of the same layout, three
submeshes, one per vertex buffer, and two materials. -/
def threeBufferMesh : DXSDKMesh :=
  { VertexBufferArray :=
      [{ Decl := declPositionNormalTexcoord, StrideBytes := 32 },
       { Decl := declPositionNormal, StrideBytes := 24 },
       { Decl := declPositionNormalTexcoord, StrideBytes := 32 }]
    MeshArray :=
      [{ VertexBuffers := fun _ => 0, IndexBuffer := 0, IBFormat := VALUE_TYPE.VT_UINT32,
         Subsets := [{ MaterialID := 0, IndexStart := 0, IndexCount := 36 },
                     { MaterialID := 1, IndexStart := 36, IndexCount := 12 }] },
       { VertexBuffers := fun i => if i = 0 then 1 else 0, IndexBuffer := 1,
         IBFormat := VALUE_TYPE.VT_UINT16,
         Subsets := [{ MaterialID := 1, IndexStart := 0, IndexCount := 6 }] },
       { VertexBuffers := fun i => if i = 0 then 2 else 0, IndexBuffer := 2,
         IBFormat := VALUE_TYPE.VT_UINT32,
         Subsets := [{ MaterialID := 0, IndexStart := 3, IndexCount := 9 }] }]
    MaterialArray := [{ pDiffuseRV := some 7 }, { pDiffuseRV := some 8 }] }

/-- A sample over the given mesh, shadow mode and cascade count, before any pipeline or
binding is created. -/
def sampleOf (Mesh : DXSDKMesh) (iShadowMode : Int) (iNumCascades : Int) : ShadowsSample :=
  { m_Mesh := Mesh
    m_SwapChainDesc := { ColorBufferFormat := 28, DepthBufferFormat := 40 }
    m_CameraAttribsCB := 1
    m_LightAttribsCB := 2
    m_PSOIndex := []
    m_RenderMeshPSO := []
    m_RenderMeshShadowPSO := []
    m_SRBs := []
    m_ShadowSRBs := []
    m_ShadowSetting := { iShadowMode := iShadowMode, Format := 47 }
    m_LightAttribs := { ShadowAttribs := { mWorldToLightViewT := 1, iNumCascades := iNumCascades } }
    m_ShadowMapMgr := { SRV := 100, CascadeProj := fun _ => 1, CascadeDSV := fun c => 200 + c }
    m_Camera := { ViewMatrix := 1, WorldMatrix := 1, ProjMatrix := 1 } }

/-- The sample over `threeBufferMesh` in a filterable shadow mode with four cascades, with
its pipelines and bindings built. -/
def readySample : ShadowsSample :=
  ((sampleOf threeBufferMesh 2 4).CreatePipelinesAndBindings).getD (sampleOf threeBufferMesh 2 4)

/-- A mesh with one submesh whose only subset starts at index `2^32` and counts
`2^32 + 6` indices. -/
def wideIndexMesh : DXSDKMesh :=
  { VertexBufferArray := [{ Decl := declPositionNormal, StrideBytes := 24 }]
    MeshArray :=
      [{ VertexBuffers := fun _ => 0, IndexBuffer := 0, IBFormat := VALUE_TYPE.VT_UINT32,
         Subsets := [{ MaterialID := 0, IndexStart := 4294967296, IndexCount := 4294967302 }] }]
    MaterialArray := [{ pDiffuseRV := some 7 }] }

/-- An engine for the sample data: the shadow map manager gets a new read view on every
initialisation, cascades are not redistributed, the camera ignores input, and rotations are
the identity. -/
def sampleEngine : Engine :=
  { ShadowMapManagerInitialize := fun m _ => { m with SRV := m.SRV + 1 }
    DistributeCascades := fun m _ _ _ _ _ _ _ a => (m, a)
    SampleBaseUpdate := fun c _ _ => c
    CameraUpdate := fun cam c _ => (cam, c)
    CameraSetProjAttribs := fun cam _ _ _ _ _ => cam
    CameraGetWorldUp := fun _ => { x := 0, y := 1, z := 0 }
    CameraGetWorldRight := fun _ => { x := 1, y := 0, z := 0 }
    CameraGetPos := fun _ => {}
    RotationArbitrary := fun _ _ => 1
    IsGLDevice := false }

/-! ## The terrain sample: engine declarations -/

/-- The engine's code of the format `TEX_FORMAT_RGBA8_UNORM_SRGB`. -/
def TEX_FORMAT_RGBA8_UNORM_SRGB : TEXTURE_FORMAT := 29

/-- The engine's code of the format `TEX_FORMAT_D32_FLOAT`. -/
def TEX_FORMAT_D32_FLOAT : TEXTURE_FORMAT := 40

/-- The offset of a layout element built without one (`LAYOUT_ELEMENT_AUTO_OFFSET`). -/
def LAYOUT_ELEMENT_AUTO_OFFSET : Nat := 0xFFFFFFFF

/-- The stride of a layout element built without one (`LAYOUT_ELEMENT_AUTO_STRIDE`). -/
def LAYOUT_ELEMENT_AUTO_STRIDE : Nat := 0xFFFFFFFF

/-- Buffer usages (`USAGE_*`). -/
inductive USAGE
  | USAGE_STATIC | USAGE_DEFAULT | USAGE_DYNAMIC
  deriving DecidableEq, Repr

/-- Buffer bind flags (`BIND_*`) named by the sample. -/
inductive BIND_FLAGS
  | BIND_NONE | BIND_VERTEX_BUFFER | BIND_INDEX_BUFFER | BIND_UNIFORM_BUFFER
  deriving DecidableEq, Repr

/-- The fields of the engine's `BufferDesc` that the sample writes. -/
structure BufferDesc where
  Name : String := ""
  uiSizeInBytes : Nat := 0
  BindFlags : BIND_FLAGS := BIND_FLAGS.BIND_NONE
  Usage : USAGE := USAGE.USAGE_DEFAULT
  deriving DecidableEq, Repr

/-- The array that the initial data of a buffer points at: 32-bit floats or 32-bit unsigned
integers. -/
inductive BufferWords
  | ofFloat (a : List ℚ)
  | ofUint (a : List Nat)
  deriving DecidableEq

/-- The engine's `BufferData`: the array `pData` points at and the byte count `DataSize`. -/
structure BufferData where
  pData : BufferWords
  DataSize : Nat
  deriving DecidableEq

/-- The engine's `TextureLoadInfo`, restricted to what the sample writes. -/
structure TextureLoadInfo where
  Name : String := ""
  IsSRGB : Bool := false
  deriving DecidableEq, Repr

/-- The member `Features` of the device capabilities, restricted to what the sample reads. -/
structure DeviceFeatures where
  ComputeShaders : Bool

/-- The engine's `DeviceCaps`, restricted to what the sample reads. -/
structure DeviceCaps where
  Features : DeviceFeatures
  IsGL : Bool := false

/-- Method `IsGLDevice` of the device capabilities. -/
def DeviceCaps.IsGLDevice (c : DeviceCaps) : Bool := c.IsGL

/-- A render device as the terrain sample uses it: its capabilities, and the objects its
creation calls return, each a function of what the call receives. Shaders and pipeline
states are records of their creation attributes, as for the shadow sample. -/
structure RenderDevice where
  /-- What `GetDeviceCaps` returns. -/
  Caps : DeviceCaps
  /-- Method `CreateBuffer(Desc, &Data, &pBuffer)`. -/
  CreateBuffer : BufferDesc → BufferData → Handle
  /-- Function `CreateUniformBuffer(pDevice, Size, Name, &pBuffer)`. -/
  CreateUniformBuffer : Nat → String → Handle
  /-- Function `CreateTextureFromFile(FilePath, LoadInfo, pDevice, &pTexture)` followed by
  `GetDefaultView(TEXTURE_VIEW_SHADER_RESOURCE)` on the texture. -/
  TextureFromFileSRV : String → TextureLoadInfo → Handle

/-- Method `GetDeviceCaps`. -/
def RenderDevice.GetDeviceCaps (d : RenderDevice) : DeviceCaps := d.Caps

/-- A two-component vector. -/
structure float2 where
  x : ℚ := 0
  y : ℚ := 0
  deriving DecidableEq

/-- The members of the engine's `SampleBase` that the terrain sample reads. -/
structure SampleBase where
  m_pEngineFactory : Option Handle := none
  m_pDevice : Option RenderDevice := none
  m_pImmediateContext : Option Handle := none
  m_pSwapChain : Option Handle := none
  m_InputController : InputController := {}

/-- The engine calls of the terrain sample whose effect the sample does not compute
itself. -/
structure Framework where
  /-- Method `SampleBase::Initialize(pEngineFactory, pDevice, ppContexts, NumDeferredCtx,
  pSwapChain)` on the base-class members. -/
  SampleBaseInitialize : SampleBase → Handle → RenderDevice → List Handle → Nat → Handle →
    SampleBase
  /-- Function `normalize` of the math library. -/
  normalize : float3 → float3
  /-- Method `SampleBase::Update(CurrTime, ElapsedTime)` on the base-class members. -/
  SampleBaseUpdate : SampleBase → ℚ → ℚ → SampleBase
  /-- Method `GetDesc` of a swap chain. -/
  SwapChainGetDesc : Handle → SwapChainDesc
  /-- Function `float4x4::Translation`. -/
  Translation : ℚ → ℚ → ℚ → float4x4
  /-- Function `float4x4::RotationZ`. -/
  RotationZ : ℚ → float4x4
  /-- Function `float4x4::RotationX`. -/
  RotationX : ℚ → float4x4
  /-- Function `float4x4::Projection(fov, aspectRatio, zNear, zFar, IsGL)`. -/
  Projection : ℚ → ℚ → ℚ → ℚ → Bool → float4x4

/-- The user interface calls of one frame (`ImGui::Begin`, `Checkbox`, `SliderFloat`,
`SliderInt`), each a function of its label, the value of the variable it points at and its
bounds: the value it returns and the value it leaves in the variable. -/
structure ImGui where
  Begin : String → Bool
  Checkbox : String → Bool → Bool × Bool
  SliderFloat : String → ℚ → ℚ → ℚ → Bool × ℚ
  SliderInt : String → Int → Int → Int → Bool × Int

/-! ## The terrain sample: the earth mesh -/

/-- The grid vertex of `EarthMesh`: a texture coordinate. -/
structure EarthMesh.Vertex where
  uv : float2
  deriving DecidableEq

/-- The members of `EarthMesh`. -/
structure EarthMesh where
  m_pDevice : Option RenderDevice := none
  m_pContext : Option Handle := none
  m_pEarthPSO : Option PipelineState := none
  m_pEarthSRB : Option ShaderResourceBinding := none
  m_pLightPSO : Option PipelineState := none
  m_pLightSRB : Option ShaderResourceBinding := none
  m_pGridVertexBuffer : Option Handle := none
  m_pGridIndexBuffer : Option Handle := none
  m_pLightCubeVertexBuffer : Option Handle := none
  m_pLightCubeIndexBuffer : Option Handle := none
  m_pVSConstants : Option Handle := none
  m_textureSRV : Option Handle := none
  m_heightMapSRV : Option Handle := none
  m_fMatWorldViewProj : float4x4 := 0
  m_fMatWorldViewProjLight : float4x4 := 0
  m_fMatWorldView : float4x4 := 0
  m_fHeightScale : ℚ
  m_fLightPosition : float3 := {}
  m_gridVertices : List EarthMesh.Vertex := []
  m_triConnec : List Nat := []
  m_iNbGridSidePts : Nat

/-- The conversion of a 32-bit unsigned value to `int`. -/
def uint32ToInt (u : Nat) : Int := if u < 2 ^ 31 then (u : Int) else (u : Int) - 2 ^ 32

/-- Unsigned 32-bit subtraction. -/
def uintSub (a b : Nat) : Nat := (a + 2 ^ 32 - b % 2 ^ 32) % 2 ^ 32

namespace EarthMesh

/-- The size in bytes of the shader constants block `GlobalConstants`: two matrices, a
three-component vector and two floats. -/
def sizeofGlobalConstants : Nat := 64 + 64 + 12 + 4 + 4

/-- Method `EarthMesh::CreateEarthPipeline`. -/
def CreateEarthPipeline (self : EarthMesh) : Option EarthMesh :=
  match self.m_pDevice with
  | none => none
  | some _ =>
    let PSODesc : PipelineStateDesc := {}
    let PSODesc : PipelineStateDesc := { PSODesc with Name := "EarthMesh PSO" }
    let PSODesc : PipelineStateDesc := { PSODesc with IsComputePipeline := false }
    let PSODesc : PipelineStateDesc :=
      { PSODesc with
        GraphicsPipeline :=
          { PSODesc.GraphicsPipeline with
            NumRenderTargets := 1
            RTVFormats0 := TEX_FORMAT_RGBA8_UNORM_SRGB
            DSVFormat := TEX_FORMAT_D32_FLOAT
            PrimitiveTopology := PRIMITIVE_TOPOLOGY.PRIMITIVE_TOPOLOGY_TRIANGLE_LIST
            CullMode := CULL_MODE.CULL_MODE_FRONT
            DepthEnable := true } }
    let pVS : Shader :=
      { ShaderType := SHADER_TYPE.SHADER_TYPE_VERTEX, EntryPoint := "main", Name := "Earth VS",
        FilePath := "earth.vsh", Macros := [] }
    let pPS : Shader :=
      { ShaderType := SHADER_TYPE.SHADER_TYPE_PIXEL, EntryPoint := "main", Name := "Earth PS",
        FilePath := "earth.psh", Macros := [] }
    let LayoutElems : List LayoutElement :=
      [{ InputIndex := 0, BufferSlot := 0, NumComponents := 2,
         ValueType := VALUE_TYPE.VT_FLOAT32, IsNormalized := false,
         RelativeOffset := LAYOUT_ELEMENT_AUTO_OFFSET, Stride := LAYOUT_ELEMENT_AUTO_STRIDE }]
    let Vars : List ShaderResourceVariableDesc :=
      [{ ShaderStages := SHADER_TYPE.SHADER_TYPE_VERTEX, Name := "g_heightMap",
         Type_ := SHADER_RESOURCE_VARIABLE_TYPE.MUTABLE },
       { ShaderStages := SHADER_TYPE.SHADER_TYPE_PIXEL, Name := "g_texture",
         Type_ := SHADER_RESOURCE_VARIABLE_TYPE.MUTABLE }]
    let StaticSamplers : List StaticSamplerDesc :=
      [{ ShaderStages := SHADER_TYPE.SHADER_TYPE_VERTEX, SamplerOrTextureName := "g_heightMap",
         Desc := "SamLinearClampDesc" },
       { ShaderStages := SHADER_TYPE.SHADER_TYPE_PIXEL, SamplerOrTextureName := "g_texture",
         Desc := "SamLinearClampDesc" }]
    let PSODesc : PipelineStateDesc :=
      { PSODesc with
        GraphicsPipeline :=
          { PSODesc.GraphicsPipeline with
            InputLayout := { LayoutElements := LayoutElems, NumElements := LayoutElems.length }
            pVS := some pVS, pPS := some pPS }
        ResourceLayout :=
          { PSODesc.ResourceLayout with
            DefaultVariableType := SHADER_RESOURCE_VARIABLE_TYPE.STATIC
            Variables := Vars, NumVariables := Vars.length
            StaticSamplers := StaticSamplers, NumStaticSamplers := StaticSamplers.length } }
    let pEarthPSO : PipelineState := { Desc := PSODesc }
    -- a null object leaves the variable of the new pipeline unbound
    let pEarthPSO : PipelineState :=
      match self.m_pVSConstants with
      | some VSConstants =>
        pEarthPSO.SetStaticVariable SHADER_TYPE.SHADER_TYPE_VERTEX "VSConstants" VSConstants
      | none => pEarthPSO
    some { self with
      m_pEarthPSO := some pEarthPSO
      m_pEarthSRB := some (pEarthPSO.CreateShaderResourceBinding true) }

/-- Method `EarthMesh::CreateLightPipeline`. -/
def CreateLightPipeline (self : EarthMesh) : Option EarthMesh :=
  match self.m_pDevice with
  | none => none
  | some _ =>
    let PSODesc : PipelineStateDesc := {}
    let PSODesc : PipelineStateDesc := { PSODesc with Name := "Light PSO" }
    let PSODesc : PipelineStateDesc := { PSODesc with IsComputePipeline := false }
    let PSODesc : PipelineStateDesc :=
      { PSODesc with
        GraphicsPipeline :=
          { PSODesc.GraphicsPipeline with
            NumRenderTargets := 1
            RTVFormats0 := TEX_FORMAT_RGBA8_UNORM_SRGB
            DSVFormat := TEX_FORMAT_D32_FLOAT
            PrimitiveTopology := PRIMITIVE_TOPOLOGY.PRIMITIVE_TOPOLOGY_TRIANGLE_LIST
            CullMode := CULL_MODE.CULL_MODE_BACK
            DepthEnable := true } }
    let pVS : Shader :=
      { ShaderType := SHADER_TYPE.SHADER_TYPE_VERTEX, EntryPoint := "main", Name := "Light VS",
        FilePath := "light.vsh", Macros := [] }
    let pPS : Shader :=
      { ShaderType := SHADER_TYPE.SHADER_TYPE_PIXEL, EntryPoint := "main", Name := "Light PS",
        FilePath := "light.psh", Macros := [] }
    let LayoutElems : List LayoutElement :=
      [{ InputIndex := 0, BufferSlot := 0, NumComponents := 3,
         ValueType := VALUE_TYPE.VT_FLOAT32, IsNormalized := false,
         RelativeOffset := LAYOUT_ELEMENT_AUTO_OFFSET, Stride := LAYOUT_ELEMENT_AUTO_STRIDE },
       { InputIndex := 1, BufferSlot := 0, NumComponents := 4,
         ValueType := VALUE_TYPE.VT_FLOAT32, IsNormalized := false,
         RelativeOffset := LAYOUT_ELEMENT_AUTO_OFFSET, Stride := LAYOUT_ELEMENT_AUTO_STRIDE }]
    let PSODesc : PipelineStateDesc :=
      { PSODesc with
        GraphicsPipeline :=
          { PSODesc.GraphicsPipeline with
            InputLayout := { LayoutElements := LayoutElems, NumElements := LayoutElems.length }
            pVS := some pVS, pPS := some pPS }
        ResourceLayout :=
          { PSODesc.ResourceLayout with
            DefaultVariableType := SHADER_RESOURCE_VARIABLE_TYPE.STATIC } }
    let pLightPSO : PipelineState := { Desc := PSODesc }
    -- a null object leaves the variable of the new pipeline unbound
    let pLightPSO : PipelineState :=
      match self.m_pVSConstants with
      | some VSConstants =>
        pLightPSO.SetStaticVariable SHADER_TYPE.SHADER_TYPE_VERTEX "VSConstants" VSConstants
      | none => pLightPSO
    some { self with
      m_pLightPSO := some pLightPSO
      m_pLightSRB := some (pLightPSO.CreateShaderResourceBinding true) }

end EarthMesh

namespace EarthMesh

/-- The body of the inner vertex loop of `CreateEarthGrid`: the state is the vertex vector
and the unsigned counter `index`. -/
def CreateEarthGrid.inner (m_iNbGridSidePts : Nat) (st : List Vertex × Nat) (_j : Nat) :
    List Vertex × Nat :=
  let index := st.2
  let xPos : ℚ := ((index % m_iNbGridSidePts : Nat) : ℚ)
  let yPos : ℚ := ((index : ℚ) - xPos) / (m_iNbGridSidePts : ℚ)
  let u : ℚ := xPos / ((uintSub m_iNbGridSidePts 1 : Nat) : ℚ)
  let v : ℚ := yPos / ((uintSub m_iNbGridSidePts 1 : Nat) : ℚ)
  let newVertex : Vertex := { uv := { x := u, y := v } }
  (st.1 ++ [newVertex], (index + 1) % 2 ^ 32)

/-- The body of the outer vertex loop of `CreateEarthGrid`. -/
def CreateEarthGrid.outer (m_iNbGridSidePts : Nat) (st : List Vertex × Nat) (_i : Nat) :
    List Vertex × Nat :=
  (List.range m_iNbGridSidePts).foldl (CreateEarthGrid.inner m_iNbGridSidePts) st

/-- The vertex loops of `CreateEarthGrid`, on the vertex vector. -/
def CreateEarthGrid.vertices (m_iNbGridSidePts : Nat) (m_gridVertices : List Vertex) :
    List Vertex :=
  ((List.range m_iNbGridSidePts).foldl (CreateEarthGrid.outer m_iNbGridSidePts)
    (m_gridVertices, 0)).1

/-- The index loop of `CreateEarthGrid` from the state `i`, `j`, `nbDuoTrisDoneOnTheLine`,
`m_triConnec`. The counters `i` and `j` are signed: an increment past `2^31 - 1` is not
defined. The first argument bounds the number of iterations; `i` grows in every iteration,
so `lastPass` iterations are never exceeded. -/
def CreateEarthGrid.indices (m_iNbGridSidePts : Nat) (lastPass : Int) :
    Nat → Int → Int → Nat → List Nat → Option (List Nat)
  | 0, i, _, _, m_triConnec => if i < lastPass then none else some m_triConnec
  | fuel + 1, i, j, nbDuoTrisDoneOnTheLine, m_triConnec =>
    if i < lastPass then
      let m_triConnec := m_triConnec ++ [ShadowsSample.intToUint32 (i + m_iNbGridSidePts + 1)]
      let m_triConnec := m_triConnec ++ [ShadowsSample.intToUint32 (i + 1)]
      let m_triConnec := m_triConnec ++ [ShadowsSample.intToUint32 i]
      let m_triConnec := m_triConnec ++ [ShadowsSample.intToUint32 (i + m_iNbGridSidePts + 1)]
      let m_triConnec := m_triConnec ++ [ShadowsSample.intToUint32 i]
      let m_triConnec := m_triConnec ++ [ShadowsSample.intToUint32 (i + m_iNbGridSidePts)]
      let nbDuoTrisDoneOnTheLine := (nbDuoTrisDoneOnTheLine + 1) % 2 ^ 32
      if nbDuoTrisDoneOnTheLine = uintSub m_iNbGridSidePts 1 then
        if i + 1 < 2 ^ 31 ∧ j + 6 < 2 ^ 31 ∧ i + 1 + 1 < 2 ^ 31 then
          CreateEarthGrid.indices m_iNbGridSidePts lastPass fuel (i + 1 + 1) (j + 6) 0
            m_triConnec
        else none
      else
        if j + 6 < 2 ^ 31 ∧ i + 1 < 2 ^ 31 then
          CreateEarthGrid.indices m_iNbGridSidePts lastPass fuel (i + 1) (j + 6)
            nbDuoTrisDoneOnTheLine m_triConnec
        else none
    else some m_triConnec

/-- The value of `lastPass` in `CreateEarthGrid`: an unsigned 32-bit expression, converted
to `int`. -/
def CreateEarthGrid.lastPass (m_iNbGridSidePts : Nat) : Int :=
  uint32ToInt (uintSub ((m_iNbGridSidePts * m_iNbGridSidePts) % 2 ^ 32)
    ((m_iNbGridSidePts + 1) % 2 ^ 32))

/-- Method `EarthMesh::CreateEarthGrid`. -/
def CreateEarthGrid (self : EarthMesh) : Option EarthMesh :=
  let self : EarthMesh :=
    if self.m_gridVertices.length > 0 ∧ self.m_pGridVertexBuffer.isSome then
      { self with m_gridVertices := vectorClear self.m_gridVertices, m_pGridVertexBuffer := none }
    else self
  let self : EarthMesh :=
    if self.m_triConnec.length > 0 ∧ self.m_pGridIndexBuffer.isSome then
      { self with m_triConnec := vectorClear self.m_triConnec, m_pGridIndexBuffer := none }
    else self
  let self : EarthMesh :=
    { self with
      m_gridVertices := CreateEarthGrid.vertices self.m_iNbGridSidePts self.m_gridVertices }
  let VertBuffDesc : BufferDesc :=
    { Name := "Grid Vertex buffer", Usage := USAGE.USAGE_STATIC,
      BindFlags := BIND_FLAGS.BIND_VERTEX_BUFFER,
      uiSizeInBytes := ShadowsSample.toUint32 (8 * self.m_gridVertices.length) }
  match self.m_gridVertices[0]?, self.m_pDevice with
  | some _, some pDevice =>
    let VBData : BufferData :=
      { pData := BufferWords.ofFloat (self.m_gridVertices.flatMap (fun v => [v.uv.x, v.uv.y]))
        DataSize := ShadowsSample.toUint32 (8 * self.m_gridVertices.length) }
    let self : EarthMesh :=
      { self with m_pGridVertexBuffer := some (pDevice.CreateBuffer VertBuffDesc VBData) }
    let lastPass := CreateEarthGrid.lastPass self.m_iNbGridSidePts
    match CreateEarthGrid.indices self.m_iNbGridSidePts lastPass lastPass.toNat 0 0 0
        self.m_triConnec with
    | none => none
    | some m_triConnec =>
      let self : EarthMesh := { self with m_triConnec := m_triConnec }
      let IndBuffDesc : BufferDesc :=
        { Name := "Grid index buffer", Usage := USAGE.USAGE_STATIC,
          BindFlags := BIND_FLAGS.BIND_INDEX_BUFFER,
          uiSizeInBytes := ShadowsSample.toUint32 (4 * self.m_triConnec.length) }
      match self.m_triConnec[0]? with
      | none => none
      | some _ =>
        let IBData : BufferData :=
          { pData := BufferWords.ofUint self.m_triConnec
            DataSize := ShadowsSample.toUint32 (4 * self.m_triConnec.length) }
        some { self with m_pGridIndexBuffer := some (pDevice.CreateBuffer IndBuffDesc IBData) }
  | _, _ => none

/-- The array `CubeVerts` of `CreateLightCube`: position and colour of the eight corners. -/
def CreateLightCube.CubeVerts : List (float3 × float4) :=
  let col : float4 := { x := 1, y := 1, z := 1, w := 1 }
  [({ x := -(5 / 100), y := -(5 / 100), z := -(5 / 100) }, col),
   ({ x := -(5 / 100), y := 5 / 100, z := -(5 / 100) }, col),
   ({ x := 5 / 100, y := 5 / 100, z := -(5 / 100) }, col),
   ({ x := 5 / 100, y := -(5 / 100), z := -(5 / 100) }, col),
   ({ x := -(5 / 100), y := -(5 / 100), z := 5 / 100 }, col),
   ({ x := -(5 / 100), y := 5 / 100, z := 5 / 100 }, col),
   ({ x := 5 / 100, y := 5 / 100, z := 5 / 100 }, col),
   ({ x := 5 / 100, y := -(5 / 100), z := 5 / 100 }, col)]

/-- The array `Indices` of `CreateLightCube`. -/
def CreateLightCube.Indices : List Nat :=
  [2, 0, 1, 2, 3, 0,
   4, 6, 5, 4, 7, 6,
   0, 7, 4, 0, 3, 7,
   1, 0, 4, 1, 4, 5,
   1, 5, 2, 5, 6, 2,
   3, 6, 7, 3, 2, 6]

/-- Method `EarthMesh::CreateLightCube`. The byte counts are `sizeof` of the two arrays:
seven floats per vertex, one 32-bit integer per index. -/
def CreateLightCube (self : EarthMesh) : Option EarthMesh :=
  match self.m_pDevice with
  | none => none
  | some pDevice =>
    let VertBuffDesc : BufferDesc :=
      { Name := "Cube Light vertex buffer", Usage := USAGE.USAGE_STATIC,
        BindFlags := BIND_FLAGS.BIND_VERTEX_BUFFER,
        uiSizeInBytes := 28 * CreateLightCube.CubeVerts.length }
    let VBData : BufferData :=
      { pData := BufferWords.ofFloat (CreateLightCube.CubeVerts.flatMap
          (fun vert => [vert.1.x, vert.1.y, vert.1.z, vert.2.x, vert.2.y, vert.2.z, vert.2.w]))
        DataSize := 28 * CreateLightCube.CubeVerts.length }
    let self : EarthMesh :=
      { self with m_pLightCubeVertexBuffer := some (pDevice.CreateBuffer VertBuffDesc VBData) }
    let IndBuffDesc : BufferDesc :=
      { Name := "Cube index buffer", Usage := USAGE.USAGE_STATIC,
        BindFlags := BIND_FLAGS.BIND_INDEX_BUFFER,
        uiSizeInBytes := 4 * CreateLightCube.Indices.length }
    let IBData : BufferData :=
      { pData := BufferWords.ofUint CreateLightCube.Indices
        DataSize := 4 * CreateLightCube.Indices.length }
    some { self with
      m_pLightCubeIndexBuffer := some (pDevice.CreateBuffer IndBuffDesc IBData) }

/-- Method `EarthMesh::LoadEarthTexture`. -/
def LoadEarthTexture (self : EarthMesh) : Option EarthMesh :=
  match self.m_pDevice with
  | none => none
  | some pDevice =>
    let loadHeightInfo : TextureLoadInfo := {}
    let loadHeightInfo : TextureLoadInfo :=
      { loadHeightInfo with IsSRGB := false, Name := "Terrain height map" }
    let self : EarthMesh :=
      { self with
        m_heightMapSRV := some (pDevice.TextureFromFileSRV "Terrain\\height.png" loadHeightInfo) }
    match self.m_pEarthSRB with
    | none => none
    | some pEarthSRB =>
      let pEarthSRB :=
        pEarthSRB.SetVariable SHADER_TYPE.SHADER_TYPE_VERTEX "g_heightMap" self.m_heightMapSRV
      let loadTextInfo : TextureLoadInfo := {}
      let loadTextInfo : TextureLoadInfo := { loadTextInfo with IsSRGB := true }
      let self : EarthMesh :=
        { self with
          m_pEarthSRB := some pEarthSRB
          m_textureSRV := some (pDevice.TextureFromFileSRV "Terrain\\texture.png" loadTextInfo) }
      some { self with
        m_pEarthSRB := some
          (pEarthSRB.SetVariable SHADER_TYPE.SHADER_TYPE_PIXEL "g_texture" self.m_textureSRV) }

/-- Method `EarthMesh::Create`. -/
def Create (self : EarthMesh) (pDevice : Option RenderDevice) (pContext : Option Handle)
    (nbGridSidePts : Nat) (lightPosition : float3) : Option EarthMesh :=
  let self : EarthMesh :=
    { self with
      m_pDevice := pDevice, m_pContext := pContext, m_iNbGridSidePts := nbGridSidePts,
      m_fLightPosition := lightPosition, m_fHeightScale := 1 / 10 }
  match self.m_pDevice with
  | none => none
  | some device =>
    let self : EarthMesh :=
      { self with
        m_pVSConstants := some (device.CreateUniformBuffer sizeofGlobalConstants "VS constants CB") }
    match self.CreateEarthPipeline with
    | none => none
    | some self =>
      match self.CreateLightPipeline with
      | none => none
      | some self =>
        match self.CreateEarthGrid with
        | none => none
        | some self =>
          match self.LoadEarthTexture with
          | none => none
          | some self => self.CreateLightCube

/-- Method `EarthMesh::UpdateLightPosition`. -/
def UpdateLightPosition (self : EarthMesh) (newLightPosition : float3) : EarthMesh :=
  { self with m_fLightPosition := newLightPosition }

/-- Method `EarthMesh::SetHeightScale`. -/
def SetHeightScale (self : EarthMesh) (heightScale : ℚ) : EarthMesh :=
  { self with m_fHeightScale := heightScale }

/-- Method `EarthMesh::UpdateGridResolution`. The argument is an `int`, stored in an
unsigned member. -/
def UpdateGridResolution (self : EarthMesh) (newGridResolution : Int) : Option EarthMesh :=
  let self : EarthMesh := { self with m_iNbGridSidePts := ShadowsSample.intToUint32 newGridResolution }
  self.CreateEarthGrid

end EarthMesh

/-! ## The terrain sample: start-up -/

/-- The members of `TerrainRenderer` that the embedded methods read or write, over those of
its base class. -/
structure TerrainRenderer extends SampleBase where
  m_earthMesh : EarthMesh
  m_fElapsedTime : ℚ
  m_fLightPosition : float3
  m_bAnimateGrid : Bool
  m_fElevationScale : ℚ
  m_fZCamPos : ℚ
  m_iNbGridSidePts : Int

/-- The message of the exception that `Initialize` throws. -/
def TerrainRenderer.ComputeShadersRequired : String :=
  "Compute shaders are required to run this sample"

/-- The constructor of `TerrainRenderer`. The earth mesh member is default-constructed;
its two scalar members that no constructor writes hold whatever `heightScale` and
`nbGridSidePts` stand for. -/
def TerrainRenderer.new (framework : Framework) (heightScale : ℚ) (nbGridSidePts : Nat) :
    TerrainRenderer :=
  { m_earthMesh := { m_fHeightScale := heightScale, m_iNbGridSidePts := nbGridSidePts }
    m_fElapsedTime := 0
    m_fLightPosition := framework.normalize { x := 1 / 100, y := 1 / 100, z := 1 / 100 }
    m_bAnimateGrid := true
    m_fElevationScale := 90
    m_fZCamPos := 3
    m_iNbGridSidePts := 100 }

/-- Method `TerrainRenderer::Initialize`. The result is the sample when the method is left,
and the message of the `std::runtime_error` when it is left by that exception. -/
def TerrainRenderer.Initialize (framework : Framework) (self : TerrainRenderer)
    (pEngineFactory : Handle) (pDevice : RenderDevice) (ppContexts : List Handle)
    (NumDeferredCtx : Nat) (pSwapChain : Handle) :
    Option (TerrainRenderer × Option String) :=
  let deviceCaps := pDevice.GetDeviceCaps
  if !deviceCaps.Features.ComputeShaders then
    some (self, some TerrainRenderer.ComputeShadersRequired)
  else
    let self : TerrainRenderer :=
      { self with
        toSampleBase := framework.SampleBaseInitialize self.toSampleBase pEngineFactory pDevice
          ppContexts NumDeferredCtx pSwapChain }
    match self.m_earthMesh.Create self.m_pDevice self.m_pImmediateContext
        (ShadowsSample.intToUint32 self.m_iNbGridSidePts) self.m_fLightPosition with
    | none => none
    | some m_earthMesh => some ({ self with m_earthMesh := m_earthMesh }, none)

/-! ## The terrain sample: rendering -/

/-- The shader constants block `GlobalConstants`. A field that a write through a discard
mapping leaves untouched holds no defined value: `none`. -/
structure GlobalConstants where
  g_worldViewProj : Option float4x4
  g_worldView : Option float4x4
  g_lightPosition : Option float3
  g_heightScale : Option ℚ
  g_gridOffset : Option ℚ
  deriving DecidableEq

/-- One call on the device context of the earth mesh, with its arguments. Buffers, pipelines
and bindings are passed as the smart pointers hold them, null or not. -/
inductive TerrainCommand
  | MapGlobalConstants (Buffer : Handle) (Data : GlobalConstants)
  | SetVertexBuffers (StartSlot NumBuffersSet : Nat) (ppBuffers : List (Option Handle))
      (pOffsets : List Nat) (Mode : RESOURCE_STATE_TRANSITION_MODE)
      (Flags : SET_VERTEX_BUFFERS_FLAGS)
  | SetIndexBuffer (pIndexBuffer : Option Handle) (ByteOffset : Nat)
      (Mode : RESOURCE_STATE_TRANSITION_MODE)
  | SetPipelineState (pPipelineState : Option PipelineState)
  | CommitShaderResources (pShaderResourceBinding : Option ShaderResourceBinding)
      (Mode : RESOURCE_STATE_TRANSITION_MODE)
  | DrawIndexed (Attribs : DrawAttribs)
  deriving DecidableEq

namespace EarthMesh

/-- Method `EarthMesh::RenderEarth`, on the commands recorded on the context. The quotient
`1/(m_iNbGridSidePts-1)` is a quotient of unsigned integers; a zero divisor is not
defined. -/
def RenderEarth (self : EarthMesh) (pCtx : List TerrainCommand) : Option (List TerrainCommand) :=
  match self.m_pContext, self.m_pVSConstants with
  | some _, some pVSConstants =>
    if uintSub self.m_iNbGridSidePts 1 = 0 then none
    else
      let CBConstants : GlobalConstants :=
        { g_worldViewProj := some self.m_fMatWorldViewProj.Transpose
          g_worldView := some self.m_fMatWorldView.Transpose
          g_lightPosition := some self.m_fLightPosition
          g_heightScale := some self.m_fHeightScale
          g_gridOffset := some ((1 / uintSub self.m_iNbGridSidePts 1 : Nat) : ℚ) }
      let pCtx := pCtx ++ [TerrainCommand.MapGlobalConstants pVSConstants CBConstants]
      let pCtx := pCtx ++
        [TerrainCommand.SetVertexBuffers 0 1 [self.m_pGridVertexBuffer] [0]
          RESOURCE_STATE_TRANSITION_MODE.TRANSITION
          SET_VERTEX_BUFFERS_FLAGS.SET_VERTEX_BUFFERS_FLAG_RESET]
      let pCtx := pCtx ++
        [TerrainCommand.SetIndexBuffer self.m_pGridIndexBuffer 0
          RESOURCE_STATE_TRANSITION_MODE.TRANSITION]
      let pCtx := pCtx ++ [TerrainCommand.SetPipelineState self.m_pEarthPSO]
      let pCtx := pCtx ++
        [TerrainCommand.CommitShaderResources self.m_pEarthSRB
          RESOURCE_STATE_TRANSITION_MODE.TRANSITION]
      let DrawAttrs : DrawAttribs :=
        { IndexType := VALUE_TYPE.VT_UINT32
          NumIndices :=
            ((uintSub self.m_iNbGridSidePts 1 * uintSub self.m_iNbGridSidePts 1) % 2 ^ 32 * 6)
              % 2 ^ 32
          Flags := DRAW_FLAGS.DRAW_FLAG_VERIFY_ALL }
      some (pCtx ++ [TerrainCommand.DrawIndexed DrawAttrs])
  | _, _ => none

/-- Method `EarthMesh::RenderLight`, on the commands recorded on the context. -/
def RenderLight (self : EarthMesh) (pCtx : List TerrainCommand) : Option (List TerrainCommand) :=
  match self.m_pContext, self.m_pVSConstants with
  | some _, some pVSConstants =>
    let CBConstants : GlobalConstants :=
      { g_worldViewProj := some self.m_fMatWorldViewProjLight.Transpose
        g_worldView := none, g_lightPosition := none, g_heightScale := none
        g_gridOffset := none }
    let pCtx := pCtx ++ [TerrainCommand.MapGlobalConstants pVSConstants CBConstants]
    let pCtx := pCtx ++ [TerrainCommand.SetPipelineState self.m_pLightPSO]
    let pCtx := pCtx ++
      [TerrainCommand.SetVertexBuffers 0 1 [self.m_pLightCubeVertexBuffer] [0]
        RESOURCE_STATE_TRANSITION_MODE.TRANSITION
        SET_VERTEX_BUFFERS_FLAGS.SET_VERTEX_BUFFERS_FLAG_RESET]
    let pCtx := pCtx ++
      [TerrainCommand.SetIndexBuffer self.m_pLightCubeIndexBuffer 0
        RESOURCE_STATE_TRANSITION_MODE.TRANSITION]
    let pCtx := pCtx ++
      [TerrainCommand.CommitShaderResources self.m_pLightSRB
        RESOURCE_STATE_TRANSITION_MODE.TRANSITION]
    let DrawAttrs : DrawAttribs :=
      { IndexType := VALUE_TYPE.VT_UINT32, NumIndices := 36
        Flags := DRAW_FLAGS.DRAW_FLAG_VERIFY_ALL }
    some (pCtx ++ [TerrainCommand.DrawIndexed DrawAttrs])
  | _, _ => none

/-- Method `EarthMesh::Render`. -/
def Render (self : EarthMesh) (pCtx : List TerrainCommand) : Option (List TerrainCommand) :=
  match self.RenderEarth pCtx with
  | none => none
  | some pCtx => self.RenderLight pCtx

/-- Method `EarthMesh::SetViewWorldMatrix`. -/
def SetViewWorldMatrix (self : EarthMesh) (worldViewMatrix : float4x4) : EarthMesh :=
  { self with m_fMatWorldView := worldViewMatrix }

/-- Method `EarthMesh::SetWorldViewProjMatrix`. -/
def SetWorldViewProjMatrix (self : EarthMesh) (worldViewProjMatrix : float4x4) : EarthMesh :=
  { self with m_fMatWorldViewProj := worldViewProjMatrix }

/-- Method `EarthMesh::SetWorldViewProjLightMatrix`. -/
def SetWorldViewProjLightMatrix (self : EarthMesh) (worldViewProjLightMatrix : float4x4) :
    EarthMesh :=
  { self with m_fMatWorldViewProjLight := worldViewProjLightMatrix }

end EarthMesh

/-! ## The terrain sample: the frame update -/

/-- The widgets of `UpdateUI`, inside `if (ImGui::Begin(...))`: the sample with the values
the widgets left in its members, and the five flags `newXLightPos`, `newYLightPos`,
`newZLightPos`, `newGridResolution` and `newHeightScale`. -/
def TerrainRenderer.UpdateUI.settings (ui : ImGui) (self : TerrainRenderer) :
    TerrainRenderer × Bool × Bool × Bool × Bool × Bool :=
  if ui.Begin "Settings" then
    let self : TerrainRenderer :=
      { self with m_bAnimateGrid := (ui.Checkbox "Animate" self.m_bAnimateGrid).2 }
    let newXLightPos := ui.SliderFloat "X Light Position" self.m_fLightPosition.x (-1) 1
    let self : TerrainRenderer :=
      { self with m_fLightPosition := { self.m_fLightPosition with x := newXLightPos.2 } }
    let newYLightPos := ui.SliderFloat "Y Light Position" self.m_fLightPosition.y (-1) 1
    let self : TerrainRenderer :=
      { self with m_fLightPosition := { self.m_fLightPosition with y := newYLightPos.2 } }
    let newZLightPos := ui.SliderFloat "Z Light Position" self.m_fLightPosition.z 0 2
    let self : TerrainRenderer :=
      { self with m_fLightPosition := { self.m_fLightPosition with z := newZLightPos.2 } }
    let newGridResolution := ui.SliderInt "Grid Resolution" self.m_iNbGridSidePts 2 600
    let self : TerrainRenderer := { self with m_iNbGridSidePts := newGridResolution.2 }
    let newHeightScale := ui.SliderFloat "Height Scale" self.m_fElevationScale 1 100
    let self : TerrainRenderer := { self with m_fElevationScale := newHeightScale.2 }
    (self, newXLightPos.1, newYLightPos.1, newZLightPos.1, newGridResolution.1,
      newHeightScale.1)
  else
    (self, false, false, false, false, false)

/-- Method `TerrainRenderer::UpdateUI`. -/
def TerrainRenderer.UpdateUI (ui : ImGui) (self : TerrainRenderer) : Option TerrainRenderer :=
  let settings := TerrainRenderer.UpdateUI.settings ui self
  let self := settings.1
  let newXLightPos := settings.2.1
  let newYLightPos := settings.2.2.1
  let newZLightPos := settings.2.2.2.1
  let newGridResolution := settings.2.2.2.2.1
  let newHeightScale := settings.2.2.2.2.2
  let self : TerrainRenderer :=
    if newXLightPos || newYLightPos || newZLightPos then
      { self with m_earthMesh := self.m_earthMesh.UpdateLightPosition self.m_fLightPosition }
    else self
  match (if newGridResolution then self.m_earthMesh.UpdateGridResolution self.m_iNbGridSidePts
         else some self.m_earthMesh) with
  | none => none
  | some m_earthMesh =>
    let self : TerrainRenderer := { self with m_earthMesh := m_earthMesh }
    if newHeightScale then
      some { self with
        m_earthMesh := self.m_earthMesh.SetHeightScale (self.m_fElevationScale / 500) }
    else some self

/-- Method `TerrainRenderer::Update`. The file-level variable `g_time` is passed in and
returned with the sample. -/
def TerrainRenderer.Update (framework : Framework) (ui : ImGui) (self : TerrainRenderer)
    (g_time : ℚ) (CurrTime ElapsedTime : ℚ) : Option (TerrainRenderer × ℚ) :=
  let mouseState := self.m_InputController.GetMouseState
  let self : TerrainRenderer :=
    { self with m_fZCamPos := self.m_fZCamPos - mouseState.WheelDelta * (25 / 100) }
  let self : TerrainRenderer := { self with m_fZCamPos := max self.m_fZCamPos 0 }
  let self : TerrainRenderer := { self with m_fZCamPos := min self.m_fZCamPos 10 }
  let self : TerrainRenderer :=
    { self with
      toSampleBase := framework.SampleBaseUpdate self.toSampleBase CurrTime ElapsedTime }
  match self.UpdateUI ui with
  | none => none
  | some self =>
    match self.m_pDevice, self.m_pSwapChain with
    | some pDevice, some pSwapChain =>
      let isGL := pDevice.GetDeviceCaps.IsGLDevice
      let g_time := g_time + (if self.m_bAnimateGrid then ElapsedTime else 0)
      let viewWorldTrans : float4x4 :=
        framework.Translation (-(1 / 2)) (-(1 / 2)) 0
          * framework.RotationZ (g_time * (4 / 10))
          * framework.RotationX (34 / 10 * ShadowsSample.PI_F / (25 / 10) * 1)
          * framework.Translation 0 0 self.m_fZCamPos
      let self : TerrainRenderer :=
        { self with m_earthMesh := self.m_earthMesh.SetViewWorldMatrix viewWorldTrans }
      let self : TerrainRenderer :=
        { self with m_earthMesh := self.m_earthMesh.UpdateLightPosition self.m_fLightPosition }
      let nearPlane : ℚ := 1 / 10
      let farPlane : ℚ := 100
      let aspectRatio : ℚ :=
        ((framework.SwapChainGetDesc pSwapChain).Width : ℚ) /
          ((framework.SwapChainGetDesc pSwapChain).Height : ℚ)
      let projTrans := framework.Projection (ShadowsSample.PI_F / 4) aspectRatio nearPlane
        farPlane isGL
      let gridProjViewWorld : float4x4 := viewWorldTrans * projTrans
      let self : TerrainRenderer :=
        { self with m_earthMesh := self.m_earthMesh.SetWorldViewProjMatrix gridProjViewWorld }
      let lightProjViewWorld : float4x4 :=
        framework.Translation self.m_fLightPosition.x self.m_fLightPosition.y
            self.m_fLightPosition.z
          * viewWorldTrans * projTrans
      some ({ self with
          m_earthMesh := self.m_earthMesh.SetWorldViewProjLightMatrix lightProjViewWorld },
        g_time)
    | _, _ => none

/-! ## Vocabulary of the grid and of the light cube -/

/-- The six indices of the two triangles of the grid cell whose corner of lowest index is
vertex `i`, in a grid of side `n`. -/
def quadIndices (n i : Nat) : List Nat := [i + n + 1, i + 1, i, i + n + 1, i, i + n]

/-- The index list that the specification gives for a grid of side `n`: over the rows
`r = 0..n-2` and the columns `c = 0..n-2`, in row-major order, the six indices of the cell
at `i = r * n + c`. -/
def specGridIndices (n : Nat) : List Nat :=
  (List.range (n - 1)).flatMap (fun r =>
    (List.range (n - 1)).flatMap (fun c => quadIndices n (r * n + c)))

/-- The texture coordinate that the specification gives for vertex `k` of a grid of side
`n`: `((k mod n)/(n-1), (k div n)/(n-1))`. -/
def specGridUV (n k : Nat) : float2 :=
  { x := ((k % n : Nat) : ℚ) / ((n : ℚ) - 1), y := ((k / n : Nat) : ℚ) / ((n : ℚ) - 1) }

/-- The triangles of an index list: its consecutive triples. -/
def trianglesOf : List Nat → List (Nat × Nat × Nat)
  | a :: b :: c :: rest => (a, b, c) :: trianglesOf rest
  | _ => []

/-- The orientation of a triangle of grid vertices, vertex `k` lying at column `k mod n` and
row `k div n`: twice its signed area in cells. -/
def gridOrientation (n : Nat) (t : Nat × Nat × Nat) : Int :=
  let x : Nat → Int := fun k => ((k % n : Nat) : Int)
  let y : Nat → Int := fun k => ((k / n : Nat) : Int)
  (x t.2.1 - x t.1) * (y t.2.2 - y t.1) - (y t.2.1 - y t.1) * (x t.2.2 - x t.1)

/-- A command of the terrain sample is a draw call. -/
def TerrainCommand.isDrawIndexed : TerrainCommand → Bool
  | TerrainCommand.DrawIndexed _ => true
  | _ => false

/-- The difference of two vectors. -/
def float3.sub (a b : float3) : float3 := { x := a.x - b.x, y := a.y - b.y, z := a.z - b.z }

/-- The cross product of two vectors. -/
def float3.cross (a b : float3) : float3 :=
  { x := a.y * b.z - a.z * b.y, y := a.z * b.x - a.x * b.z, z := a.x * b.y - a.y * b.x }

/-- The dot product of two vectors. -/
def float3.dot (a b : float3) : ℚ := a.x * b.x + a.y * b.y + a.z * b.z

/-- The coordinate of a vector along axis 0, 1 or 2. -/
def float3.coord (v : float3) : Nat → ℚ
  | 0 => v.x
  | 1 => v.y
  | _ => v.z

/-- The number of coordinates in which two vectors differ. -/
def float3.differingCoordinates (a b : float3) : Nat :=
  (if a.x = b.x then 0 else 1) + (if a.y = b.y then 0 else 1) + (if a.z = b.z then 0 else 1)

namespace EarthMesh

/-- The position of cube vertex `i`, the origin when there is no such vertex. -/
def CreateLightCube.position (i : Nat) : float3 :=
  (CreateLightCube.CubeVerts[i]?.map (fun vert => vert.1)).getD {}

/-- The centre of the cube: the mean of its eight corners. -/
def CreateLightCube.centre : float3 :=
  { x := ((CreateLightCube.CubeVerts.map (fun vert => vert.1.x)).sum) / 8
    y := ((CreateLightCube.CubeVerts.map (fun vert => vert.1.y)).sum) / 8
    z := ((CreateLightCube.CubeVerts.map (fun vert => vert.1.z)).sum) / 8 }

/-- The vector `(b - a) x (c - a)` of a triangle `(a, b, c)` of cube vertices. -/
def CreateLightCube.normal (t : Nat × Nat × Nat) : float3 :=
  ((CreateLightCube.position t.2.1).sub (CreateLightCube.position t.1)).cross
    ((CreateLightCube.position t.2.2).sub (CreateLightCube.position t.1))

/-- The six faces of the cube: an axis and the coordinate of the face along it. -/
def CreateLightCube.faces : List (Nat × ℚ) :=
  [(0, -(5 / 100)), (0, 5 / 100), (1, -(5 / 100)), (1, 5 / 100), (2, -(5 / 100)), (2, 5 / 100)]

/-- A cube vertex lies on a face. -/
def CreateLightCube.onFace (face : Nat × ℚ) (i : Nat) : Bool :=
  decide ((CreateLightCube.position i).coord face.1 = face.2)

/-- The triangles of the index list whose three vertices lie on a face. -/
def CreateLightCube.trianglesOn (face : Nat × ℚ) : List (Nat × Nat × Nat) :=
  (trianglesOf CreateLightCube.Indices).filter (fun t =>
    CreateLightCube.onFace face t.1 && CreateLightCube.onFace face t.2.1 &&
      CreateLightCube.onFace face t.2.2)

/-- The vertices of a triangle. -/
def CreateLightCube.corners (t : Nat × Nat × Nat) : List Nat := [t.1, t.2.1, t.2.2]

/-- The vertices of the first triangle that are vertices of the second. -/
def CreateLightCube.sharedCorners (s t : Nat × Nat × Nat) : List Nat :=
  (CreateLightCube.corners s).filter (fun i => decide (i ∈ CreateLightCube.corners t))

/-- Two triangles split a face along a diagonal: together they have four distinct
vertices, and they share two, which differ in two coordinates. -/
def CreateLightCube.splitsFace (s t : Nat × Nat × Nat) : Bool :=
  decide ((CreateLightCube.corners s ++ CreateLightCube.corners t).eraseDups.length = 4) &&
  match CreateLightCube.sharedCorners s t with
  | [i, j] =>
    decide ((CreateLightCube.position i).differingCoordinates (CreateLightCube.position j) = 2)
  | _ => false

end EarthMesh

/-- The vertex that the body of the vertex loop of `CreateEarthGrid` pushes when its counter
`index` holds `index`: the lines of the body from `xPos` to `newVertex.uv`. -/
def EarthMesh.CreateEarthGrid.newVertex (m_iNbGridSidePts index : Nat) : EarthMesh.Vertex :=
  let xPos : ℚ := ((index % m_iNbGridSidePts : Nat) : ℚ)
  let yPos : ℚ := ((index : ℚ) - xPos) / (m_iNbGridSidePts : ℚ)
  let u : ℚ := xPos / ((uintSub m_iNbGridSidePts 1 : Nat) : ℚ)
  let v : ℚ := yPos / ((uintSub m_iNbGridSidePts 1 : Nat) : ℚ)
  { uv := { x := u, y := v } }

/-- A triangle of grid vertices lies in the cell whose corner of lowest index is vertex
`i`: its three vertices are corners of that cell. -/
def inCell (n i : Nat) (t : Nat × Nat × Nat) : Bool :=
  decide (t.1 ∈ [i, i + 1, i + n, i + n + 1]) && decide (t.2.1 ∈ [i, i + 1, i + n, i + n + 1])
    && decide (t.2.2 ∈ [i, i + 1, i + n, i + n + 1])

/-- A sequence of calls of `UpdateGridResolution`, one for each resolution of the list. -/
def EarthMesh.UpdateGridResolutions (self : EarthMesh) : List Int → Option EarthMesh
  | [] => some self
  | r :: rest =>
    match self.UpdateGridResolution r with
    | none => none
    | some self => EarthMesh.UpdateGridResolutions self rest

/-! ## Sample data of the terrain sample -/

/-- A device for the sample data: buffers and textures get fixed handles. -/
def sampleDevice (ComputeShaders : Bool) : RenderDevice :=
  { Caps := { Features := { ComputeShaders := ComputeShaders } }
    CreateBuffer := fun Desc _ => Desc.uiSizeInBytes
    CreateUniformBuffer := fun Size _ => Size
    TextureFromFileSRV := fun FilePath _ => FilePath.length }

/-- A framework for the sample data: the base class stores what it is given, `normalize`
leaves its argument as it is, the base-class update changes nothing, the swap chain is
1280 by 720, and every transform is the identity. -/
def sampleFramework : Framework :=
  { SampleBaseInitialize := fun _ pEngineFactory pDevice ppContexts _ pSwapChain =>
      { m_pEngineFactory := some pEngineFactory, m_pDevice := some pDevice,
        m_pImmediateContext := ppContexts[0]?, m_pSwapChain := some pSwapChain }
    normalize := fun v => v
    SampleBaseUpdate := fun b _ _ => b
    SwapChainGetDesc := fun _ =>
      { ColorBufferFormat := 29, DepthBufferFormat := 40, Width := 1280, Height := 720 }
    Translation := fun _ _ _ => 1
    RotationZ := fun _ => 1
    RotationX := fun _ => 1
    Projection := fun _ _ _ _ _ => 1 }

/-- A user interface in which the window is open and nothing is touched. -/
def idleUI : ImGui :=
  { Begin := fun _ => true
    Checkbox := fun _ v => (false, v)
    SliderFloat := fun _ v _ _ => (false, v)
    SliderInt := fun _ v _ _ => (false, v) }

/-- A terrain sample as constructed, whose grid resolution was then set to `n`. -/
def terrainOf (n : Int) : TerrainRenderer :=
  { TerrainRenderer.new sampleFramework 0 0 with m_iNbGridSidePts := n }

/-- A terrain sample as constructed, with a device, a context and a swap chain in its base
class, grid resolution `n`, and a mouse wheel turned by `WheelDelta`. -/
def runningTerrain (n : Int) (WheelDelta : ℚ) : TerrainRenderer :=
  { terrainOf n with
    toSampleBase :=
      { m_pDevice := some (sampleDevice true), m_pImmediateContext := some 1,
        m_pSwapChain := some 2,
        m_InputController := { m_MouseState := { WheelDelta := WheelDelta } } } }

/-- An earth mesh of side `n` with a device, a context and a constants buffer, on which no
grid was built yet. -/
def gridMesh (n : Nat) : EarthMesh :=
  { m_pDevice := some (sampleDevice true), m_pContext := some 1, m_pVSConstants := some 3,
    m_fHeightScale := 1 / 10, m_iNbGridSidePts := n }

/-- An earth mesh as default-constructed, its two scalar members that no constructor writes
holding zero. -/
def emptyMesh : EarthMesh := { m_fHeightScale := 0, m_iNbGridSidePts := 0 }

/-! ## Loops and lists -/

theorem forLoop_zero {σ : Type} (body : σ → Nat → Option σ) (init : σ) :
    forLoop 0 body init = some init := by
  simp [forLoop]

theorem forLoop_succ {σ : Type} (n : Nat) (body : σ → Nat → Option σ) (init : σ) :
    forLoop (n + 1) body init = (forLoop n body init).bind (fun st => body st n) := by
  simp [forLoop, List.range_succ, List.foldlM_append]

theorem eraseDups_loop_eq_foldl {α : Type} [DecidableEq α] (l bs : List α) :
    List.eraseDups.loop l bs = List.foldl insertNew bs.reverse l := by
  induction l generalizing bs with
  | nil => simp [List.eraseDups.loop]
  | cons a as ih =>
    rw [List.eraseDups.loop]
    by_cases h : a ∈ bs
    · simp [h, insertNew, ih]
    · simp [h, insertNew, ih]

theorem foldl_insertNew_eq_eraseDups {α : Type} [DecidableEq α] (l : List α) :
    List.foldl insertNew [] l = l.eraseDups := by
  simp [List.eraseDups, eraseDups_loop_eq_foldl]

theorem mem_foldl_insertNew {α : Type} [DecidableEq α] (l acc : List α) (x : α) :
    x ∈ List.foldl insertNew acc l ↔ x ∈ acc ∨ x ∈ l := by
  induction l generalizing acc with
  | nil => simp
  | cons a as ih =>
    simp only [List.foldl_cons, ih, List.mem_cons]
    unfold insertNew
    by_cases h : a ∈ acc
    · simp only [h, if_true]
      constructor
      · rintro (h1 | h1)
        · exact Or.inl h1
        · exact Or.inr (Or.inr h1)
      · rintro (h1 | h1 | h1)
        · exact Or.inl h1
        · exact Or.inl (h1 ▸ h)
        · exact Or.inr h1
    · simp only [h, if_false, List.mem_append, List.mem_singleton]
      tauto

theorem nodup_foldl_insertNew {α : Type} [DecidableEq α] (l acc : List α) (h : acc.Nodup) :
    (List.foldl insertNew acc l).Nodup := by
  induction l generalizing acc with
  | nil => simpa using h
  | cons a as ih =>
    simp only [List.foldl_cons]
    apply ih
    unfold insertNew
    by_cases ha : a ∈ acc
    · simpa [ha] using h
    · simp only [ha, if_false]
      rw [List.nodup_append]
      refine ⟨h, List.nodup_singleton a, ?_⟩
      intro x hx hx1
      rw [List.mem_singleton] at hx1
      exact ha (hx1 ▸ hx)

theorem nodup_eraseDups {α : Type} [DecidableEq α] (l : List α) : l.eraseDups.Nodup := by
  rw [← foldl_insertNew_eq_eraseDups]
  exact nodup_foldl_insertNew l [] List.nodup_nil

theorem mem_eraseDups {α : Type} [DecidableEq α] (l : List α) (x : α) :
    x ∈ l.eraseDups ↔ x ∈ l := by
  rw [← foldl_insertNew_eq_eraseDups, mem_foldl_insertNew]
  simp

theorem length_eraseDups {α : Type} [DecidableEq α] (l : List α) :
    l.eraseDups.length = l.toFinset.card := by
  rw [← List.toFinset_card_of_nodup (nodup_eraseDups l)]
  congr 1
  ext x
  simp [mem_eraseDups]

/-! ## Input layouts and the pipeline scan -/

theorem DXSDKMESH_VERTEX_ELEMENTtoInputLayoutDesc_wellFormed
    (VertexElement : List DXSDKMESH_VERTEX_ELEMENT) (Stride : Nat) (Layout : InputLayoutDesc)
    (Elements : List LayoutElement) (r : InputLayoutDesc × List LayoutElement)
    (h : DXSDKMESH_VERTEX_ELEMENTtoInputLayoutDesc VertexElement Stride Layout Elements = some r) :
    r.1.WellFormed := by
  unfold DXSDKMESH_VERTEX_ELEMENTtoInputLayoutDesc at h
  simp only at h
  split at h
  · exact absurd h (by simp)
  · cases h
    rfl

theorem ShadowsSample.VBInputLayout_wellFormed (self : ShadowsSample) (vb : Nat)
    (L : InputLayoutDesc) (h : self.VBInputLayout vb = some L) : L.WellFormed := by
  unfold ShadowsSample.VBInputLayout at h
  split at h
  · rw [Option.map_eq_some'] at h
    obtain ⟨r, hr, rfl⟩ := h
    exact DXSDKMESH_VERTEX_ELEMENTtoInputLayoutDesc_wellFormed _ _ _ _ r hr
  · exact absurd h (by simp)

theorem IsSameLayout_iff (a b : InputLayoutDesc) (ha : a.WellFormed) (hb : b.WellFormed) :
    IsSameLayout a b = true ↔ a = b := by
  unfold InputLayoutDesc.WellFormed at ha hb
  obtain ⟨ea, na⟩ := a
  obtain ⟨eb, nb⟩ := b
  simp only at ha hb
  subst ha hb
  simp only [IsSameLayout, memcmpLayoutElements, Bool.and_eq_true, beq_iff_eq,
    InputLayoutDesc.mk.injEq]
  constructor
  · rintro ⟨h1, h2⟩
    rw [List.take_of_length_le (le_of_eq h1), List.take_of_length_le le_rfl] at h2
    exact ⟨h2, h1⟩
  · rintro ⟨h1, _⟩
    subst h1
    exact ⟨rfl, rfl⟩

theorem ShadowsSample.FindPSO_eq_indexOf (L : InputLayoutDesc) (hL : L.WellFormed)
    (psos : List PipelineState)
    (hp : ∀ p ∈ psos, (ShadowsSample.PSOLayout p).WellFormed) (n : Nat) :
    ShadowsSample.FindPSO L psos n = n + List.indexOf L (psos.map ShadowsSample.PSOLayout) := by
  induction psos generalizing n with
  | nil => simp [ShadowsSample.FindPSO]
  | cons p rest ih =>
    have hp1 : (ShadowsSample.PSOLayout p).WellFormed := hp p (List.mem_cons_self _ _)
    have hrest : ∀ q ∈ rest, (ShadowsSample.PSOLayout q).WellFormed :=
      fun q hq => hp q (List.mem_cons_of_mem _ hq)
    rw [ShadowsSample.FindPSO, List.map_cons, List.indexOf_cons]
    by_cases hs : ShadowsSample.PSOLayout p = L
    · have : IsSameLayout p.GetDesc.GraphicsPipeline.InputLayout L = true :=
        (IsSameLayout_iff _ _ hp1 hL).2 hs
      simp [this, hs]
    · have : ¬ IsSameLayout p.GetDesc.GraphicsPipeline.InputLayout L = true :=
        fun h => hs ((IsSameLayout_iff _ _ hp1 hL).1 h)
      rw [if_neg this, ih hrest]
      have hne : (ShadowsSample.PSOLayout p == L) = false := by simpa using hs
      simp only [hne, cond_false]
      omega

theorem eraseDups_concat {α : Type} [DecidableEq α] (l : List α) (x : α) :
    (l ++ [x]).eraseDups = insertNew l.eraseDups x := by
  rw [← foldl_insertNew_eq_eraseDups, ← foldl_insertNew_eq_eraseDups, List.foldl_append]
  rfl

theorem vectorResize_length {α : Type} (pad : α) (v : List α) (n : Nat) :
    (vectorResize pad v n).length = n := by
  simp only [vectorResize, List.length_append, List.length_take, List.length_replicate]
  omega

theorem ShadowsSample.PSOLayout_NewRenderMeshPSO (self : ShadowsSample) (L : InputLayoutDesc) :
    ShadowsSample.PSOLayout (self.NewRenderMeshPSO L) = L := rfl

theorem ShadowsSample.PSOLayout_NewRenderMeshShadowPSO (self : ShadowsSample)
    (L : InputLayoutDesc) :
    ShadowsSample.PSOLayout (self.NewRenderMeshShadowPSO L) = L := rfl

theorem ShadowsSample.map_PSOLayout_NewRenderMeshPSO (self : ShadowsSample)
    (acc : List InputLayoutDesc) :
    (acc.map self.NewRenderMeshPSO).map ShadowsSample.PSOLayout = acc := by
  rw [List.map_map]
  conv_rhs => rw [← List.map_id acc]
  exact List.map_congr_left (fun L _ => rfl)

theorem ShadowsSample.map_PSOLayout_NewRenderMeshShadowPSO (self : ShadowsSample)
    (acc : List InputLayoutDesc) :
    (acc.map self.NewRenderMeshShadowPSO).map ShadowsSample.PSOLayout = acc := by
  rw [List.map_map]
  conv_rhs => rw [← List.map_id acc]
  exact List.map_congr_left (fun L _ => rfl)

/-- The layouts for which a pipeline pair exists after the first `k` vertex buffers, when
`L vb` is the converted layout of vertex buffer `vb`. -/
theorem ShadowsSample.CreatePipelineStates.upTo_eq (self : ShadowsSample)
    (L : Nat → InputLayoutDesc)
    (hL : ∀ vb, vb < self.m_Mesh.GetNumVBs → self.VBInputLayout vb = some (L vb))
    (k : Nat) (hk : k ≤ self.m_Mesh.GetNumVBs) :
    ∃ PSOIndex : List Nat,
      ShadowsSample.CreatePipelineStates.upTo self k = some
        { self with
          m_PSOIndex := PSOIndex
          m_RenderMeshPSO := (((List.range k).map L).eraseDups).map self.NewRenderMeshPSO
          m_RenderMeshShadowPSO :=
            (((List.range k).map L).eraseDups).map self.NewRenderMeshShadowPSO } ∧
      PSOIndex.length = self.m_Mesh.GetNumVBs ∧
      ∀ vb, vb < k →
        PSOIndex[vb]? = some (List.indexOf (L vb) ((List.range k).map L).eraseDups) := by
  induction k with
  | zero =>
    refine ⟨vectorResize 0 self.m_PSOIndex self.m_Mesh.GetNumVBs, ?_,
      vectorResize_length _ _ _, ?_⟩
    · rfl
    · intro vb hvb
      exact absurd hvb (Nat.not_lt_zero _)
  | succ k ih =>
    obtain ⟨PSOIndex, hst, hlen, hidx⟩ := ih (Nat.le_of_succ_le hk)
    have hkn : k < self.m_Mesh.GetNumVBs := hk
    have hwfL : ∀ vb, vb < self.m_Mesh.GetNumVBs → (L vb).WellFormed :=
      fun vb hvb => self.VBInputLayout_wellFormed vb (L vb) (hL vb hvb)
    have hmem : ∀ x, x ∈ ((List.range k).map L).eraseDups → ∃ vb, vb < k ∧ L vb = x := by
      intro x hx
      rw [mem_eraseDups, List.mem_map] at hx
      obtain ⟨vb, hvb, rfl⟩ := hx
      exact ⟨vb, List.mem_range.1 hvb, rfl⟩
    have hwfacc : ∀ p ∈ (((List.range k).map L).eraseDups).map self.NewRenderMeshPSO,
        (ShadowsSample.PSOLayout p).WellFormed := by
      intro p hp
      rw [List.mem_map] at hp
      obtain ⟨x, hx, rfl⟩ := hp
      obtain ⟨vb, hvb, rfl⟩ := hmem x hx
      exact hwfL vb (Nat.lt_trans hvb hkn)
    have hfind := ShadowsSample.FindPSO_eq_indexOf (L k) (hwfL k hkn) _ hwfacc 0
    rw [ShadowsSample.map_PSOLayout_NewRenderMeshPSO, Nat.zero_add] at hfind
    have hacc : ((List.range (k + 1)).map L).eraseDups
        = insertNew ((List.range k).map L).eraseDups (L k) := by
      rw [List.range_succ, List.map_append, List.map_singleton, eraseDups_concat]
    have hassign : vectorAssign PSOIndex k
        (List.indexOf (L k) ((List.range k).map L).eraseDups)
        = some (PSOIndex.set k (List.indexOf (L k) ((List.range k).map L).eraseDups)) := by
      simp [vectorAssign, hlen, hkn]
    refine ⟨PSOIndex.set k (List.indexOf (L k) ((List.range k).map L).eraseDups), ?_, ?_, ?_⟩
    · unfold ShadowsSample.CreatePipelineStates.upTo at hst ⊢
      rw [forLoop_succ, hst, Option.some_bind]
      unfold ShadowsSample.CreatePipelineStates.iteration
      have hlay : ShadowsSample.VBInputLayout
          { self with
            m_PSOIndex := PSOIndex
            m_RenderMeshPSO := (((List.range k).map L).eraseDups).map self.NewRenderMeshPSO
            m_RenderMeshShadowPSO :=
              (((List.range k).map L).eraseDups).map self.NewRenderMeshShadowPSO } k
          = some (L k) := hL k hkn
      rw [hlay]
      simp only [ShadowsSample.CreatePipelineStates.resolve, hfind, hassign, List.length_map,
        List.indexOf_lt_length, hacc, insertNew]
      by_cases hin : L k ∈ ((List.range k).map L).eraseDups
      · simp [hin]
      · simp only [hin, if_false, List.map_append, List.map_singleton]
        rfl
    · simp [hlen]
    · intro vb hvb
      rw [hacc]
      by_cases hvk : vb = k
      · subst hvk
        rw [List.getElem?_set_self (by omega)]
        unfold insertNew
        by_cases hin : L vb ∈ ((List.range vb).map L).eraseDups
        · simp [hin]
        · simp only [hin, if_false]
          rw [List.indexOf_append_of_not_mem hin, List.indexOf_eq_length.2 hin]
          simp
      · have hvb1 : vb < k := by omega
        rw [List.getElem?_set_ne (fun h => hvk h.symm), hidx vb hvb1]
        have hin : L vb ∈ ((List.range k).map L).eraseDups := by
          rw [mem_eraseDups]
          exact List.mem_map.2 ⟨vb, List.mem_range.2 hvb1, rfl⟩
        unfold insertNew
        by_cases hk1 : L k ∈ ((List.range k).map L).eraseDups
        · simp [hk1]
        · simp only [hk1, if_false]
          rw [List.indexOf_append_of_mem hin]

theorem DXSDKMESH_VERTEX_ELEMENTtoInputLayoutDesc.loop_isSome (Stride : Nat)
    (Decl : List DXSDKMESH_VERTEX_ELEMENT) (h : ∃ e ∈ Decl, e.Stream = 0xFF)
    (Elements : List LayoutElement) :
    (DXSDKMESH_VERTEX_ELEMENTtoInputLayoutDesc.loop Stride Decl Elements).isSome = true := by
  induction Decl generalizing Elements with
  | nil =>
    obtain ⟨e, he, _⟩ := h
    exact absurd he (List.not_mem_nil e)
  | cons SrcElem rest ih =>
    unfold DXSDKMESH_VERTEX_ELEMENTtoInputLayoutDesc.loop
    by_cases hs : SrcElem.Stream = 0xFF
    · simp [hs]
    · have hrest : ∃ e ∈ rest, e.Stream = 0xFF := by
        obtain ⟨e, he, hes⟩ := h
        rcases List.mem_cons.1 he with rfl | he1
        · exact absurd hes hs
        · exact ⟨e, he1, hes⟩
      simp only [hs, if_false]
      split
      · exact ih hrest _
      · exact ih hrest _

theorem ShadowsSample.VBInputLayout_isSome (self : ShadowsSample)
    (hterm : self.m_Mesh.DeclsTerminated) (vb : Nat) (hvb : vb < self.m_Mesh.GetNumVBs) :
    (self.VBInputLayout vb).isSome = true := by
  have hlt : vb < self.m_Mesh.VertexBufferArray.length := hvb
  have hmem : self.m_Mesh.VertexBufferArray[vb] ∈ self.m_Mesh.VertexBufferArray :=
    List.getElem_mem hlt
  have hsome := DXSDKMESH_VERTEX_ELEMENTtoInputLayoutDesc.loop_isSome
    self.m_Mesh.VertexBufferArray[vb].StrideBytes _ (hterm _ hmem) []
  obtain ⟨E, hE⟩ := Option.isSome_iff_exists.1 hsome
  simp [ShadowsSample.VBInputLayout, DXSDKMesh.VBElements, DXSDKMesh.GetVertexStride,
    List.getElem?_eq_getElem hlt, DXSDKMESH_VERTEX_ELEMENTtoInputLayoutDesc, vectorClear, hE]

theorem ShadowsSample.VBInputLayout_eq_ConvertedLayout (self : ShadowsSample)
    (hterm : self.m_Mesh.DeclsTerminated) (vb : Nat) (hvb : vb < self.m_Mesh.GetNumVBs) :
    self.VBInputLayout vb = some (self.ConvertedLayout vb) := by
  obtain ⟨x, hx⟩ := Option.isSome_iff_exists.1 (self.VBInputLayout_isSome hterm vb hvb)
  unfold ShadowsSample.ConvertedLayout
  rw [hx]
  rfl

/-- What `CreatePipelineStates` leaves behind, for a mesh whose vertex declarations are
terminated: one pipeline pair per distinct vertex-buffer layout, in order of first
appearance, and in `m_PSOIndex` the position of each vertex buffer's layout. All other
members are unchanged. -/
theorem ShadowsSample.CreatePipelineStates_eq (self : ShadowsSample)
    (hterm : self.m_Mesh.DeclsTerminated) :
    ∃ PSOIndex : List Nat,
      self.CreatePipelineStates = some
        { self with
          m_PSOIndex := PSOIndex
          m_RenderMeshPSO := self.VBLayouts.eraseDups.map self.NewRenderMeshPSO
          m_RenderMeshShadowPSO := self.VBLayouts.eraseDups.map self.NewRenderMeshShadowPSO } ∧
      PSOIndex.length = self.m_Mesh.GetNumVBs ∧
      ∀ vb, vb < self.m_Mesh.GetNumVBs →
        PSOIndex[vb]? = some (List.indexOf (self.ConvertedLayout vb) self.VBLayouts.eraseDups) :=
  ShadowsSample.CreatePipelineStates.upTo_eq self self.ConvertedLayout
    (self.VBInputLayout_eq_ConvertedLayout hterm) self.m_Mesh.GetNumVBs (Nat.le_refl _)


theorem ShadowsSample.ConvertedLayout_mem_VBLayouts (self : ShadowsSample) (vb : Nat)
    (hvb : vb < self.m_Mesh.GetNumVBs) :
    self.ConvertedLayout vb ∈ self.VBLayouts.eraseDups := by
  rw [mem_eraseDups]
  exact List.mem_map.2 ⟨vb, List.mem_range.2 hvb, rfl⟩

/-- In a duplicate-free list of layouts with one pipeline per layout, the pipeline at the
position of `x` has layout `x`, and no pipeline elsewhere has. -/
theorem ShadowsSample.pipeline_at_indexOf (f : InputLayoutDesc → PipelineState)
    (hf : ∀ L, ShadowsSample.PSOLayout (f L) = L) (acc : List InputLayoutDesc)
    (hnd : acc.Nodup) (x : InputLayoutDesc) (hx : x ∈ acc) :
    (∃ p, (acc.map f)[List.indexOf x acc]? = some p ∧ ShadowsSample.PSOLayout p = x) ∧
    ∀ j q, (acc.map f)[j]? = some q → ShadowsSample.PSOLayout q = x →
      j = List.indexOf x acc := by
  have hlt : List.indexOf x acc < acc.length := List.indexOf_lt_length.2 hx
  constructor
  · refine ⟨f x, ?_, hf x⟩
    rw [List.getElem?_map, List.getElem?_eq_getElem hlt, List.getElem_indexOf hlt]
    rfl
  · intro j q hj hq
    rw [List.getElem?_map] at hj
    rcases hacc : acc[j]? with _ | y
    · rw [hacc] at hj
      exact absurd hj (by simp)
    · rw [hacc] at hj
      simp only [Option.map_some', Option.some.injEq] at hj
      subst hj
      rw [hf] at hq
      subst hq
      obtain ⟨hjlt, hy⟩ := List.getElem?_eq_some_iff.1 hacc
      subst hy
      exact (List.indexOf_getElem hnd j hjlt).symm

/-- C1, as stated, fails. The mesh `twoStreamMesh` has two vertex buffers of different
layouts and a single submesh whose first vertex buffer is buffer 0: `CreatePipelineStates`
creates two pipeline pairs, while the submeshes have one distinct layout. -/
theorem ShadowsSample.CreatePipelineStates_count_counterexample :
    (sampleOf twoStreamMesh 1 4).m_Mesh.DeclsTerminated ∧
    (∀ SubMesh ∈ twoStreamMesh.MeshArray, SubMesh.VertexBuffers 0 < twoStreamMesh.GetNumVBs) ∧
    (sampleOf twoStreamMesh 1 4).CreatePipelineStates.map
      (fun st => (st.m_RenderMeshPSO.length, st.m_RenderMeshShadowPSO.length)) = some (2, 2) ∧
    (sampleOf twoStreamMesh 1 4).SubmeshLayouts.toFinset.card = 1 := by
  decide

/-- C1 (amended). For a mesh whose vertex declarations are terminated, `CreatePipelineStates`
returns, and the number of main pipelines, and equally of shadow pipelines, is the number of
distinct converted layouts across the vertex buffers `0 .. NumVBs-1`. When every submesh's
first vertex buffer is a vertex buffer of the mesh and every vertex buffer is the first
vertex buffer of some submesh, this is the number of distinct layouts across the submeshes. -/
theorem ShadowsSample.CreatePipelineStates_count (self : ShadowsSample)
    (hterm : self.m_Mesh.DeclsTerminated) :
    ∃ st, self.CreatePipelineStates = some st ∧
      st.m_RenderMeshPSO.length = self.VBLayouts.toFinset.card ∧
      st.m_RenderMeshShadowPSO.length = self.VBLayouts.toFinset.card ∧
      ((∀ SubMesh ∈ self.m_Mesh.MeshArray,
          SubMesh.VertexBuffers 0 < self.m_Mesh.GetNumVBs) →
       (∀ vb, vb < self.m_Mesh.GetNumVBs →
          ∃ SubMesh ∈ self.m_Mesh.MeshArray, SubMesh.VertexBuffers 0 = vb) →
       st.m_RenderMeshPSO.length = self.SubmeshLayouts.toFinset.card ∧
       st.m_RenderMeshShadowPSO.length = self.SubmeshLayouts.toFinset.card) := by
  obtain ⟨PSOIndex, hst, _, _⟩ := self.CreatePipelineStates_eq hterm
  refine ⟨_, hst, ?_, ?_, ?_⟩
  · simp only [List.length_map, length_eraseDups]
  · simp only [List.length_map, length_eraseDups]
  · intro hvalid hcover
    have hset : self.SubmeshLayouts.toFinset = self.VBLayouts.toFinset := by
      ext x
      simp only [List.mem_toFinset, ShadowsSample.SubmeshLayouts, ShadowsSample.VBLayouts,
        List.mem_map, List.mem_range]
      constructor
      · rintro ⟨SubMesh, hmem, rfl⟩
        exact ⟨SubMesh.VertexBuffers 0, hvalid SubMesh hmem, rfl⟩
      · rintro ⟨vb, hvb, rfl⟩
        obtain ⟨SubMesh, hmem, heq⟩ := hcover vb hvb
        exact ⟨SubMesh, hmem, by rw [heq]⟩
    simp only [List.length_map, length_eraseDups, hset, and_self]

/-- Witness of C1 (amended): the mesh `threeBufferMesh`, with three vertex buffers of two
distinct layouts, each the first vertex buffer of one submesh. -/
theorem ShadowsSample.CreatePipelineStates_count_witness :
    (sampleOf threeBufferMesh 1 4).m_Mesh.DeclsTerminated ∧
    (sampleOf threeBufferMesh 1 4).VBLayouts.toFinset.card = 2 ∧
    (∀ SubMesh ∈ (sampleOf threeBufferMesh 1 4).m_Mesh.MeshArray,
      SubMesh.VertexBuffers 0 < (sampleOf threeBufferMesh 1 4).m_Mesh.GetNumVBs) ∧
    (∀ vb, vb < (sampleOf threeBufferMesh 1 4).m_Mesh.GetNumVBs →
      ∃ SubMesh ∈ (sampleOf threeBufferMesh 1 4).m_Mesh.MeshArray,
        SubMesh.VertexBuffers 0 = vb) ∧
    ∃ st, (sampleOf threeBufferMesh 1 4).CreatePipelineStates = some st ∧
      st.m_RenderMeshPSO.length = (sampleOf threeBufferMesh 1 4).VBLayouts.toFinset.card ∧
      st.m_RenderMeshShadowPSO.length = (sampleOf threeBufferMesh 1 4).VBLayouts.toFinset.card ∧
      ((∀ SubMesh ∈ (sampleOf threeBufferMesh 1 4).m_Mesh.MeshArray,
          SubMesh.VertexBuffers 0 < (sampleOf threeBufferMesh 1 4).m_Mesh.GetNumVBs) →
       (∀ vb, vb < (sampleOf threeBufferMesh 1 4).m_Mesh.GetNumVBs →
          ∃ SubMesh ∈ (sampleOf threeBufferMesh 1 4).m_Mesh.MeshArray,
            SubMesh.VertexBuffers 0 = vb) →
       st.m_RenderMeshPSO.length = (sampleOf threeBufferMesh 1 4).SubmeshLayouts.toFinset.card ∧
       st.m_RenderMeshShadowPSO.length =
         (sampleOf threeBufferMesh 1 4).SubmeshLayouts.toFinset.card) :=
  ⟨by decide, by decide, by decide, by decide,
    ShadowsSample.CreatePipelineStates_count (sampleOf threeBufferMesh 1 4) (by decide)⟩

/-- C2. For a mesh whose vertex declarations are terminated, `CreatePipelineStates` returns;
the input layouts of the main pipelines are the converted layouts of vertex buffers
`0 .. NumVBs-1` with duplicates removed, first occurrences kept; and for every vertex buffer
`vb`, `m_PSOIndex[vb]` is the position of its layout in that list, the pipeline there has
that layout, and no other pipeline has. -/
theorem ShadowsSample.CreatePipelineStates_layouts (self : ShadowsSample)
    (hterm : self.m_Mesh.DeclsTerminated) :
    ∃ st, self.CreatePipelineStates = some st ∧
      st.m_RenderMeshPSO.map ShadowsSample.PSOLayout = self.VBLayouts.eraseDups ∧
      ∀ vb, vb < self.m_Mesh.GetNumVBs →
        self.VBInputLayout vb = some (self.ConvertedLayout vb) ∧
        st.m_PSOIndex[vb]? = some (List.indexOf (self.ConvertedLayout vb)
          (st.m_RenderMeshPSO.map ShadowsSample.PSOLayout)) ∧
        (∃ i p, st.m_PSOIndex[vb]? = some i ∧ st.m_RenderMeshPSO[i]? = some p ∧
          ShadowsSample.PSOLayout p = self.ConvertedLayout vb) ∧
        ∀ j q, st.m_RenderMeshPSO[j]? = some q →
          ShadowsSample.PSOLayout q = self.ConvertedLayout vb → st.m_PSOIndex[vb]? = some j := by
  obtain ⟨PSOIndex, hst, _, hidx⟩ := self.CreatePipelineStates_eq hterm
  refine ⟨_, hst, self.map_PSOLayout_NewRenderMeshPSO _, ?_⟩
  intro vb hvb
  obtain ⟨⟨p, hp, hpl⟩, huniq⟩ := ShadowsSample.pipeline_at_indexOf self.NewRenderMeshPSO
    (fun L => rfl) self.VBLayouts.eraseDups (nodup_eraseDups _) (self.ConvertedLayout vb)
    (self.ConvertedLayout_mem_VBLayouts vb hvb)
  refine ⟨self.VBInputLayout_eq_ConvertedLayout hterm vb hvb, ?_, ?_, ?_⟩
  · show PSOIndex[vb]? = _
    rw [hidx vb hvb, self.map_PSOLayout_NewRenderMeshPSO]
  · exact ⟨_, p, hidx vb hvb, hp, hpl⟩
  · intro j q hj hq
    show PSOIndex[vb]? = _
    rw [hidx vb hvb, huniq j q hj hq]

/-- Witness of C2: the mesh `threeBufferMesh`. -/
theorem ShadowsSample.CreatePipelineStates_layouts_witness :
    (sampleOf threeBufferMesh 1 4).m_Mesh.DeclsTerminated ∧
    ∃ st, (sampleOf threeBufferMesh 1 4).CreatePipelineStates = some st ∧
      st.m_RenderMeshPSO.map ShadowsSample.PSOLayout
        = (sampleOf threeBufferMesh 1 4).VBLayouts.eraseDups ∧
      ∀ vb, vb < (sampleOf threeBufferMesh 1 4).m_Mesh.GetNumVBs →
        (sampleOf threeBufferMesh 1 4).VBInputLayout vb
          = some ((sampleOf threeBufferMesh 1 4).ConvertedLayout vb) ∧
        st.m_PSOIndex[vb]? = some (List.indexOf ((sampleOf threeBufferMesh 1 4).ConvertedLayout vb)
          (st.m_RenderMeshPSO.map ShadowsSample.PSOLayout)) ∧
        (∃ i p, st.m_PSOIndex[vb]? = some i ∧ st.m_RenderMeshPSO[i]? = some p ∧
          ShadowsSample.PSOLayout p = (sampleOf threeBufferMesh 1 4).ConvertedLayout vb) ∧
        ∀ j q, st.m_RenderMeshPSO[j]? = some q →
          ShadowsSample.PSOLayout q = (sampleOf threeBufferMesh 1 4).ConvertedLayout vb →
          st.m_PSOIndex[vb]? = some j :=
  ⟨by decide,
    ShadowsSample.CreatePipelineStates_layouts (sampleOf threeBufferMesh 1 4) (by decide)⟩

/-- C3. Pipeline resolution is idempotent. For a mesh whose vertex declarations are
terminated and two vertex buffers `a < b` with identical converted layouts,
`CreatePipelineStates` leaves `m_PSOIndex[a] = m_PSOIndex[b]`, and the iteration of its loop
for `b` creates no pipeline: both pipeline vectors are the same before and after it. -/
theorem ShadowsSample.CreatePipelineStates_idempotent (self : ShadowsSample)
    (hterm : self.m_Mesh.DeclsTerminated) (a b : Nat) (hab : a < b)
    (hb : b < self.m_Mesh.GetNumVBs)
    (hsame : self.VBInputLayout a = self.VBInputLayout b) :
    ∃ st before after i,
      self.CreatePipelineStates = some st ∧
      st.m_PSOIndex[a]? = some i ∧ st.m_PSOIndex[b]? = some i ∧
      ShadowsSample.CreatePipelineStates.upTo self b = some before ∧
      ShadowsSample.CreatePipelineStates.iteration before b = some after ∧
      ShadowsSample.CreatePipelineStates.upTo self (b + 1) = some after ∧
      after.m_RenderMeshPSO = before.m_RenderMeshPSO ∧
      after.m_RenderMeshShadowPSO = before.m_RenderMeshShadowPSO ∧
      after.m_RenderMeshPSO.length = before.m_RenderMeshPSO.length ∧
      after.m_RenderMeshShadowPSO.length = before.m_RenderMeshShadowPSO.length := by
  have hconv : self.ConvertedLayout a = self.ConvertedLayout b := by
    unfold ShadowsSample.ConvertedLayout
    rw [hsame]
  obtain ⟨PSOIndex, hst, _, hidx⟩ := self.CreatePipelineStates_eq hterm
  obtain ⟨idxB, hbefore, _, _⟩ := ShadowsSample.CreatePipelineStates.upTo_eq self
    self.ConvertedLayout (self.VBInputLayout_eq_ConvertedLayout hterm) b (Nat.le_of_lt hb)
  obtain ⟨idxA, hafter, _, _⟩ := ShadowsSample.CreatePipelineStates.upTo_eq self
    self.ConvertedLayout (self.VBInputLayout_eq_ConvertedLayout hterm) (b + 1) hb
  have hiter := hafter
  have hbefore1 := hbefore
  unfold ShadowsSample.CreatePipelineStates.upTo at hiter hbefore1
  rw [forLoop_succ, hbefore1, Option.some_bind] at hiter
  have hacc : ((List.range (b + 1)).map self.ConvertedLayout).eraseDups
      = ((List.range b).map self.ConvertedLayout).eraseDups := by
    rw [List.range_succ, List.map_append, List.map_singleton, eraseDups_concat]
    have hin : self.ConvertedLayout b ∈ ((List.range b).map self.ConvertedLayout).eraseDups := by
      rw [mem_eraseDups, ← hconv]
      exact List.mem_map.2 ⟨a, List.mem_range.2 hab, rfl⟩
    simp [insertNew, hin]
  refine ⟨_, _, _, _, hst, hidx a (Nat.lt_trans hab hb), ?_, hbefore, hiter, hafter,
    ?_, ?_, ?_, ?_⟩
  · show PSOIndex[b]? = _
    rw [hidx b hb, hconv]
  · show List.map _ _ = List.map _ _
    rw [hacc]
  · show List.map _ _ = List.map _ _
    rw [hacc]
  · show (List.map _ _).length = (List.map _ _).length
    rw [hacc]
  · show (List.map _ _).length = (List.map _ _).length
    rw [hacc]

/-- Witness of C3: vertex buffers 0 and 2 of `threeBufferMesh` have the same layout. -/
theorem ShadowsSample.CreatePipelineStates_idempotent_witness :
    (sampleOf threeBufferMesh 1 4).VBInputLayout 0
      = (sampleOf threeBufferMesh 1 4).VBInputLayout 2 ∧
    ∃ st before after i,
      (sampleOf threeBufferMesh 1 4).CreatePipelineStates = some st ∧
      st.m_PSOIndex[0]? = some i ∧ st.m_PSOIndex[2]? = some i ∧
      ShadowsSample.CreatePipelineStates.upTo (sampleOf threeBufferMesh 1 4) 2 = some before ∧
      ShadowsSample.CreatePipelineStates.iteration before 2 = some after ∧
      ShadowsSample.CreatePipelineStates.upTo (sampleOf threeBufferMesh 1 4) (2 + 1)
        = some after ∧
      after.m_RenderMeshPSO = before.m_RenderMeshPSO ∧
      after.m_RenderMeshShadowPSO = before.m_RenderMeshShadowPSO ∧
      after.m_RenderMeshPSO.length = before.m_RenderMeshPSO.length ∧
      after.m_RenderMeshShadowPSO.length = before.m_RenderMeshShadowPSO.length :=
  ⟨by decide,
    ShadowsSample.CreatePipelineStates_idempotent (sampleOf threeBufferMesh 1 4) (by decide) 0 2
      (by decide) (by decide) (by decide)⟩

/-- C4. Pipeline resolution is injective on layout content. For a mesh whose vertex
declarations are terminated and two vertex buffers whose converted layouts differ,
`CreatePipelineStates` leaves different indices in `m_PSOIndex` for them. -/
theorem ShadowsSample.CreatePipelineStates_injective (self : ShadowsSample)
    (hterm : self.m_Mesh.DeclsTerminated) (a b : Nat)
    (ha : a < self.m_Mesh.GetNumVBs) (hb : b < self.m_Mesh.GetNumVBs)
    (hdiff : self.VBInputLayout a ≠ self.VBInputLayout b) :
    ∃ st i j,
      self.CreatePipelineStates = some st ∧
      st.m_PSOIndex[a]? = some i ∧ st.m_PSOIndex[b]? = some j ∧ i ≠ j := by
  obtain ⟨PSOIndex, hst, _, hidx⟩ := self.CreatePipelineStates_eq hterm
  refine ⟨_, _, _, hst, hidx a ha, hidx b hb, ?_⟩
  intro heq
  apply hdiff
  rw [self.VBInputLayout_eq_ConvertedLayout hterm a ha,
    self.VBInputLayout_eq_ConvertedLayout hterm b hb]
  have hla := List.indexOf_lt_length.2 (self.ConvertedLayout_mem_VBLayouts a ha)
  have hlb := List.indexOf_lt_length.2 (self.ConvertedLayout_mem_VBLayouts b hb)
  have h1 := List.getElem_indexOf hla
  have h2 := List.getElem_indexOf hlb
  rw [← h1, ← h2]
  congr 1
  simp only [heq]

/-- Witness of C4: vertex buffers 0 and 1 of `threeBufferMesh` have different layouts. -/
theorem ShadowsSample.CreatePipelineStates_injective_witness :
    (sampleOf threeBufferMesh 1 4).VBInputLayout 0
      ≠ (sampleOf threeBufferMesh 1 4).VBInputLayout 1 ∧
    ∃ st i j,
      (sampleOf threeBufferMesh 1 4).CreatePipelineStates = some st ∧
      st.m_PSOIndex[0]? = some i ∧ st.m_PSOIndex[1]? = some j ∧ i ≠ j :=
  ⟨by decide,
    ShadowsSample.CreatePipelineStates_injective (sampleOf threeBufferMesh 1 4) (by decide) 0 1
      (by decide) (by decide) (by decide)⟩

/-! ## The commands of `DrawMesh` -/

theorem forLoop_list {β γ : Type} (xs : List β) (body : List γ → Nat → Option (List γ))
    (seg : β → List γ)
    (h : ∀ ctx i x, xs[i]? = some x → body ctx i = some (ctx ++ seg x)) (ctx : List γ) :
    forLoop xs.length body ctx = some (ctx ++ xs.flatMap seg) := by
  have key : ∀ n, n ≤ xs.length →
      forLoop n body ctx = some (ctx ++ (xs.take n).flatMap seg) := by
    intro n
    induction n with
    | zero => intro _; simp [forLoop_zero]
    | succ n ih =>
      intro hn
      have hlt : n < xs.length := hn
      rw [forLoop_succ, ih (Nat.le_of_lt hlt), Option.some_bind,
        h _ n xs[n] (List.getElem?_eq_getElem hlt), List.take_succ,
        List.getElem?_eq_getElem hlt]
      simp only [Option.toList, List.flatMap_append, List.flatMap_singleton, List.append_assoc]
  rw [key xs.length (Nat.le_refl _), List.take_length]

theorem forLoop_range {γ : Type} (n : Nat) (body : List γ → Nat → Option (List γ))
    (seg : Nat → List γ)
    (h : ∀ ctx i, i < n → body ctx i = some (ctx ++ seg i)) (ctx : List γ) :
    forLoop n body ctx = some (ctx ++ (List.range n).flatMap seg) := by
  have hlen : (List.range n).length = n := List.length_range n
  have := forLoop_list (List.range n) body seg (fun ctx i x hx => by
    obtain ⟨hi, hxi⟩ := List.getElem?_eq_some_iff.1 hx
    rw [List.getElem_range] at hxi
    subst hxi
    exact h ctx i (by simpa using hi)) ctx
  rwa [hlen] at this

theorem ShadowsSample.DrawMesh_subset_eq (self : ShadowsSample) (bIsShadowPass : Bool)
    (meshIdx : Nat) (SubMesh : DXSDKMESH_MESH)
    (hmesh : self.m_Mesh.MeshArray[meshIdx]? = some SubMesh)
    (pCtx : DeviceContext) (subsetIdx : Nat) (Subset : DXSDKMESH_SUBSET)
    (hsub : SubMesh.Subsets[subsetIdx]? = some Subset)
    (hmat : Subset.MaterialID < (self.SRBVector bIsShadowPass).length) :
    ShadowsSample.DrawMesh.subset self bIsShadowPass meshIdx SubMesh.IBFormat pCtx subsetIdx
      = some (pCtx ++ self.SubsetCommands bIsShadowPass SubMesh Subset) := by
  have hget : self.m_Mesh.GetSubset meshIdx subsetIdx = some Subset := by
    simp [DXSDKMesh.GetSubset, hmesh, hsub]
  have hsrb : (self.SRBVector bIsShadowPass)[Subset.MaterialID]?
      = some ((self.SRBVector bIsShadowPass)[Subset.MaterialID]) :=
    List.getElem?_eq_getElem hmat
  unfold ShadowsSample.DrawMesh.subset
  rw [hget]
  unfold ShadowsSample.SRBVector at hsrb
  simp only [hsrb]
  simp only [ShadowsSample.SubsetCommands, ShadowsSample.SRBOf, ShadowsSample.SRBVector, hsrb,
    Option.join, Option.some_bind, id, ShadowsSample.DrawAttribsOf, List.append_assoc,
    List.singleton_append]

theorem ShadowsSample.DrawMesh_mesh_eq (self : ShadowsSample) (bIsShadowPass : Bool)
    (hready : self.DrawReady) (pCtx : DeviceContext) (meshIdx : Nat) (SubMesh : DXSDKMESH_MESH)
    (hmesh : self.m_Mesh.MeshArray[meshIdx]? = some SubMesh) :
    (self.PSOOf bIsShadowPass SubMesh).isSome = true ∧
    ShadowsSample.DrawMesh.mesh self bIsShadowPass pCtx meshIdx
      = some (pCtx ++ self.SubMeshCommands bIsShadowPass SubMesh) := by
  have hmem : SubMesh ∈ self.m_Mesh.MeshArray := List.getElem?_mem hmesh
  obtain ⟨hvb, hpso, hmat⟩ := hready SubMesh hmem
  have hidx : self.m_PSOIndex[SubMesh.VertexBuffers 0]?
      = some (self.m_PSOIndex[SubMesh.VertexBuffers 0]) := List.getElem?_eq_getElem hvb
  obtain ⟨hmain, hshadow⟩ := hpso _ hidx
  have hlt : self.m_PSOIndex[SubMesh.VertexBuffers 0] < (self.PSOVector bIsShadowPass).length := by
    unfold ShadowsSample.PSOVector
    cases bIsShadowPass
    · simpa using hmain
    · simpa using hshadow
  have hp : (self.PSOVector bIsShadowPass)[self.m_PSOIndex[SubMesh.VertexBuffers 0]]?
      = some ((self.PSOVector bIsShadowPass)[self.m_PSOIndex[SubMesh.VertexBuffers 0]]) :=
    List.getElem?_eq_getElem hlt
  have hof : self.PSOOf bIsShadowPass SubMesh
      = some ((self.PSOVector bIsShadowPass)[self.m_PSOIndex[SubMesh.VertexBuffers 0]]) := by
    simp [ShadowsSample.PSOOf, hidx, hp]
  refine ⟨by rw [hof]; rfl, ?_⟩
  have hloop := forLoop_list SubMesh.Subsets
    (ShadowsSample.DrawMesh.subset self bIsShadowPass meshIdx SubMesh.IBFormat)
    (self.SubsetCommands bIsShadowPass SubMesh)
    (fun ctx i x hx => self.DrawMesh_subset_eq bIsShadowPass meshIdx SubMesh hmesh ctx i x hx
      (by
        have := hmat x (List.getElem?_mem hx)
        unfold ShadowsSample.SRBVector
        cases bIsShadowPass
        · simpa using this.1
        · simpa using this.2))
  unfold ShadowsSample.DrawMesh.mesh
  simp only [DXSDKMesh.GetMesh, DXSDKMesh.GetMeshVertexBuffer0, DXSDKMesh.GetMeshIndexBuffer,
    DXSDKMesh.GetIBFormat, hmesh, Option.map_some', hidx]
  unfold ShadowsSample.PSOVector at hp
  simp only [hp]
  unfold DXSDKMESH_MESH.NumSubsets
  rw [hloop]
  simp only [ShadowsSample.SubMeshCommands, hof, List.append_assoc, List.singleton_append,
    List.cons_append, List.nil_append]
  rfl

/-- With every access in range, `DrawMesh` returns, and appends the commands of the
submeshes to the context. -/
theorem ShadowsSample.DrawMesh_eq (self : ShadowsSample) (bIsShadowPass : Bool)
    (hready : self.DrawReady) (pCtx : DeviceContext) :
    self.DrawMesh pCtx bIsShadowPass = some (pCtx ++ self.MeshCommands bIsShadowPass) :=
  forLoop_list self.m_Mesh.MeshArray (ShadowsSample.DrawMesh.mesh self bIsShadowPass)
    (self.SubMeshCommands bIsShadowPass)
    (fun ctx i x hx => (self.DrawMesh_mesh_eq bIsShadowPass hready ctx i x hx).2) pCtx

/-! ## The commands of a frame -/

/-- With every access of `DrawMesh` in range, `RenderShadowMap` returns, and appends one
shadow pass per cascade, then the conversion step. -/
theorem ShadowsSample.RenderShadowMap_eq (self : ShadowsSample) (hready : self.DrawReady)
    (pCtx : DeviceContext) :
    self.RenderShadowMap pCtx = some (pCtx ++
      self.ShadowPasses self.m_LightAttribs.ShadowAttribs.iNumCascades.toNat ++
      self.ConversionStep) := by
  have hloop := forLoop_range self.m_LightAttribs.ShadowAttribs.iNumCascades.toNat
    (ShadowsSample.RenderShadowMap.iteration self) self.ShadowPass
    (fun ctx i _ => by
      unfold ShadowsSample.RenderShadowMap.iteration
      simp only []
      rw [self.DrawMesh_eq true hready]
      simp only [ShadowsSample.ShadowPass, ShadowsSample.CascadePrologue, List.append_assoc,
        List.singleton_append, List.cons_append, List.nil_append]) pCtx
  unfold ShadowsSample.RenderShadowMap
  simp only []
  rw [hloop]
  simp only [ShadowsSample.ShadowPasses, ShadowsSample.ConversionStep]
  split
  · rfl
  · simp

/-- With every access in range, `Render` returns, and appends the shadow passes, the
conversion step, the main prologue, the transition and one `DrawMesh` in main mode. -/
theorem ShadowsSample.Render_eq (self : ShadowsSample) (hready : self.FrameReady)
    (pCtx : DeviceContext) :
    ∃ pso0 srb0, self.m_RenderMeshPSO[0]? = some pso0 ∧ self.m_SRBs[0]? = some srb0 ∧
      self.Render pCtx = some (pCtx ++
        self.ShadowPasses self.m_LightAttribs.ShadowAttribs.iNumCascades.toNat ++
        self.ConversionStep ++ self.MainPrologue ++
        [Command.TransitionShaderResources pso0 srb0] ++ self.MeshCommands false) := by
  obtain ⟨hdraw, hpso, hsrb⟩ := hready
  refine ⟨self.m_RenderMeshPSO[0], self.m_SRBs[0], List.getElem?_eq_getElem hpso,
    List.getElem?_eq_getElem hsrb, ?_⟩
  unfold ShadowsSample.Render
  rw [self.RenderShadowMap_eq hdraw]
  simp only [List.getElem?_eq_getElem hpso, List.getElem?_eq_getElem hsrb]
  rw [self.DrawMesh_eq false hdraw]
  simp only [ShadowsSample.MainPrologue, List.append_assoc, List.singleton_append,
    List.cons_append, List.nil_append]

/-! ## What is bound at each draw -/

theorem drawLog_append (c : ContextState) (A B : List Command) :
    drawLog c (A ++ B) = drawLog c A ++ drawLog (A.foldl ContextState.exec c) B := by
  induction A generalizing c with
  | nil => rfl
  | cons cmd A ih =>
    show c.drawOf cmd ++ drawLog (c.exec cmd) (A ++ B) = _
    rw [ih]
    simp only [drawLog, List.foldl_cons, List.append_assoc]

theorem ShadowsSample.drawLog_subsets (self : ShadowsSample) (bIsShadowPass : Bool)
    (SubMesh : DXSDKMESH_MESH) (Subsets : List DXSDKMESH_SUBSET) (c : ContextState) :
    drawLog c (Subsets.flatMap (self.SubsetCommands bIsShadowPass SubMesh))
      = Subsets.map (fun Subset =>
          { RenderTargets := c.RenderTargets, Camera := c.Camera, Light := c.Light,
            pPSO := c.pPSO, pSRB := self.SRBOf bIsShadowPass Subset,
            Attribs := ShadowsSample.DrawAttribsOf SubMesh Subset }) ∧
    ((Subsets.flatMap (self.SubsetCommands bIsShadowPass SubMesh)).foldl
        ContextState.exec c).RenderTargets = c.RenderTargets ∧
    ((Subsets.flatMap (self.SubsetCommands bIsShadowPass SubMesh)).foldl
        ContextState.exec c).Camera = c.Camera ∧
    ((Subsets.flatMap (self.SubsetCommands bIsShadowPass SubMesh)).foldl
        ContextState.exec c).Light = c.Light ∧
    ((Subsets.flatMap (self.SubsetCommands bIsShadowPass SubMesh)).foldl
        ContextState.exec c).pPSO = c.pPSO := by
  induction Subsets generalizing c with
  | nil => exact ⟨rfl, rfl, rfl, rfl, rfl⟩
  | cons Subset rest ih =>
    obtain ⟨h1, h2, h3, h4, h5⟩ := ih
      ((c.exec (Command.CommitShaderResources (self.SRBOf bIsShadowPass Subset)
        RESOURCE_STATE_TRANSITION_MODE.VERIFY)).exec
          (Command.Draw (ShadowsSample.DrawAttribsOf SubMesh Subset)))
    have e1 : drawLog c ((Subset :: rest).flatMap (self.SubsetCommands bIsShadowPass SubMesh))
        = { RenderTargets := c.RenderTargets, Camera := c.Camera, Light := c.Light,
            pPSO := c.pPSO, pSRB := self.SRBOf bIsShadowPass Subset,
            Attribs := ShadowsSample.DrawAttribsOf SubMesh Subset } ::
          drawLog ((c.exec (Command.CommitShaderResources (self.SRBOf bIsShadowPass Subset)
            RESOURCE_STATE_TRANSITION_MODE.VERIFY)).exec
              (Command.Draw (ShadowsSample.DrawAttribsOf SubMesh Subset)))
            (rest.flatMap (self.SubsetCommands bIsShadowPass SubMesh)) := rfl
    have e2 : ((Subset :: rest).flatMap (self.SubsetCommands bIsShadowPass SubMesh)).foldl
          ContextState.exec c
        = (rest.flatMap (self.SubsetCommands bIsShadowPass SubMesh)).foldl ContextState.exec
          ((c.exec (Command.CommitShaderResources (self.SRBOf bIsShadowPass Subset)
            RESOURCE_STATE_TRANSITION_MODE.VERIFY)).exec
              (Command.Draw (ShadowsSample.DrawAttribsOf SubMesh Subset))) := rfl
    rw [e1, e2, h1, h2, h3, h4, h5]
    exact ⟨rfl, rfl, rfl, rfl, rfl⟩

theorem ShadowsSample.drawLog_subMesh (self : ShadowsSample) (bIsShadowPass : Bool)
    (SubMesh : DXSDKMESH_MESH) (hpso : (self.PSOOf bIsShadowPass SubMesh).isSome = true)
    (c : ContextState) :
    drawLog c (self.SubMeshCommands bIsShadowPass SubMesh)
      = SubMesh.Subsets.map (fun Subset =>
          { RenderTargets := c.RenderTargets, Camera := c.Camera, Light := c.Light,
            pPSO := self.PSOOf bIsShadowPass SubMesh, pSRB := self.SRBOf bIsShadowPass Subset,
            Attribs := ShadowsSample.DrawAttribsOf SubMesh Subset }) ∧
    ((self.SubMeshCommands bIsShadowPass SubMesh).foldl ContextState.exec c).RenderTargets
      = c.RenderTargets ∧
    ((self.SubMeshCommands bIsShadowPass SubMesh).foldl ContextState.exec c).Camera
      = c.Camera ∧
    ((self.SubMeshCommands bIsShadowPass SubMesh).foldl ContextState.exec c).Light
      = c.Light := by
  obtain ⟨p, hp⟩ := Option.isSome_iff_exists.1 hpso
  obtain ⟨h1, h2, h3, h4, _⟩ := self.drawLog_subsets bIsShadowPass SubMesh SubMesh.Subsets
    (((c.exec (Command.SetVertexBuffers 0 1 [SubMesh.VertexBuffers 0] [0]
        RESOURCE_STATE_TRANSITION_MODE.VERIFY
          SET_VERTEX_BUFFERS_FLAGS.SET_VERTEX_BUFFERS_FLAG_RESET)).exec
      (Command.SetIndexBuffer SubMesh.IndexBuffer 0 RESOURCE_STATE_TRANSITION_MODE.VERIFY)).exec
      (Command.SetPipelineState p))
  have e0 : self.SubMeshCommands bIsShadowPass SubMesh
      = Command.SetVertexBuffers 0 1 [SubMesh.VertexBuffers 0] [0]
          RESOURCE_STATE_TRANSITION_MODE.VERIFY
          SET_VERTEX_BUFFERS_FLAGS.SET_VERTEX_BUFFERS_FLAG_RESET ::
        Command.SetIndexBuffer SubMesh.IndexBuffer 0 RESOURCE_STATE_TRANSITION_MODE.VERIFY ::
        Command.SetPipelineState p ::
        SubMesh.Subsets.flatMap (self.SubsetCommands bIsShadowPass SubMesh) := by
    simp only [ShadowsSample.SubMeshCommands, hp, List.cons_append, List.nil_append]
  rw [e0, hp]
  simp only [drawLog, List.foldl_cons, ContextState.drawOf, List.nil_append]
  rw [h1, h2, h3, h4]
  exact ⟨rfl, rfl, rfl, rfl⟩

/-- The draws of one `DrawMesh`, with what is bound at each: one per subset, in order, with
the pipeline of the submesh and the binding of the material; render targets and constant
blocks are those bound before. -/
theorem ShadowsSample.drawLog_MeshCommands (self : ShadowsSample) (bIsShadowPass : Bool)
    (hready : self.DrawReady) (c : ContextState) :
    drawLog c (self.MeshCommands bIsShadowPass)
      = self.MeshDraws bIsShadowPass c.RenderTargets c.Camera c.Light ∧
    ((self.MeshCommands bIsShadowPass).foldl ContextState.exec c).RenderTargets
      = c.RenderTargets ∧
    ((self.MeshCommands bIsShadowPass).foldl ContextState.exec c).Camera = c.Camera ∧
    ((self.MeshCommands bIsShadowPass).foldl ContextState.exec c).Light = c.Light := by
  have hsome : ∀ SubMesh ∈ self.m_Mesh.MeshArray,
      (self.PSOOf bIsShadowPass SubMesh).isSome = true := by
    intro SubMesh hmem
    obtain ⟨i, hi⟩ := List.getElem?_of_mem hmem
    exact (self.DrawMesh_mesh_eq bIsShadowPass hready [] i SubMesh hi).1
  unfold ShadowsSample.MeshCommands ShadowsSample.MeshDraws
  generalize self.m_Mesh.MeshArray = meshes at hsome
  induction meshes generalizing c with
  | nil => exact ⟨rfl, rfl, rfl, rfl⟩
  | cons SubMesh rest ih =>
    obtain ⟨h1, h2, h3, h4⟩ := self.drawLog_subMesh bIsShadowPass SubMesh
      (hsome SubMesh (List.mem_cons_self _ _)) c
    obtain ⟨k1, k2, k3, k4⟩ := ih
      ((self.SubMeshCommands bIsShadowPass SubMesh).foldl ContextState.exec c)
      (fun SM hSM => hsome SM (List.mem_cons_of_mem _ hSM))
    simp only [List.flatMap_cons, drawLog_append, List.foldl_append, h1, k1, k2, k3, k4, h2, h3,
      h4, and_self]

/-! ## Resource bindings -/

theorem set_length_append {α : Type} (A : List α) (y x : α) (R : List α) :
    (A ++ y :: R).set A.length x = A ++ x :: R := by
  induction A with
  | nil => rfl
  | cons a A ih => simp [ih]

theorem vectorAssign_filled {α : Type} (A : List α) (pad x : α) (n k : Nat)
    (hA : A.length = k) (hk : k < n) :
    vectorAssign (A ++ List.replicate (n - k) pad) k x
      = some ((A ++ [x]) ++ List.replicate (n - (k + 1)) pad) := by
  have hrep : List.replicate (n - k) pad = pad :: List.replicate (n - (k + 1)) pad := by
    have : n - k = (n - (k + 1)) + 1 := by omega
    rw [this, List.replicate_succ]
  have hlt : k < (A ++ List.replicate (n - k) pad).length := by
    simp only [List.length_append, List.length_replicate, hA]
    omega
  unfold vectorAssign
  rw [if_pos hlt, hrep]
  subst hA
  rw [set_length_append, List.append_assoc]
  rfl

/-- The loop of `InitializeResourceBindings` after its first `k` iterations, when both
pipeline vectors are non-empty: the first `k` entries of both binding vectors are built,
the others are still null. -/
theorem ShadowsSample.InitializeResourceBindings_loop (self : ShadowsSample)
    (pso0 shadowPso0 : PipelineState)
    (hpso : self.m_RenderMeshPSO[0]? = some pso0)
    (hshadow : self.m_RenderMeshShadowPSO[0]? = some shadowPso0)
    (k : Nat) (hk : k ≤ self.m_Mesh.GetNumMaterials) :
    forLoop k ShadowsSample.InitializeResourceBindings.iteration
        { self with
          m_SRBs := List.replicate self.m_Mesh.GetNumMaterials none
          m_ShadowSRBs := List.replicate self.m_Mesh.GetNumMaterials none }
      = some
        { self with
          m_SRBs := (self.m_Mesh.MaterialArray.take k).map
              (fun Mat => some (self.NewSRB pso0 Mat)) ++
            List.replicate (self.m_Mesh.GetNumMaterials - k) none
          m_ShadowSRBs := (self.m_Mesh.MaterialArray.take k).map
              (fun _ => some (shadowPso0.CreateShaderResourceBinding true)) ++
            List.replicate (self.m_Mesh.GetNumMaterials - k) none } := by
  induction k with
  | zero => simp [forLoop_zero]
  | succ k ih =>
    have hlt : k < self.m_Mesh.MaterialArray.length := hk
    have hmat : self.m_Mesh.MaterialArray[k]? = some self.m_Mesh.MaterialArray[k] :=
      List.getElem?_eq_getElem hlt
    have hlen1 : ((self.m_Mesh.MaterialArray.take k).map
        (fun Mat => some (self.NewSRB pso0 Mat))).length = k := by
      simp [List.length_take, Nat.min_eq_left (Nat.le_of_lt hlt)]
    have hlen2 : ((self.m_Mesh.MaterialArray.take k).map
        (fun _ => some (shadowPso0.CreateShaderResourceBinding true))).length = k := by
      simp [List.length_take, Nat.min_eq_left (Nat.le_of_lt hlt)]
    have hnext1 : (self.m_Mesh.MaterialArray.take (k + 1)).map
        (fun Mat => some (self.NewSRB pso0 Mat))
        = (self.m_Mesh.MaterialArray.take k).map (fun Mat => some (self.NewSRB pso0 Mat)) ++
          [some (self.NewSRB pso0 self.m_Mesh.MaterialArray[k])] := by
      rw [List.take_succ, hmat]
      simp only [Option.toList, List.map_append, List.map_cons, List.map_nil]
    have hnext2 : (self.m_Mesh.MaterialArray.take (k + 1)).map
        (fun _ => some (shadowPso0.CreateShaderResourceBinding true))
        = (self.m_Mesh.MaterialArray.take k).map
            (fun _ => some (shadowPso0.CreateShaderResourceBinding true)) ++
          [some (shadowPso0.CreateShaderResourceBinding true)] := by
      rw [List.take_succ, hmat]
      simp only [Option.toList, List.map_append, List.map_cons, List.map_nil]
    rw [forLoop_succ, ih (Nat.le_of_succ_le hk), Option.some_bind]
    unfold ShadowsSample.InitializeResourceBindings.iteration
    simp only [DXSDKMesh.GetMaterial, hmat, hpso, hshadow]
    rw [vectorAssign_filled _ none _ self.m_Mesh.GetNumMaterials k hlen1 hk]
    simp only []
    rw [vectorAssign_filled _ none _ self.m_Mesh.GetNumMaterials k hlen2 hk]
    simp only [hnext1, hnext2]
    rfl

/-- What `InitializeResourceBindings` leaves behind when both pipeline vectors are
non-empty: one main and one shadow binding per material, in material order. All other
members are unchanged. -/
theorem ShadowsSample.InitializeResourceBindings_eq (self : ShadowsSample)
    (pso0 shadowPso0 : PipelineState)
    (hpso : self.m_RenderMeshPSO[0]? = some pso0)
    (hshadow : self.m_RenderMeshShadowPSO[0]? = some shadowPso0) :
    self.InitializeResourceBindings = some
      { self with
        m_SRBs := self.m_Mesh.MaterialArray.map (fun Mat => some (self.NewSRB pso0 Mat))
        m_ShadowSRBs := self.m_Mesh.MaterialArray.map
          (fun _ => some (shadowPso0.CreateShaderResourceBinding true)) } := by
  have h := self.InitializeResourceBindings_loop pso0 shadowPso0 hpso hshadow
    self.m_Mesh.GetNumMaterials (Nat.le_refl _)
  have htake : self.m_Mesh.MaterialArray.take self.m_Mesh.GetNumMaterials
      = self.m_Mesh.MaterialArray := List.take_length _
  rw [htake, Nat.sub_self] at h
  simp only [List.replicate_zero, List.append_nil] at h
  unfold ShadowsSample.InitializeResourceBindings
  simp only [vectorClear, vectorResize, List.take_nil, List.nil_append, List.length_nil,
    Nat.sub_zero]
  exact h

theorem ShadowsSample.NewSRB_Vars (self : ShadowsSample) (pso0 : PipelineState)
    (Mat : DXSDKMESH_MATERIAL) :
    (self.NewSRB pso0 Mat).pPSO = pso0 ∧
    (self.NewSRB pso0 Mat).Vars =
      [(SHADER_TYPE.SHADER_TYPE_PIXEL, "g_tex2DDiffuse", Mat.pDiffuseRV),
       (SHADER_TYPE.SHADER_TYPE_PIXEL, self.ShadowMapVariableName,
        some self.m_ShadowMapMgr.GetSRV)] := by
  unfold ShadowsSample.NewSRB ShadowsSample.ShadowMapVariableName
  by_cases h : self.m_ShadowSetting.iShadowMode = SHADOW_MODE_PCF
  · simp only [h, if_true]
    exact ⟨rfl, rfl⟩
  · simp only [h, if_false]
    exact ⟨rfl, rfl⟩

theorem ShadowsSample.ShadowMapVariableName_is (self : ShadowsSample) :
    IsShadowMapVariableName self.ShadowMapVariableName = true := by
  unfold ShadowsSample.ShadowMapVariableName
  split
  · decide
  · decide

theorem ShadowsSample.NewSRB_ShadowMapVariablesSet (self : ShadowsSample)
    (pso0 : PipelineState) (Mat : DXSDKMESH_MATERIAL) :
    (self.NewSRB pso0 Mat).ShadowMapVariablesSet = [self.ShadowMapVariableName] := by
  have h1 : IsShadowMapVariableName "g_tex2DDiffuse" = false := by decide
  unfold ShaderResourceBinding.ShadowMapVariablesSet
  rw [(self.NewSRB_Vars pso0 Mat).2]
  simp only [List.map_cons, List.map_nil, List.filter_cons, h1, self.ShadowMapVariableName_is,
    List.filter_nil, if_true]
  rfl

theorem ShadowsSample.NewRenderMeshPSO_ShadowMapVariables (self : ShadowsSample)
    (L : InputLayoutDesc) :
    (self.NewRenderMeshPSO L).ShadowMapVariables =
      [{ ShaderStages := SHADER_TYPE.SHADER_TYPE_PIXEL, Name := self.ShadowMapVariableName,
         Type_ := SHADER_RESOURCE_VARIABLE_TYPE.MUTABLE }] := by
  have h1 : IsShadowMapVariableName "g_tex2DDiffuse" = false := by decide
  show List.filter _ [_, _] = _
  simp only [List.filter_cons, h1, self.ShadowMapVariableName_is, List.filter_nil, if_true]
  rfl

/-- C7, as stated, fails. With the pipelines and bindings of the sample over
`threeBufferMesh` built in mode PCF, the two bindings of `m_ShadowSRBs`, which
`InitializeResourceBindings` also creates, set neither shadow-map variable name. -/
theorem ShadowsSample.ShadowMapVariable_counterexample :
    (sampleOf threeBufferMesh 1 4).CreatePipelinesAndBindings.map
      (fun st => st.m_ShadowSRBs.map (fun srb => srb.map (fun b => b.ShadowMapVariablesSet)))
      = some [some [], some []] ∧
    (sampleOf threeBufferMesh 1 4).CreatePipelinesAndBindings.map
      (fun st => st.m_SRBs.map (fun srb => srb.map (fun b => b.ShadowMapVariablesSet)))
      = some [some ["g_tex2DShadowMap"], some ["g_tex2DShadowMap"]] := by
  decide

/-- C7 (amended). For every shadow mode, on a mesh with terminated vertex declarations and
at least one vertex buffer, `CreatePipelineStates` and then `InitializeResourceBindings`
return and leave the mode unchanged; every main binding (entry of `m_SRBs`) sets exactly
one shadow-map variable name, `g_tex2DShadowMap` when the mode is PCF and
`g_tex2DFilterableShadowMap` otherwise; every shadow binding (entry of `m_ShadowSRBs`) sets
no variable; and every main pipeline declares that same name, and no other shadow-map
name, as a mutable variable. -/
theorem ShadowsSample.ShadowMapVariable_selection (self : ShadowsSample)
    (hterm : self.m_Mesh.DeclsTerminated) (hvb : 0 < self.m_Mesh.GetNumVBs) :
    ∃ st st', self.CreatePipelineStates = some st ∧ st.InitializeResourceBindings = some st' ∧
      st'.m_ShadowSetting.iShadowMode = self.m_ShadowSetting.iShadowMode ∧
      (∀ srb ∈ st'.m_SRBs, ∃ b, srb = some b ∧
        b.ShadowMapVariablesSet = [self.ShadowMapVariableName]) ∧
      (∀ srb ∈ st'.m_ShadowSRBs, ∃ b, srb = some b ∧ b.Vars = []) ∧
      (∀ p ∈ st'.m_RenderMeshPSO, p.ShadowMapVariables =
        [{ ShaderStages := SHADER_TYPE.SHADER_TYPE_PIXEL, Name := self.ShadowMapVariableName,
           Type_ := SHADER_RESOURCE_VARIABLE_TYPE.MUTABLE }]) ∧
      (self.m_ShadowSetting.iShadowMode = SHADOW_MODE_PCF →
        self.ShadowMapVariableName = "g_tex2DShadowMap") ∧
      (self.m_ShadowSetting.iShadowMode ≠ SHADOW_MODE_PCF →
        self.ShadowMapVariableName = "g_tex2DFilterableShadowMap") := by
  obtain ⟨PSOIndex, hst, _, _⟩ := self.CreatePipelineStates_eq hterm
  have hmem0 := self.ConvertedLayout_mem_VBLayouts 0 hvb
  have hpos : 0 < self.VBLayouts.eraseDups.length := List.length_pos_of_mem hmem0
  have hpso : (self.VBLayouts.eraseDups.map self.NewRenderMeshPSO)[0]?
      = some (self.NewRenderMeshPSO (self.VBLayouts.eraseDups[0])) := by
    rw [List.getElem?_map, List.getElem?_eq_getElem hpos]
    rfl
  have hshadow : (self.VBLayouts.eraseDups.map self.NewRenderMeshShadowPSO)[0]?
      = some (self.NewRenderMeshShadowPSO (self.VBLayouts.eraseDups[0])) := by
    rw [List.getElem?_map, List.getElem?_eq_getElem hpos]
    rfl
  have hirb := ShadowsSample.InitializeResourceBindings_eq
    { self with
      m_PSOIndex := PSOIndex
      m_RenderMeshPSO := self.VBLayouts.eraseDups.map self.NewRenderMeshPSO
      m_RenderMeshShadowPSO := self.VBLayouts.eraseDups.map self.NewRenderMeshShadowPSO }
    _ _ hpso hshadow
  refine ⟨_, _, hst, hirb, rfl, ?_, ?_, ?_, ?_, ?_⟩
  · intro srb hsrb
    obtain ⟨Mat, _, rfl⟩ := List.mem_map.1 hsrb
    exact ⟨_, rfl, ShadowsSample.NewSRB_ShadowMapVariablesSet _ _ _⟩
  · intro srb hsrb
    obtain ⟨Mat, _, rfl⟩ := List.mem_map.1 hsrb
    exact ⟨_, rfl, rfl⟩
  · intro p hp
    obtain ⟨L, _, rfl⟩ := List.mem_map.1 hp
    exact self.NewRenderMeshPSO_ShadowMapVariables L
  · intro h
    simp [ShadowsSample.ShadowMapVariableName, h]
  · intro h
    simp [ShadowsSample.ShadowMapVariableName, h]

/-- Witness of C7 (amended): the sample over `threeBufferMesh` in a filterable mode. -/
theorem ShadowsSample.ShadowMapVariable_selection_witness :
    (sampleOf threeBufferMesh 2 4).m_Mesh.DeclsTerminated ∧
    0 < (sampleOf threeBufferMesh 2 4).m_Mesh.GetNumVBs ∧
    ∃ st st', (sampleOf threeBufferMesh 2 4).CreatePipelineStates = some st ∧
      st.InitializeResourceBindings = some st' ∧
      st'.m_ShadowSetting.iShadowMode
        = (sampleOf threeBufferMesh 2 4).m_ShadowSetting.iShadowMode ∧
      (∀ srb ∈ st'.m_SRBs, ∃ b, srb = some b ∧
        b.ShadowMapVariablesSet = [(sampleOf threeBufferMesh 2 4).ShadowMapVariableName]) ∧
      (∀ srb ∈ st'.m_ShadowSRBs, ∃ b, srb = some b ∧ b.Vars = []) ∧
      (∀ p ∈ st'.m_RenderMeshPSO, p.ShadowMapVariables =
        [{ ShaderStages := SHADER_TYPE.SHADER_TYPE_PIXEL,
           Name := (sampleOf threeBufferMesh 2 4).ShadowMapVariableName,
           Type_ := SHADER_RESOURCE_VARIABLE_TYPE.MUTABLE }]) ∧
      ((sampleOf threeBufferMesh 2 4).m_ShadowSetting.iShadowMode = SHADOW_MODE_PCF →
        (sampleOf threeBufferMesh 2 4).ShadowMapVariableName = "g_tex2DShadowMap") ∧
      ((sampleOf threeBufferMesh 2 4).m_ShadowSetting.iShadowMode ≠ SHADOW_MODE_PCF →
        (sampleOf threeBufferMesh 2 4).ShadowMapVariableName = "g_tex2DFilterableShadowMap") :=
  ⟨by decide, by decide,
    ShadowsSample.ShadowMapVariable_selection (sampleOf threeBufferMesh 2 4) (by decide)
      (by decide)⟩

/-- C10. When both pipeline vectors are non-empty, `InitializeResourceBindings` returns;
`m_SRBs` and `m_ShadowSRBs` then hold one binding per material; the main binding of every
material is created from main pipeline 0 and has the material's diffuse texture and the
shadow map manager's read view set on it, nothing else; its shadow binding is created from
shadow pipeline 0. -/
theorem ShadowsSample.InitializeResourceBindings_bindings (self : ShadowsSample)
    (hpso : 0 < self.m_RenderMeshPSO.length) (hshadow : 0 < self.m_RenderMeshShadowPSO.length) :
    ∃ st pso0 shadowPso0,
      self.InitializeResourceBindings = some st ∧
      self.m_RenderMeshPSO[0]? = some pso0 ∧
      self.m_RenderMeshShadowPSO[0]? = some shadowPso0 ∧
      st.m_SRBs.length = self.m_Mesh.GetNumMaterials ∧
      st.m_ShadowSRBs.length = self.m_Mesh.GetNumMaterials ∧
      ∀ mat Mat, self.m_Mesh.GetMaterial mat = some Mat →
        ∃ b sb, st.m_SRBs[mat]? = some (some b) ∧ st.m_ShadowSRBs[mat]? = some (some sb) ∧
          b.pPSO = pso0 ∧
          b.Vars =
            [(SHADER_TYPE.SHADER_TYPE_PIXEL, "g_tex2DDiffuse", Mat.pDiffuseRV),
             (SHADER_TYPE.SHADER_TYPE_PIXEL, self.ShadowMapVariableName,
              some self.m_ShadowMapMgr.GetSRV)] ∧
          sb.pPSO = shadowPso0 ∧ sb.Vars = [] := by
  have h0 := List.getElem?_eq_getElem hpso
  have h1 := List.getElem?_eq_getElem hshadow
  refine ⟨_, _, _, self.InitializeResourceBindings_eq _ _ h0 h1, h0, h1, ?_, ?_, ?_⟩
  · simp [DXSDKMesh.GetNumMaterials]
  · simp [DXSDKMesh.GetNumMaterials]
  · intro mat Mat hMat
    unfold DXSDKMesh.GetMaterial at hMat
    refine ⟨self.NewSRB self.m_RenderMeshPSO[0] Mat,
      self.m_RenderMeshShadowPSO[0].CreateShaderResourceBinding true, ?_, ?_,
      (self.NewSRB_Vars _ Mat).1, (self.NewSRB_Vars _ Mat).2, rfl, rfl⟩
    · show (List.map _ _)[mat]? = _
      rw [List.getElem?_map, hMat]
      rfl
    · show (List.map _ _)[mat]? = _
      rw [List.getElem?_map, hMat]
      rfl

/-- Witness of C10: the sample over `threeBufferMesh` with its pipelines built. -/
theorem ShadowsSample.InitializeResourceBindings_bindings_witness :
    0 < readySample.m_RenderMeshPSO.length ∧ 0 < readySample.m_RenderMeshShadowPSO.length ∧
    ∃ st pso0 shadowPso0,
      readySample.InitializeResourceBindings = some st ∧
      readySample.m_RenderMeshPSO[0]? = some pso0 ∧
      readySample.m_RenderMeshShadowPSO[0]? = some shadowPso0 ∧
      st.m_SRBs.length = readySample.m_Mesh.GetNumMaterials ∧
      st.m_ShadowSRBs.length = readySample.m_Mesh.GetNumMaterials ∧
      ∀ mat Mat, readySample.m_Mesh.GetMaterial mat = some Mat →
        ∃ b sb, st.m_SRBs[mat]? = some (some b) ∧ st.m_ShadowSRBs[mat]? = some (some sb) ∧
          b.pPSO = pso0 ∧
          b.Vars =
            [(SHADER_TYPE.SHADER_TYPE_PIXEL, "g_tex2DDiffuse", Mat.pDiffuseRV),
             (SHADER_TYPE.SHADER_TYPE_PIXEL, readySample.ShadowMapVariableName,
              some readySample.m_ShadowMapMgr.GetSRV)] ∧
          sb.pPSO = shadowPso0 ∧ sb.Vars = [] :=
  ⟨by decide, by decide,
    ShadowsSample.InitializeResourceBindings_bindings readySample (by decide) (by decide)⟩

/-! ## Counting and ordering within a frame -/

theorem length_drawLog (c : ContextState) (T : List Command) :
    (drawLog c T).length = (T.filter Command.isDraw).length := by
  induction T generalizing c with
  | nil => rfl
  | cons cmd T ih =>
    cases cmd <;>
      simp [drawLog, ContextState.drawOf, Command.isDraw, List.filter_cons, ih]

theorem ShadowsSample.length_MeshDraws (self : ShadowsSample) (bIsShadowPass : Bool)
    (RenderTargets : Option (Nat × Option (List Handle) × Option Handle))
    (Camera : Option (Handle × CameraAttribs)) (Light : Option (Handle × LightAttribs)) :
    (self.MeshDraws bIsShadowPass RenderTargets Camera Light).length
      = (self.m_Mesh.MeshArray.map DXSDKMESH_MESH.NumSubsets).sum := by
  unfold ShadowsSample.MeshDraws
  induction self.m_Mesh.MeshArray with
  | nil => rfl
  | cons SubMesh rest ih =>
    simp only [List.flatMap_cons, List.length_append, List.length_map, List.map_cons,
      List.sum_cons, ih, DXSDKMESH_MESH.NumSubsets]

theorem ShadowsSample.isMeshCommand_of_mem (self : ShadowsSample) (bIsShadowPass : Bool)
    (cmd : Command) (h : cmd ∈ self.MeshCommands bIsShadowPass) :
    cmd.isMeshCommand = true := by
  unfold ShadowsSample.MeshCommands at h
  obtain ⟨SubMesh, _, hcmd⟩ := List.mem_flatMap.1 h
  unfold ShadowsSample.SubMeshCommands at hcmd
  split at hcmd
  · simp only [List.cons_append, List.nil_append, List.mem_cons, List.mem_flatMap] at hcmd
    rcases hcmd with rfl | rfl | rfl | ⟨Subset, _, hs⟩
    · rfl
    · rfl
    · rfl
    · simp only [ShadowsSample.SubsetCommands, List.mem_cons, List.mem_singleton,
        List.not_mem_nil, or_false] at hs
      rcases hs with rfl | rfl
      · rfl
      · rfl
  · exact absurd hcmd (List.not_mem_nil _)

theorem ShadowsSample.filter_MeshCommands (self : ShadowsSample) (bIsShadowPass : Bool)
    (p : Command → Bool) (hp : ∀ cmd : Command, cmd.isMeshCommand = true → p cmd = false) :
    (self.MeshCommands bIsShadowPass).filter p = [] := by
  rw [List.filter_eq_nil_iff]
  intro cmd hcmd
  rw [hp cmd (self.isMeshCommand_of_mem bIsShadowPass cmd hcmd)]
  exact Bool.false_ne_true

theorem Command.not_isSetRenderTargets_of_isMeshCommand (cmd : Command)
    (h : cmd.isMeshCommand = true) : cmd.isSetRenderTargets = false := by
  cases cmd <;> first | rfl | exact absurd h Bool.false_ne_true

theorem Command.not_isSetDepthOnlyTargets_of_isMeshCommand (cmd : Command)
    (h : cmd.isMeshCommand = true) : cmd.isSetDepthOnlyTargets = false := by
  cases cmd <;> first | rfl | exact absurd h Bool.false_ne_true

theorem Command.not_isTransitionShaderResources_of_isMeshCommand (cmd : Command)
    (h : cmd.isMeshCommand = true) : cmd.isTransitionShaderResources = false := by
  cases cmd <;> first | rfl | exact absurd h Bool.false_ne_true

theorem Command.not_isConvertToFilterable_of_isMeshCommand (cmd : Command)
    (h : cmd.isMeshCommand = true) : cmd.isConvertToFilterable = false := by
  cases cmd <;> first | rfl | exact absurd h Bool.false_ne_true

theorem ShadowsSample.filter_ConversionStep (self : ShadowsSample) (p : Command → Bool)
    (hp : ∀ a, p (Command.ConvertToFilterable a) = false) :
    self.ConversionStep.filter p = [] := by
  unfold ShadowsSample.ConversionStep
  split
  · simp [List.filter_cons, hp]
  · rfl

theorem ShadowsSample.drawLog_ConversionStep (self : ShadowsSample) (c : ContextState) :
    drawLog c self.ConversionStep = [] ∧
    self.ConversionStep.foldl ContextState.exec c = c := by
  unfold ShadowsSample.ConversionStep
  split
  · exact ⟨rfl, rfl⟩
  · exact ⟨rfl, rfl⟩

/-- The draws of one shadow pass: those of `DrawMesh` in shadow mode, with no colour target
and the cascade's depth target bound, and the cascade's camera block in the camera buffer. -/
theorem ShadowsSample.drawLog_ShadowPass (self : ShadowsSample) (hready : self.DrawReady)
    (iCascade : Nat) (c : ContextState) :
    drawLog c (self.ShadowPass iCascade)
      = self.MeshDraws true (some (0, none, some (self.m_ShadowMapMgr.GetCascadeDSV iCascade)))
          (some (self.m_CameraAttribsCB, self.ShadowCameraAttribs iCascade)) c.Light ∧
    ((self.ShadowPass iCascade).foldl ContextState.exec c).Light = c.Light := by
  obtain ⟨h1, _, _, h4⟩ := self.drawLog_MeshCommands true hready
    ((self.CascadePrologue iCascade).foldl ContextState.exec c)
  unfold ShadowsSample.ShadowPass
  rw [drawLog_append, List.foldl_append, h1, h4]
  exact ⟨rfl, rfl⟩

theorem ShadowsSample.drawLog_ShadowPasses (self : ShadowsSample) (hready : self.DrawReady)
    (n : Nat) (c : ContextState) :
    drawLog c (self.ShadowPasses n)
      = (List.range n).flatMap (fun iCascade =>
          self.MeshDraws true
            (some (0, none, some (self.m_ShadowMapMgr.GetCascadeDSV iCascade)))
            (some (self.m_CameraAttribsCB, self.ShadowCameraAttribs iCascade)) c.Light) ∧
    ((self.ShadowPasses n).foldl ContextState.exec c).Light = c.Light := by
  induction n with
  | zero => exact ⟨rfl, rfl⟩
  | succ n ih =>
    obtain ⟨h1, h2⟩ := ih
    obtain ⟨k1, k2⟩ := self.drawLog_ShadowPass hready n
      ((self.ShadowPasses n).foldl ContextState.exec c)
    have e : self.ShadowPasses (n + 1) = self.ShadowPasses n ++ self.ShadowPass n := by
      simp only [ShadowsSample.ShadowPasses, List.range_succ, List.flatMap_append,
        List.flatMap_singleton]
    rw [e, drawLog_append, List.foldl_append, h1, k1, k2, h2]
    simp only [List.range_succ, List.flatMap_append, List.flatMap_singleton, and_self]

/-- The draws of the part of a frame that follows `RenderShadowMap`: those of `DrawMesh` in
main mode, with the default framebuffer bound and the main camera and light blocks in the
constant buffers. -/
theorem ShadowsSample.drawLog_MainPass (self : ShadowsSample) (hready : self.DrawReady)
    (pso0 : PipelineState) (srb0 : Option ShaderResourceBinding) (c : ContextState) :
    drawLog c (self.MainPrologue ++ [Command.TransitionShaderResources pso0 srb0] ++
        self.MeshCommands false)
      = self.MeshDraws false (some (0, none, none))
          (some (self.m_CameraAttribsCB, self.MainCameraAttribs))
          (some (self.m_LightAttribsCB, self.m_LightAttribs)) := by
  obtain ⟨h1, _, _, _⟩ := self.drawLog_MeshCommands false hready
    ((self.MainPrologue ++ [Command.TransitionShaderResources pso0 srb0]).foldl
      ContextState.exec c)
  rw [drawLog_append, h1]
  rfl

theorem ShadowsSample.filter_ShadowPasses_length (self : ShadowsSample) (p : Command → Bool)
    (hp : ∀ cmd : Command, cmd.isMeshCommand = true → p cmd = false)
    (hpro : ∀ iCascade, ((self.CascadePrologue iCascade).filter p).length = 1) (n : Nat) :
    ((self.ShadowPasses n).filter p).length = n := by
  induction n with
  | zero => rfl
  | succ n ih =>
    have e : self.ShadowPasses (n + 1) = self.ShadowPasses n ++ self.ShadowPass n := by
      simp only [ShadowsSample.ShadowPasses, List.range_succ, List.flatMap_append,
        List.flatMap_singleton]
    rw [e, List.filter_append, List.length_append, ih]
    unfold ShadowsSample.ShadowPass
    rw [List.filter_append, List.length_append, hpro n, self.filter_MeshCommands true p hp]
    rfl

theorem ShadowsSample.filter_ShadowPasses_nil (self : ShadowsSample) (p : Command → Bool)
    (hp : ∀ cmd : Command, cmd.isMeshCommand = true → p cmd = false)
    (hpro : ∀ iCascade, (self.CascadePrologue iCascade).filter p = []) (n : Nat) :
    (self.ShadowPasses n).filter p = [] := by
  induction n with
  | zero => rfl
  | succ n ih =>
    have e : self.ShadowPasses (n + 1) = self.ShadowPasses n ++ self.ShadowPass n := by
      simp only [ShadowsSample.ShadowPasses, List.range_succ, List.flatMap_append,
        List.flatMap_singleton]
    rw [e, List.filter_append, ih]
    unfold ShadowsSample.ShadowPass
    rw [List.filter_append, hpro n, self.filter_MeshCommands true p hp]
    rfl

/-- C5. With every container access in range and a cascade count `N ≥ 0`, one call of
`Render` returns and appends one frame to the context: `N` shadow passes, cascade 0 first,
each the prologue of its cascade followed by one `DrawMesh` in shadow mode; then the
conversion step, the main prologue, the transition and one `DrawMesh` in main mode. The
frame binds render targets `N + 1` times, `N` of them depth-only. Its draws are, in order,
those of the `N` shadow passes, pass `c` with cascade `c`'s depth target bound and cascade
`c`'s camera block (whose projection is cascade `c`'s) in the camera buffer, and then those
of the main pass. -/
theorem ShadowsSample.Render_passes (self : ShadowsSample) (hready : self.FrameReady)
    (hN : 0 ≤ self.m_LightAttribs.ShadowAttribs.iNumCascades) (pCtx : DeviceContext)
    (c0 : ContextState) :
    ∃ (N : Nat) (pso0 : PipelineState) (srb0 : Option ShaderResourceBinding)
      (frame : List Command),
      (N : Int) = self.m_LightAttribs.ShadowAttribs.iNumCascades ∧
      self.m_RenderMeshPSO[0]? = some pso0 ∧ self.m_SRBs[0]? = some srb0 ∧
      self.Render pCtx = some (pCtx ++ frame) ∧
      frame = (List.range N).flatMap
          (fun c => self.CascadePrologue c ++ self.MeshCommands true) ++
        self.ConversionStep ++ self.MainPrologue ++
        [Command.TransitionShaderResources pso0 srb0] ++ self.MeshCommands false ∧
      (∀ ctx, self.DrawMesh ctx true = some (ctx ++ self.MeshCommands true)) ∧
      (∀ ctx, self.DrawMesh ctx false = some (ctx ++ self.MeshCommands false)) ∧
      (frame.filter Command.isSetRenderTargets).length = N + 1 ∧
      (frame.filter Command.isSetDepthOnlyTargets).length = N ∧
      (∀ c, (self.ShadowCameraAttribs c).mProjT
        = some (self.m_ShadowMapMgr.GetCascadeTranformProj c).Transpose) ∧
      drawLog c0 frame
        = (List.range N).flatMap (fun c =>
            self.MeshDraws true (some (0, none, some (self.m_ShadowMapMgr.GetCascadeDSV c)))
              (some (self.m_CameraAttribsCB, self.ShadowCameraAttribs c)) c0.Light) ++
          self.MeshDraws false (some (0, none, none))
            (some (self.m_CameraAttribsCB, self.MainCameraAttribs))
            (some (self.m_LightAttribsCB, self.m_LightAttribs)) := by
  obtain ⟨pso0, srb0, hp0, hs0, hrender⟩ := self.Render_eq hready pCtx
  have hdraw := hready.1
  refine ⟨self.m_LightAttribs.ShadowAttribs.iNumCascades.toNat, pso0, srb0, _,
    Int.toNat_of_nonneg hN, hp0, hs0, ?_, rfl, fun ctx => self.DrawMesh_eq true hdraw ctx,
    fun ctx => self.DrawMesh_eq false hdraw ctx, ?_, ?_, fun c => rfl, ?_⟩
  · rw [hrender]
    simp only [List.append_assoc]
    rfl
  · show (List.filter _ (self.ShadowPasses _ ++ _ ++ _ ++ _ ++ _)).length = _
    simp only [List.filter_append, List.length_append]
    rw [self.filter_ShadowPasses_length _ Command.not_isSetRenderTargets_of_isMeshCommand
        (fun _ => rfl),
      self.filter_ConversionStep _ (fun _ => rfl),
      self.filter_MeshCommands false _ Command.not_isSetRenderTargets_of_isMeshCommand]
    rfl
  · show (List.filter _ (self.ShadowPasses _ ++ _ ++ _ ++ _ ++ _)).length = _
    simp only [List.filter_append, List.length_append]
    rw [self.filter_ShadowPasses_length _ Command.not_isSetDepthOnlyTargets_of_isMeshCommand
        (fun _ => rfl),
      self.filter_ConversionStep _ (fun _ => rfl),
      self.filter_MeshCommands false _ Command.not_isSetDepthOnlyTargets_of_isMeshCommand]
    rfl
  · show drawLog c0 (self.ShadowPasses _ ++ _ ++ _ ++ _ ++ _) = _
    obtain ⟨h1, _⟩ := self.drawLog_ShadowPasses hdraw
      self.m_LightAttribs.ShadowAttribs.iNumCascades.toNat c0
    rw [List.append_assoc, List.append_assoc, List.append_assoc, drawLog_append, h1,
      drawLog_append, (self.drawLog_ConversionStep _).1, List.nil_append,
      ← List.append_assoc, self.drawLog_MainPass hdraw]

/-- Witness of C5: `readySample`, with four cascades. -/
theorem ShadowsSample.Render_passes_witness :
    readySample.FrameReady ∧ 0 ≤ readySample.m_LightAttribs.ShadowAttribs.iNumCascades ∧
    ∃ (N : Nat) (pso0 : PipelineState) (srb0 : Option ShaderResourceBinding)
      (frame : List Command),
      (N : Int) = readySample.m_LightAttribs.ShadowAttribs.iNumCascades ∧
      readySample.m_RenderMeshPSO[0]? = some pso0 ∧ readySample.m_SRBs[0]? = some srb0 ∧
      readySample.Render [] = some ([] ++ frame) ∧
      frame = (List.range N).flatMap
          (fun c => readySample.CascadePrologue c ++ readySample.MeshCommands true) ++
        readySample.ConversionStep ++ readySample.MainPrologue ++
        [Command.TransitionShaderResources pso0 srb0] ++ readySample.MeshCommands false ∧
      (∀ ctx, readySample.DrawMesh ctx true = some (ctx ++ readySample.MeshCommands true)) ∧
      (∀ ctx, readySample.DrawMesh ctx false = some (ctx ++ readySample.MeshCommands false)) ∧
      (frame.filter Command.isSetRenderTargets).length = N + 1 ∧
      (frame.filter Command.isSetDepthOnlyTargets).length = N ∧
      (∀ c, (readySample.ShadowCameraAttribs c).mProjT
        = some (readySample.m_ShadowMapMgr.GetCascadeTranformProj c).Transpose) ∧
      drawLog {} frame
        = (List.range N).flatMap (fun c =>
            readySample.MeshDraws true
              (some (0, none, some (readySample.m_ShadowMapMgr.GetCascadeDSV c)))
              (some (readySample.m_CameraAttribsCB, readySample.ShadowCameraAttribs c))
              ({} : ContextState).Light) ++
          readySample.MeshDraws false (some (0, none, none))
            (some (readySample.m_CameraAttribsCB, readySample.MainCameraAttribs))
            (some (readySample.m_LightAttribsCB, readySample.m_LightAttribs)) :=
  ⟨by decide, by decide,
    ShadowsSample.Render_passes readySample (by decide) (by decide) [] {}⟩

/-- C6. With every container access in range, the frame that `Render` appends is
`pre ++ [TransitionShaderResources] ++ post`, where `pre` is the shadow passes, the
conversion step and the main prologue, and `post` is the `DrawMesh` of the main pass. The
transition occurs exactly once: neither `pre` nor `post` holds one. Every draw of `pre` is a
draw of a shadow pass, the conversion step is in `pre`, none is in `post`, and the draws of
`post` are those of the main pass. -/
theorem ShadowsSample.Render_transition (self : ShadowsSample) (hready : self.FrameReady)
    (pCtx : DeviceContext) (c0 : ContextState) :
    ∃ (pso0 : PipelineState) (srb0 : Option ShaderResourceBinding) (pre post : List Command),
      self.m_RenderMeshPSO[0]? = some pso0 ∧ self.m_SRBs[0]? = some srb0 ∧
      self.Render pCtx
        = some (pCtx ++ pre ++ [Command.TransitionShaderResources pso0 srb0] ++ post) ∧
      pre = self.ShadowPasses self.m_LightAttribs.ShadowAttribs.iNumCascades.toNat ++
        self.ConversionStep ++ self.MainPrologue ∧
      post = self.MeshCommands false ∧
      pre.filter Command.isTransitionShaderResources = [] ∧
      post.filter Command.isTransitionShaderResources = [] ∧
      ((pre ++ [Command.TransitionShaderResources pso0 srb0] ++ post).filter
        Command.isTransitionShaderResources).length = 1 ∧
      post.filter Command.isConvertToFilterable = [] ∧
      drawLog c0 pre
        = (List.range self.m_LightAttribs.ShadowAttribs.iNumCascades.toNat).flatMap (fun c =>
            self.MeshDraws true (some (0, none, some (self.m_ShadowMapMgr.GetCascadeDSV c)))
              (some (self.m_CameraAttribsCB, self.ShadowCameraAttribs c)) c0.Light) ∧
      drawLog ((pre ++ [Command.TransitionShaderResources pso0 srb0]).foldl ContextState.exec c0)
          post
        = self.MeshDraws false (some (0, none, none))
            (some (self.m_CameraAttribsCB, self.MainCameraAttribs))
            (some (self.m_LightAttribsCB, self.m_LightAttribs)) := by
  obtain ⟨pso0, srb0, hp0, hs0, hrender⟩ := self.Render_eq hready pCtx
  have hdraw := hready.1
  have hpre : (self.ShadowPasses self.m_LightAttribs.ShadowAttribs.iNumCascades.toNat ++
      self.ConversionStep ++ self.MainPrologue).filter Command.isTransitionShaderResources
      = [] := by
    rw [List.filter_append, List.filter_append,
      self.filter_ShadowPasses_nil _ Command.not_isTransitionShaderResources_of_isMeshCommand
        (fun _ => rfl),
      self.filter_ConversionStep _ (fun _ => rfl)]
    rfl
  have hpost : (self.MeshCommands false).filter Command.isTransitionShaderResources = [] :=
    self.filter_MeshCommands false _ Command.not_isTransitionShaderResources_of_isMeshCommand
  refine ⟨pso0, srb0, _, _, hp0, hs0, ?_, rfl, rfl, hpre, hpost, ?_,
    self.filter_MeshCommands false _ Command.not_isConvertToFilterable_of_isMeshCommand, ?_, ?_⟩
  · rw [hrender]
    simp only [List.append_assoc]
  · rw [List.filter_append, List.filter_append, hpre, hpost]
    rfl
  · obtain ⟨h1, _⟩ := self.drawLog_ShadowPasses hdraw
      self.m_LightAttribs.ShadowAttribs.iNumCascades.toNat c0
    rw [List.append_assoc, drawLog_append, h1, drawLog_append,
      (self.drawLog_ConversionStep _).1]
    simp only [List.nil_append]
    exact List.append_nil _
  · obtain ⟨h1, _, _, _⟩ := self.drawLog_MeshCommands false hdraw
      ((self.ShadowPasses self.m_LightAttribs.ShadowAttribs.iNumCascades.toNat ++
        self.ConversionStep ++ self.MainPrologue ++
        [Command.TransitionShaderResources pso0 srb0]).foldl ContextState.exec c0)
    rw [h1]
    simp only [List.foldl_append]
    rfl

/-- Witness of C6: `readySample`. -/
theorem ShadowsSample.Render_transition_witness :
    readySample.FrameReady ∧
    ∃ (pso0 : PipelineState) (srb0 : Option ShaderResourceBinding) (pre post : List Command),
      readySample.m_RenderMeshPSO[0]? = some pso0 ∧ readySample.m_SRBs[0]? = some srb0 ∧
      readySample.Render []
        = some ([] ++ pre ++ [Command.TransitionShaderResources pso0 srb0] ++ post) ∧
      pre = readySample.ShadowPasses readySample.m_LightAttribs.ShadowAttribs.iNumCascades.toNat ++
        readySample.ConversionStep ++ readySample.MainPrologue ∧
      post = readySample.MeshCommands false ∧
      pre.filter Command.isTransitionShaderResources = [] ∧
      post.filter Command.isTransitionShaderResources = [] ∧
      ((pre ++ [Command.TransitionShaderResources pso0 srb0] ++ post).filter
        Command.isTransitionShaderResources).length = 1 ∧
      post.filter Command.isConvertToFilterable = [] ∧
      drawLog {} pre
        = (List.range readySample.m_LightAttribs.ShadowAttribs.iNumCascades.toNat).flatMap
          (fun c =>
            readySample.MeshDraws true
              (some (0, none, some (readySample.m_ShadowMapMgr.GetCascadeDSV c)))
              (some (readySample.m_CameraAttribsCB, readySample.ShadowCameraAttribs c))
              ({} : ContextState).Light) ∧
      drawLog ((pre ++ [Command.TransitionShaderResources pso0 srb0]).foldl ContextState.exec {})
          post
        = readySample.MeshDraws false (some (0, none, none))
            (some (readySample.m_CameraAttribsCB, readySample.MainCameraAttribs))
            (some (readySample.m_LightAttribsCB, readySample.m_LightAttribs)) :=
  ⟨by decide, ShadowsSample.Render_transition readySample (by decide) [] {}⟩

/-- C8. With every container access of `DrawMesh` in range, `RenderShadowMap` returns and
appends, for every cascade `c` below the cascade count, in order: the write of cascade `c`'s
camera block, `SetRenderTargets` with no colour target and cascade `c`'s depth-stencil
target, the clear of that target's depth to 1, and the commands of one `DrawMesh` in shadow
mode, which binds no render target itself; then the conversion step. Every draw of a shadow
pass is issued with no colour target bound, with the shadow pipeline of its submesh and the
shadow binding of its material. -/
theorem ShadowsSample.RenderShadowMap_cascades (self : ShadowsSample)
    (hready : self.DrawReady) (pCtx : DeviceContext) (c0 : ContextState) :
    self.RenderShadowMap pCtx = some (pCtx ++
      (List.range self.m_LightAttribs.ShadowAttribs.iNumCascades.toNat).flatMap (fun c =>
        [Command.MapCameraAttribs self.m_CameraAttribsCB (self.ShadowCameraAttribs c),
         Command.SetRenderTargets 0 none (some (self.m_ShadowMapMgr.GetCascadeDSV c))
           RESOURCE_STATE_TRANSITION_MODE.TRANSITION,
         Command.ClearDepthStencil (some (self.m_ShadowMapMgr.GetCascadeDSV c))
           CLEAR_DEPTH_STENCIL_FLAGS.CLEAR_DEPTH_FLAG 1 0
           RESOURCE_STATE_TRANSITION_MODE.TRANSITION] ++
        self.MeshCommands true) ++
      self.ConversionStep) ∧
    (∀ ctx, self.DrawMesh ctx true = some (ctx ++ self.MeshCommands true)) ∧
    (self.MeshCommands true).filter Command.isSetRenderTargets = [] ∧
    self.PSOVector true = self.m_RenderMeshShadowPSO ∧
    self.SRBVector true = self.m_ShadowSRBs ∧
    (∀ c c1, drawLog c1 (self.ShadowPass c)
      = self.MeshDraws true (some (0, none, some (self.m_ShadowMapMgr.GetCascadeDSV c)))
          (some (self.m_CameraAttribsCB, self.ShadowCameraAttribs c)) c1.Light) ∧
    ∀ r ∈ drawLog c0 (self.ShadowPasses self.m_LightAttribs.ShadowAttribs.iNumCascades.toNat ++
        self.ConversionStep),
      ∃ c, c < self.m_LightAttribs.ShadowAttribs.iNumCascades.toNat ∧
        r.RenderTargets = some (0, none, some (self.m_ShadowMapMgr.GetCascadeDSV c)) ∧
        r.Camera = some (self.m_CameraAttribsCB, self.ShadowCameraAttribs c) ∧
        ∃ SubMesh ∈ self.m_Mesh.MeshArray, ∃ Subset ∈ SubMesh.Subsets,
          r.pPSO = self.PSOOf true SubMesh ∧ r.pSRB = self.SRBOf true Subset := by
  refine ⟨self.RenderShadowMap_eq hready pCtx, fun ctx => self.DrawMesh_eq true hready ctx,
    self.filter_MeshCommands true _ Command.not_isSetRenderTargets_of_isMeshCommand, rfl, rfl,
    fun c c1 => (self.drawLog_ShadowPass hready c c1).1, ?_⟩
  intro r hr
  rw [drawLog_append, (self.drawLog_ShadowPasses hready _ c0).1,
    (self.drawLog_ConversionStep _).1, List.append_nil] at hr
  obtain ⟨c, hc, hrc⟩ := List.mem_flatMap.1 hr
  unfold ShadowsSample.MeshDraws at hrc
  obtain ⟨SubMesh, hSM, hrs⟩ := List.mem_flatMap.1 hrc
  obtain ⟨Subset, hSub, rfl⟩ := List.mem_map.1 hrs
  exact ⟨c, List.mem_range.1 hc, rfl, rfl, SubMesh, hSM, Subset, hSub, rfl, rfl⟩

/-- Witness of C8: `readySample`. -/
theorem ShadowsSample.RenderShadowMap_cascades_witness :
    readySample.DrawReady ∧
    (readySample.RenderShadowMap [] = some ([] ++
      (List.range readySample.m_LightAttribs.ShadowAttribs.iNumCascades.toNat).flatMap (fun c =>
        [Command.MapCameraAttribs readySample.m_CameraAttribsCB
           (readySample.ShadowCameraAttribs c),
         Command.SetRenderTargets 0 none (some (readySample.m_ShadowMapMgr.GetCascadeDSV c))
           RESOURCE_STATE_TRANSITION_MODE.TRANSITION,
         Command.ClearDepthStencil (some (readySample.m_ShadowMapMgr.GetCascadeDSV c))
           CLEAR_DEPTH_STENCIL_FLAGS.CLEAR_DEPTH_FLAG 1 0
           RESOURCE_STATE_TRANSITION_MODE.TRANSITION] ++
        readySample.MeshCommands true) ++
      readySample.ConversionStep) ∧
    (∀ ctx, readySample.DrawMesh ctx true = some (ctx ++ readySample.MeshCommands true)) ∧
    (readySample.MeshCommands true).filter Command.isSetRenderTargets = [] ∧
    readySample.PSOVector true = readySample.m_RenderMeshShadowPSO ∧
    readySample.SRBVector true = readySample.m_ShadowSRBs ∧
    (∀ c c1, drawLog c1 (readySample.ShadowPass c)
      = readySample.MeshDraws true
          (some (0, none, some (readySample.m_ShadowMapMgr.GetCascadeDSV c)))
          (some (readySample.m_CameraAttribsCB, readySample.ShadowCameraAttribs c)) c1.Light) ∧
    ∀ r ∈ drawLog {}
        (readySample.ShadowPasses readySample.m_LightAttribs.ShadowAttribs.iNumCascades.toNat ++
          readySample.ConversionStep),
      ∃ c, c < readySample.m_LightAttribs.ShadowAttribs.iNumCascades.toNat ∧
        r.RenderTargets = some (0, none, some (readySample.m_ShadowMapMgr.GetCascadeDSV c)) ∧
        r.Camera = some (readySample.m_CameraAttribsCB, readySample.ShadowCameraAttribs c) ∧
        ∃ SubMesh ∈ readySample.m_Mesh.MeshArray, ∃ Subset ∈ SubMesh.Subsets,
          r.pPSO = readySample.PSOOf true SubMesh ∧ r.pSRB = readySample.SRBOf true Subset) :=
  ⟨by decide, ShadowsSample.RenderShadowMap_cascades readySample (by decide) [] {}⟩

/-- C9, as stated, fails. The only subset of `wideIndexMesh` has `IndexCount = 2^32 + 6` and
`IndexStart = 2^32`; the draw that `DrawMesh` issues for it has index count 6 and first index
location 0, the two values converted to 32 bits. -/
theorem ShadowsSample.DrawMesh_draws_counterexample :
    ((sampleOf wideIndexMesh 1 4).CreatePipelinesAndBindings.bind
        (fun st => st.DrawMesh [] false)).map
      (fun T => (drawLog {} T).map
        (fun r => (r.Attribs.NumIndices, r.Attribs.FirstIndexLocation))) = some [(6, 0)] ∧
    wideIndexMesh.MeshArray.map
      (fun SubMesh => SubMesh.Subsets.map (fun Subset => (Subset.IndexCount, Subset.IndexStart)))
      = [[(4294967302, 4294967296)]] := by
  decide

/-- C9 (amended). With every container access in range, one call of `DrawMesh` returns and
issues, for every submesh in index order and every subset of it in order, exactly one draw,
whose index count and first index location are the subset's `IndexCount` and `IndexStart`
converted to 32 bits (the values themselves when they are below `2^32`), with the pipeline
at `m_PSOIndex[first vertex buffer]` set (of the shadow vector in the shadow pass, of the
main vector otherwise, the same index in both) and the binding at the subset's material id
committed (of `m_ShadowSRBs` in the shadow pass, of `m_SRBs` otherwise). The number of draws
is the sum of `NumSubsets` over the submeshes. -/
theorem ShadowsSample.DrawMesh_draws (self : ShadowsSample) (hready : self.DrawReady)
    (pCtx : DeviceContext) (bIsShadowPass : Bool) (c0 : ContextState) :
    self.DrawMesh pCtx bIsShadowPass = some (pCtx ++ self.MeshCommands bIsShadowPass) ∧
    drawLog c0 (self.MeshCommands bIsShadowPass)
      = self.m_Mesh.MeshArray.flatMap (fun SubMesh =>
          SubMesh.Subsets.map (fun Subset =>
            { RenderTargets := c0.RenderTargets, Camera := c0.Camera, Light := c0.Light,
              pPSO := (self.m_PSOIndex[SubMesh.VertexBuffers 0]?).bind (fun i =>
                (if bIsShadowPass then self.m_RenderMeshShadowPSO
                 else self.m_RenderMeshPSO)[i]?),
              pSRB := ((if bIsShadowPass then self.m_ShadowSRBs
                        else self.m_SRBs)[Subset.MaterialID]?).join,
              Attribs :=
                { NumIndices := Subset.IndexCount % 2 ^ 32, IndexType := SubMesh.IBFormat,
                  Flags := DRAW_FLAGS.DRAW_FLAG_VERIFY_ALL,
                  FirstIndexLocation := Subset.IndexStart % 2 ^ 32 } })) ∧
    ((self.MeshCommands bIsShadowPass).filter Command.isDraw).length
      = (self.m_Mesh.MeshArray.map DXSDKMESH_MESH.NumSubsets).sum ∧
    (∀ SubMesh ∈ self.m_Mesh.MeshArray, ∃ i pMain pShadow,
      self.m_PSOIndex[SubMesh.VertexBuffers 0]? = some i ∧
      self.m_RenderMeshPSO[i]? = some pMain ∧ self.m_RenderMeshShadowPSO[i]? = some pShadow) ∧
    (∀ SubMesh ∈ self.m_Mesh.MeshArray, ∀ Subset ∈ SubMesh.Subsets,
      (∃ srb, self.m_SRBs[Subset.MaterialID]? = some srb) ∧
      (∃ srb, self.m_ShadowSRBs[Subset.MaterialID]? = some srb) ∧
      (Subset.IndexCount < 2 ^ 32 → Subset.IndexCount % 2 ^ 32 = Subset.IndexCount) ∧
      (Subset.IndexStart < 2 ^ 32 → Subset.IndexStart % 2 ^ 32 = Subset.IndexStart)) := by
  refine ⟨self.DrawMesh_eq bIsShadowPass hready pCtx,
    (self.drawLog_MeshCommands bIsShadowPass hready c0).1, ?_, ?_, ?_⟩
  · rw [← length_drawLog c0, (self.drawLog_MeshCommands bIsShadowPass hready c0).1,
      self.length_MeshDraws]
  · intro SubMesh hSM
    obtain ⟨hvb, hpso, _⟩ := hready SubMesh hSM
    have hidx := List.getElem?_eq_getElem hvb
    obtain ⟨hmain, hshadow⟩ := hpso _ hidx
    exact ⟨_, _, _, hidx, List.getElem?_eq_getElem hmain, List.getElem?_eq_getElem hshadow⟩
  · intro SubMesh hSM Subset hSub
    obtain ⟨_, _, hmat⟩ := hready SubMesh hSM
    obtain ⟨h1, h2⟩ := hmat Subset hSub
    exact ⟨⟨_, List.getElem?_eq_getElem h1⟩, ⟨_, List.getElem?_eq_getElem h2⟩,
      Nat.mod_eq_of_lt, Nat.mod_eq_of_lt⟩

/-- Witness of C9 (amended): `readySample`, in the main pass. -/
theorem ShadowsSample.DrawMesh_draws_witness :
    readySample.DrawReady ∧
    (readySample.DrawMesh [] false = some ([] ++ readySample.MeshCommands false) ∧
    drawLog {} (readySample.MeshCommands false)
      = readySample.m_Mesh.MeshArray.flatMap (fun SubMesh =>
          SubMesh.Subsets.map (fun Subset =>
            { RenderTargets := ({} : ContextState).RenderTargets,
              Camera := ({} : ContextState).Camera, Light := ({} : ContextState).Light,
              pPSO := (readySample.m_PSOIndex[SubMesh.VertexBuffers 0]?).bind (fun i =>
                (if false then readySample.m_RenderMeshShadowPSO
                 else readySample.m_RenderMeshPSO)[i]?),
              pSRB := ((if false then readySample.m_ShadowSRBs
                        else readySample.m_SRBs)[Subset.MaterialID]?).join,
              Attribs :=
                { NumIndices := Subset.IndexCount % 2 ^ 32, IndexType := SubMesh.IBFormat,
                  Flags := DRAW_FLAGS.DRAW_FLAG_VERIFY_ALL,
                  FirstIndexLocation := Subset.IndexStart % 2 ^ 32 } })) ∧
    ((readySample.MeshCommands false).filter Command.isDraw).length
      = (readySample.m_Mesh.MeshArray.map DXSDKMESH_MESH.NumSubsets).sum ∧
    (∀ SubMesh ∈ readySample.m_Mesh.MeshArray, ∃ i pMain pShadow,
      readySample.m_PSOIndex[SubMesh.VertexBuffers 0]? = some i ∧
      readySample.m_RenderMeshPSO[i]? = some pMain ∧
      readySample.m_RenderMeshShadowPSO[i]? = some pShadow) ∧
    (∀ SubMesh ∈ readySample.m_Mesh.MeshArray, ∀ Subset ∈ SubMesh.Subsets,
      (∃ srb, readySample.m_SRBs[Subset.MaterialID]? = some srb) ∧
      (∃ srb, readySample.m_ShadowSRBs[Subset.MaterialID]? = some srb) ∧
      (Subset.IndexCount < 2 ^ 32 → Subset.IndexCount % 2 ^ 32 = Subset.IndexCount) ∧
      (Subset.IndexStart < 2 ^ 32 → Subset.IndexStart % 2 ^ 32 = Subset.IndexStart))) :=
  ⟨by decide, ShadowsSample.DrawMesh_draws readySample (by decide) [] false {}⟩

/-! ## The conversion step -/

/-- The part of `CreateShadowMap` before `InitializeResourceBindings` leaves the mesh, the
pipelines, the settings and the cascade count as they are, and initialises the manager. -/
theorem ShadowsSample.CreateShadowMap.initialise_frame (engine : Engine) (self : ShadowsSample) :
    (ShadowsSample.CreateShadowMap.initialise engine self).m_Mesh = self.m_Mesh ∧
    (ShadowsSample.CreateShadowMap.initialise engine self).m_RenderMeshPSO
      = self.m_RenderMeshPSO ∧
    (ShadowsSample.CreateShadowMap.initialise engine self).m_RenderMeshShadowPSO
      = self.m_RenderMeshShadowPSO ∧
    (ShadowsSample.CreateShadowMap.initialise engine self).m_PSOIndex = self.m_PSOIndex ∧
    (ShadowsSample.CreateShadowMap.initialise engine self).m_ShadowSetting
      = self.m_ShadowSetting ∧
    (ShadowsSample.CreateShadowMap.initialise engine self).m_SRBs = self.m_SRBs ∧
    (ShadowsSample.CreateShadowMap.initialise engine self).m_ShadowSRBs = self.m_ShadowSRBs ∧
    ∃ info : ShadowMapManager.InitInfo,
      (ShadowsSample.CreateShadowMap.initialise engine self).m_ShadowMapMgr
        = engine.ShadowMapManagerInitialize self.m_ShadowMapMgr info ∧
      info.ShadowMode = self.m_ShadowSetting.iShadowMode ∧
      info.Fmt = self.m_ShadowSetting.Format ∧
      info.Resolution = self.m_ShadowSetting.Resolution ∧
      info.NumCascades = intToUint32 self.m_LightAttribs.ShadowAttribs.iNumCascades := by
  unfold ShadowsSample.CreateShadowMap.initialise
  simp only []
  split <;> split <;> exact ⟨rfl, rfl, rfl, rfl, rfl, rfl, rfl, _, rfl, rfl, rfl, rfl, rfl⟩

/-- What `CreateShadowMap` leaves behind when both pipeline vectors are non-empty: the
state after the manager is initialised, with one new main and one new shadow binding per
material. -/
theorem ShadowsSample.CreateShadowMap_eq (engine : Engine) (self : ShadowsSample)
    (pso0 shadowPso0 : PipelineState)
    (hpso : self.m_RenderMeshPSO[0]? = some pso0)
    (hshadow : self.m_RenderMeshShadowPSO[0]? = some shadowPso0) :
    self.CreateShadowMap engine = some
      { ShadowsSample.CreateShadowMap.initialise engine self with
        m_SRBs := self.m_Mesh.MaterialArray.map
          (fun Mat => some ((ShadowsSample.CreateShadowMap.initialise engine self).NewSRB pso0 Mat))
        m_ShadowSRBs := self.m_Mesh.MaterialArray.map
          (fun _ => some (shadowPso0.CreateShaderResourceBinding true)) } := by
  obtain ⟨hmesh, h1, h2, _⟩ := ShadowsSample.CreateShadowMap.initialise_frame engine self
  unfold ShadowsSample.CreateShadowMap
  rw [ShadowsSample.InitializeResourceBindings_eq _ pso0 shadowPso0 (by rw [h1]; exact hpso)
    (by rw [h2]; exact hshadow)]
  simp only [hmesh]

theorem ShadowsSample.CreateShadowMap.initialise_bindings (engine : Engine)
    (self : ShadowsSample) (SRBs ShadowSRBs : List (Option ShaderResourceBinding)) :
    ShadowsSample.CreateShadowMap.initialise engine
        { self with m_SRBs := SRBs, m_ShadowSRBs := ShadowSRBs }
      = { ShadowsSample.CreateShadowMap.initialise engine self with
          m_SRBs := SRBs, m_ShadowSRBs := ShadowSRBs } := by
  unfold ShadowsSample.CreateShadowMap.initialise
  simp only []
  split <;> split <;> rfl

theorem ShadowsSample.NewSRB_congr (self other : ShadowsSample)
    (hsetting : other.m_ShadowSetting = self.m_ShadowSetting)
    (hmgr : other.m_ShadowMapMgr = self.m_ShadowMapMgr) (pso0 : PipelineState)
    (Mat : DXSDKMESH_MATERIAL) :
    other.NewSRB pso0 Mat = self.NewSRB pso0 Mat := by
  unfold ShadowsSample.NewSRB
  rw [hsetting, hmgr]

theorem ShadowsSample.ShadowMapVariableName_congr (self other : ShadowsSample)
    (hsetting : other.m_ShadowSetting = self.m_ShadowSetting) :
    other.ShadowMapVariableName = self.ShadowMapVariableName := by
  unfold ShadowsSample.ShadowMapVariableName
  rw [hsetting]

/-- C13. When both pipeline vectors are non-empty, every call of `CreateShadowMap` returns;
it initialises the shadow map manager anew, with the sample's mode, and then `m_SRBs` and
`m_ShadowSRBs` each hold exactly one binding per material, built in that call: the main
binding of a material has the material's diffuse texture and the read view of the manager
just initialised set on it. The bindings do not depend on those held before, and a second
call leaves as many bindings as the first. -/
theorem ShadowsSample.CreateShadowMap_bindings (engine : Engine) (self : ShadowsSample)
    (hpso : 0 < self.m_RenderMeshPSO.length) (hshadow : 0 < self.m_RenderMeshShadowPSO.length) :
    ∃ (st : ShadowsSample) (pso0 shadowPso0 : PipelineState) (info : ShadowMapManager.InitInfo),
      self.CreateShadowMap engine = some st ∧
      self.m_RenderMeshPSO[0]? = some pso0 ∧
      self.m_RenderMeshShadowPSO[0]? = some shadowPso0 ∧
      st.m_ShadowMapMgr = engine.ShadowMapManagerInitialize self.m_ShadowMapMgr info ∧
      info.ShadowMode = self.m_ShadowSetting.iShadowMode ∧
      st.m_SRBs.length = self.m_Mesh.GetNumMaterials ∧
      st.m_ShadowSRBs.length = self.m_Mesh.GetNumMaterials ∧
      (∀ mat Mat, self.m_Mesh.GetMaterial mat = some Mat →
        ∃ b sb, st.m_SRBs[mat]? = some (some b) ∧ st.m_ShadowSRBs[mat]? = some (some sb) ∧
          b.pPSO = pso0 ∧
          b.Vars =
            [(SHADER_TYPE.SHADER_TYPE_PIXEL, "g_tex2DDiffuse", Mat.pDiffuseRV),
             (SHADER_TYPE.SHADER_TYPE_PIXEL, self.ShadowMapVariableName,
              some st.m_ShadowMapMgr.GetSRV)] ∧
          sb.pPSO = shadowPso0 ∧ sb.Vars = []) ∧
      (∀ SRBs ShadowSRBs, ∃ st',
        ShadowsSample.CreateShadowMap engine
          { self with m_SRBs := SRBs, m_ShadowSRBs := ShadowSRBs } = some st' ∧
        st'.m_SRBs = st.m_SRBs ∧ st'.m_ShadowSRBs = st.m_ShadowSRBs) ∧
      ∃ st2, st.CreateShadowMap engine = some st2 ∧
        st2.m_SRBs.length = st.m_SRBs.length ∧
        st2.m_ShadowSRBs.length = st.m_ShadowSRBs.length := by
  have h0 := List.getElem?_eq_getElem hpso
  have h1 := List.getElem?_eq_getElem hshadow
  obtain ⟨hmesh, hp, hsp, _, hsetting, _, _, info, hmgr, hmode, _⟩ :=
    ShadowsSample.CreateShadowMap.initialise_frame engine self
  refine ⟨_, _, _, info, self.CreateShadowMap_eq engine _ _ h0 h1, h0, h1, hmgr, hmode,
    ?_, ?_, ?_, ?_, ?_⟩
  · show (List.map _ _).length = _
    rw [List.length_map]
    rfl
  · show (List.map _ _).length = _
    rw [List.length_map]
    rfl
  · intro mat Mat hMat
    unfold DXSDKMesh.GetMaterial at hMat
    refine ⟨(ShadowsSample.CreateShadowMap.initialise engine self).NewSRB
        self.m_RenderMeshPSO[0] Mat,
      self.m_RenderMeshShadowPSO[0].CreateShaderResourceBinding true, ?_, ?_,
      (ShadowsSample.NewSRB_Vars _ _ Mat).1, ?_, rfl, rfl⟩
    · show (List.map _ _)[mat]? = _
      rw [List.getElem?_map, hMat]
      rfl
    · show (List.map _ _)[mat]? = _
      rw [List.getElem?_map, hMat]
      rfl
    · rw [(ShadowsSample.NewSRB_Vars _ _ Mat).2,
        ShadowsSample.ShadowMapVariableName_congr self _ hsetting]
  · intro SRBs ShadowSRBs
    have e := ShadowsSample.CreateShadowMap_eq engine
      { self with m_SRBs := SRBs, m_ShadowSRBs := ShadowSRBs } _ _ h0 h1
    refine ⟨_, e, ?_, rfl⟩
    show List.map _ _ = List.map _ _
    apply List.map_congr_left
    intro Mat _
    rw [ShadowsSample.CreateShadowMap.initialise_bindings]
    rfl
  · have hp2 : 0 < self.m_RenderMeshPSO.length := hpso
    have e := ShadowsSample.CreateShadowMap_eq engine
      { ShadowsSample.CreateShadowMap.initialise engine self with
        m_SRBs := self.m_Mesh.MaterialArray.map
          (fun Mat => some ((ShadowsSample.CreateShadowMap.initialise engine self).NewSRB
            self.m_RenderMeshPSO[0] Mat))
        m_ShadowSRBs := self.m_Mesh.MaterialArray.map
          (fun _ => some (self.m_RenderMeshShadowPSO[0].CreateShaderResourceBinding true)) }
      self.m_RenderMeshPSO[0] self.m_RenderMeshShadowPSO[0]
      (by show (ShadowsSample.CreateShadowMap.initialise engine self).m_RenderMeshPSO[0]? = _
          rw [hp]; exact h0)
      (by show (ShadowsSample.CreateShadowMap.initialise engine self).m_RenderMeshShadowPSO[0]? = _
          rw [hsp]; exact h1)
    refine ⟨_, e, ?_, ?_⟩
    · show (List.map _ _).length = (List.map _ _).length
      rw [List.length_map, List.length_map]
      show (ShadowsSample.CreateShadowMap.initialise engine self).m_Mesh.MaterialArray.length = _
      rw [hmesh]
    · show (List.map _ _).length = (List.map _ _).length
      rw [List.length_map, List.length_map]
      show (ShadowsSample.CreateShadowMap.initialise engine self).m_Mesh.MaterialArray.length = _
      rw [hmesh]

theorem ShadowsSample.CreateShadowMap_bindings_witness :
    0 < readySample.m_RenderMeshPSO.length ∧ 0 < readySample.m_RenderMeshShadowPSO.length ∧
    ∃ st : ShadowsSample,
      readySample.CreateShadowMap sampleEngine = some st ∧
      st.m_SRBs.length = readySample.m_Mesh.GetNumMaterials ∧
      st.m_ShadowSRBs.length = readySample.m_Mesh.GetNumMaterials :=
  ⟨by decide, by decide,
    match ShadowsSample.CreateShadowMap_bindings sampleEngine readySample (by decide)
      (by decide) with
    | ⟨st, _, _, _, h, _, _, _, _, hmain, hshadow, _⟩ => ⟨st, h, hmain, hshadow⟩⟩

/-! ## Pipeline lists and indices -/

theorem foldl_insertNew_extends {α : Type} [DecidableEq α] (l acc : List α) :
    acc <+: List.foldl insertNew acc l := by
  induction l generalizing acc with
  | nil => exact ⟨[], List.append_nil _⟩
  | cons a as ih =>
    simp only [List.foldl_cons]
    refine List.IsPrefix.trans ?_ (ih _)
    unfold insertNew
    by_cases ha : a ∈ acc
    · simp only [ha, if_true]
      exact ⟨[], List.append_nil _⟩
    · simp only [ha, if_false]
      exact ⟨[a], rfl⟩

/-- The position of an element in the list without duplicates is at most any position at
which it occurs in the list. -/
theorem indexOf_eraseDups_le {α : Type} [DecidableEq α] (l : List α) (i : Nat) (x : α)
    (h : l[i]? = some x) : List.indexOf x l.eraseDups ≤ i := by
  have hmem : x ∈ (l.take (i + 1)).eraseDups := by
    rw [mem_eraseDups, List.mem_iff_getElem?]
    refine ⟨i, ?_⟩
    rw [List.getElem?_take_of_lt (Nat.lt_succ_self i)]
    exact h
  have hpre : (l.take (i + 1)).eraseDups <+: l.eraseDups := by
    rw [← foldl_insertNew_eq_eraseDups, ← foldl_insertNew_eq_eraseDups l]
    conv => rhs; rw [← List.take_append_drop (i + 1) l, List.foldl_append]
    exact foldl_insertNew_extends _ _
  obtain ⟨s, hs⟩ := hpre
  rw [← hs, List.indexOf_append_of_mem hmem]
  have h1 : List.indexOf x (l.take (i + 1)).eraseDups < (l.take (i + 1)).eraseDups.length :=
    List.indexOf_lt_length.2 hmem
  have h2 : (l.take (i + 1)).eraseDups.length ≤ i + 1 := by
    rw [length_eraseDups]
    exact le_trans (List.toFinset_card_le _) (by rw [List.length_take]; exact Nat.min_le_left _ _)
  omega

/-- C16. After `CreatePipelineStates` on a mesh whose vertex declarations are terminated,
whatever the members held before: the main and the shadow pipeline vector have the same
length, `m_PSOIndex` has `NumVBs` entries, and for every vertex buffer `vb` the entry
`m_PSOIndex[vb]` is below the length of both vectors and at most `vb`. -/
theorem ShadowsSample.CreatePipelineStates_indices (self : ShadowsSample)
    (hterm : self.m_Mesh.DeclsTerminated) :
    ∃ st, self.CreatePipelineStates = some st ∧
      st.m_RenderMeshPSO.length = st.m_RenderMeshShadowPSO.length ∧
      st.m_PSOIndex.length = self.m_Mesh.GetNumVBs ∧
      ∀ vb, vb < self.m_Mesh.GetNumVBs →
        ∃ i, st.m_PSOIndex[vb]? = some i ∧
          i < st.m_RenderMeshPSO.length ∧ i < st.m_RenderMeshShadowPSO.length ∧ i ≤ vb := by
  obtain ⟨PSOIndex, hst, hlen, hidx⟩ := self.CreatePipelineStates_eq hterm
  refine ⟨_, hst, ?_, hlen, ?_⟩
  · show (List.map _ _).length = (List.map _ _).length
    rw [List.length_map, List.length_map]
  · intro vb hvb
    have hlt : List.indexOf (self.ConvertedLayout vb) self.VBLayouts.eraseDups
        < self.VBLayouts.eraseDups.length :=
      List.indexOf_lt_length.2 (self.ConvertedLayout_mem_VBLayouts vb hvb)
    refine ⟨_, hidx vb hvb, ?_, ?_, ?_⟩
    · show _ < (List.map _ _).length
      rw [List.length_map]
      exact hlt
    · show _ < (List.map _ _).length
      rw [List.length_map]
      exact hlt
    · apply indexOf_eraseDups_le
      unfold ShadowsSample.VBLayouts
      rw [List.getElem?_map, List.getElem?_range hvb]
      rfl

theorem ShadowsSample.CreatePipelineStates_indices_witness :
    (sampleOf threeBufferMesh 2 4).m_Mesh.DeclsTerminated ∧
    ∃ st, (sampleOf threeBufferMesh 2 4).CreatePipelineStates = some st ∧
      st.m_RenderMeshPSO.length = st.m_RenderMeshShadowPSO.length ∧
      st.m_PSOIndex.length = (sampleOf threeBufferMesh 2 4).m_Mesh.GetNumVBs ∧
      ∀ vb, vb < (sampleOf threeBufferMesh 2 4).m_Mesh.GetNumVBs →
        ∃ i, st.m_PSOIndex[vb]? = some i ∧
          i < st.m_RenderMeshPSO.length ∧ i < st.m_RenderMeshShadowPSO.length ∧ i ≤ vb :=
  ⟨by decide, ShadowsSample.CreatePipelineStates_indices (sampleOf threeBufferMesh 2 4)
    (by decide)⟩

/-- C15. After `CreatePipelineStates` on a mesh whose vertex declarations are terminated,
any two main pipelines declare the same resource layout and the same shaders, and one is
the other with its input layout replaced; likewise any two shadow pipelines. Hence the
binding that `InitializeResourceBindings` creates from entry 0 is created from the resource
layout of every entry, and the variables set on it are, in order, the variables that any
main entry declares; the shadow entries declare no variable and none is set. -/
theorem ShadowsSample.CreatePipelineStates_resourceLayout (self : ShadowsSample)
    (hterm : self.m_Mesh.DeclsTerminated) :
    ∃ st, self.CreatePipelineStates = some st ∧
      (∀ (i j : Nat) (p q : PipelineState), st.m_RenderMeshPSO[i]? = some p → st.m_RenderMeshPSO[j]? = some q →
        q = p.withInputLayout (ShadowsSample.PSOLayout q) ∧
        q.GetDesc.ResourceLayout = p.GetDesc.ResourceLayout ∧
        q.GetDesc.GraphicsPipeline.pVS = p.GetDesc.GraphicsPipeline.pVS ∧
        q.GetDesc.GraphicsPipeline.pPS = p.GetDesc.GraphicsPipeline.pPS) ∧
      (∀ (i j : Nat) (p q : PipelineState), st.m_RenderMeshShadowPSO[i]? = some p →
        st.m_RenderMeshShadowPSO[j]? = some q →
        q = p.withInputLayout (ShadowsSample.PSOLayout q) ∧
        q.GetDesc.ResourceLayout = p.GetDesc.ResourceLayout ∧
        q.GetDesc.GraphicsPipeline.pVS = p.GetDesc.GraphicsPipeline.pVS ∧
        q.GetDesc.GraphicsPipeline.pPS = p.GetDesc.GraphicsPipeline.pPS) ∧
      (∀ (i : Nat) (pso0 p : PipelineState) (Mat : DXSDKMESH_MATERIAL),
        st.m_RenderMeshPSO[0]? = some pso0 → st.m_RenderMeshPSO[i]? = some p →
        (st.NewSRB pso0 Mat).pPSO.GetDesc.ResourceLayout = p.GetDesc.ResourceLayout ∧
        (st.NewSRB pso0 Mat).Vars.map (fun v => (v.1, v.2.1)) =
          p.GetDesc.ResourceLayout.Variables.map (fun v => (v.ShaderStages, v.Name))) ∧
      ∀ (i : Nat) (shadowPso0 p : PipelineState),
        st.m_RenderMeshShadowPSO[0]? = some shadowPso0 →
        st.m_RenderMeshShadowPSO[i]? = some p →
        (shadowPso0.CreateShaderResourceBinding true).pPSO.GetDesc.ResourceLayout =
          p.GetDesc.ResourceLayout ∧
        (shadowPso0.CreateShaderResourceBinding true).Vars = [] ∧
        p.GetDesc.ResourceLayout.Variables = [] := by
  obtain ⟨PSOIndex, hst, _, _⟩ := self.CreatePipelineStates_eq hterm
  have hmain : ∀ (i : Nat) (p : PipelineState),
      (self.VBLayouts.eraseDups.map self.NewRenderMeshPSO)[i]? = some p →
        ∃ L, p = self.NewRenderMeshPSO L := by
    intro i p hp
    rw [List.getElem?_map] at hp
    cases hL : self.VBLayouts.eraseDups[i]? with
    | none => rw [hL] at hp; exact absurd hp (by simp)
    | some L =>
      rw [hL] at hp
      exact ⟨L, (Option.some.inj hp).symm⟩
  have hshadow : ∀ (i : Nat) (p : PipelineState),
      (self.VBLayouts.eraseDups.map self.NewRenderMeshShadowPSO)[i]? = some p →
        ∃ L, p = self.NewRenderMeshShadowPSO L := by
    intro i p hp
    rw [List.getElem?_map] at hp
    cases hL : self.VBLayouts.eraseDups[i]? with
    | none => rw [hL] at hp; exact absurd hp (by simp)
    | some L =>
      rw [hL] at hp
      exact ⟨L, (Option.some.inj hp).symm⟩
  refine ⟨_, hst, ?_, ?_, ?_, ?_⟩
  · intro i j p q hp hq
    obtain ⟨L1, rfl⟩ := hmain i p hp
    obtain ⟨L2, rfl⟩ := hmain j q hq
    exact ⟨rfl, rfl, rfl, rfl⟩
  · intro i j p q hp hq
    obtain ⟨L1, rfl⟩ := hshadow i p hp
    obtain ⟨L2, rfl⟩ := hshadow j q hq
    exact ⟨rfl, rfl, rfl, rfl⟩
  · intro i pso0 p Mat h0 hp
    obtain ⟨L0, rfl⟩ := hmain 0 pso0 h0
    obtain ⟨L, rfl⟩ := hmain i p hp
    refine ⟨?_, ?_⟩
    · rw [(ShadowsSample.NewSRB_Vars _ _ Mat).1]
      rfl
    · rw [(ShadowsSample.NewSRB_Vars _ _ Mat).2]
      rfl
  · intro i shadowPso0 p h0 hp
    obtain ⟨L0, rfl⟩ := hshadow 0 shadowPso0 h0
    obtain ⟨L, rfl⟩ := hshadow i p hp
    exact ⟨rfl, rfl, rfl⟩

theorem ShadowsSample.CreatePipelineStates_resourceLayout_witness :
    (sampleOf threeBufferMesh 2 4).m_Mesh.DeclsTerminated ∧
    ∃ st, (sampleOf threeBufferMesh 2 4).CreatePipelineStates = some st ∧
      ∀ (i j : Nat) (p q : PipelineState), st.m_RenderMeshPSO[i]? = some p → st.m_RenderMeshPSO[j]? = some q →
        q = p.withInputLayout (ShadowsSample.PSOLayout q) ∧
        q.GetDesc.ResourceLayout = p.GetDesc.ResourceLayout ∧
        q.GetDesc.GraphicsPipeline.pVS = p.GetDesc.GraphicsPipeline.pVS ∧
        q.GetDesc.GraphicsPipeline.pPS = p.GetDesc.GraphicsPipeline.pPS :=
  ⟨by decide,
    match ShadowsSample.CreatePipelineStates_resourceLayout (sampleOf threeBufferMesh 2 4)
      (by decide) with
    | ⟨st, h, hmain, _⟩ => ⟨st, h, hmain⟩⟩

/-! ## Camera and light constants -/

theorem Command.not_isMapCameraAttribs_of_isMeshCommand (cmd : Command)
    (h : cmd.isMeshCommand = true) : cmd.isMapCameraAttribs = false := by
  cases cmd <;> first | rfl | exact absurd h Bool.false_ne_true

theorem Command.not_isMapLightAttribs_of_isMeshCommand (cmd : Command)
    (h : cmd.isMeshCommand = true) : cmd.isMapLightAttribs = false := by
  cases cmd <;> first | rfl | exact absurd h Bool.false_ne_true

/-- The commands of the shadow passes that satisfy `p`, when no command of `DrawMesh` does,
are those of the prologues. -/
theorem ShadowsSample.filter_ShadowPasses (self : ShadowsSample) (p : Command → Bool)
    (hp : ∀ cmd : Command, cmd.isMeshCommand = true → p cmd = false) (n : Nat) :
    (self.ShadowPasses n).filter p
      = (List.range n).flatMap (fun iCascade => (self.CascadePrologue iCascade).filter p) := by
  induction n with
  | zero => rfl
  | succ n ih =>
    have e : self.ShadowPasses (n + 1) = self.ShadowPasses n ++ self.ShadowPass n := by
      simp only [ShadowsSample.ShadowPasses, List.range_succ, List.flatMap_append,
        List.flatMap_singleton]
    rw [e, List.filter_append, ih]
    unfold ShadowsSample.ShadowPass
    rw [List.filter_append, self.filter_MeshCommands true p hp, List.append_nil]
    simp only [List.range_succ, List.flatMap_append, List.flatMap_singleton]

/-- C14. With every container access of `DrawMesh` in range, `RenderShadowMap` returns, and
the blocks it uploads to the camera constant buffer are, in order, one block per cascade
`c = 0..N-1`, where `N` is the cascade count: the block `ShadowCameraAttribs c`. Every
camera block that `RenderShadowMap` uploads is the block of a cascade `c < N`, written to
the camera buffer of the sample, and in it `mViewProjT` is the transpose of
`lightView * cascadeProj[c]`, where `lightView` is the transpose of `mWorldToLightViewT`;
`mViewT` is `mWorldToLightViewT`, `mProjT` is the transpose of the cascade projection, and
`mViewProjT = mProjT * mViewT`. -/
theorem ShadowsSample.RenderShadowMap_viewProj (self : ShadowsSample) (hready : self.DrawReady)
    (pCtx : DeviceContext) :
    ∃ out : List Command,
      self.RenderShadowMap pCtx = some (pCtx ++ out) ∧
      out.filter Command.isMapCameraAttribs =
        (List.range self.m_LightAttribs.ShadowAttribs.iNumCascades.toNat).map
          (fun c => Command.MapCameraAttribs self.m_CameraAttribsCB
            (self.ShadowCameraAttribs c)) ∧
      ∀ (Buffer : Handle) (Data : CameraAttribs),
        Command.MapCameraAttribs Buffer Data ∈ out →
        ∃ c, c < self.m_LightAttribs.ShadowAttribs.iNumCascades.toNat ∧
          Buffer = self.m_CameraAttribsCB ∧ Data = self.ShadowCameraAttribs c ∧
          Data.mViewProjT =
            some (Matrix.transpose
              (Matrix.transpose self.m_LightAttribs.ShadowAttribs.mWorldToLightViewT *
                self.m_ShadowMapMgr.GetCascadeTranformProj c)) ∧
          Data.mViewT = some self.m_LightAttribs.ShadowAttribs.mWorldToLightViewT ∧
          Data.mProjT = some (Matrix.transpose (self.m_ShadowMapMgr.GetCascadeTranformProj c)) ∧
          ∃ V P VP : float4x4,
            Data.mViewT = some V ∧ Data.mProjT = some P ∧ Data.mViewProjT = some VP ∧
            VP = P * V := by
  have hfilter : (self.ShadowPasses self.m_LightAttribs.ShadowAttribs.iNumCascades.toNat ++
      self.ConversionStep).filter Command.isMapCameraAttribs =
        (List.range self.m_LightAttribs.ShadowAttribs.iNumCascades.toNat).map
          (fun c => Command.MapCameraAttribs self.m_CameraAttribsCB
            (self.ShadowCameraAttribs c)) := by
    have hconv : self.ConversionStep.filter Command.isMapCameraAttribs = [] := by
      unfold ShadowsSample.ConversionStep
      split <;> rfl
    rw [List.filter_append, hconv, List.append_nil,
      self.filter_ShadowPasses _ Command.not_isMapCameraAttribs_of_isMeshCommand,
      List.map_eq_flatMap]
    rfl
  refine ⟨self.ShadowPasses self.m_LightAttribs.ShadowAttribs.iNumCascades.toNat ++
    self.ConversionStep, ?_, hfilter, ?_⟩
  · rw [self.RenderShadowMap_eq hready pCtx, List.append_assoc]
  · intro Buffer Data hmem
    have hmem2 : Command.MapCameraAttribs Buffer Data ∈
        (self.ShadowPasses self.m_LightAttribs.ShadowAttribs.iNumCascades.toNat ++
          self.ConversionStep).filter Command.isMapCameraAttribs :=
      List.mem_filter.2 ⟨hmem, rfl⟩
    rw [hfilter, List.mem_map] at hmem2
    obtain ⟨c, hc, heq⟩ := hmem2
    rw [List.mem_range] at hc
    injection heq with hb hd
    subst hb
    subst hd
    refine ⟨c, hc, rfl, rfl, rfl, rfl, rfl, _, _, _, rfl, rfl, rfl, ?_⟩
    show Matrix.transpose (Matrix.transpose _ * _) = Matrix.transpose _ * _
    rw [Matrix.transpose_mul, Matrix.transpose_transpose]

/-- C14 on `readySample`, whose four cascades get one camera block each. -/
theorem ShadowsSample.RenderShadowMap_viewProj_witness :
    readySample.DrawReady ∧
    ∃ out : List Command,
      readySample.RenderShadowMap [] = some ([] ++ out) ∧
      (out.filter Command.isMapCameraAttribs).length = 4 ∧
      ∀ (Buffer : Handle) (Data : CameraAttribs),
        Command.MapCameraAttribs Buffer Data ∈ out →
        ∃ V P VP : float4x4,
          Data.mViewT = some V ∧ Data.mProjT = some P ∧ Data.mViewProjT = some VP ∧
          VP = P * V := by
  refine ⟨by decide, ?_⟩
  obtain ⟨out, h, hf, hall⟩ := ShadowsSample.RenderShadowMap_viewProj readySample (by decide) []
  refine ⟨out, h, ?_, ?_⟩
  · rw [hf, List.length_map, List.length_range]
    decide
  · intro Buffer Data hmem
    obtain ⟨c, _, _, _, _, _, _, hVP⟩ := hall Buffer Data hmem
    exact hVP

/-- C18. With every container access in range, the frame that `Render` appends is a shadow
part, then the one upload of the light constants, then a main part. Every draw of the
shadow part is issued with the camera block of its own cascade as the last block written
to the camera buffer; every draw of the main part with the main camera block as the last
one written. The frame writes the camera buffer once per cascade and once for the main
pass, in that order, and the light buffer exactly once, after every shadow draw and before
every main draw. -/
theorem ShadowsSample.Render_constants (self : ShadowsSample) (hready : self.FrameReady)
    (pCtx : DeviceContext) (c0 : ContextState) :
    ∃ (N : Nat) (shadow main : List Command),
      N = self.m_LightAttribs.ShadowAttribs.iNumCascades.toNat ∧
      self.Render pCtx = some (pCtx ++
        (shadow ++ [Command.MapLightAttribs self.m_LightAttribsCB self.m_LightAttribs] ++ main)) ∧
      drawLog c0 shadow
        = (List.range N).flatMap (fun c =>
            self.MeshDraws true (some (0, none, some (self.m_ShadowMapMgr.GetCascadeDSV c)))
              (some (self.m_CameraAttribsCB, self.ShadowCameraAttribs c)) c0.Light) ∧
      (∀ c : ContextState, drawLog c main
        = self.MeshDraws false c.RenderTargets
            (some (self.m_CameraAttribsCB, self.MainCameraAttribs)) c.Light) ∧
      shadow.filter Command.isMapLightAttribs = [] ∧
      main.filter Command.isMapLightAttribs = [] ∧
      drawLog c0
          (shadow ++ [Command.MapLightAttribs self.m_LightAttribsCB self.m_LightAttribs] ++ main)
        = (List.range N).flatMap (fun c =>
            self.MeshDraws true (some (0, none, some (self.m_ShadowMapMgr.GetCascadeDSV c)))
              (some (self.m_CameraAttribsCB, self.ShadowCameraAttribs c)) c0.Light) ++
          self.MeshDraws false (some (0, none, none))
            (some (self.m_CameraAttribsCB, self.MainCameraAttribs))
            (some (self.m_LightAttribsCB, self.m_LightAttribs)) ∧
      (shadow ++ [Command.MapLightAttribs self.m_LightAttribsCB self.m_LightAttribs]
          ++ main).filter Command.isMapCameraAttribs
        = (List.range N).flatMap (fun c =>
            [Command.MapCameraAttribs self.m_CameraAttribsCB (self.ShadowCameraAttribs c)]) ++
          [Command.MapCameraAttribs self.m_CameraAttribsCB self.MainCameraAttribs] := by
  obtain ⟨pso0, srb0, hp0, hs0, hrender⟩ := self.Render_eq hready pCtx
  have hdraw := hready.1
  have hshadow := (self.drawLog_ShadowPasses hdraw
    self.m_LightAttribs.ShadowAttribs.iNumCascades.toNat c0).1
  refine ⟨_, self.ShadowPasses self.m_LightAttribs.ShadowAttribs.iNumCascades.toNat ++
      self.ConversionStep ++
      [Command.SetRenderTargets 0 none none RESOURCE_STATE_TRANSITION_MODE.TRANSITION,
       Command.ClearRenderTarget none [32 / 1000, 32 / 1000, 32 / 1000, 1]
         RESOURCE_STATE_TRANSITION_MODE.TRANSITION,
       Command.ClearDepthStencil none CLEAR_DEPTH_STENCIL_FLAGS.CLEAR_DEPTH_FLAG 1 0
         RESOURCE_STATE_TRANSITION_MODE.TRANSITION],
    [Command.MapCameraAttribs self.m_CameraAttribsCB self.MainCameraAttribs,
     Command.TransitionShaderResources pso0 srb0] ++ self.MeshCommands false,
    rfl, ?_, ?_, ?_, ?_, ?_, ?_, ?_⟩
  · rw [hrender]
    simp only [List.append_assoc]
    rfl
  · rw [drawLog_append, drawLog_append, hshadow, (self.drawLog_ConversionStep _).1,
      List.append_nil]
    show _ ++ [] = _
    rw [List.append_nil]
  · intro c
    obtain ⟨h1, _⟩ := self.drawLog_MeshCommands false hdraw
      (([Command.MapCameraAttribs self.m_CameraAttribsCB self.MainCameraAttribs,
         Command.TransitionShaderResources pso0 srb0]).foldl ContextState.exec c)
    rw [drawLog_append, h1]
    rfl
  · rw [List.filter_append, List.filter_append,
      self.filter_ShadowPasses_nil _ Command.not_isMapLightAttribs_of_isMeshCommand
        (fun _ => rfl),
      self.filter_ConversionStep _ (fun _ => rfl)]
    rfl
  · rw [List.filter_append,
      self.filter_MeshCommands false _ Command.not_isMapLightAttribs_of_isMeshCommand]
    rfl
  · have e : self.ShadowPasses self.m_LightAttribs.ShadowAttribs.iNumCascades.toNat ++
          self.ConversionStep ++
          [Command.SetRenderTargets 0 none none RESOURCE_STATE_TRANSITION_MODE.TRANSITION,
           Command.ClearRenderTarget none [32 / 1000, 32 / 1000, 32 / 1000, 1]
             RESOURCE_STATE_TRANSITION_MODE.TRANSITION,
           Command.ClearDepthStencil none CLEAR_DEPTH_STENCIL_FLAGS.CLEAR_DEPTH_FLAG 1 0
             RESOURCE_STATE_TRANSITION_MODE.TRANSITION] ++
          [Command.MapLightAttribs self.m_LightAttribsCB self.m_LightAttribs] ++
          ([Command.MapCameraAttribs self.m_CameraAttribsCB self.MainCameraAttribs,
            Command.TransitionShaderResources pso0 srb0] ++ self.MeshCommands false)
        = self.ShadowPasses self.m_LightAttribs.ShadowAttribs.iNumCascades.toNat ++
          (self.ConversionStep ++
            (self.MainPrologue ++ [Command.TransitionShaderResources pso0 srb0] ++
              self.MeshCommands false)) := by
      simp only [List.append_assoc]
      rfl
    rw [e, drawLog_append, hshadow, drawLog_append, (self.drawLog_ConversionStep _).1,
      List.nil_append, self.drawLog_MainPass hdraw]
  · simp only [List.filter_append]
    rw [self.filter_ShadowPasses _ Command.not_isMapCameraAttribs_of_isMeshCommand,
      self.filter_ConversionStep _ (fun _ => rfl),
      self.filter_MeshCommands false _ Command.not_isMapCameraAttribs_of_isMeshCommand,
      List.append_nil, List.append_nil]
    simp only [List.append_assoc]
    rfl

theorem ShadowsSample.Render_constants_witness :
    readySample.FrameReady ∧
    ∃ (N : Nat) (shadow main : List Command),
      N = readySample.m_LightAttribs.ShadowAttribs.iNumCascades.toNat ∧
      readySample.Render [] = some ([] ++
        (shadow ++
          [Command.MapLightAttribs readySample.m_LightAttribsCB readySample.m_LightAttribs] ++
          main)) ∧
      shadow.filter Command.isMapLightAttribs = [] ∧
      main.filter Command.isMapLightAttribs = [] :=
  ⟨by decide,
    match ShadowsSample.Render_constants readySample (by decide) [] {} with
    | ⟨N, shadow, main, hN, h, _, _, hs, hm, _⟩ => ⟨N, shadow, main, hN, h, hs, hm⟩⟩

/-! ## Container accesses -/

/-- C17. For a mesh whose vertex declarations are terminated, with at least one vertex
buffer and one material, whose submeshes have a first vertex buffer below `NumVBs` and
whose subsets have a material id below `NumMaterials`: `CreatePipelineStates` returns, and
after it `InitializeResourceBindings` returns; entry 0 of both pipeline vectors and of
`m_SRBs` exists; for every submesh `m_PSOIndex` has an entry at its first vertex buffer and
both pipeline vectors have an entry at the index found there; for every subset both binding
vectors have an entry at its material id; and `Render`, `RenderShadowMap` and `DrawMesh`
return on every context. -/
theorem ShadowsSample.accesses_in_range (self : ShadowsSample)
    (hterm : self.m_Mesh.DeclsTerminated)
    (hvb : 0 < self.m_Mesh.GetNumVBs) (hmat : 0 < self.m_Mesh.GetNumMaterials)
    (hsub : ∀ SubMesh ∈ self.m_Mesh.MeshArray, SubMesh.VertexBuffers 0 < self.m_Mesh.GetNumVBs)
    (hid : ∀ SubMesh ∈ self.m_Mesh.MeshArray, ∀ Subset ∈ SubMesh.Subsets,
      Subset.MaterialID < self.m_Mesh.GetNumMaterials) :
    ∃ st st' : ShadowsSample,
      self.CreatePipelineStates = some st ∧ st.InitializeResourceBindings = some st' ∧
      (∃ pso0, st.m_RenderMeshPSO[0]? = some pso0) ∧
      (∃ shadowPso0, st.m_RenderMeshShadowPSO[0]? = some shadowPso0) ∧
      (∃ pso0, st'.m_RenderMeshPSO[0]? = some pso0) ∧
      (∃ srb0, st'.m_SRBs[0]? = some srb0) ∧
      (∀ SubMesh ∈ self.m_Mesh.MeshArray,
        (∃ i p sp, st'.m_PSOIndex[SubMesh.VertexBuffers 0]? = some i ∧
          st'.m_RenderMeshPSO[i]? = some p ∧ st'.m_RenderMeshShadowPSO[i]? = some sp) ∧
        ∀ Subset ∈ SubMesh.Subsets,
          ∃ b sb, st'.m_SRBs[Subset.MaterialID]? = some b ∧
            st'.m_ShadowSRBs[Subset.MaterialID]? = some sb) ∧
      st'.FrameReady ∧
      (∀ pCtx, ∃ out, st'.Render pCtx = some out) ∧
      (∀ pCtx, ∃ out, st'.RenderShadowMap pCtx = some out) ∧
      ∀ pCtx bIsShadowPass, ∃ out, st'.DrawMesh pCtx bIsShadowPass = some out := by
  obtain ⟨PSOIndex, hst, hlen, hidx⟩ := self.CreatePipelineStates_eq hterm
  have hpos : 0 < self.VBLayouts.eraseDups.length :=
    List.length_pos_of_mem (self.ConvertedLayout_mem_VBLayouts 0 hvb)
  have hmainlen : (self.VBLayouts.eraseDups.map self.NewRenderMeshPSO).length
      = self.VBLayouts.eraseDups.length := List.length_map _ _
  have hshadowlen : (self.VBLayouts.eraseDups.map self.NewRenderMeshShadowPSO).length
      = self.VBLayouts.eraseDups.length := List.length_map _ _
  have h0 : (self.VBLayouts.eraseDups.map self.NewRenderMeshPSO)[0]?
      = some (self.VBLayouts.eraseDups.map self.NewRenderMeshPSO)[0] :=
    List.getElem?_eq_getElem (by rw [hmainlen]; exact hpos)
  have h1 : (self.VBLayouts.eraseDups.map self.NewRenderMeshShadowPSO)[0]?
      = some (self.VBLayouts.eraseDups.map self.NewRenderMeshShadowPSO)[0] :=
    List.getElem?_eq_getElem (by rw [hshadowlen]; exact hpos)
  have hirb := ShadowsSample.InitializeResourceBindings_eq
    { self with
      m_PSOIndex := PSOIndex
      m_RenderMeshPSO := self.VBLayouts.eraseDups.map self.NewRenderMeshPSO
      m_RenderMeshShadowPSO := self.VBLayouts.eraseDups.map self.NewRenderMeshShadowPSO }
    _ _ h0 h1
  have hsrblen : ∀ f : DXSDKMESH_MATERIAL → Option ShaderResourceBinding,
      (self.m_Mesh.MaterialArray.map f).length = self.m_Mesh.GetNumMaterials :=
    fun f => List.length_map _ _
  have hready : ShadowsSample.FrameReady
      { self with
        m_PSOIndex := PSOIndex
        m_RenderMeshPSO := self.VBLayouts.eraseDups.map self.NewRenderMeshPSO
        m_RenderMeshShadowPSO := self.VBLayouts.eraseDups.map self.NewRenderMeshShadowPSO
        m_SRBs := self.m_Mesh.MaterialArray.map (fun Mat => some
          (ShadowsSample.NewSRB
            { self with
              m_PSOIndex := PSOIndex
              m_RenderMeshPSO := self.VBLayouts.eraseDups.map self.NewRenderMeshPSO
              m_RenderMeshShadowPSO :=
                self.VBLayouts.eraseDups.map self.NewRenderMeshShadowPSO }
            (self.VBLayouts.eraseDups.map self.NewRenderMeshPSO)[0] Mat))
        m_ShadowSRBs := self.m_Mesh.MaterialArray.map (fun _ => some
          ((self.VBLayouts.eraseDups.map
            self.NewRenderMeshShadowPSO)[0].CreateShaderResourceBinding true)) } := by
    refine ⟨?_, ?_, ?_⟩
    · intro SubMesh hSubMesh
      have hv := hsub SubMesh hSubMesh
      refine ⟨?_, ?_, ?_⟩
      · show _ < PSOIndex.length
        rw [hlen]
        exact hv
      · intro i hi
        have hi2 : PSOIndex[SubMesh.VertexBuffers 0]? = some i := hi
        rw [hidx _ hv] at hi2
        have hlt := List.indexOf_lt_length.2
          (self.ConvertedLayout_mem_VBLayouts (SubMesh.VertexBuffers 0) hv)
        rw [Option.some.inj hi2] at hlt
        exact ⟨by rw [hmainlen]; exact hlt, by rw [hshadowlen]; exact hlt⟩
      · intro Subset hSubset
        have hm := hid SubMesh hSubMesh Subset hSubset
        exact ⟨by rw [hsrblen]; exact hm, by rw [hsrblen]; exact hm⟩
    · show 0 < (List.map _ _).length
      rw [hmainlen]
      exact hpos
    · show 0 < (List.map _ _).length
      rw [hsrblen]
      exact hmat
  refine ⟨_, _, hst, hirb, ⟨_, h0⟩, ⟨_, h1⟩, ⟨_, h0⟩,
    ⟨_, List.getElem?_eq_getElem hready.2.2⟩, ?_, hready, ?_, ?_, ?_⟩
  · intro SubMesh hSubMesh
    obtain ⟨hA, hB, hC⟩ := hready.1 SubMesh hSubMesh
    have hv := hsub SubMesh hSubMesh
    obtain ⟨hi1, hi2⟩ := hB _ (hidx _ hv)
    refine ⟨⟨_, _, _, hidx _ hv, List.getElem?_eq_getElem hi1,
      List.getElem?_eq_getElem hi2⟩, ?_⟩
    intro Subset hSubset
    obtain ⟨hm1, hm2⟩ := hC Subset hSubset
    exact ⟨_, _, List.getElem?_eq_getElem hm1, List.getElem?_eq_getElem hm2⟩
  · intro pCtx
    obtain ⟨_, _, _, _, h⟩ := ShadowsSample.Render_eq _ hready pCtx
    exact ⟨_, h⟩
  · intro pCtx
    exact ⟨_, ShadowsSample.RenderShadowMap_eq _ hready.1 pCtx⟩
  · intro pCtx bIsShadowPass
    exact ⟨_, ShadowsSample.DrawMesh_eq _ bIsShadowPass hready.1 pCtx⟩

theorem ShadowsSample.accesses_in_range_witness :
    (sampleOf threeBufferMesh 2 4).m_Mesh.DeclsTerminated ∧
    0 < (sampleOf threeBufferMesh 2 4).m_Mesh.GetNumVBs ∧
    0 < (sampleOf threeBufferMesh 2 4).m_Mesh.GetNumMaterials ∧
    (∀ SubMesh ∈ (sampleOf threeBufferMesh 2 4).m_Mesh.MeshArray,
      SubMesh.VertexBuffers 0 < (sampleOf threeBufferMesh 2 4).m_Mesh.GetNumVBs) ∧
    (∀ SubMesh ∈ (sampleOf threeBufferMesh 2 4).m_Mesh.MeshArray, ∀ Subset ∈ SubMesh.Subsets,
      Subset.MaterialID < (sampleOf threeBufferMesh 2 4).m_Mesh.GetNumMaterials) ∧
    ∃ st st' : ShadowsSample,
      (sampleOf threeBufferMesh 2 4).CreatePipelineStates = some st ∧
      st.InitializeResourceBindings = some st' ∧ st'.FrameReady ∧
      ∀ pCtx, ∃ out, st'.Render pCtx = some out :=
  ⟨by decide, by decide, by decide, by decide, by decide,
    match ShadowsSample.accesses_in_range (sampleOf threeBufferMesh 2 4) (by decide)
      (by decide) (by decide) (by decide) (by decide) with
    | ⟨st, st', h, h', _, _, _, _, _, hready, hrender, _⟩ =>
      ⟨st, st', h, h', hready, hrender⟩⟩

/-! ## Update and what it leaves alone -/

/-- The light direction after `Update`: rotated when the last recorded mouse state has a
position that is not negative and the right button down, and the old one otherwise. -/
theorem ShadowsSample.Update_f4Direction (engine : Engine) (self : ShadowsSample)
    (CurrTime ElapsedTime : ℚ) :
    (self.Update engine CurrTime ElapsedTime).m_LightAttribs.f4Direction
      = if self.m_LastMouseState.PosX ≥ 0 ∧ self.m_LastMouseState.PosY ≥ 0 ∧
            (self.m_LastMouseState.ButtonFlags &&& MouseState.BUTTON_FLAG_RIGHT) ≠ 0 then
          (ShadowsSample.Update.rotateLight engine
            { self with
              m_Camera := (engine.CameraUpdate self.m_Camera
                (engine.SampleBaseUpdate self.m_InputController CurrTime ElapsedTime)
                ElapsedTime).1
              m_InputController := (engine.CameraUpdate self.m_Camera
                (engine.SampleBaseUpdate self.m_InputController CurrTime ElapsedTime)
                ElapsedTime).2 }
            (engine.CameraUpdate self.m_Camera
              (engine.SampleBaseUpdate self.m_InputController CurrTime ElapsedTime)
              ElapsedTime).2.GetMouseState).m_LightAttribs.f4Direction
        else self.m_LightAttribs.f4Direction := by
  unfold ShadowsSample.Update
  simp only []
  split <;> rfl

/-- C19. `Update` leaves the light direction as it was when the mouse state recorded by the
previous `Update` has no right-button flag, or a negative X, or a negative Y. It never
changes the `w` component of the light direction. The mouse state it records is the one the
input controller holds after the base-class and camera updates. -/
theorem ShadowsSample.Update_light (engine : Engine) (self : ShadowsSample)
    (CurrTime ElapsedTime : ℚ) :
    ((self.m_LastMouseState.ButtonFlags &&& MouseState.BUTTON_FLAG_RIGHT) = 0 →
      (self.Update engine CurrTime ElapsedTime).m_LightAttribs.f4Direction
        = self.m_LightAttribs.f4Direction) ∧
    (self.m_LastMouseState.PosX < 0 →
      (self.Update engine CurrTime ElapsedTime).m_LightAttribs.f4Direction
        = self.m_LightAttribs.f4Direction) ∧
    (self.m_LastMouseState.PosY < 0 →
      (self.Update engine CurrTime ElapsedTime).m_LightAttribs.f4Direction
        = self.m_LightAttribs.f4Direction) ∧
    (self.Update engine CurrTime ElapsedTime).m_LightAttribs.f4Direction.w
      = self.m_LightAttribs.f4Direction.w ∧
    (self.Update engine CurrTime ElapsedTime).m_LastMouseState
      = (self.Update engine CurrTime ElapsedTime).m_InputController.GetMouseState ∧
    (self.Update engine CurrTime ElapsedTime).m_InputController
      = (engine.CameraUpdate self.m_Camera
          (engine.SampleBaseUpdate self.m_InputController CurrTime ElapsedTime)
          ElapsedTime).2 := by
  refine ⟨?_, ?_, ?_, ?_, ?_, ?_⟩
  · intro h
    rw [ShadowsSample.Update_f4Direction, if_neg]
    exact fun hc => hc.2.2 h
  · intro h
    rw [ShadowsSample.Update_f4Direction, if_neg]
    exact fun hc => absurd hc.1 (not_le.2 h)
  · intro h
    rw [ShadowsSample.Update_f4Direction, if_neg]
    exact fun hc => absurd hc.2.1 (not_le.2 h)
  · rw [ShadowsSample.Update_f4Direction]
    split <;> rfl
  · unfold ShadowsSample.Update
    simp only []
    split <;> rfl
  · unfold ShadowsSample.Update
    simp only []
    split <;> rfl

/-- A sample whose last recorded mouse state has the left button down at (10, 20), and
whose input controller holds the right button down at (15, 20). -/
theorem ShadowsSample.Update_light_witness :
    ({ readySample with
        m_LastMouseState := { PosX := 10, PosY := 20, ButtonFlags := 1 }
        m_InputController := { m_MouseState := { PosX := 15, PosY := 20, ButtonFlags := 4 } }
      } : ShadowsSample).m_LastMouseState.ButtonFlags &&& MouseState.BUTTON_FLAG_RIGHT = 0 ∧
    (ShadowsSample.Update sampleEngine
      { readySample with
        m_LastMouseState := { PosX := 10, PosY := 20, ButtonFlags := 1 }
        m_InputController := { m_MouseState := { PosX := 15, PosY := 20, ButtonFlags := 4 } } }
      0 0).m_LightAttribs.f4Direction = readySample.m_LightAttribs.f4Direction :=
  ⟨by decide,
    (ShadowsSample.Update_light sampleEngine
      { readySample with
        m_LastMouseState := { PosX := 10, PosY := 20, ButtonFlags := 1 }
        m_InputController := { m_MouseState := { PosX := 15, PosY := 20, ButtonFlags := 4 } } }
      0 0).1 (by decide)⟩

theorem forLoop_invariant {σ : Type} (P : σ → Prop) (body : σ → Nat → Option σ)
    (hbody : ∀ s i s', body s i = some s' → P s → P s') (n : Nat) (init s' : σ)
    (h : forLoop n body init = some s') (hinit : P init) : P s' := by
  induction n generalizing s' with
  | zero =>
    rw [forLoop_zero] at h
    exact Option.some.inj h ▸ hinit
  | succ n ih =>
    rw [forLoop_succ] at h
    cases hn : forLoop n body init with
    | none => rw [hn] at h; exact absurd h (by simp)
    | some st =>
      rw [hn, Option.some_bind] at h
      exact hbody st n s' h (ih st hn)

theorem ShadowsSample.CreatePipelineStates_setting (self st : ShadowsSample)
    (h : self.CreatePipelineStates = some st) : st.m_ShadowSetting = self.m_ShadowSetting := by
  refine forLoop_invariant (fun s => s.m_ShadowSetting = self.m_ShadowSetting) _ ?_ _ _ st h rfl
  intro s i s' hs hP
  unfold ShadowsSample.CreatePipelineStates.iteration at hs
  split at hs
  · exact absurd hs (by simp)
  · unfold ShadowsSample.CreatePipelineStates.resolve at hs
    simp only [] at hs
    split at hs
    · exact absurd hs (by simp)
    · split at hs
      · cases hs
        exact hP
      · cases hs
        exact hP

theorem ShadowsSample.InitializeResourceBindings_setting (self st : ShadowsSample)
    (h : self.InitializeResourceBindings = some st) :
    st.m_ShadowSetting = self.m_ShadowSetting := by
  refine forLoop_invariant (fun s => s.m_ShadowSetting = self.m_ShadowSetting) _ ?_ _ _ st h rfl
  intro s i s' hs hP
  unfold ShadowsSample.InitializeResourceBindings.iteration at hs
  simp only [] at hs
  repeat' split at hs
  all_goals (cases hs; try exact hP)

theorem ShadowsSample.CreateShadowMap_setting (engine : Engine) (self st : ShadowsSample)
    (h : self.CreateShadowMap engine = some st) :
    st.m_ShadowSetting = self.m_ShadowSetting := by
  unfold ShadowsSample.CreateShadowMap at h
  rw [ShadowsSample.InitializeResourceBindings_setting _ st h]
  exact (ShadowsSample.CreateShadowMap.initialise_frame engine self).2.2.2.2.1

theorem ShadowsSample.Update_setting (engine : Engine) (self : ShadowsSample)
    (CurrTime ElapsedTime : ℚ) :
    (self.Update engine CurrTime ElapsedTime).m_ShadowSetting = self.m_ShadowSetting := by
  unfold ShadowsSample.Update
  simp only []
  split <;> rfl

theorem ShadowsSample.Step_setting (engine : Engine) (s s' : ShadowsSample)
    (h : ShadowsSample.Step engine s s') : s'.m_ShadowSetting = s.m_ShadowSetting :=
  match h with
  | .Update _ t e => ShadowsSample.Update_setting engine s t e
  | .Render _ _ _ _ => rfl
  | .RenderShadowMap _ _ _ _ => rfl
  | .DrawMesh _ _ _ _ _ => rfl
  | .WindowResize _ _ _ => rfl
  | .CreateShadowMap _ _ h => ShadowsSample.CreateShadowMap_setting engine s s' h
  | .InitializeResourceBindings _ _ h => ShadowsSample.InitializeResourceBindings_setting s s' h
  | .CreatePipelineStates _ _ h => ShadowsSample.CreatePipelineStates_setting s s' h

/-- C20. Through any sequence of calls of `Update`, `Render`, `RenderShadowMap`, `DrawMesh`,
`WindowResize`, `CreateShadowMap`, `InitializeResourceBindings` and `CreatePipelineStates`
that return, `m_ShadowSetting.iShadowMode` keeps its value. Hence the `SHADOW_MODE` macro
and the shadow-map variable that pipelines built at any point declare, the variable that
bindings built at any point set, and the outcome of the mode test of any frame are those of
the first state. -/
theorem ShadowsSample.iShadowMode_fixed (engine : Engine) (s s' : ShadowsSample)
    (h : Relation.ReflTransGen (ShadowsSample.Step engine) s s') :
    s'.m_ShadowSetting.iShadowMode = s.m_ShadowSetting.iShadowMode ∧
    s'.Macros[0]? = some ("SHADOW_MODE", s.m_ShadowSetting.iShadowMode) ∧
    (∀ L, (s'.NewRenderMeshPSO L).ShadowMapVariables = (s.NewRenderMeshPSO L).ShadowMapVariables) ∧
    (∀ pso0 Mat, (s'.NewSRB pso0 Mat).ShadowMapVariablesSet = [s.ShadowMapVariableName]) ∧
    (s'.ConversionStep = [] ↔ s.ConversionStep = []) := by
  have hsetting : s'.m_ShadowSetting = s.m_ShadowSetting := by
    induction h with
    | refl => rfl
    | tail _ hstep ih => rw [ShadowsSample.Step_setting engine _ _ hstep, ih]
  have hname := ShadowsSample.ShadowMapVariableName_congr s s' hsetting
  refine ⟨by rw [hsetting], ?_, ?_, ?_, ?_⟩
  · show some ("SHADOW_MODE", s'.m_ShadowSetting.iShadowMode) = _
    rw [hsetting]
  · intro L
    rw [ShadowsSample.NewRenderMeshPSO_ShadowMapVariables,
      ShadowsSample.NewRenderMeshPSO_ShadowMapVariables, hname]
  · intro pso0 Mat
    rw [ShadowsSample.NewSRB_ShadowMapVariablesSet, hname]
  · unfold ShadowsSample.ConversionStep
    rw [hsetting]
    by_cases hm : s.m_ShadowSetting.iShadowMode > SHADOW_MODE_PCF
    · simp [hm]
    · simp [hm]

/-- Three calls on `readySample`: `Update`, `CreateShadowMap` and `Render`. -/
theorem ShadowsSample.iShadowMode_fixed_witness :
    ∃ s' : ShadowsSample,
      (readySample.Update sampleEngine 0 0).CreateShadowMap sampleEngine = some s' ∧
      (∃ out, s'.Render [] = some out) ∧
      Relation.ReflTransGen (ShadowsSample.Step sampleEngine) readySample s' ∧
      s'.m_ShadowSetting.iShadowMode = readySample.m_ShadowSetting.iShadowMode :=
  have hcreate : ((readySample.Update sampleEngine 0 0).CreateShadowMap sampleEngine).isSome
      = true := by decide
  match hs : (readySample.Update sampleEngine 0 0).CreateShadowMap sampleEngine, hcreate with
  | some s', _ =>
    have hrender : ∃ out, s'.Render [] = some out := by
      have hsome : ((((readySample.Update sampleEngine 0 0).CreateShadowMap sampleEngine).bind
          (fun st => st.Render [])).isSome) = true := by decide
      rw [hs, Option.some_bind] at hsome
      exact Option.isSome_iff_exists.1 hsome
    have hreach : Relation.ReflTransGen (ShadowsSample.Step sampleEngine) readySample s' :=
      match hrender with
      | ⟨out, hout⟩ =>
        ((Relation.ReflTransGen.single
            (ShadowsSample.Step.Update readySample 0 0)).tail
          (ShadowsSample.Step.CreateShadowMap _ _ hs)).tail
          (ShadowsSample.Step.Render _ [] out hout)
    ⟨s', rfl, hrender, hreach,
      (ShadowsSample.iShadowMode_fixed sampleEngine readySample s' hreach).1⟩

/-! ## The earth grid -/

theorem foldl_length_add {α β : Type} (f : List α × Nat → β → List α × Nat) (c : Nat)
    (hf : ∀ st b, (f st b).1.length = st.1.length + c) (l : List β) (st : List α × Nat) :
    (l.foldl f st).1.length = st.1.length + c * l.length := by
  induction l generalizing st with
  | nil => simp
  | cons b l ih =>
    rw [List.foldl_cons, ih, hf, List.length_cons]
    ring

/-- The vertex loops of `CreateEarthGrid` append one vertex per pair of loop indices. -/
theorem EarthMesh.CreateEarthGrid.vertices_length (n : Nat) (init : List EarthMesh.Vertex) :
    (EarthMesh.CreateEarthGrid.vertices n init).length = init.length + n * n := by
  unfold EarthMesh.CreateEarthGrid.vertices
  rw [foldl_length_add (EarthMesh.CreateEarthGrid.outer n) n, List.length_range]
  intro st b
  unfold EarthMesh.CreateEarthGrid.outer
  rw [foldl_length_add (EarthMesh.CreateEarthGrid.inner n) 1, List.length_range, Nat.one_mul]
  intro st b
  unfold EarthMesh.CreateEarthGrid.inner
  simp

/-- Without wrap-around, `lastPass` is `n * n - (n + 1)`. -/
theorem EarthMesh.CreateEarthGrid.lastPass_eq (n : Nat) (hn : 2 ≤ n) (hbound : n * n < 2 ^ 31) :
    EarthMesh.CreateEarthGrid.lastPass n = (n * n : Int) - (n + 1) := by
  have h1 : n + 2 ≤ n * n := by nlinarith
  have hcast : ((n : Int) * n) = ((n * n : Nat) : Int) := by push_cast; ring
  rw [hcast]
  unfold EarthMesh.CreateEarthGrid.lastPass uint32ToInt uintSub
  generalize n * n = m at *
  have hX : (m % 2 ^ 32 + 2 ^ 32 - (n + 1) % 2 ^ 32 % 2 ^ 32) % 2 ^ 32 = m - (n + 1) := by
    omega
  rw [hX, if_pos (by omega)]
  omega

/-- The index loop of `CreateEarthGrid` returns when `6 * lastPass` fits a signed 32-bit
integer and the bound on the iterations is at least `lastPass - i`; it appends indices, at
least one when `i < lastPass`. -/
theorem EarthMesh.CreateEarthGrid.indices_isSome (n : Nat) (lastPass : Int)
    (hlast : 6 * lastPass < 2 ^ 31) (fuel : Nat) :
    ∀ (i j : Int) (nb : Nat) (tri : List Nat), 0 ≤ i → j ≤ 6 * i →
      (lastPass - i).toNat ≤ fuel →
      ∃ out, EarthMesh.CreateEarthGrid.indices n lastPass fuel i j nb tri = some out ∧
        tri.length ≤ out.length ∧ (i < lastPass → tri.length < out.length) := by
  induction fuel with
  | zero =>
    intro i j nb tri hi hj hfuel
    have hge : ¬ i < lastPass := by omega
    refine ⟨tri, ?_, Nat.le_refl _, fun h => absurd h hge⟩
    unfold EarthMesh.CreateEarthGrid.indices
    rw [if_neg hge]
  | succ fuel ih =>
    intro i j nb tri hi hj hfuel
    unfold EarthMesh.CreateEarthGrid.indices
    by_cases hlt : i < lastPass
    · rw [if_pos hlt]
      simp only []
      by_cases hline : (nb + 1) % 2 ^ 32 = uintSub n 1
      · rw [if_pos hline, if_pos (by norm_num at hlast ⊢; omega)]
        obtain ⟨out, hout, hlen, _⟩ := ih (i + 1 + 1) (j + 6) 0
          (tri ++ [ShadowsSample.intToUint32 (i + n + 1)] ++ [ShadowsSample.intToUint32 (i + 1)]
            ++ [ShadowsSample.intToUint32 i] ++ [ShadowsSample.intToUint32 (i + n + 1)]
            ++ [ShadowsSample.intToUint32 i] ++ [ShadowsSample.intToUint32 (i + n)])
          (by omega) (by omega) (by omega)
        refine ⟨out, hout, ?_, fun _ => ?_⟩
        · simp only [List.length_append, List.length_singleton] at hlen
          omega
        · simp only [List.length_append, List.length_singleton] at hlen
          omega
      · rw [if_neg hline, if_pos (by norm_num at hlast ⊢; omega)]
        obtain ⟨out, hout, hlen, _⟩ := ih (i + 1) (j + 6) ((nb + 1) % 2 ^ 32)
          (tri ++ [ShadowsSample.intToUint32 (i + n + 1)] ++ [ShadowsSample.intToUint32 (i + 1)]
            ++ [ShadowsSample.intToUint32 i] ++ [ShadowsSample.intToUint32 (i + n + 1)]
            ++ [ShadowsSample.intToUint32 i] ++ [ShadowsSample.intToUint32 (i + n)])
          (by omega) (by omega) (by omega)
        refine ⟨out, hout, ?_, fun _ => ?_⟩
        · simp only [List.length_append, List.length_singleton] at hlen
          omega
        · simp only [List.length_append, List.length_singleton] at hlen
          omega
    · rw [if_neg hlt]
      exact ⟨tri, rfl, Nat.le_refl _, fun h => absurd h hlt⟩

/-! ## Creation of the earth mesh -/

theorem EarthMesh.CreateEarthPipeline_eq (self : EarthMesh) (device : RenderDevice)
    (hdev : self.m_pDevice = some device) :
    ∃ pso : PipelineState, self.CreateEarthPipeline = some
      { self with
        m_pEarthPSO := some pso
        m_pEarthSRB := some (pso.CreateShaderResourceBinding true) } := by
  unfold EarthMesh.CreateEarthPipeline
  rw [hdev]
  exact ⟨_, rfl⟩

theorem EarthMesh.CreateLightPipeline_eq (self : EarthMesh) (device : RenderDevice)
    (hdev : self.m_pDevice = some device) :
    ∃ pso : PipelineState, self.CreateLightPipeline = some
      { self with
        m_pLightPSO := some pso
        m_pLightSRB := some (pso.CreateShaderResourceBinding true) } := by
  unfold EarthMesh.CreateLightPipeline
  rw [hdev]
  exact ⟨_, rfl⟩

theorem EarthMesh.LoadEarthTexture_eq (self : EarthMesh) (device : RenderDevice)
    (srb : ShaderResourceBinding) (hdev : self.m_pDevice = some device)
    (hsrb : self.m_pEarthSRB = some srb) :
    ∃ (heightMapSRV textureSRV : Handle) (srb' : ShaderResourceBinding),
      self.LoadEarthTexture = some
        { self with
          m_heightMapSRV := some heightMapSRV
          m_textureSRV := some textureSRV
          m_pEarthSRB := some srb' } := by
  unfold EarthMesh.LoadEarthTexture
  rw [hdev]
  simp only []
  rw [hsrb]
  exact ⟨_, _, _, rfl⟩

theorem EarthMesh.CreateLightCube_eq (self : EarthMesh) (device : RenderDevice)
    (hdev : self.m_pDevice = some device) :
    ∃ vb ib : Handle, self.CreateLightCube = some
      { self with
        m_pLightCubeVertexBuffer := some vb
        m_pLightCubeIndexBuffer := some ib } := by
  unfold EarthMesh.CreateLightCube
  rw [hdev]
  exact ⟨_, _, rfl⟩

/-- With a device and a resolution `n ≥ 2` for which `6 * n * n` fits a signed 32-bit
integer, `CreateEarthGrid` returns: it replaces the two vectors and the two buffers, and
both vectors are non-empty. -/
theorem EarthMesh.CreateEarthGrid_eq (self : EarthMesh) (device : RenderDevice)
    (hdev : self.m_pDevice = some device) (hn : 2 ≤ self.m_iNbGridSidePts)
    (hbound : 6 * (self.m_iNbGridSidePts * self.m_iNbGridSidePts) < 2 ^ 31) :
    ∃ (verts : List EarthMesh.Vertex) (tri : List Nat) (vb ib : Handle),
      self.CreateEarthGrid = some
        { self with
          m_gridVertices := verts
          m_triConnec := tri
          m_pGridVertexBuffer := some vb
          m_pGridIndexBuffer := some ib } ∧
      verts = EarthMesh.CreateEarthGrid.vertices self.m_iNbGridSidePts
        (if self.m_gridVertices.length > 0 ∧ self.m_pGridVertexBuffer.isSome then []
         else self.m_gridVertices) ∧
      EarthMesh.CreateEarthGrid.indices self.m_iNbGridSidePts
          (EarthMesh.CreateEarthGrid.lastPass self.m_iNbGridSidePts)
          (EarthMesh.CreateEarthGrid.lastPass self.m_iNbGridSidePts).toNat 0 0 0
          (if self.m_triConnec.length > 0 ∧ self.m_pGridIndexBuffer.isSome then []
           else self.m_triConnec) = some tri ∧
      0 < verts.length ∧ 0 < tri.length := by
  have hnn : self.m_iNbGridSidePts * self.m_iNbGridSidePts < 2 ^ 31 := by omega
  have hlast := EarthMesh.CreateEarthGrid.lastPass_eq self.m_iNbGridSidePts hn hnn
  have h1 : self.m_iNbGridSidePts + 2 ≤ self.m_iNbGridSidePts * self.m_iNbGridSidePts := by
    nlinarith
  have hpos : (0 : Int) < EarthMesh.CreateEarthGrid.lastPass self.m_iNbGridSidePts := by
    rw [hlast]
    have : ((self.m_iNbGridSidePts : Int) + 2 ≤ self.m_iNbGridSidePts * self.m_iNbGridSidePts) := by
      exact_mod_cast h1
    omega
  have h6 : 6 * EarthMesh.CreateEarthGrid.lastPass self.m_iNbGridSidePts < 2 ^ 31 := by
    rw [hlast]
    have : (6 * ((self.m_iNbGridSidePts : Int) * self.m_iNbGridSidePts) < 2 ^ 31) := by
      exact_mod_cast hbound
    omega
  obtain ⟨tri, htri, _, hlen⟩ := EarthMesh.CreateEarthGrid.indices_isSome
    self.m_iNbGridSidePts _ h6 (EarthMesh.CreateEarthGrid.lastPass self.m_iNbGridSidePts).toNat
    0 0 0
    (if self.m_triConnec.length > 0 ∧ self.m_pGridIndexBuffer.isSome then []
     else self.m_triConnec)
    (Int.le_refl _) (by omega) (by omega)
  have htripos : 0 < tri.length := Nat.lt_of_le_of_lt (Nat.zero_le _) (hlen hpos)
  have hvpos : 0 < (EarthMesh.CreateEarthGrid.vertices self.m_iNbGridSidePts
      (if self.m_gridVertices.length > 0 ∧ self.m_pGridVertexBuffer.isSome then []
       else self.m_gridVertices)).length := by
    rw [EarthMesh.CreateEarthGrid.vertices_length]
    omega
  refine ⟨_, tri,
    device.CreateBuffer
      { Name := "Grid Vertex buffer", Usage := USAGE.USAGE_STATIC,
        BindFlags := BIND_FLAGS.BIND_VERTEX_BUFFER,
        uiSizeInBytes := ShadowsSample.toUint32 (8 *
          (EarthMesh.CreateEarthGrid.vertices self.m_iNbGridSidePts
            (if self.m_gridVertices.length > 0 ∧ self.m_pGridVertexBuffer.isSome then []
             else self.m_gridVertices)).length) }
      { pData := BufferWords.ofFloat
          ((EarthMesh.CreateEarthGrid.vertices self.m_iNbGridSidePts
            (if self.m_gridVertices.length > 0 ∧ self.m_pGridVertexBuffer.isSome then []
             else self.m_gridVertices)).flatMap (fun v => [v.uv.x, v.uv.y]))
        DataSize := ShadowsSample.toUint32 (8 *
          (EarthMesh.CreateEarthGrid.vertices self.m_iNbGridSidePts
            (if self.m_gridVertices.length > 0 ∧ self.m_pGridVertexBuffer.isSome then []
             else self.m_gridVertices)).length) },
    device.CreateBuffer
      { Name := "Grid index buffer", Usage := USAGE.USAGE_STATIC,
        BindFlags := BIND_FLAGS.BIND_INDEX_BUFFER,
        uiSizeInBytes := ShadowsSample.toUint32 (4 * tri.length) }
      { pData := BufferWords.ofUint tri, DataSize := ShadowsSample.toUint32 (4 * tri.length) },
    ?_, rfl, htri, hvpos, htripos⟩
  unfold EarthMesh.CreateEarthGrid
  by_cases c1 : self.m_gridVertices.length > 0 ∧ self.m_pGridVertexBuffer.isSome
  · by_cases c2 : self.m_triConnec.length > 0 ∧ self.m_pGridIndexBuffer.isSome
    · simp only [c1, c2, if_true, and_self, vectorClear] at htri hvpos ⊢
      rw [List.getElem?_eq_getElem hvpos, hdev]
      simp only [htri]
      rw [List.getElem?_eq_getElem htripos]
    · simp only [c1, c2, if_true, if_false, and_self, vectorClear] at htri hvpos ⊢
      rw [List.getElem?_eq_getElem hvpos, hdev]
      simp only [htri]
      rw [List.getElem?_eq_getElem htripos]
  · by_cases c2 : self.m_triConnec.length > 0 ∧ self.m_pGridIndexBuffer.isSome
    · simp only [c1, c2, if_true, if_false, and_self, vectorClear] at htri hvpos ⊢
      rw [List.getElem?_eq_getElem hvpos, hdev]
      simp only [htri]
      rw [List.getElem?_eq_getElem htripos]
    · simp only [c1, c2, if_false, and_self, vectorClear] at htri hvpos ⊢
      rw [List.getElem?_eq_getElem hvpos, hdev]
      simp only [htri]
      rw [List.getElem?_eq_getElem htripos]


/-- With a device and a resolution `n ≥ 2` for which `6 * n * n` fits a signed 32-bit
integer, `Create` returns a mesh with that device, resolution and light position, height
scale `0.1`, and every pipeline, binding and buffer created. -/
theorem EarthMesh.Create_eq (self : EarthMesh) (device : RenderDevice)
    (pContext : Option Handle) (n : Nat) (light : float3) (hn : 2 ≤ n)
    (hbound : 6 * (n * n) < 2 ^ 31) :
    ∃ (epso lpso : PipelineState) (srb : ShaderResourceBinding)
      (verts : List EarthMesh.Vertex) (tri : List Nat)
      (vb ib heightMapSRV textureSRV cvb cib : Handle),
      self.Create (some device) pContext n light = some
        { self with
          m_pDevice := some device, m_pContext := pContext, m_iNbGridSidePts := n,
          m_fLightPosition := light, m_fHeightScale := 1 / 10,
          m_pVSConstants := some
            (device.CreateUniformBuffer EarthMesh.sizeofGlobalConstants "VS constants CB"),
          m_pEarthPSO := some epso, m_pEarthSRB := some srb,
          m_pLightPSO := some lpso, m_pLightSRB := some (lpso.CreateShaderResourceBinding true),
          m_gridVertices := verts, m_triConnec := tri,
          m_pGridVertexBuffer := some vb, m_pGridIndexBuffer := some ib,
          m_heightMapSRV := some heightMapSRV, m_textureSRV := some textureSRV,
          m_pLightCubeVertexBuffer := some cvb, m_pLightCubeIndexBuffer := some cib } ∧
      verts = EarthMesh.CreateEarthGrid.vertices n
        (if self.m_gridVertices.length > 0 ∧ self.m_pGridVertexBuffer.isSome then []
         else self.m_gridVertices) ∧
      EarthMesh.CreateEarthGrid.indices n (EarthMesh.CreateEarthGrid.lastPass n)
          (EarthMesh.CreateEarthGrid.lastPass n).toNat 0 0 0
          (if self.m_triConnec.length > 0 ∧ self.m_pGridIndexBuffer.isSome then []
           else self.m_triConnec) = some tri ∧
      0 < verts.length ∧ 0 < tri.length := by
  obtain ⟨epso, h1⟩ := EarthMesh.CreateEarthPipeline_eq
    { self with
      m_pDevice := some device, m_pContext := pContext, m_iNbGridSidePts := n,
      m_fLightPosition := light, m_fHeightScale := 1 / 10,
      m_pVSConstants := some
        (device.CreateUniformBuffer EarthMesh.sizeofGlobalConstants "VS constants CB") } device rfl
  obtain ⟨lpso, h2⟩ := EarthMesh.CreateLightPipeline_eq
    { ({ self with
      m_pDevice := some device, m_pContext := pContext, m_iNbGridSidePts := n,
      m_fLightPosition := light, m_fHeightScale := 1 / 10,
      m_pVSConstants := some
        (device.CreateUniformBuffer EarthMesh.sizeofGlobalConstants "VS constants CB") } : EarthMesh) with
      m_pEarthPSO := some epso, m_pEarthSRB := some (epso.CreateShaderResourceBinding true) } device rfl
  obtain ⟨verts, tri, vb, ib, h3, hverts, htri, hvpos, htripos⟩ := EarthMesh.CreateEarthGrid_eq
    { ({ ({ self with
      m_pDevice := some device, m_pContext := pContext, m_iNbGridSidePts := n,
      m_fLightPosition := light, m_fHeightScale := 1 / 10,
      m_pVSConstants := some
        (device.CreateUniformBuffer EarthMesh.sizeofGlobalConstants "VS constants CB") } : EarthMesh) with
      m_pEarthPSO := some epso, m_pEarthSRB := some (epso.CreateShaderResourceBinding true) } : EarthMesh) with
      m_pLightPSO := some lpso, m_pLightSRB := some (lpso.CreateShaderResourceBinding true) } device rfl hn hbound
  obtain ⟨heightMapSRV, textureSRV, srb, h4⟩ := EarthMesh.LoadEarthTexture_eq
    { ({ ({ ({ self with
      m_pDevice := some device, m_pContext := pContext, m_iNbGridSidePts := n,
      m_fLightPosition := light, m_fHeightScale := 1 / 10,
      m_pVSConstants := some
        (device.CreateUniformBuffer EarthMesh.sizeofGlobalConstants "VS constants CB") } : EarthMesh) with
      m_pEarthPSO := some epso, m_pEarthSRB := some (epso.CreateShaderResourceBinding true) } : EarthMesh) with
      m_pLightPSO := some lpso, m_pLightSRB := some (lpso.CreateShaderResourceBinding true) } : EarthMesh) with
      m_gridVertices := verts, m_triConnec := tri,
      m_pGridVertexBuffer := some vb, m_pGridIndexBuffer := some ib } device (epso.CreateShaderResourceBinding true) rfl rfl
  obtain ⟨cvb, cib, h5⟩ := EarthMesh.CreateLightCube_eq
    { ({ ({ ({ ({ self with
      m_pDevice := some device, m_pContext := pContext, m_iNbGridSidePts := n,
      m_fLightPosition := light, m_fHeightScale := 1 / 10,
      m_pVSConstants := some
        (device.CreateUniformBuffer EarthMesh.sizeofGlobalConstants "VS constants CB") } : EarthMesh) with
      m_pEarthPSO := some epso, m_pEarthSRB := some (epso.CreateShaderResourceBinding true) } : EarthMesh) with
      m_pLightPSO := some lpso, m_pLightSRB := some (lpso.CreateShaderResourceBinding true) } : EarthMesh) with
      m_gridVertices := verts, m_triConnec := tri,
      m_pGridVertexBuffer := some vb, m_pGridIndexBuffer := some ib } : EarthMesh) with
      m_heightMapSRV := some heightMapSRV, m_textureSRV := some textureSRV,
      m_pEarthSRB := some srb } device rfl
  refine ⟨epso, lpso, srb, verts, tri, vb, ib, heightMapSRV, textureSRV, cvb, cib, ?_,
    hverts, htri, hvpos, htripos⟩
  unfold EarthMesh.Create
  simp only []
  rw [h1]
  simp only []
  rw [h2]
  simp only []
  rw [h3]
  simp only []
  rw [h4]
  simp only []
  rw [h5]

/-! ## Start-up of the terrain sample -/

/-- C11. `TerrainRenderer::Initialize` is left by its `std::runtime_error` exactly when the
device reports no compute-shader support. It is then left with the sample as it was: the
base class is not initialised and the earth mesh is not created. When the device reports
the support, and the base-class initialisation stores a device, and the grid resolution `n`
is at least 2 with `6 * n * n` below `2^31`, it returns: the base class is initialised, and
the earth mesh is created with resolution `n`, the sample's light position, a height scale
of `0.1`, `n * n` more vertices, a non-empty index list and all its buffers; the other
members of the sample are as before. This is so for every sample as constructed, whose
resolution is 100. -/
theorem TerrainRenderer.Initialize_computeShaders (framework : Framework)
    (self : TerrainRenderer) (pEngineFactory : Handle) (pDevice : RenderDevice)
    (ppContexts : List Handle) (NumDeferredCtx : Nat) (pSwapChain : Handle) :
    ((∃ st what, self.Initialize framework pEngineFactory pDevice ppContexts NumDeferredCtx
        pSwapChain = some (st, some what)) ↔
      pDevice.GetDeviceCaps.Features.ComputeShaders = false) ∧
    (pDevice.GetDeviceCaps.Features.ComputeShaders = false →
      self.Initialize framework pEngineFactory pDevice ppContexts NumDeferredCtx pSwapChain
        = some (self, some "Compute shaders are required to run this sample")) ∧
    (pDevice.GetDeviceCaps.Features.ComputeShaders = true →
      ∀ device : RenderDevice,
        (framework.SampleBaseInitialize self.toSampleBase pEngineFactory pDevice ppContexts
          NumDeferredCtx pSwapChain).m_pDevice = some device →
        2 ≤ ShadowsSample.intToUint32 self.m_iNbGridSidePts →
        6 * (ShadowsSample.intToUint32 self.m_iNbGridSidePts *
          ShadowsSample.intToUint32 self.m_iNbGridSidePts) < 2 ^ 31 →
        ∃ st, self.Initialize framework pEngineFactory pDevice ppContexts NumDeferredCtx
            pSwapChain = some (st, none) ∧
          st.toSampleBase = framework.SampleBaseInitialize self.toSampleBase pEngineFactory
            pDevice ppContexts NumDeferredCtx pSwapChain ∧
          st.m_earthMesh.m_iNbGridSidePts = ShadowsSample.intToUint32 self.m_iNbGridSidePts ∧
          st.m_earthMesh.m_fLightPosition = self.m_fLightPosition ∧
          st.m_earthMesh.m_fHeightScale = 1 / 10 ∧
          st.m_earthMesh.m_pDevice = some device ∧
          st.m_earthMesh.m_gridVertices.length =
            (if self.m_earthMesh.m_gridVertices.length > 0 ∧
                self.m_earthMesh.m_pGridVertexBuffer.isSome then 0
             else self.m_earthMesh.m_gridVertices.length) +
            ShadowsSample.intToUint32 self.m_iNbGridSidePts *
              ShadowsSample.intToUint32 self.m_iNbGridSidePts ∧
          0 < st.m_earthMesh.m_triConnec.length ∧
          st.m_earthMesh.m_pEarthPSO.isSome ∧ st.m_earthMesh.m_pEarthSRB.isSome ∧
          st.m_earthMesh.m_pLightPSO.isSome ∧ st.m_earthMesh.m_pLightSRB.isSome ∧
          st.m_earthMesh.m_pGridVertexBuffer.isSome ∧
          st.m_earthMesh.m_pGridIndexBuffer.isSome ∧
          st.m_earthMesh.m_pLightCubeVertexBuffer.isSome ∧
          st.m_earthMesh.m_pLightCubeIndexBuffer.isSome ∧
          st.m_iNbGridSidePts = self.m_iNbGridSidePts ∧
          st.m_fLightPosition = self.m_fLightPosition ∧
          st.m_fElevationScale = self.m_fElevationScale ∧
          st.m_fZCamPos = self.m_fZCamPos ∧ st.m_bAnimateGrid = self.m_bAnimateGrid ∧
          st.m_fElapsedTime = self.m_fElapsedTime) ∧
    (pDevice.GetDeviceCaps.Features.ComputeShaders = true →
      ∀ (heightScale : ℚ) (nbGridSidePts : Nat) (device : RenderDevice),
        (framework.SampleBaseInitialize (TerrainRenderer.new framework heightScale
          nbGridSidePts).toSampleBase pEngineFactory pDevice ppContexts NumDeferredCtx
          pSwapChain).m_pDevice = some device →
        ∃ st, (TerrainRenderer.new framework heightScale nbGridSidePts).Initialize framework
            pEngineFactory pDevice ppContexts NumDeferredCtx pSwapChain = some (st, none) ∧
          st.m_earthMesh.m_iNbGridSidePts = 100 ∧
          st.m_earthMesh.m_fLightPosition =
            framework.normalize { x := 1 / 100, y := 1 / 100, z := 1 / 100 } ∧
          st.m_earthMesh.m_gridVertices.length = 100 * 100) := by
  have hsuccess : ∀ self : TerrainRenderer,
      pDevice.GetDeviceCaps.Features.ComputeShaders = true →
      ∀ device : RenderDevice,
        (framework.SampleBaseInitialize self.toSampleBase pEngineFactory pDevice ppContexts
          NumDeferredCtx pSwapChain).m_pDevice = some device →
        2 ≤ ShadowsSample.intToUint32 self.m_iNbGridSidePts →
        6 * (ShadowsSample.intToUint32 self.m_iNbGridSidePts *
          ShadowsSample.intToUint32 self.m_iNbGridSidePts) < 2 ^ 31 →
        ∃ (st : TerrainRenderer) (verts : List EarthMesh.Vertex),
          self.Initialize framework pEngineFactory pDevice ppContexts NumDeferredCtx
            pSwapChain = some (st, none) ∧
          verts = EarthMesh.CreateEarthGrid.vertices
            (ShadowsSample.intToUint32 self.m_iNbGridSidePts)
            (if self.m_earthMesh.m_gridVertices.length > 0 ∧
                self.m_earthMesh.m_pGridVertexBuffer.isSome then []
             else self.m_earthMesh.m_gridVertices) ∧
          st.m_earthMesh.m_gridVertices = verts ∧
          st.toSampleBase = framework.SampleBaseInitialize self.toSampleBase pEngineFactory
            pDevice ppContexts NumDeferredCtx pSwapChain ∧
          st.m_earthMesh.m_iNbGridSidePts = ShadowsSample.intToUint32 self.m_iNbGridSidePts ∧
          st.m_earthMesh.m_fLightPosition = self.m_fLightPosition ∧
          st.m_earthMesh.m_fHeightScale = 1 / 10 ∧
          st.m_earthMesh.m_pDevice = some device ∧
          0 < st.m_earthMesh.m_triConnec.length ∧
          st.m_earthMesh.m_pEarthPSO.isSome ∧ st.m_earthMesh.m_pEarthSRB.isSome ∧
          st.m_earthMesh.m_pLightPSO.isSome ∧ st.m_earthMesh.m_pLightSRB.isSome ∧
          st.m_earthMesh.m_pGridVertexBuffer.isSome ∧
          st.m_earthMesh.m_pGridIndexBuffer.isSome ∧
          st.m_earthMesh.m_pLightCubeVertexBuffer.isSome ∧
          st.m_earthMesh.m_pLightCubeIndexBuffer.isSome ∧
          st.m_iNbGridSidePts = self.m_iNbGridSidePts ∧
          st.m_fLightPosition = self.m_fLightPosition ∧
          st.m_fElevationScale = self.m_fElevationScale ∧
          st.m_fZCamPos = self.m_fZCamPos ∧ st.m_bAnimateGrid = self.m_bAnimateGrid ∧
          st.m_fElapsedTime = self.m_fElapsedTime := by
    intro self hcs device hdev hn hbound
    obtain ⟨epso, lpso, srb, verts, tri, vb, ib, heightMapSRV, textureSRV, cvb, cib, hcreate,
      hverts, _, _, htripos⟩ := EarthMesh.Create_eq self.m_earthMesh device
        (framework.SampleBaseInitialize self.toSampleBase pEngineFactory pDevice ppContexts
          NumDeferredCtx pSwapChain).m_pImmediateContext
        (ShadowsSample.intToUint32 self.m_iNbGridSidePts) self.m_fLightPosition hn hbound
    unfold TerrainRenderer.Initialize
    simp only [hcs, Bool.not_true, Bool.false_eq_true, if_false]
    rw [hdev, hcreate]
    exact ⟨_, verts, rfl, hverts, rfl, rfl, rfl, rfl, rfl, rfl, htripos, rfl, rfl, rfl, rfl,
      rfl, rfl, rfl, rfl, rfl, rfl, rfl, rfl, rfl, rfl⟩
  refine ⟨⟨?_, ?_⟩, ?_, ?_, ?_⟩
  · rintro ⟨st, what, h⟩
    cases hcs : pDevice.GetDeviceCaps.Features.ComputeShaders with
    | false => rfl
    | true =>
      unfold TerrainRenderer.Initialize at h
      simp only [hcs, Bool.not_true, Bool.false_eq_true, if_false] at h
      split at h
      · exact absurd h (by simp)
      · exact absurd (congrArg Prod.snd (Option.some.inj h)) (by simp)
  · intro hcs
    refine ⟨self, TerrainRenderer.ComputeShadersRequired, ?_⟩
    unfold TerrainRenderer.Initialize
    simp only [hcs, Bool.not_false, if_true]
  · intro hcs
    unfold TerrainRenderer.Initialize
    simp only [hcs, Bool.not_false, if_true]
    rfl
  · intro hcs device hdev hn hbound
    obtain ⟨st, verts, h, hverts, hst, hrest⟩ := hsuccess self hcs device hdev hn hbound
    obtain ⟨h1, h2, h3, h4, h5, h6⟩ := hrest
    refine ⟨st, h, h1, h2, h3, h4, h5, ?_, h6⟩
    rw [hst, hverts, EarthMesh.CreateEarthGrid.vertices_length]
    congr 1
    split <;> rfl
  · intro hcs heightScale nbGridSidePts device hdev
    have e : ShadowsSample.intToUint32
        (TerrainRenderer.new framework heightScale nbGridSidePts).m_iNbGridSidePts = 100 := by
      show ShadowsSample.intToUint32 100 = 100
      decide
    obtain ⟨st, verts, h, hverts, hst, _, h2, h3, _⟩ := hsuccess
      (TerrainRenderer.new framework heightScale nbGridSidePts) hcs device hdev
      (by rw [e]; decide) (by rw [e]; decide)
    refine ⟨st, h, by rw [h2, e], h3, ?_⟩
    rw [hst, hverts, EarthMesh.CreateEarthGrid.vertices_length, e]
    rfl

/-- Witness of C11: a sample as constructed, on a device with compute shaders and on one
without, and a sample with grid resolution 3. -/
theorem TerrainRenderer.Initialize_computeShaders_witness :
    (∃ st, (TerrainRenderer.new sampleFramework 0 0).Initialize sampleFramework 0
        (sampleDevice true) [1] 0 2 = some (st, none) ∧
      st.m_earthMesh.m_iNbGridSidePts = 100 ∧
      st.m_earthMesh.m_gridVertices.length = 100 * 100) ∧
    (TerrainRenderer.new sampleFramework 0 0).Initialize sampleFramework 0
        (sampleDevice false) [1] 0 2
      = some (TerrainRenderer.new sampleFramework 0 0,
          some "Compute shaders are required to run this sample") ∧
    2 ≤ ShadowsSample.intToUint32 (terrainOf 3).m_iNbGridSidePts ∧
    6 * (ShadowsSample.intToUint32 (terrainOf 3).m_iNbGridSidePts *
      ShadowsSample.intToUint32 (terrainOf 3).m_iNbGridSidePts) < 2 ^ 31 ∧
    ∃ st, (terrainOf 3).Initialize sampleFramework 0 (sampleDevice true) [1] 0 2
        = some (st, none) ∧
      st.m_earthMesh.m_iNbGridSidePts = 3 ∧ st.m_earthMesh.m_gridVertices.length = 9 :=
  ⟨match (TerrainRenderer.Initialize_computeShaders sampleFramework
      (TerrainRenderer.new sampleFramework 0 0) 0 (sampleDevice true) [1] 0 2).2.2.2 rfl 0 0
      (sampleDevice true) rfl with
    | ⟨st, h, hn, _, hlen⟩ => ⟨st, h, hn, hlen⟩,
    (TerrainRenderer.Initialize_computeShaders sampleFramework
      (TerrainRenderer.new sampleFramework 0 0) 0 (sampleDevice false) [1] 0 2).2.1 rfl,
    by decide, by decide,
    match (TerrainRenderer.Initialize_computeShaders sampleFramework (terrainOf 3) 0
      (sampleDevice true) [1] 0 2).2.2.1 rfl (sampleDevice true) rfl (by decide)
      (by decide) with
    | ⟨st, h, _, hn, _, _, _, hlen, _⟩ =>
      ⟨st, h, hn.trans (by decide), hlen.trans (by decide)⟩⟩

/-! ## The conversion of a vertex declaration -/

/-- The loop of the conversion over a declaration whose elements before the first terminator
are `pre`: the kept elements of `pre`, converted, are appended to the vector. -/
theorem DXSDKMESH_VERTEX_ELEMENTtoInputLayoutDesc.loop_eq (Stride : Nat)
    (pre post : List DXSDKMESH_VERTEX_ELEMENT) (term : DXSDKMESH_VERTEX_ELEMENT)
    (hpre : ∀ e ∈ pre, e.Stream ≠ 0xFF) (hterm : term.Stream = 0xFF)
    (Elements : List LayoutElement) :
    DXSDKMESH_VERTEX_ELEMENTtoInputLayoutDesc.loop Stride (pre ++ term :: post) Elements
      = some (Elements ++
          (pre.filter (fun e => decide (InputIndexOfUsage e.Usage ≥ 0))).map (fun e =>
            { InputIndex := (InputIndexOfUsage e.Usage).toNat, BufferSlot := e.Stream,
              NumComponents := (ComponentsOfType e.Type_).1,
              ValueType := (ComponentsOfType e.Type_).2.1,
              IsNormalized := (ComponentsOfType e.Type_).2.2,
              RelativeOffset := e.Offset, Stride := Stride })) := by
  induction pre generalizing Elements with
  | nil =>
    show DXSDKMESH_VERTEX_ELEMENTtoInputLayoutDesc.loop Stride (term :: post) Elements = _
    unfold DXSDKMESH_VERTEX_ELEMENTtoInputLayoutDesc.loop
    rw [if_pos hterm]
    simp
  | cons e pre ih =>
    have he : e.Stream ≠ 0xFF := hpre e (List.mem_cons_self _ _)
    have hrest : ∀ x ∈ pre, x.Stream ≠ 0xFF := fun x hx => hpre x (List.mem_cons_of_mem _ hx)
    show DXSDKMESH_VERTEX_ELEMENTtoInputLayoutDesc.loop Stride (e :: (pre ++ term :: post))
      Elements = _
    unfold DXSDKMESH_VERTEX_ELEMENTtoInputLayoutDesc.loop
    rw [if_neg he]
    simp only []
    by_cases hidx : InputIndexOfUsage e.Usage ≥ 0
    · rw [if_pos hidx, ih hrest]
      simp [List.filter_cons, hidx]
    · rw [if_neg hidx, ih hrest]
      simp [List.filter_cons, hidx]

theorem InputIndexOfUsage_nonneg_iff (u : DXSDKMESH_VERTEX_SEMANTIC) :
    InputIndexOfUsage u ≥ 0 ↔
      (u = DXSDKMESH_VERTEX_SEMANTIC.POSITION ∨ u = DXSDKMESH_VERTEX_SEMANTIC.NORMAL ∨
        u = DXSDKMESH_VERTEX_SEMANTIC.TEXCOORD) := by
  cases u <;> decide

/-- C25. For a declaration `pre ++ term :: post` in which no element of `pre` has
`Stream = 0xFF`, `term` has, and every element of `pre` of usage POSITION, NORMAL or
TEXCOORD has type FLOAT2 or FLOAT3: the conversion returns, and its output vector is the
elements of `pre` of those three usages, in order, each converted to a layout element with
input index 0, 1 or 2 for its usage, 2 or 3 components for its type, value type float32,
not normalised, the element's stream and offset, and the given stride. The previous
content of the vector does not matter, `Layout.LayoutElements` is the output vector and
`Layout.NumElements` its length. -/
theorem DXSDKMESH_VERTEX_ELEMENTtoInputLayoutDesc_output (Stride : Nat)
    (pre post : List DXSDKMESH_VERTEX_ELEMENT) (term : DXSDKMESH_VERTEX_ELEMENT)
    (Layout : InputLayoutDesc) (Elements : List LayoutElement)
    (hpre : ∀ e ∈ pre, e.Stream ≠ 0xFF) (hterm : term.Stream = 0xFF)
    (htype : ∀ e ∈ pre,
      (e.Usage = DXSDKMESH_VERTEX_SEMANTIC.POSITION ∨ e.Usage = DXSDKMESH_VERTEX_SEMANTIC.NORMAL ∨
        e.Usage = DXSDKMESH_VERTEX_SEMANTIC.TEXCOORD) →
      (e.Type_ = DXSDKMESH_VERTEX_DATA_TYPE.FLOAT2 ∨ e.Type_ = DXSDKMESH_VERTEX_DATA_TYPE.FLOAT3)) :
    ∃ out : List LayoutElement,
      out = (pre.filter (fun e => decide
          (e.Usage = DXSDKMESH_VERTEX_SEMANTIC.POSITION ∨
            e.Usage = DXSDKMESH_VERTEX_SEMANTIC.NORMAL ∨
            e.Usage = DXSDKMESH_VERTEX_SEMANTIC.TEXCOORD))).map (fun e =>
        { InputIndex :=
            if e.Usage = DXSDKMESH_VERTEX_SEMANTIC.POSITION then 0
            else if e.Usage = DXSDKMESH_VERTEX_SEMANTIC.NORMAL then 1 else 2
          BufferSlot := e.Stream
          NumComponents := if e.Type_ = DXSDKMESH_VERTEX_DATA_TYPE.FLOAT2 then 2 else 3
          ValueType := VALUE_TYPE.VT_FLOAT32
          IsNormalized := false
          RelativeOffset := e.Offset
          Stride := Stride }) ∧
      DXSDKMESH_VERTEX_ELEMENTtoInputLayoutDesc (pre ++ term :: post) Stride Layout Elements
        = some ({ Layout with LayoutElements := out, NumElements := out.length }, out) := by
  refine ⟨_, rfl, ?_⟩
  have hfilter : pre.filter (fun e => decide (InputIndexOfUsage e.Usage ≥ 0))
      = pre.filter (fun e => decide
          (e.Usage = DXSDKMESH_VERTEX_SEMANTIC.POSITION ∨
            e.Usage = DXSDKMESH_VERTEX_SEMANTIC.NORMAL ∨
            e.Usage = DXSDKMESH_VERTEX_SEMANTIC.TEXCOORD)) := by
    apply List.filter_congr
    intro e _
    exact decide_eq_decide.2 (InputIndexOfUsage_nonneg_iff e.Usage)
  unfold DXSDKMESH_VERTEX_ELEMENTtoInputLayoutDesc
  simp only [vectorClear]
  rw [DXSDKMESH_VERTEX_ELEMENTtoInputLayoutDesc.loop_eq Stride pre post term hpre hterm,
    List.nil_append, hfilter]
  have hmap : ∀ e ∈ pre.filter (fun e => decide
        (e.Usage = DXSDKMESH_VERTEX_SEMANTIC.POSITION ∨
          e.Usage = DXSDKMESH_VERTEX_SEMANTIC.NORMAL ∨
          e.Usage = DXSDKMESH_VERTEX_SEMANTIC.TEXCOORD)),
      ({ InputIndex := (InputIndexOfUsage e.Usage).toNat, BufferSlot := e.Stream,
         NumComponents := (ComponentsOfType e.Type_).1,
         ValueType := (ComponentsOfType e.Type_).2.1,
         IsNormalized := (ComponentsOfType e.Type_).2.2,
         RelativeOffset := e.Offset, Stride := Stride } : LayoutElement)
      = { InputIndex :=
            if e.Usage = DXSDKMESH_VERTEX_SEMANTIC.POSITION then 0
            else if e.Usage = DXSDKMESH_VERTEX_SEMANTIC.NORMAL then 1 else 2
          BufferSlot := e.Stream
          NumComponents := if e.Type_ = DXSDKMESH_VERTEX_DATA_TYPE.FLOAT2 then 2 else 3
          ValueType := VALUE_TYPE.VT_FLOAT32
          IsNormalized := false
          RelativeOffset := e.Offset
          Stride := Stride } := by
    intro e he
    rw [List.mem_filter] at he
    obtain ⟨hmem, husage⟩ := he
    have husage' := of_decide_eq_true husage
    have ht := htype e hmem husage'
    rcases husage' with hu | hu | hu <;> rcases ht with ht | ht <;> rw [hu, ht] <;> rfl
  rw [List.map_congr_left hmap]

/-- Witness of C25: the declaration `declPositionNormalTexcoord`, with a previous vector
content that is discarded. -/
theorem DXSDKMESH_VERTEX_ELEMENTtoInputLayoutDesc_output_witness :
    DXSDKMESH_VERTEX_ELEMENTtoInputLayoutDesc declPositionNormalTexcoord 32 {}
        [{ InputIndex := 9, BufferSlot := 9, NumComponents := 9,
           ValueType := VALUE_TYPE.VT_UINT8, IsNormalized := true, RelativeOffset := 9,
           Stride := 9 }]
      = some
        ({ LayoutElements :=
            [{ InputIndex := 0, BufferSlot := 0, NumComponents := 3,
               ValueType := VALUE_TYPE.VT_FLOAT32, IsNormalized := false, RelativeOffset := 0,
               Stride := 32 },
             { InputIndex := 1, BufferSlot := 0, NumComponents := 3,
               ValueType := VALUE_TYPE.VT_FLOAT32, IsNormalized := false, RelativeOffset := 12,
               Stride := 32 },
             { InputIndex := 2, BufferSlot := 0, NumComponents := 2,
               ValueType := VALUE_TYPE.VT_FLOAT32, IsNormalized := false, RelativeOffset := 24,
               Stride := 32 }]
           NumElements := 3 },
         [{ InputIndex := 0, BufferSlot := 0, NumComponents := 3,
            ValueType := VALUE_TYPE.VT_FLOAT32, IsNormalized := false, RelativeOffset := 0,
            Stride := 32 },
          { InputIndex := 1, BufferSlot := 0, NumComponents := 3,
            ValueType := VALUE_TYPE.VT_FLOAT32, IsNormalized := false, RelativeOffset := 12,
            Stride := 32 },
          { InputIndex := 2, BufferSlot := 0, NumComponents := 2,
            ValueType := VALUE_TYPE.VT_FLOAT32, IsNormalized := false, RelativeOffset := 24,
            Stride := 32 }]) :=
  match DXSDKMESH_VERTEX_ELEMENTtoInputLayoutDesc_output 32
      (declPositionNormalTexcoord.take 3) [] (declPositionNormalTexcoord.getLast (by decide))
      {} [{ InputIndex := 9, BufferSlot := 9, NumComponents := 9,
            ValueType := VALUE_TYPE.VT_UINT8, IsNormalized := true, RelativeOffset := 9,
            Stride := 9 }]
      (by decide) (by decide) (by decide) with
  | ⟨_, hout, h⟩ => by
    subst hout
    exact h

/-! ## The light cube -/

theorem EarthMesh.CreateLightCube.trianglesOf_Indices :
    trianglesOf EarthMesh.CreateLightCube.Indices =
      [(2, 0, 1), (2, 3, 0), (4, 6, 5), (4, 7, 6), (0, 7, 4), (0, 3, 7),
       (1, 0, 4), (1, 4, 5), (1, 5, 2), (5, 6, 2), (3, 6, 7), (3, 2, 6)] := by
  decide

theorem EarthMesh.CreateLightCube.position_eq :
    EarthMesh.CreateLightCube.position 0
      = { x := -(5 / 100), y := -(5 / 100), z := -(5 / 100) } ∧
    EarthMesh.CreateLightCube.position 1 = { x := -(5 / 100), y := 5 / 100, z := -(5 / 100) } ∧
    EarthMesh.CreateLightCube.position 2 = { x := 5 / 100, y := 5 / 100, z := -(5 / 100) } ∧
    EarthMesh.CreateLightCube.position 3 = { x := 5 / 100, y := -(5 / 100), z := -(5 / 100) } ∧
    EarthMesh.CreateLightCube.position 4 = { x := -(5 / 100), y := -(5 / 100), z := 5 / 100 } ∧
    EarthMesh.CreateLightCube.position 5 = { x := -(5 / 100), y := 5 / 100, z := 5 / 100 } ∧
    EarthMesh.CreateLightCube.position 6 = { x := 5 / 100, y := 5 / 100, z := 5 / 100 } ∧
    EarthMesh.CreateLightCube.position 7 = { x := 5 / 100, y := -(5 / 100), z := 5 / 100 } :=
  ⟨rfl, rfl, rfl, rfl, rfl, rfl, rfl, rfl⟩

theorem EarthMesh.CreateLightCube.centre_eq :
    EarthMesh.CreateLightCube.centre = { x := 0, y := 0, z := 0 } := by
  unfold EarthMesh.CreateLightCube.centre EarthMesh.CreateLightCube.CubeVerts
  norm_num

/-- Every triangle of the cube has its vector `(b - a) x (c - a)` on the side of the
triangle away from the centre. -/
theorem EarthMesh.CreateLightCube.normal_outward :
    ∀ t ∈ trianglesOf EarthMesh.CreateLightCube.Indices,
      0 < (EarthMesh.CreateLightCube.normal t).dot
        ((EarthMesh.CreateLightCube.position t.1).sub EarthMesh.CreateLightCube.centre) := by
  obtain ⟨p0, p1, p2, p3, p4, p5, p6, p7⟩ := EarthMesh.CreateLightCube.position_eq
  rw [EarthMesh.CreateLightCube.trianglesOf_Indices, EarthMesh.CreateLightCube.centre_eq]
  simp only [List.forall_mem_cons, List.not_mem_nil, false_imp_iff, implies_true, and_true,
    EarthMesh.CreateLightCube.normal, p0, p1, p2, p3, p4, p5, p6, p7, float3.sub, float3.cross,
    float3.dot]
  norm_num

/-- The triangles on each face of the cube are two, and they split the face along a
diagonal. -/
theorem EarthMesh.CreateLightCube.faces_covered :
    ∀ face ∈ EarthMesh.CreateLightCube.faces,
      ∃ s t, EarthMesh.CreateLightCube.trianglesOn face = [s, t] ∧
        EarthMesh.CreateLightCube.splitsFace s t = true := by
  obtain ⟨p0, p1, p2, p3, p4, p5, p6, p7⟩ := EarthMesh.CreateLightCube.position_eq
  have hon : ∀ (face : Nat × ℚ) (s t : Nat × Nat × Nat),
      (trianglesOf EarthMesh.CreateLightCube.Indices).filter (fun t =>
        EarthMesh.CreateLightCube.onFace face t.1 && EarthMesh.CreateLightCube.onFace face t.2.1
          && EarthMesh.CreateLightCube.onFace face t.2.2) = [s, t] →
      EarthMesh.CreateLightCube.trianglesOn face = [s, t] := fun _ _ _ h => h
  have hsplit : ∀ (s t : Nat × Nat × Nat) (i j : Nat),
      (EarthMesh.CreateLightCube.corners s ++ EarthMesh.CreateLightCube.corners t).eraseDups.length
        = 4 →
      EarthMesh.CreateLightCube.sharedCorners s t = [i, j] →
      (EarthMesh.CreateLightCube.position i).differingCoordinates
        (EarthMesh.CreateLightCube.position j) = 2 →
      EarthMesh.CreateLightCube.splitsFace s t = true := by
    intro s t i j h1 h2 h3
    unfold EarthMesh.CreateLightCube.splitsFace
    rw [h2]
    simp only [h1, h3, decide_True, Bool.and_self]
  unfold EarthMesh.CreateLightCube.faces
  simp only [List.forall_mem_cons, List.not_mem_nil, false_imp_iff, implies_true, and_true]
  refine ⟨⟨(1, 0, 4), (1, 4, 5), hon _ _ _ ?_, hsplit _ _ 1 4 (by decide) (by decide) ?_⟩,
    ⟨(3, 6, 7), (3, 2, 6), hon _ _ _ ?_, hsplit _ _ 3 6 (by decide) (by decide) ?_⟩,
    ⟨(0, 7, 4), (0, 3, 7), hon _ _ _ ?_, hsplit _ _ 0 7 (by decide) (by decide) ?_⟩,
    ⟨(1, 5, 2), (5, 6, 2), hon _ _ _ ?_, hsplit _ _ 5 2 (by decide) (by decide) ?_⟩,
    ⟨(2, 0, 1), (2, 3, 0), hon _ _ _ ?_, hsplit _ _ 2 0 (by decide) (by decide) ?_⟩,
    ⟨(4, 6, 5), (4, 7, 6), hon _ _ _ ?_, hsplit _ _ 4 6 (by decide) (by decide) ?_⟩⟩
  all_goals first
    | (rw [EarthMesh.CreateLightCube.trianglesOf_Indices]
       simp only [List.filter, EarthMesh.CreateLightCube.onFace, p0, p1, p2, p3, p4, p5, p6, p7,
         float3.coord]
       norm_num)
    | (simp only [p0, p1, p2, p3, p4, p5, p6, p7, float3.differingCoordinates]
       norm_num)

/-- C28. The array `Indices` of `CreateLightCube`, which is the initial data of the cube's
index buffer, has 36 entries, and 36 is the `NumIndices` of the draw that `RenderLight`
issues, which it does whenever the context and the constants buffer are not null. Every
index is below 8, the number of cube vertices. The index list is 12 triangles; on each of
the six faces of the cube lie exactly two of them, which split the face along a diagonal;
and for every triangle `(a, b, c)` the vector `(b - a) x (c - a)` points away from the
centre of the cube. -/
theorem EarthMesh.CreateLightCube_indices :
    EarthMesh.CreateLightCube.Indices.length = 36 ∧
    (∀ (self : EarthMesh) (device : RenderDevice), self.m_pDevice = some device →
      ∃ st vb, self.CreateLightCube = some st ∧
        st.m_pLightCubeIndexBuffer = some (device.CreateBuffer
          { Name := "Cube index buffer", Usage := USAGE.USAGE_STATIC,
            BindFlags := BIND_FLAGS.BIND_INDEX_BUFFER, uiSizeInBytes := 144 }
          { pData := BufferWords.ofUint EarthMesh.CreateLightCube.Indices, DataSize := 144 }) ∧
        st.m_pLightCubeVertexBuffer = some vb) ∧
    (∀ (self : EarthMesh) (pCtx : List TerrainCommand) (pContext pVSConstants : Handle),
      self.m_pContext = some pContext → self.m_pVSConstants = some pVSConstants →
      ∃ out, self.RenderLight pCtx = some (pCtx ++ out) ∧
        out.getLast? = some (TerrainCommand.DrawIndexed
          { IndexType := VALUE_TYPE.VT_UINT32
            NumIndices := EarthMesh.CreateLightCube.Indices.length
            Flags := DRAW_FLAGS.DRAW_FLAG_VERIFY_ALL }) ∧
        (out.filter TerrainCommand.isDrawIndexed).length = 1) ∧
    EarthMesh.CreateLightCube.CubeVerts.length = 8 ∧
    (∀ i ∈ EarthMesh.CreateLightCube.Indices, i < EarthMesh.CreateLightCube.CubeVerts.length) ∧
    (trianglesOf EarthMesh.CreateLightCube.Indices).length = 12 ∧
    EarthMesh.CreateLightCube.faces.length = 6 ∧
    (∀ face ∈ EarthMesh.CreateLightCube.faces,
      ∃ s t, EarthMesh.CreateLightCube.trianglesOn face = [s, t] ∧
        EarthMesh.CreateLightCube.splitsFace s t = true) ∧
    ∀ t ∈ trianglesOf EarthMesh.CreateLightCube.Indices,
      0 < (EarthMesh.CreateLightCube.normal t).dot
        ((EarthMesh.CreateLightCube.position t.1).sub EarthMesh.CreateLightCube.centre) := by
  refine ⟨rfl, ?_, ?_, rfl, by decide, by decide, rfl,
    EarthMesh.CreateLightCube.faces_covered, EarthMesh.CreateLightCube.normal_outward⟩
  · intro self device hdev
    unfold EarthMesh.CreateLightCube
    rw [hdev]
    exact ⟨_, _, rfl, rfl, rfl⟩
  · intro self pCtx pContext pVSConstants hctx hcb
    unfold EarthMesh.RenderLight
    rw [hctx, hcb]
    simp only [List.append_assoc]
    exact ⟨_, rfl, rfl, rfl⟩

/-! ## The frame update of the terrain sample -/

/-- What the widgets of `UpdateUI` leave alone, and what they do to the elevation scale. -/
theorem TerrainRenderer.UpdateUI.settings_frame (ui : ImGui) (self : TerrainRenderer) :
    (TerrainRenderer.UpdateUI.settings ui self).1.m_fZCamPos = self.m_fZCamPos ∧
    (TerrainRenderer.UpdateUI.settings ui self).1.toSampleBase = self.toSampleBase ∧
    (TerrainRenderer.UpdateUI.settings ui self).1.m_earthMesh = self.m_earthMesh ∧
    (TerrainRenderer.UpdateUI.settings ui self).1.m_fElevationScale
      = (if ui.Begin "Settings" then (ui.SliderFloat "Height Scale" self.m_fElevationScale 1 100).2
         else self.m_fElevationScale) ∧
    (TerrainRenderer.UpdateUI.settings ui self).2.2.2.2.2
      = (if ui.Begin "Settings" then (ui.SliderFloat "Height Scale" self.m_fElevationScale 1 100).1
         else false) ∧
    (TerrainRenderer.UpdateUI.settings ui self).2.2.2.2.1
      = (if ui.Begin "Settings" then (ui.SliderInt "Grid Resolution" self.m_iNbGridSidePts 2 600).1
         else false) := by
  unfold TerrainRenderer.UpdateUI.settings
  split <;> exact ⟨rfl, rfl, rfl, rfl, rfl, rfl⟩

theorem EarthMesh.CreateEarthGrid_heightScale (self st : EarthMesh)
    (h : self.CreateEarthGrid = some st) : st.m_fHeightScale = self.m_fHeightScale := by
  unfold EarthMesh.CreateEarthGrid at h
  simp only [] at h
  repeat' split at h
  all_goals first
    | (cases h; rfl)
    | cases h

theorem EarthMesh.UpdateGridResolution_heightScale (self st : EarthMesh) (r : Int)
    (h : self.UpdateGridResolution r = some st) : st.m_fHeightScale = self.m_fHeightScale := by
  unfold EarthMesh.UpdateGridResolution at h
  exact EarthMesh.CreateEarthGrid_heightScale
    { self with m_iNbGridSidePts := ShadowsSample.intToUint32 r } st h

/-- What `UpdateUI` leaves alone, and what it does to the height scale of the mesh: the
scale becomes the elevation scale over 500 when the slider reports a change, and stays as it
was otherwise. -/
theorem TerrainRenderer.UpdateUI_frame (ui : ImGui) (self st : TerrainRenderer)
    (h : self.UpdateUI ui = some st) :
    st.m_fZCamPos = self.m_fZCamPos ∧ st.toSampleBase = self.toSampleBase ∧
    st.m_fElevationScale = (TerrainRenderer.UpdateUI.settings ui self).1.m_fElevationScale ∧
    st.m_earthMesh.m_fHeightScale
      = (if (TerrainRenderer.UpdateUI.settings ui self).2.2.2.2.2 then st.m_fElevationScale / 500
         else self.m_earthMesh.m_fHeightScale) := by
  obtain ⟨hz, hbase, hmesh, _, _, _⟩ := TerrainRenderer.UpdateUI.settings_frame ui self
  unfold TerrainRenderer.UpdateUI at h
  simp only [] at h
  split at h
  · exact absurd h (by simp)
  · rename_i mesh hgrid
    have hscale : mesh.m_fHeightScale = self.m_earthMesh.m_fHeightScale := by
      split at hgrid
      · rw [EarthMesh.UpdateGridResolution_heightScale _ mesh _ hgrid]
        split
        · show (TerrainRenderer.UpdateUI.settings ui self).1.m_earthMesh.m_fHeightScale = _
          rw [hmesh]
        · rw [hmesh]
      · cases hgrid
        split
        · show (TerrainRenderer.UpdateUI.settings ui self).1.m_earthMesh.m_fHeightScale = _
          rw [hmesh]
        · rw [hmesh]
    split at h
    · rename_i hflag
      cases h
      refine ⟨?_, ?_, ?_, ?_⟩
      · show (if _ then _ else _ : TerrainRenderer).m_fZCamPos = _
        split <;> exact hz
      · show (if _ then _ else _ : TerrainRenderer).toSampleBase = _
        split <;> exact hbase
      · show (if _ then _ else _ : TerrainRenderer).m_fElevationScale = _
        split <;> rfl
      · rw [if_pos hflag]
        rfl
    · rename_i hflag
      cases h
      refine ⟨?_, ?_, ?_, ?_⟩
      · show (if _ then _ else _ : TerrainRenderer).m_fZCamPos = _
        split <;> exact hz
      · show (if _ then _ else _ : TerrainRenderer).toSampleBase = _
        split <;> exact hbase
      · show (if _ then _ else _ : TerrainRenderer).m_fElevationScale = _
        split <;> rfl
      · rw [if_neg hflag]
        exact hscale

/-- What a returning `Update` leaves in the camera distance, the elevation scale and the
height scale of the mesh. -/
theorem TerrainRenderer.Update_frame (framework : Framework) (ui : ImGui)
    (self : TerrainRenderer) (g_time CurrTime ElapsedTime : ℚ) (st : TerrainRenderer) (g : ℚ)
    (h : self.Update framework ui g_time CurrTime ElapsedTime = some (st, g)) :
    st.m_fZCamPos
      = min (max (self.m_fZCamPos - self.m_InputController.GetMouseState.WheelDelta * (25 / 100))
          0) 10 ∧
    st.m_fElevationScale
      = (if ui.Begin "Settings" then (ui.SliderFloat "Height Scale" self.m_fElevationScale 1 100).2
         else self.m_fElevationScale) ∧
    st.m_earthMesh.m_fHeightScale
      = (if (if ui.Begin "Settings" then
              (ui.SliderFloat "Height Scale" self.m_fElevationScale 1 100).1 else false)
         then st.m_fElevationScale / 500 else self.m_earthMesh.m_fHeightScale) := by
  unfold TerrainRenderer.Update at h
  simp only [] at h
  split at h
  · exact absurd h (by simp)
  · rename_i ui_st hui
    obtain ⟨hz, _, hel, hsc⟩ := TerrainRenderer.UpdateUI_frame ui _ ui_st hui
    obtain ⟨_, _, _, hel2, hfl, _⟩ := TerrainRenderer.UpdateUI.settings_frame ui
      { self with
        m_fZCamPos :=
          min (max (self.m_fZCamPos - self.m_InputController.GetMouseState.WheelDelta * (25 / 100))
            0) 10,
        toSampleBase := framework.SampleBaseUpdate
          ({ self with
            m_fZCamPos :=
              min (max (self.m_fZCamPos
                - self.m_InputController.GetMouseState.WheelDelta * (25 / 100)) 0) 10 }
            : TerrainRenderer).toSampleBase CurrTime ElapsedTime }
    split at h
    · cases h
      refine ⟨hz, ?_, ?_⟩
      · exact hel.trans hel2
      · simp only [EarthMesh.SetWorldViewProjLightMatrix, EarthMesh.SetWorldViewProjMatrix,
          EarthMesh.UpdateLightPosition, EarthMesh.SetViewWorldMatrix]
        rw [hsc, hfl]
    · cases h

/-- When `Update` returns: the base class leaves a device and a swap chain, and the grid is not
rebuilt (the settings window is closed or the resolution slider reports no change). -/
theorem TerrainRenderer.Update_returns (framework : Framework) (ui : ImGui)
    (self : TerrainRenderer) (g_time CurrTime ElapsedTime : ℚ) (device : RenderDevice)
    (swapChain : Handle)
    (hdev : (framework.SampleBaseUpdate self.toSampleBase CurrTime ElapsedTime).m_pDevice
      = some device)
    (hswap : (framework.SampleBaseUpdate self.toSampleBase CurrTime ElapsedTime).m_pSwapChain
      = some swapChain)
    (hgrid : (if ui.Begin "Settings" then
        (ui.SliderInt "Grid Resolution" self.m_iNbGridSidePts 2 600).1 else false) = false) :
    ∃ st g, self.Update framework ui g_time CurrTime ElapsedTime = some (st, g) := by
  obtain ⟨_, hbase, _, _, _, hfl⟩ := TerrainRenderer.UpdateUI.settings_frame ui
      { self with
        m_fZCamPos :=
          min (max (self.m_fZCamPos - self.m_InputController.GetMouseState.WheelDelta * (25 / 100))
            0) 10,
        toSampleBase := framework.SampleBaseUpdate
          ({ self with
            m_fZCamPos :=
              min (max (self.m_fZCamPos
                - self.m_InputController.GetMouseState.WheelDelta * (25 / 100)) 0) 10 }
            : TerrainRenderer).toSampleBase CurrTime ElapsedTime }
  have hfl2 := hfl.trans hgrid
  have hui : ∃ ui_st, TerrainRenderer.UpdateUI ui
      { self with
        m_fZCamPos :=
          min (max (self.m_fZCamPos - self.m_InputController.GetMouseState.WheelDelta * (25 / 100))
            0) 10,
        toSampleBase := framework.SampleBaseUpdate
          ({ self with
            m_fZCamPos :=
              min (max (self.m_fZCamPos
                - self.m_InputController.GetMouseState.WheelDelta * (25 / 100)) 0) 10 }
            : TerrainRenderer).toSampleBase CurrTime ElapsedTime } = some ui_st := by
    unfold TerrainRenderer.UpdateUI
    simp only []
    rw [hfl2]
    simp only [Bool.false_eq_true, if_false]
    split <;> exact ⟨_, rfl⟩
  obtain ⟨ui_st, hui⟩ := hui
  obtain ⟨_, hb, _, _⟩ := TerrainRenderer.UpdateUI_frame ui _ ui_st hui
  have hd : ui_st.m_pDevice = some device := by
    show ui_st.toSampleBase.m_pDevice = _
    rw [hb]
    exact hdev
  have hs : ui_st.m_pSwapChain = some swapChain := by
    show ui_st.toSampleBase.m_pSwapChain = _
    rw [hb]
    exact hswap
  unfold TerrainRenderer.Update
  simp only []
  rw [hui]
  simp only [hd, hs]
  exact ⟨_, _, rfl⟩

/-- C27. `TerrainRenderer::Update` leaves the camera distance `m_fZCamPos` between 0 and
10, and equal to the previous distance minus a quarter of the wheel delta whenever that
value lies between 0 and 10. `Update` returns whenever the base class leaves a device and a
swap chain and the grid is not rebuilt in the frame. -/
theorem TerrainRenderer.Update_zoom (framework : Framework) (ui : ImGui)
    (self : TerrainRenderer) (g_time CurrTime ElapsedTime : ℚ) :
    (∀ (st : TerrainRenderer) (g : ℚ),
      self.Update framework ui g_time CurrTime ElapsedTime = some (st, g) →
      0 ≤ st.m_fZCamPos ∧ st.m_fZCamPos ≤ 10 ∧
      (0 ≤ self.m_fZCamPos - 25 / 100 * self.m_InputController.GetMouseState.WheelDelta →
        self.m_fZCamPos - 25 / 100 * self.m_InputController.GetMouseState.WheelDelta ≤ 10 →
        st.m_fZCamPos
          = self.m_fZCamPos - 25 / 100 * self.m_InputController.GetMouseState.WheelDelta)) ∧
    (∀ (device : RenderDevice) (swapChain : Handle),
      (framework.SampleBaseUpdate self.toSampleBase CurrTime ElapsedTime).m_pDevice
        = some device →
      (framework.SampleBaseUpdate self.toSampleBase CurrTime ElapsedTime).m_pSwapChain
        = some swapChain →
      (if ui.Begin "Settings" then
        (ui.SliderInt "Grid Resolution" self.m_iNbGridSidePts 2 600).1 else false) = false →
      ∃ st g, self.Update framework ui g_time CurrTime ElapsedTime = some (st, g)) := by
  refine ⟨?_, ?_⟩
  · intro st g h
    obtain ⟨hz, _, _⟩ := TerrainRenderer.Update_frame framework ui self g_time CurrTime
      ElapsedTime st g h
    rw [hz]
    refine ⟨le_min (le_max_right _ _) (by norm_num), min_le_right _ _, ?_⟩
    intro h0 h10
    have e : self.m_fZCamPos - self.m_InputController.GetMouseState.WheelDelta * (25 / 100)
        = self.m_fZCamPos - 25 / 100 * self.m_InputController.GetMouseState.WheelDelta := by
      ring
    rw [e, max_eq_left h0, min_eq_left h10]
  · intro device swapChain hdev hswap hgrid
    exact TerrainRenderer.Update_returns framework ui self g_time CurrTime ElapsedTime device
      swapChain hdev hswap hgrid

/-- C27 on a sample whose camera is at distance 3: a wheel delta of 4 brings it to distance
2, and a wheel delta of 20 to distance 0. -/
theorem TerrainRenderer.Update_zoom_witness :
    (∃ st g, (runningTerrain 100 4).Update sampleFramework idleUI 0 0 0 = some (st, g) ∧
      st.m_fZCamPos = 2) ∧
    (∃ st g, (runningTerrain 100 20).Update sampleFramework idleUI 0 0 0 = some (st, g) ∧
      st.m_fZCamPos = 0) := by
  have hz : ∀ w : ℚ, (runningTerrain 100 w).m_fZCamPos = 3 := fun _ => rfl
  have hw : ∀ w : ℚ, (runningTerrain 100 w).m_InputController.GetMouseState.WheelDelta = w :=
    fun _ => rfl
  refine ⟨?_, ?_⟩
  · obtain ⟨st, g, h⟩ := (TerrainRenderer.Update_zoom sampleFramework idleUI
      (runningTerrain 100 4) 0 0 0).2 (sampleDevice true) 2 rfl rfl rfl
    obtain ⟨_, _, heq⟩ := (TerrainRenderer.Update_zoom sampleFramework idleUI
      (runningTerrain 100 4) 0 0 0).1 st g h
    refine ⟨st, g, h, ?_⟩
    rw [heq (by rw [hz, hw]; norm_num) (by rw [hz, hw]; norm_num), hz, hw]
    norm_num
  · obtain ⟨st, g, h⟩ := (TerrainRenderer.Update_zoom sampleFramework idleUI
      (runningTerrain 100 20) 0 0 0).2 (sampleDevice true) 2 rfl rfl rfl
    obtain ⟨h0, _, _⟩ := (TerrainRenderer.Update_zoom sampleFramework idleUI
      (runningTerrain 100 20) 0 0 0).1 st g h
    obtain ⟨hzz, _, _⟩ := TerrainRenderer.Update_frame sampleFramework idleUI
      (runningTerrain 100 20) 0 0 0 st g h
    refine ⟨st, g, h, le_antisymm ?_ h0⟩
    rw [hzz, hz, hw]
    norm_num


/-! ## The height scale of the mesh and of the user interface -/

/-- `Initialize` on a device with compute shaders returns the sample with its base class
initialised and the mesh that `Create` returns. -/
theorem TerrainRenderer.Initialize_eq (framework : Framework) (self : TerrainRenderer)
    (pEngineFactory : Handle) (pDevice : RenderDevice) (ppContexts : List Handle)
    (NumDeferredCtx : Nat) (pSwapChain : Handle) (mesh : EarthMesh)
    (hcs : pDevice.GetDeviceCaps.Features.ComputeShaders = true)
    (hcreate : self.m_earthMesh.Create
      (framework.SampleBaseInitialize self.toSampleBase pEngineFactory pDevice ppContexts
        NumDeferredCtx pSwapChain).m_pDevice
      (framework.SampleBaseInitialize self.toSampleBase pEngineFactory pDevice ppContexts
        NumDeferredCtx pSwapChain).m_pImmediateContext
      (ShadowsSample.intToUint32 self.m_iNbGridSidePts) self.m_fLightPosition = some mesh) :
    self.Initialize framework pEngineFactory pDevice ppContexts NumDeferredCtx pSwapChain
      = some ({ self with
          toSampleBase := framework.SampleBaseInitialize self.toSampleBase pEngineFactory
            pDevice ppContexts NumDeferredCtx pSwapChain,
          m_earthMesh := mesh }, none) := by
  unfold TerrainRenderer.Initialize
  simp only [hcs, Bool.not_true, Bool.false_eq_true, if_false]
  rw [hcreate]

/-- C26 on the sample as constructed. `Initialize` returns with a mesh whose height scale
is `0.1`, while the elevation scale of the user interface is 90, and 90 over 500 is `0.18`.
An `Update` in which the user touches no widget returns with the same two values. -/
theorem TerrainRenderer.heightScale_diverges :
    ∃ (st st' : TerrainRenderer) (g : ℚ),
      (TerrainRenderer.new sampleFramework 0 0).Initialize sampleFramework 0
        (sampleDevice true) [1] 0 2 = some (st, none) ∧
      st.m_earthMesh.m_fHeightScale = 1 / 10 ∧ st.m_fElevationScale / 500 = 9 / 50 ∧
      st.Update sampleFramework idleUI 0 0 (1 / 60) = some (st', g) ∧
      st'.m_earthMesh.m_fHeightScale = 1 / 10 ∧ st'.m_fElevationScale / 500 = 9 / 50 := by
  obtain ⟨epso, lpso, srb, verts, tri, vb, ib, heightMapSRV, textureSRV, cvb, cib, hcreate,
    _, _, _, _⟩ := EarthMesh.Create_eq (TerrainRenderer.new sampleFramework 0 0).m_earthMesh
      (sampleDevice true) (some 1) 100 (TerrainRenderer.new sampleFramework 0 0).m_fLightPosition
      (by decide) (by decide)
  obtain ⟨st, hinit, hd, hs, hscale, helev⟩ : ∃ st : TerrainRenderer,
      (TerrainRenderer.new sampleFramework 0 0).Initialize sampleFramework 0
        (sampleDevice true) [1] 0 2 = some (st, none) ∧
      st.m_pDevice = some (sampleDevice true) ∧ st.m_pSwapChain = some 2 ∧
      st.m_earthMesh.m_fHeightScale = 1 / 10 ∧ st.m_fElevationScale = 90 :=
    ⟨_, TerrainRenderer.Initialize_eq sampleFramework
      (TerrainRenderer.new sampleFramework 0 0) 0 (sampleDevice true) [1] 0 2 _ rfl hcreate,
      rfl, rfl, rfl, rfl⟩
  obtain ⟨st', g, hupd⟩ := TerrainRenderer.Update_returns sampleFramework idleUI st 0 0 (1 / 60)
    (sampleDevice true) 2 hd hs rfl
  obtain ⟨_, hel, hsc⟩ := TerrainRenderer.Update_frame sampleFramework idleUI st 0 0 (1 / 60)
    st' g hupd
  have hel2 : st'.m_fElevationScale = 90 := by
    rw [hel]
    exact helev
  refine ⟨st, st', g, hinit, hscale, ?_, hupd, ?_, ?_⟩
  · rw [helev]
    norm_num
  · rw [hsc]
    exact hscale
  · rw [hel2]
    norm_num


/-! ## The vertices of the grid -/

namespace EarthMesh

theorem CreateEarthGrid.inner_eq (n : Nat) (st : List Vertex × Nat) (j : Nat) :
    CreateEarthGrid.inner n st j
      = (st.1 ++ [CreateEarthGrid.newVertex n st.2], (st.2 + 1) % 2 ^ 32) := rfl

/-- The inner vertex loop: `m` passes from the counter value `index`. -/
theorem CreateEarthGrid.inner_fold (n m : Nat) (vs : List Vertex) (index : Nat) :
    (List.range m).foldl (CreateEarthGrid.inner n) (vs, index % 2 ^ 32)
      = (vs ++ (List.range m).map (fun t => CreateEarthGrid.newVertex n ((index + t) % 2 ^ 32)),
          (index + m) % 2 ^ 32) := by
  induction m with
  | zero => simp
  | succ m ih =>
    rw [List.range_succ, List.foldl_append, ih, List.foldl_cons, List.foldl_nil,
      CreateEarthGrid.inner_eq, List.map_append, List.map_singleton, List.append_assoc]
    congr 1
    omega

/-- The outer vertex loop: `r` rows from the counter value `index`. -/
theorem CreateEarthGrid.outer_fold (n r : Nat) (vs : List Vertex) (index : Nat) :
    (List.range r).foldl (CreateEarthGrid.outer n) (vs, index % 2 ^ 32)
      = (vs ++ (List.range (r * n)).map
            (fun t => CreateEarthGrid.newVertex n ((index + t) % 2 ^ 32)),
          (index + r * n) % 2 ^ 32) := by
  induction r with
  | zero => simp
  | succ r ih =>
    rw [List.range_succ, List.foldl_append, ih, List.foldl_cons, List.foldl_nil]
    unfold CreateEarthGrid.outer
    rw [CreateEarthGrid.inner_fold, Nat.succ_mul, List.range_add, List.map_append,
      List.map_map, List.append_assoc]
    congr 2
    · congr 1
      apply List.map_congr_left
      intro t _
      show CreateEarthGrid.newVertex n _ = CreateEarthGrid.newVertex n _
      rw [Nat.add_assoc]
    · rw [Nat.add_assoc]

/-- The vertex loops push one vertex for each counter value below `n * n`, the counter
being reduced modulo `2^32`. -/
theorem CreateEarthGrid.vertices_eq (n : Nat) (init : List Vertex) :
    CreateEarthGrid.vertices n init
      = init ++ (List.range (n * n)).map (fun k => CreateEarthGrid.newVertex n (k % 2 ^ 32)) := by
  unfold CreateEarthGrid.vertices
  have h := CreateEarthGrid.outer_fold n n init 0
  simp only [Nat.zero_mod, Nat.zero_add] at h
  rw [h]

theorem uintSub_one (n : Nat) (h1 : 1 ≤ n) (h2 : n < 2 ^ 32) : uintSub n 1 = n - 1 := by
  unfold uintSub
  omega

/-- The pushed vertex in exact arithmetic. -/
theorem CreateEarthGrid.newVertex_eq (n k : Nat) (hn : 2 ≤ n) (h2 : n < 2 ^ 32) :
    CreateEarthGrid.newVertex n k = { uv := specGridUV n k } := by
  unfold CreateEarthGrid.newVertex specGridUV
  have hn1 : ((n - 1 : Nat) : ℚ) = (n : ℚ) - 1 := by
    rw [Nat.cast_sub (by omega)]
    simp
  have hn0 : (n : ℚ) ≠ 0 := by
    have : (0 : ℚ) < n := by exact_mod_cast (by omega : 0 < n)
    exact ne_of_gt this
  have hk : (k : ℚ) = (n : ℚ) * ((k / n : Nat) : ℚ) + ((k % n : Nat) : ℚ) := by
    exact_mod_cast (Nat.div_add_mod k n).symm
  simp only [uintSub_one n (by omega) h2, hn1]
  congr 2
  rw [hk]
  field_simp

end EarthMesh


/-! ## The indices of the grid -/

theorem ShadowsSample.intToUint32_natCast (m : Nat) (h : m < 2 ^ 32) :
    ShadowsSample.intToUint32 (m : Int) = m := by
  unfold ShadowsSample.intToUint32
  omega

namespace EarthMesh

/-- The index loop pushes at most six indices in each iteration. -/
theorem CreateEarthGrid.indices_length_le (n : Nat) (lastPass : Int) (fuel : Nat) :
    ∀ (i j : Int) (nb : Nat) (tri out : List Nat),
      CreateEarthGrid.indices n lastPass fuel i j nb tri = some out →
      out.length ≤ tri.length + 6 * fuel := by
  induction fuel with
  | zero =>
    intro i j nb tri out h
    unfold CreateEarthGrid.indices at h
    split at h
    · cases h
    · cases h
      omega
  | succ fuel ih =>
    intro i j nb tri out h
    unfold CreateEarthGrid.indices at h
    simp only [] at h
    split at h
    · split at h
      · split at h
        · have := ih _ _ _ _ _ h
          simp only [List.length_append, List.length_singleton] at this
          omega
        · cases h
      · split at h
        · have := ih _ _ _ _ _ h
          simp only [List.length_append, List.length_singleton] at this
          omega
        · cases h
    · cases h
      omega

theorem mod_succ_of_lt (a n : Nat) (h : a % n + 1 < n) : (a + 1) % n = a % n + 1 := by
  have e : a + 1 = (a % n + 1) + n * (a / n) := by
    have := Nat.div_add_mod a n
    generalize n * (a / n) = q at *
    omega
  rw [e, Nat.add_mul_mod_self_left, Nat.mod_eq_of_lt h]

theorem mod_succ_eq_zero (a n : Nat) (h : a % n + 1 = n) : (a + 1) % n = 0 := by
  have e : a + 1 = n * (a / n + 1) := by
    have := Nat.div_add_mod a n
    rw [Nat.mul_add, Nat.mul_one]
    generalize n * (a / n) = q at *
    omega
  rw [e, Nat.mul_mod_right]

/-- The index loop from the loop head at vertex `a`, with a bound `fuel` on the number of
iterations. One iteration is needed for every vertex from `a` to `lastPass - 1` that is not
in the last column; with that many iterations the loop pushes the six indices of each of
these vertices, and with fewer it does not end. -/
theorem CreateEarthGrid.indices_eq (n : Nat) (lastPass : Int) (hn : 2 ≤ n) (hn2 : n < 2 ^ 31)
    (hlast : 6 * lastPass < 2 ^ 31) (fuel : Nat) :
    ∀ (a : Nat) (j : Int) (nb : Nat) (tri : List Nat), nb = a % n → a % n < n - 1 →
      j ≤ 6 * (a : Int) →
      CreateEarthGrid.indices n lastPass fuel (a : Int) j nb tri
        = (if ((List.range' a (lastPass - a).toNat).filter
              (fun x => decide (x % n ≠ n - 1))).length ≤ fuel then
            some (tri ++ ((List.range' a (lastPass - a).toNat).filter
              (fun x => decide (x % n ≠ n - 1))).flatMap (fun x => quadIndices n x))
          else none) := by
  have hstep : ∀ a : Nat, a % n < n - 1 → (a : Int) < lastPass →
      (List.range' a (lastPass - a).toNat).filter (fun x => decide (x % n ≠ n - 1))
        = a :: (List.range' (a + 1) (lastPass - ((a + 1 : Nat) : Int)).toNat).filter
            (fun x => decide (x % n ≠ n - 1)) := by
    intro a hcol hlt
    obtain ⟨m, hm⟩ : ∃ m, (lastPass - a).toNat = m + 1 := ⟨(lastPass - a).toNat - 1, by omega⟩
    have hpa : decide (a % n ≠ n - 1) = true := by
      rw [decide_eq_true_iff]
      omega
    have h0 : (lastPass - ((a + 1 : Nat) : Int)).toNat = m := by push_cast; omega
    rw [hm, List.range'_succ, List.filter_cons, hpa, h0]
    rfl
  have hskip : ∀ a : Nat, a % n = n - 1 →
      (List.range' a (lastPass - a).toNat).filter (fun x => decide (x % n ≠ n - 1))
        = (List.range' (a + 1) (lastPass - ((a + 1 : Nat) : Int)).toNat).filter
            (fun x => decide (x % n ≠ n - 1)) := by
    intro a hcol
    by_cases hlt : (a : Int) < lastPass
    · obtain ⟨m, hm⟩ : ∃ m, (lastPass - a).toNat = m + 1 :=
        ⟨(lastPass - a).toNat - 1, by omega⟩
      have hpa : decide (a % n ≠ n - 1) = false := by
        rw [decide_eq_false_iff_not]
        exact fun h => h hcol
      have h0 : (lastPass - ((a + 1 : Nat) : Int)).toNat = m := by push_cast; omega
      rw [hm, List.range'_succ, List.filter_cons, hpa, h0]
      rfl
    · have h0 : (lastPass - a).toNat = 0 := by omega
      have h1 : (lastPass - ((a + 1 : Nat) : Int)).toNat = 0 := by push_cast; omega
      rw [h0, h1]
      rfl
  induction fuel with
  | zero =>
    intro a j nb tri hnb hcol hj
    unfold CreateEarthGrid.indices
    by_cases hlt : (a : Int) < lastPass
    · rw [if_pos hlt, hstep a hcol hlt, if_neg (by simp)]
    · have h0 : (lastPass - a).toNat = 0 := by omega
      rw [if_neg hlt, h0]
      simp
  | succ fuel ih =>
    intro a j nb tri hnb hcol hj
    unfold CreateEarthGrid.indices
    by_cases hlt : (a : Int) < lastPass
    · rw [if_pos hlt]
      simp only []
      have hsub : uintSub n 1 = n - 1 := by
        unfold uintSub
        omega
      have hnb1 : (nb + 1) % 2 ^ 32 = nb + 1 := by omega
      have e1 : ShadowsSample.intToUint32 ((a : Int) + n + 1) = a + n + 1 := by
        have := ShadowsSample.intToUint32_natCast (a + n + 1) (by omega)
        push_cast at this
        exact this
      have e2 : ShadowsSample.intToUint32 ((a : Int) + 1) = a + 1 := by
        have := ShadowsSample.intToUint32_natCast (a + 1) (by omega)
        push_cast at this
        exact this
      have e3 : ShadowsSample.intToUint32 (a : Int) = a :=
        ShadowsSample.intToUint32_natCast a (by omega)
      have e4 : ShadowsSample.intToUint32 ((a : Int) + n) = a + n := by
        have := ShadowsSample.intToUint32_natCast (a + n) (by omega)
        push_cast at this
        exact this
      rw [e1, e2, e3, e4, hnb1, hsub]
      have hquad : ∀ rest : List Nat,
          tri ++ [a + n + 1] ++ [a + 1] ++ [a] ++ [a + n + 1] ++ [a] ++ [a + n] ++ rest
            = tri ++ (quadIndices n a ++ rest) := by
        intro rest
        simp [quadIndices]
      by_cases hline : nb + 1 = n - 1
      · rw [if_pos hline, if_pos (by omega)]
        have hcast : (a : Int) + 1 + 1 = ((a + 1 + 1 : Nat) : Int) := by push_cast; ring
        have hmod1 : (a + 1) % n = n - 1 := by
          rw [mod_succ_of_lt a n (by omega)]
          omega
        have hmod2 : (a + 1 + 1) % n = 0 := mod_succ_eq_zero (a + 1) n (by omega)
        rw [hcast, ih (a + 1 + 1) (j + 6) 0 _ hmod2.symm (by rw [hmod2]; omega)
          (by push_cast; omega), hstep a hcol hlt, hskip (a + 1) hmod1]
        simp only [List.length_cons, Nat.add_le_add_iff_right, List.flatMap_cons]
        split
        · rw [hquad]
        · rfl
      · rw [if_neg hline, if_pos (by omega)]
        have hcast : (a : Int) + 1 = ((a + 1 : Nat) : Int) := by push_cast; ring
        have hmod1 : (a + 1) % n = a % n + 1 := mod_succ_of_lt a n (by omega)
        rw [hcast, ih (a + 1) (j + 6) (nb + 1) _ (by omega) (by omega)
          (by push_cast; omega), hstep a hcol hlt]
        simp only [List.length_cons, Nat.add_le_add_iff_right, List.flatMap_cons]
        split
        · rw [hquad]
        · rfl
    · rw [if_neg hlt]
      have h0 : (lastPass - a).toNat = 0 := by omega
      rw [h0]
      simp

end EarthMesh


namespace EarthMesh

/-- The vertices below `r * n` that are not in the last column, in increasing order: row by
row, the columns `0` to `n - 2`. -/
theorem filter_range_rows (n r : Nat) (hn : 1 ≤ n) :
    (List.range (r * n)).filter (fun x => decide (x % n ≠ n - 1))
      = (List.range r).flatMap (fun q => (List.range (n - 1)).map (fun c => q * n + c)) := by
  induction r with
  | zero => simp
  | succ r ih =>
    rw [Nat.succ_mul, List.range_add, List.filter_append, ih, List.range_succ,
      List.flatMap_append, List.flatMap_singleton]
    refine congrArg (fun l => _ ++ l) ?_
    have hsplit : List.range n = List.range (n - 1) ++ [n - 1] := by
      rw [← List.range_succ]
      congr 1
      omega
    rw [hsplit, List.map_append, List.filter_append, List.map_singleton, List.filter_cons,
      List.filter_nil]
    have hlast : decide ((r * n + (n - 1)) % n ≠ n - 1) = false := by
      rw [decide_eq_false_iff_not, Nat.add_comm, Nat.add_mul_mod_self_right,
        Nat.mod_eq_of_lt (by omega)]
      exact fun h => h rfl
    rw [hlast]
    simp only [Bool.false_eq_true, if_false, List.append_nil]
    rw [List.filter_eq_self]
    intro x hx
    rw [List.mem_map] at hx
    obtain ⟨c, hc, rfl⟩ := hx
    rw [List.mem_range] at hc
    rw [decide_eq_true_iff, Nat.add_comm, Nat.add_mul_mod_self_right,
      Nat.mod_eq_of_lt (by omega)]
    omega

theorem length_flatMap_const {α β : Type} (f : α → List β) (k : Nat) (l : List α)
    (h : ∀ x ∈ l, (f x).length = k) : (l.flatMap f).length = l.length * k := by
  induction l with
  | nil => simp
  | cons x l ih =>
    rw [List.flatMap_cons, List.length_append, h x (List.mem_cons_self _ _),
      ih (fun y hy => h y (List.mem_cons_of_mem _ hy)), List.length_cons, Nat.succ_mul,
      Nat.add_comm]

/-- The index loop of a grid of side `n`, for which `6 * n * n` fits a signed 32-bit
integer, with a bound `fuel` on the number of iterations: with `(n - 1) * (n - 1)`
iterations it appends the index list of the specification, and with fewer it does not
end. -/
theorem CreateEarthGrid.indices_fuel (n : Nat) (hn : 2 ≤ n) (hbound : 6 * (n * n) < 2 ^ 31)
    (tri : List Nat) (fuel : Nat) :
    CreateEarthGrid.indices n (CreateEarthGrid.lastPass n) fuel 0 0 0 tri
      = (if (n - 1) * (n - 1) ≤ fuel then some (tri ++ specGridIndices n) else none) := by
  have hnn : n * n < 2 ^ 31 := by omega
  have hlast := CreateEarthGrid.lastPass_eq n hn hnn
  have hle : n ≤ n * n := Nat.le_mul_of_pos_left n (by omega)
  have hmul : (n - 1) * n = n * n - n := Nat.sub_one_mul n n
  have h2n : n + 2 ≤ n * n := by nlinarith
  have hL : (CreateEarthGrid.lastPass n).toNat = (n - 1) * n - 1 := by
    rw [hlast, hmul]
    have : ((n * n : Nat) : Int) = (n : Int) * n := by push_cast; rfl
    generalize n * n = m at *
    omega
  have h := CreateEarthGrid.indices_eq n (CreateEarthGrid.lastPass n) hn (by omega)
    (by
      rw [hlast]
      have : ((n * n : Nat) : Int) = (n : Int) * n := by push_cast; rfl
      generalize n * n = m at *
      generalize (n : Int) * n = mi at *
      omega)
    fuel 0 0 0 tri
    (by simp) (by rw [Nat.zero_mod]; omega) (by simp)
  simp only [Nat.cast_zero, sub_zero] at h
  rw [h, hL, ← List.range_eq_range']
  have hrange : List.range ((n - 1) * n) = List.range ((n - 1) * n - 1) ++ [(n - 1) * n - 1] := by
    rw [← List.range_succ]
    congr 1
    rw [hmul]
    generalize n * n = m at *
    omega
  have hmod : ((n - 1) * n - 1) % n = n - 1 := by
    have e : (n - 1) * n - 1 = (n - 1) + (n - 2) * n := by
      have : (n - 1) * n = (n - 2) * n + n := by
        have : n - 1 = (n - 2) + 1 := by omega
        rw [this, Nat.succ_mul]
      rw [this]
      generalize (n - 2) * n = q at *
      omega
    rw [e, Nat.add_mul_mod_self_right, Nat.mod_eq_of_lt (by omega)]
  have hfilter : (List.range ((n - 1) * n - 1)).filter (fun x => decide (x % n ≠ n - 1))
      = (List.range ((n - 1) * n)).filter (fun x => decide (x % n ≠ n - 1)) := by
    rw [hrange, List.filter_append, List.filter_cons, List.filter_nil]
    have : decide (((n - 1) * n - 1) % n ≠ n - 1) = false := by
      rw [decide_eq_false_iff_not]
      exact fun h => h hmod
    rw [this]
    simp
  have hlen : ((List.range (n - 1)).flatMap
      (fun q => (List.range (n - 1)).map (fun c => q * n + c))).length = (n - 1) * (n - 1) := by
    rw [length_flatMap_const _ (n - 1) _ (fun x _ => by rw [List.length_map, List.length_range]),
      List.length_range]
  have hspec : ((List.range (n - 1)).flatMap
      (fun q => (List.range (n - 1)).map (fun c => q * n + c))).flatMap
        (fun x => quadIndices n x) = specGridIndices n := by
    unfold specGridIndices
    rw [List.flatMap_assoc]
    refine congrArg (fun f => (List.range (n - 1)).flatMap f) ?_
    funext r
    rw [List.flatMap_map]
  rw [hfilter, filter_range_rows n (n - 1) (by omega), hlen, hspec]

/-- The index loop as `CreateEarthGrid` runs it appends the index list of the
specification. -/
theorem CreateEarthGrid.indices_spec (n : Nat) (hn : 2 ≤ n) (hbound : 6 * (n * n) < 2 ^ 31)
    (tri : List Nat) :
    CreateEarthGrid.indices n (CreateEarthGrid.lastPass n) (CreateEarthGrid.lastPass n).toNat
      0 0 0 tri = some (tri ++ specGridIndices n) := by
  have hnn : n * n < 2 ^ 31 := by omega
  have hlast := CreateEarthGrid.lastPass_eq n hn hnn
  rw [CreateEarthGrid.indices_fuel n hn hbound, if_pos]
  rw [hlast]
  obtain ⟨m, rfl⟩ : ∃ m, n = m + 2 := ⟨n - 2, by omega⟩
  have e1 : (m + 2 - 1) * (m + 2 - 1) = m * m + 2 * m + 1 := by
    have : m + 2 - 1 = m + 1 := by omega
    rw [this]
    ring
  have e2 : (((m + 2 : Nat) : Int) * ((m + 2 : Nat) : Int) - (((m + 2 : Nat) : Int) + 1)).toNat
      = m * m + 3 * m + 1 := by
    have : ((m + 2 : Nat) : Int) * ((m + 2 : Nat) : Int) - (((m + 2 : Nat) : Int) + 1)
        = ((m * m + 3 * m + 1 : Nat) : Int) := by
      push_cast
      ring
    rw [this, Int.toNat_natCast]
  rw [e1, e2]
  omega

end EarthMesh


namespace EarthMesh

/-! ## The index list of the specification -/

theorem specGridIndices_length (n : Nat) :
    (specGridIndices n).length = 6 * ((n - 1) * (n - 1)) := by
  unfold specGridIndices
  rw [length_flatMap_const _ ((n - 1) * 6) _ (fun r _ => by
      rw [length_flatMap_const (fun c => quadIndices n (r * n + c)) 6 _ (fun c _ => rfl),
        List.length_range]),
    List.length_range]
  ring

theorem mul_add_mod_div (r c n : Nat) (h : c < n) :
    (r * n + c) % n = c ∧ (r * n + c) / n = r := by
  refine ⟨?_, ?_⟩
  · rw [Nat.add_comm, Nat.add_mul_mod_self_right, Nat.mod_eq_of_lt h]
  · rw [Nat.add_comm, Nat.add_mul_div_right _ _ (by omega), Nat.div_eq_of_lt h, Nat.zero_add]

/-- Every index of the list of the specification is the index of a vertex of the grid. -/
theorem specGridIndices_lt (n : Nat) (hn : 2 ≤ n) (x : Nat) (hx : x ∈ specGridIndices n) :
    x < n * n := by
  unfold specGridIndices at hx
  rw [List.mem_flatMap] at hx
  obtain ⟨r, hr, hx⟩ := hx
  rw [List.mem_flatMap] at hx
  obtain ⟨c, hc, hx⟩ := hx
  rw [List.mem_range] at hr hc
  have hrn : r * n ≤ (n - 2) * n := Nat.mul_le_mul_right n (by omega)
  have hnn : (n - 2) * n + 2 * n = n * n := by
    obtain ⟨m, rfl⟩ : ∃ m, n = m + 2 := ⟨n - 2, by omega⟩
    have : m + 2 - 2 = m := by omega
    rw [this]
    ring
  have hle : x ≤ r * n + c + n + 1 := by
    unfold quadIndices at hx
    simp only [List.mem_cons, List.mem_singleton, List.not_mem_nil, or_false] at hx
    omega
  generalize (n - 2) * n = q at *
  generalize r * n = p at *
  generalize n * n = m at *
  omega

/-- The triangles of a list of cells. -/
theorem trianglesOf_flatMap (n : Nat) (bs : List Nat) :
    trianglesOf (bs.flatMap (fun i => quadIndices n i))
      = bs.flatMap (fun i => [(i + n + 1, i + 1, i), (i + n + 1, i, i + n)]) := by
  induction bs with
  | nil => rfl
  | cons b bs ih =>
    rw [List.flatMap_cons, List.flatMap_cons]
    show trianglesOf ((b + n + 1) :: (b + 1) :: b :: (b + n + 1) :: b :: (b + n) :: _) = _
    rw [trianglesOf, trianglesOf]
    show _ :: _ :: trianglesOf (bs.flatMap fun i => quadIndices n i) = _
    rw [ih]
    rfl

theorem inCell_first (n i b : Nat) : inCell n i (b + n + 1, b + 1, b) = decide (b = i) := by
  unfold inCell
  by_cases h : b = i
  · subst h
    simp
  · rw [decide_eq_false h, Bool.eq_false_iff]
    intro hh
    simp only [Bool.and_eq_true, decide_eq_true_eq, List.mem_cons, List.mem_singleton,
      List.not_mem_nil, or_false] at hh
    omega

theorem inCell_second (n i b : Nat) : inCell n i (b + n + 1, b, b + n) = decide (b = i) := by
  unfold inCell
  by_cases h : b = i
  · subst h
    simp
  · rw [decide_eq_false h, Bool.eq_false_iff]
    intro hh
    simp only [Bool.and_eq_true, decide_eq_true_eq, List.mem_cons, List.mem_singleton,
      List.not_mem_nil, or_false] at hh
    omega

/-- The triangles of a list of distinct cells that lie in one cell. -/
theorem filter_inCell (n i : Nat) (bs : List Nat) (hbs : bs.Nodup) :
    (bs.flatMap (fun b => [(b + n + 1, b + 1, b), (b + n + 1, b, b + n)])).filter (inCell n i)
      = (if i ∈ bs then [(i + n + 1, i + 1, i), (i + n + 1, i, i + n)] else []) := by
  induction bs with
  | nil => rfl
  | cons b bs ih =>
    rw [List.nodup_cons] at hbs
    rw [List.flatMap_cons, List.filter_append, ih hbs.2, List.filter_cons, List.filter_cons,
      List.filter_nil, inCell_first, inCell_second]
    by_cases h : b = i
    · subst h
      simp [hbs.1]
    · have h2 : ¬ i = b := fun e => h e.symm
      simp [h, h2]

/-- The index list of the specification, cell by cell. -/
theorem specGridIndices_cells (n : Nat) :
    specGridIndices n
      = ((List.range (n - 1)).flatMap
          (fun q => (List.range (n - 1)).map (fun c => q * n + c))).flatMap
            (fun i => quadIndices n i) := by
  unfold specGridIndices
  rw [List.flatMap_assoc]
  refine congrArg (fun f => (List.range (n - 1)).flatMap f) ?_
  funext r
  rw [List.flatMap_map]

/-- The orientation of the two triangles of a cell. -/
theorem gridOrientation_cell (n r c : Nat) (hc : c < n - 1) :
    gridOrientation n (r * n + c + n + 1, r * n + c + 1, r * n + c) = -1 ∧
    gridOrientation n (r * n + c + n + 1, r * n + c, r * n + c + n) = -1 := by
  have e1 : r * n + c + 1 = r * n + (c + 1) := by omega
  have e2 : r * n + c + n = (r + 1) * n + c := by
    rw [Nat.succ_mul]
    omega
  have e3 : r * n + c + n + 1 = (r + 1) * n + (c + 1) := by
    rw [Nat.succ_mul]
    omega
  obtain ⟨m0, d0⟩ := mul_add_mod_div r c n (by omega)
  obtain ⟨m1, d1⟩ := mul_add_mod_div r (c + 1) n (by omega)
  obtain ⟨m2, d2⟩ := mul_add_mod_div (r + 1) c n (by omega)
  obtain ⟨m3, d3⟩ := mul_add_mod_div (r + 1) (c + 1) n (by omega)
  rw [← e1] at m1 d1
  rw [← e2] at m2 d2
  rw [← e3] at m3 d3
  unfold gridOrientation
  simp only [m0, d0, m1, d1, m2, d2, m3, d3]
  push_cast
  constructor <;> ring

/-- Every cell of the grid is covered by exactly two triangles of the index list of the
specification, and both have the same orientation. -/
theorem specGridIndices_cover (n r c : Nat) (hr : r < n - 1) (hc : c < n - 1) :
    (trianglesOf (specGridIndices n)).filter (inCell n (r * n + c))
      = [(r * n + c + n + 1, r * n + c + 1, r * n + c),
         (r * n + c + n + 1, r * n + c, r * n + c + n)] ∧
    gridOrientation n (r * n + c + n + 1, r * n + c + 1, r * n + c) = -1 ∧
    gridOrientation n (r * n + c + n + 1, r * n + c, r * n + c + n) = -1 := by
  refine ⟨?_, gridOrientation_cell n r c hc⟩
  rw [specGridIndices_cells, trianglesOf_flatMap, filter_inCell, if_pos]
  · rw [List.mem_flatMap]
    exact ⟨r, List.mem_range.2 hr, List.mem_map.2 ⟨c, List.mem_range.2 hc, rfl⟩⟩
  · rw [← filter_range_rows n (n - 1) (by omega)]
    exact (List.nodup_range _).filter _

/-! ## The grid that `CreateEarthGrid` builds -/

/-- With a device and a positive side, `CreateEarthGrid` returns whenever its index loop
returns a non-empty list: the mesh then holds the vertices of the vertex loops, that index
list, and a buffer for each. -/
theorem CreateEarthGrid_eq_of (self : EarthMesh) (device : RenderDevice)
    (hdev : self.m_pDevice = some device) (hn : 0 < self.m_iNbGridSidePts) (tri : List Nat)
    (htri : CreateEarthGrid.indices self.m_iNbGridSidePts
      (CreateEarthGrid.lastPass self.m_iNbGridSidePts)
      (CreateEarthGrid.lastPass self.m_iNbGridSidePts).toNat 0 0 0
      (if self.m_triConnec.length > 0 ∧ self.m_pGridIndexBuffer.isSome then []
       else self.m_triConnec) = some tri)
    (htripos : 0 < tri.length) :
    ∃ (vb ib : Handle),
      self.CreateEarthGrid = some
        { self with
          m_gridVertices := CreateEarthGrid.vertices self.m_iNbGridSidePts
            (if self.m_gridVertices.length > 0 ∧ self.m_pGridVertexBuffer.isSome then []
             else self.m_gridVertices)
          m_triConnec := tri
          m_pGridVertexBuffer := some vb
          m_pGridIndexBuffer := some ib } := by
  have hvpos : 0 < (CreateEarthGrid.vertices self.m_iNbGridSidePts
      (if self.m_gridVertices.length > 0 ∧ self.m_pGridVertexBuffer.isSome then []
       else self.m_gridVertices)).length := by
    rw [CreateEarthGrid.vertices_length]
    have : 0 < self.m_iNbGridSidePts * self.m_iNbGridSidePts := Nat.mul_pos hn hn
    omega
  refine ⟨device.CreateBuffer
      { Name := "Grid Vertex buffer", Usage := USAGE.USAGE_STATIC,
        BindFlags := BIND_FLAGS.BIND_VERTEX_BUFFER,
        uiSizeInBytes := ShadowsSample.toUint32 (8 *
          (CreateEarthGrid.vertices self.m_iNbGridSidePts
            (if self.m_gridVertices.length > 0 ∧ self.m_pGridVertexBuffer.isSome then []
             else self.m_gridVertices)).length) }
      { pData := BufferWords.ofFloat
          ((CreateEarthGrid.vertices self.m_iNbGridSidePts
            (if self.m_gridVertices.length > 0 ∧ self.m_pGridVertexBuffer.isSome then []
             else self.m_gridVertices)).flatMap (fun v => [v.uv.x, v.uv.y]))
        DataSize := ShadowsSample.toUint32 (8 *
          (CreateEarthGrid.vertices self.m_iNbGridSidePts
            (if self.m_gridVertices.length > 0 ∧ self.m_pGridVertexBuffer.isSome then []
             else self.m_gridVertices)).length) },
    device.CreateBuffer
      { Name := "Grid index buffer", Usage := USAGE.USAGE_STATIC,
        BindFlags := BIND_FLAGS.BIND_INDEX_BUFFER,
        uiSizeInBytes := ShadowsSample.toUint32 (4 * tri.length) }
      { pData := BufferWords.ofUint tri, DataSize := ShadowsSample.toUint32 (4 * tri.length) },
    ?_⟩
  unfold EarthMesh.CreateEarthGrid
  by_cases c1 : self.m_gridVertices.length > 0 ∧ self.m_pGridVertexBuffer.isSome
  · by_cases c2 : self.m_triConnec.length > 0 ∧ self.m_pGridIndexBuffer.isSome
    · simp only [c1, c2, if_true, and_self, vectorClear] at htri hvpos ⊢
      rw [List.getElem?_eq_getElem hvpos, hdev]
      simp only [htri]
      rw [List.getElem?_eq_getElem htripos]
    · simp only [c1, c2, if_true, if_false, and_self, vectorClear] at htri hvpos ⊢
      rw [List.getElem?_eq_getElem hvpos, hdev]
      simp only [htri]
      rw [List.getElem?_eq_getElem htripos]
  · by_cases c2 : self.m_triConnec.length > 0 ∧ self.m_pGridIndexBuffer.isSome
    · simp only [c1, c2, if_true, if_false, and_self, vectorClear] at htri hvpos ⊢
      rw [List.getElem?_eq_getElem hvpos, hdev]
      simp only [htri]
      rw [List.getElem?_eq_getElem htripos]
    · simp only [c1, c2, if_false, and_self, vectorClear] at htri hvpos ⊢
      rw [List.getElem?_eq_getElem hvpos, hdev]
      simp only [htri]
      rw [List.getElem?_eq_getElem htripos]

end EarthMesh


/-! ## A grid whose side does not fit the 32-bit counters -/

namespace EarthMesh

theorem CreateEarthGrid.lastPass_65537 : CreateEarthGrid.lastPass 65537 = 65535 := by
  decide

/-- With a side of 65537 the product `n * n` wraps: `lastPass` is 65535, and
`CreateEarthGrid` returns with at most `6 * 65535` new indices. -/
theorem CreateEarthGrid_wrapped (self : EarthMesh) (device : RenderDevice)
    (hdev : self.m_pDevice = some device) (hn : self.m_iNbGridSidePts = 65537) :
    ∃ (tri : List Nat) (vb ib : Handle),
      self.CreateEarthGrid = some
        { self with
          m_gridVertices := CreateEarthGrid.vertices self.m_iNbGridSidePts
            (if self.m_gridVertices.length > 0 ∧ self.m_pGridVertexBuffer.isSome then []
             else self.m_gridVertices)
          m_triConnec := tri
          m_pGridVertexBuffer := some vb
          m_pGridIndexBuffer := some ib } ∧
      tri.length ≤
        (if self.m_triConnec.length > 0 ∧ self.m_pGridIndexBuffer.isSome then []
         else self.m_triConnec).length + 393210 := by
  obtain ⟨tri, htri, _, hlt⟩ := CreateEarthGrid.indices_isSome 65537 65535 (by norm_num)
    (65535 : Int).toNat 0 0 0
    (if self.m_triConnec.length > 0 ∧ self.m_pGridIndexBuffer.isSome then []
     else self.m_triConnec)
    (Int.le_refl _) (by norm_num) (by norm_num)
  have hpos : 0 < tri.length := Nat.lt_of_le_of_lt (Nat.zero_le _) (hlt (by norm_num))
  have hlen := CreateEarthGrid.indices_length_le 65537 65535 _ _ _ _ _ _ htri
  have h6 : 6 * (65535 : Int).toNat = 393210 := by decide
  rw [h6] at hlen
  obtain ⟨vb, ib, h⟩ := CreateEarthGrid_eq_of self device hdev (by rw [hn]; norm_num) tri
    (by rw [hn, CreateEarthGrid.lastPass_65537]; exact htri) hpos
  exact ⟨tri, vb, ib, h, hlen⟩

end EarthMesh


/-! ## The index list of the grid -/

/-- C21, for the sides `n ≥ 2` for which `6 * n * n` fits a signed 32-bit integer.
`CreateEarthGrid` returns, and the indices it pushes (after the indices it kept, none when
it cleared the vector) are the concatenation, over the rows `r = 0..n-2` and the columns
`c = 0..n-2` in row-major order, of `(i+n+1, i+1, i, i+n+1, i, i+n)` with `i = r*n + c`.
Every index is below `n * n`; the base vertex `r*n + c` of each cell lies in column `c` and
row `r`, both below `n - 1`; and the triangles of the list that lie in the cell are exactly
its two triangles, both of orientation `-1`. -/
theorem EarthMesh.CreateEarthGrid_indices (self : EarthMesh) (device : RenderDevice)
    (hdev : self.m_pDevice = some device) (hn : 2 ≤ self.m_iNbGridSidePts)
    (hbound : 6 * (self.m_iNbGridSidePts * self.m_iNbGridSidePts) < 2 ^ 31) :
    ∃ st, self.CreateEarthGrid = some st ∧
      st.m_triConnec =
        (if self.m_triConnec.length > 0 ∧ self.m_pGridIndexBuffer.isSome then []
         else self.m_triConnec) ++ specGridIndices self.m_iNbGridSidePts ∧
      (∀ x ∈ specGridIndices self.m_iNbGridSidePts,
        x < self.m_iNbGridSidePts * self.m_iNbGridSidePts) ∧
      (∀ r c : Nat, r < self.m_iNbGridSidePts - 1 → c < self.m_iNbGridSidePts - 1 →
        (r * self.m_iNbGridSidePts + c) % self.m_iNbGridSidePts = c ∧
        (r * self.m_iNbGridSidePts + c) / self.m_iNbGridSidePts = r ∧
        (trianglesOf (specGridIndices self.m_iNbGridSidePts)).filter
            (inCell self.m_iNbGridSidePts (r * self.m_iNbGridSidePts + c))
          = [(r * self.m_iNbGridSidePts + c + self.m_iNbGridSidePts + 1,
                r * self.m_iNbGridSidePts + c + 1, r * self.m_iNbGridSidePts + c),
             (r * self.m_iNbGridSidePts + c + self.m_iNbGridSidePts + 1,
                r * self.m_iNbGridSidePts + c,
                r * self.m_iNbGridSidePts + c + self.m_iNbGridSidePts)] ∧
        gridOrientation self.m_iNbGridSidePts
          (r * self.m_iNbGridSidePts + c + self.m_iNbGridSidePts + 1,
            r * self.m_iNbGridSidePts + c + 1, r * self.m_iNbGridSidePts + c) = -1 ∧
        gridOrientation self.m_iNbGridSidePts
          (r * self.m_iNbGridSidePts + c + self.m_iNbGridSidePts + 1,
            r * self.m_iNbGridSidePts + c,
            r * self.m_iNbGridSidePts + c + self.m_iNbGridSidePts) = -1) := by
  have htri := EarthMesh.CreateEarthGrid.indices_spec self.m_iNbGridSidePts hn hbound
    (if self.m_triConnec.length > 0 ∧ self.m_pGridIndexBuffer.isSome then []
     else self.m_triConnec)
  have hpos : 0 < ((if self.m_triConnec.length > 0 ∧ self.m_pGridIndexBuffer.isSome then []
      else self.m_triConnec) ++ specGridIndices self.m_iNbGridSidePts).length := by
    rw [List.length_append, EarthMesh.specGridIndices_length]
    have : 0 < (self.m_iNbGridSidePts - 1) * (self.m_iNbGridSidePts - 1) :=
      Nat.mul_pos (by omega) (by omega)
    omega
  obtain ⟨vb, ib, h⟩ := EarthMesh.CreateEarthGrid_eq_of self device hdev (by omega) _ htri hpos
  refine ⟨_, h, rfl, EarthMesh.specGridIndices_lt _ hn, ?_⟩
  intro r c hr hc
  obtain ⟨hm, hd⟩ := EarthMesh.mul_add_mod_div r c self.m_iNbGridSidePts (by omega)
  obtain ⟨h1, h2, h3⟩ := EarthMesh.specGridIndices_cover self.m_iNbGridSidePts r c hr hc
  exact ⟨hm, hd, h1, h2, h3⟩

/-- C21 on a grid of side 3: the four cells of the grid. -/
theorem EarthMesh.CreateEarthGrid_indices_witness :
    ∃ st, (gridMesh 3).CreateEarthGrid = some st ∧
      st.m_triConnec = [4, 1, 0, 4, 0, 3, 5, 2, 1, 5, 1, 4, 7, 4, 3, 7, 3, 6, 8, 5, 4, 8, 4, 7] := by
  obtain ⟨st, h, htri, _⟩ := EarthMesh.CreateEarthGrid_indices (gridMesh 3) (sampleDevice true)
    rfl (by decide) (by decide)
  exact ⟨st, h, htri.trans (by decide)⟩

/-- C21 as stated fails on a grid of side 65537. The product `n * n` wraps to 131073, so
`lastPass` is 65535: `CreateEarthGrid` returns with at most 393210 indices, and the list of
the specification has `6 * 65536 * 65536` of them. -/
theorem EarthMesh.CreateEarthGrid_indices_counterexample :
    EarthMesh.CreateEarthGrid.lastPass 65537 = 65535 ∧
    ∃ st, (gridMesh 65537).CreateEarthGrid = some st ∧
      st.m_triConnec.length ≤ 393210 ∧
      (specGridIndices 65537).length = 25769803776 ∧
      st.m_triConnec ≠ specGridIndices 65537 := by
  refine ⟨EarthMesh.CreateEarthGrid.lastPass_65537, ?_⟩
  obtain ⟨tri, vb, ib, h, hlen⟩ := EarthMesh.CreateEarthGrid_wrapped (gridMesh 65537)
    (sampleDevice true) rfl rfl
  have hlen2 : tri.length ≤ 393210 := hlen
  have hspec : (specGridIndices 65537).length = 25769803776 := by
    rw [EarthMesh.specGridIndices_length]
  refine ⟨_, h, hlen2, hspec, ?_⟩
  intro e
  have : tri.length = 25769803776 := by
    rw [← hspec]
    exact congrArg List.length e
  omega


/-! ## The texture coordinates of the grid -/

namespace EarthMesh

/-- The vertex loops of a grid whose `n * n` vertices the 32-bit counter can number push the
vertices of the specification. -/
theorem CreateEarthGrid.vertices_spec (n : Nat) (hn : 2 ≤ n) (hnn : n * n ≤ 2 ^ 32)
    (init : List Vertex) :
    CreateEarthGrid.vertices n init
      = init ++ (List.range (n * n)).map (fun k => ({ uv := specGridUV n k } : Vertex)) := by
  have h2 : n < 2 ^ 32 := by nlinarith
  rw [CreateEarthGrid.vertices_eq]
  refine congrArg (fun l => init ++ l) ?_
  apply List.map_congr_left
  intro k hk
  rw [List.mem_range] at hk
  rw [Nat.mod_eq_of_lt (by omega), CreateEarthGrid.newVertex_eq n k hn h2]

end EarthMesh


/-- C29. For a side `n` of the range of the resolution slider, `2 ≤ n ≤ 600`, no 32-bit
computation of the grid wraps or goes negative: the unsigned product `n * n` is the exact
product; `lastPass`, the unsigned difference `n*n - (n+1)` read as an `int`, is the exact
difference and is positive; the unsigned product `(n-1) * (n-1) * 6` is the exact product;
for every `i` below `lastPass` the unsigned sum `i + n + 1` is the exact sum; and the divisor
`n - 1` is not zero. The index loop ends after exactly `(n-1) * (n-1)` iterations, none of
which overflows a signed counter: bounded to that many iterations it returns, with six
indices pushed in each of them, and bounded to fewer it does not end. -/
theorem EarthMesh.CreateEarthGrid_no_overflow (n : Nat) (hn : 2 ≤ n) (h600 : n ≤ 600) :
    (n * n) % 2 ^ 32 = n * n ∧
    uintSub ((n * n) % 2 ^ 32) ((n + 1) % 2 ^ 32) = n * n - (n + 1) ∧ n + 1 < n * n ∧
    EarthMesh.CreateEarthGrid.lastPass n = (n * n : Int) - (n + 1) ∧
    0 < EarthMesh.CreateEarthGrid.lastPass n ∧
    ((uintSub n 1 * uintSub n 1) % 2 ^ 32 * 6) % 2 ^ 32 = (n - 1) * (n - 1) * 6 ∧
    (∀ i : Nat, (i : Int) < EarthMesh.CreateEarthGrid.lastPass n →
      ShadowsSample.intToUint32 ((i : Int) + n + 1) = i + n + 1 ∧
      ShadowsSample.intToUint32 ((i : Int) + n) = i + n ∧
      ShadowsSample.intToUint32 ((i : Int) + 1) = i + 1) ∧
    uintSub n 1 = n - 1 ∧ uintSub n 1 ≠ 0 ∧
    (∀ (tri : List Nat) (fuel : Nat),
      EarthMesh.CreateEarthGrid.indices n (EarthMesh.CreateEarthGrid.lastPass n) fuel 0 0 0 tri
        = (if (n - 1) * (n - 1) ≤ fuel then some (tri ++ specGridIndices n) else none)) ∧
    (specGridIndices n).length = 6 * ((n - 1) * (n - 1)) ∧
    (∀ tri : List Nat,
      EarthMesh.CreateEarthGrid.indices n (EarthMesh.CreateEarthGrid.lastPass n)
        (EarthMesh.CreateEarthGrid.lastPass n).toNat 0 0 0 tri
        = some (tri ++ specGridIndices n)) := by
  have hnn : n * n ≤ 600 * 600 := Nat.mul_le_mul h600 h600
  have h2n : n + 2 ≤ n * n := by nlinarith
  have hbound : 6 * (n * n) < 2 ^ 31 := by omega
  have hlast := EarthMesh.CreateEarthGrid.lastPass_eq n hn (by omega)
  have hsub : uintSub n 1 = n - 1 := EarthMesh.uintSub_one n (by omega) (by omega)
  have hm1 : (n - 1) * (n - 1) ≤ 600 * 600 :=
    Nat.mul_le_mul (by omega) (by omega)
  have hcast : ((n * n : Nat) : Int) = (n : Int) * n := by push_cast; rfl
  refine ⟨?_, ?_, ?_, hlast, ?_, ?_, ?_, hsub, ?_, ?_, EarthMesh.specGridIndices_length n, ?_⟩
  · omega
  · unfold uintSub
    generalize n * n = m at *
    omega
  · omega
  · rw [hlast, ← hcast]
    generalize n * n = m at *
    omega
  · rw [hsub]
    generalize (n - 1) * (n - 1) = m at *
    omega
  · intro i hi
    rw [hlast, ← hcast] at hi
    have hi2 : i < n * n := by
      generalize n * n = m at *
      omega
    refine ⟨?_, ?_, ?_⟩
    · have := ShadowsSample.intToUint32_natCast (i + n + 1) (by omega)
      push_cast at this
      exact this
    · have := ShadowsSample.intToUint32_natCast (i + n) (by omega)
      push_cast at this
      exact this
    · have := ShadowsSample.intToUint32_natCast (i + 1) (by omega)
      push_cast at this
      exact this
  · rw [hsub]
    omega
  · intro tri fuel
    exact EarthMesh.CreateEarthGrid.indices_fuel n hn hbound tri fuel
  · intro tri
    exact EarthMesh.CreateEarthGrid.indices_spec n hn hbound tri

/-- C29 at the upper end of the slider, `n = 600`: `lastPass` is 359399, the draw call gets
2152806 indices, and the index loop takes 358801 iterations. -/
theorem EarthMesh.CreateEarthGrid_no_overflow_witness :
    EarthMesh.CreateEarthGrid.lastPass 600 = 359399 ∧
    ((uintSub 600 1 * uintSub 600 1) % 2 ^ 32 * 6) % 2 ^ 32 = 2152806 ∧
    EarthMesh.CreateEarthGrid.indices 600 (EarthMesh.CreateEarthGrid.lastPass 600) 358801
      0 0 0 [] = some ([] ++ specGridIndices 600) ∧
    EarthMesh.CreateEarthGrid.indices 600 (EarthMesh.CreateEarthGrid.lastPass 600) 358800
      0 0 0 [] = none := by
  obtain ⟨_, _, _, h1, _, h2, _, _, _, h3, _, _⟩ :=
    EarthMesh.CreateEarthGrid_no_overflow 600 (by decide) (by decide)
  refine ⟨?_, ?_, ?_, ?_⟩
  · rw [h1]
    norm_num
  · rw [h2]
  · rw [h3 [] 358801, if_pos (by decide)]
  · rw [h3 [] 358800, if_neg (by decide)]


/-! ## The grid offset uploaded by `RenderEarth` -/

/-- The constants that `RenderEarth` uploads, and its draw call, on a mesh with a context and
a constants buffer whose side is at least 2. -/
theorem EarthMesh.RenderEarth_eq (self : EarthMesh) (ctx buf : Handle)
    (pCtx : List TerrainCommand) (hctx : self.m_pContext = some ctx)
    (hbuf : self.m_pVSConstants = some buf) (hn : 2 ≤ self.m_iNbGridSidePts)
    (h32 : self.m_iNbGridSidePts < 2 ^ 32) :
    self.RenderEarth pCtx = some (pCtx ++
      [TerrainCommand.MapGlobalConstants buf
        { g_worldViewProj := some self.m_fMatWorldViewProj.Transpose
          g_worldView := some self.m_fMatWorldView.Transpose
          g_lightPosition := some self.m_fLightPosition
          g_heightScale := some self.m_fHeightScale
          g_gridOffset := some ((1 / (self.m_iNbGridSidePts - 1) : Nat) : ℚ) }] ++
      [TerrainCommand.SetVertexBuffers 0 1 [self.m_pGridVertexBuffer] [0]
        RESOURCE_STATE_TRANSITION_MODE.TRANSITION
        SET_VERTEX_BUFFERS_FLAGS.SET_VERTEX_BUFFERS_FLAG_RESET] ++
      [TerrainCommand.SetIndexBuffer self.m_pGridIndexBuffer 0
        RESOURCE_STATE_TRANSITION_MODE.TRANSITION] ++
      [TerrainCommand.SetPipelineState self.m_pEarthPSO] ++
      [TerrainCommand.CommitShaderResources self.m_pEarthSRB
        RESOURCE_STATE_TRANSITION_MODE.TRANSITION] ++
      [TerrainCommand.DrawIndexed
        { IndexType := VALUE_TYPE.VT_UINT32
          NumIndices :=
            (((self.m_iNbGridSidePts - 1) * (self.m_iNbGridSidePts - 1)) % 2 ^ 32 * 6) % 2 ^ 32
          Flags := DRAW_FLAGS.DRAW_FLAG_VERIFY_ALL }]) := by
  have hsub : uintSub self.m_iNbGridSidePts 1 = self.m_iNbGridSidePts - 1 :=
    EarthMesh.uintSub_one _ (by omega) h32
  unfold EarthMesh.RenderEarth
  rw [hctx, hbuf]
  simp only [hsub]
  rw [if_neg (by omega)]

/-- C24 on the sample as constructed, whose grid has side 100. `Initialize` returns, and
`RenderEarth` then uploads a grid offset of 0: the quotient `1/(n-1)` is taken on unsigned
integers before the conversion to `float`. The vertices 0 and 1 of the grid are `1/99`
apart. -/
theorem EarthMesh.RenderEarth_gridOffset_diverges :
    ∃ (st : TerrainRenderer) (out : List TerrainCommand) (buf : Handle) (D : GlobalConstants),
      (TerrainRenderer.new sampleFramework 0 0).Initialize sampleFramework 0
        (sampleDevice true) [1] 0 2 = some (st, none) ∧
      st.m_earthMesh.m_iNbGridSidePts = 100 ∧
      st.m_earthMesh.RenderEarth [] = some out ∧
      out.head? = some (TerrainCommand.MapGlobalConstants buf D) ∧
      D.g_gridOffset = some 0 ∧
      st.m_earthMesh.m_gridVertices[0]? = some { uv := { x := 0, y := 0 } } ∧
      st.m_earthMesh.m_gridVertices[1]? = some { uv := { x := 1 / 99, y := 0 } } := by
  obtain ⟨epso, lpso, srb, verts, tri, vb, ib, heightMapSRV, textureSRV, cvb, cib, hcreate,
    hverts, _, _, _⟩ := EarthMesh.Create_eq (TerrainRenderer.new sampleFramework 0 0).m_earthMesh
      (sampleDevice true) (some 1) 100 (TerrainRenderer.new sampleFramework 0 0).m_fLightPosition
      (by decide) (by decide)
  have hverts2 : verts = EarthMesh.CreateEarthGrid.vertices 100 [] := hverts
  obtain ⟨st, hinit, hn, hctx, buf, hbuf, hgv⟩ : ∃ st : TerrainRenderer,
      (TerrainRenderer.new sampleFramework 0 0).Initialize sampleFramework 0
        (sampleDevice true) [1] 0 2 = some (st, none) ∧
      st.m_earthMesh.m_iNbGridSidePts = 100 ∧ st.m_earthMesh.m_pContext = some 1 ∧
      ∃ buf, st.m_earthMesh.m_pVSConstants = some buf ∧ st.m_earthMesh.m_gridVertices = verts :=
    ⟨_, TerrainRenderer.Initialize_eq sampleFramework
      (TerrainRenderer.new sampleFramework 0 0) 0 (sampleDevice true) [1] 0 2 _ rfl hcreate,
      rfl, rfl, _, rfl, rfl⟩
  have hr := EarthMesh.RenderEarth_eq st.m_earthMesh 1 buf [] hctx hbuf (by rw [hn]; decide)
    (by rw [hn]; decide)
  have hspec := EarthMesh.CreateEarthGrid.vertices_spec 100 (by decide) (by decide) []
  refine ⟨st, _, buf, _, hinit, hn, hr, rfl, ?_, ?_, ?_⟩
  · show some (((1 / (st.m_earthMesh.m_iNbGridSidePts - 1) : Nat) : ℚ)) = some 0
    rw [hn]
    norm_num
  · rw [hgv, hverts2, hspec, List.nil_append, List.getElem?_map,
      List.getElem?_range (by decide), Option.map_some']
    unfold specGridUV
    norm_num
  · rw [hgv, hverts2, hspec, List.nil_append, List.getElem?_map,
      List.getElem?_range (by decide), Option.map_some']
    unfold specGridUV
    norm_num


/-! ## The grid after a change of resolution -/

namespace EarthMesh

/-- The vector that `CreateEarthGrid` keeps is empty when the vector was empty or its buffer
exists. -/
theorem kept_eq_nil {α : Type} (v : List α) (b : Option Handle) (h : v = [] ∨ b.isSome) :
    (if v.length > 0 ∧ b.isSome then [] else v) = [] := by
  split
  · rfl
  · rename_i hc
    cases h with
    | inl h => exact h
    | inr h =>
      cases v with
      | nil => rfl
      | cons a v => exact absurd ⟨Nat.succ_pos _, h⟩ hc

/-- On a mesh with a device whose vectors are empty or have their buffers, `CreateEarthGrid`
for a side `n ≥ 2` for which `6 * n * n` fits a signed 32-bit integer returns the mesh with
the vertices and the indices of the specification, and a buffer for each. -/
theorem CreateEarthGrid_spec (self : EarthMesh) (device : RenderDevice)
    (hdev : self.m_pDevice = some device) (hn : 2 ≤ self.m_iNbGridSidePts)
    (hbound : 6 * (self.m_iNbGridSidePts * self.m_iNbGridSidePts) < 2 ^ 31)
    (hv : self.m_gridVertices = [] ∨ self.m_pGridVertexBuffer.isSome)
    (ht : self.m_triConnec = [] ∨ self.m_pGridIndexBuffer.isSome) :
    ∃ (vb ib : Handle),
      self.CreateEarthGrid = some
        { self with
          m_gridVertices := (List.range (self.m_iNbGridSidePts * self.m_iNbGridSidePts)).map
            (fun k => ({ uv := specGridUV self.m_iNbGridSidePts k } : Vertex))
          m_triConnec := specGridIndices self.m_iNbGridSidePts
          m_pGridVertexBuffer := some vb
          m_pGridIndexBuffer := some ib } := by
  have hkv := kept_eq_nil self.m_gridVertices self.m_pGridVertexBuffer hv
  have hkt := kept_eq_nil self.m_triConnec self.m_pGridIndexBuffer ht
  have htri := CreateEarthGrid.indices_spec self.m_iNbGridSidePts hn hbound
    (if self.m_triConnec.length > 0 ∧ self.m_pGridIndexBuffer.isSome then []
     else self.m_triConnec)
  rw [hkt, List.nil_append] at htri
  have hpos : 0 < (specGridIndices self.m_iNbGridSidePts).length := by
    rw [specGridIndices_length]
    have : 0 < (self.m_iNbGridSidePts - 1) * (self.m_iNbGridSidePts - 1) :=
      Nat.mul_pos (by omega) (by omega)
    omega
  obtain ⟨vb, ib, h⟩ := CreateEarthGrid_eq_of self device hdev (by omega) _
    (by rw [hkt]; exact htri) hpos
  rw [hkv, CreateEarthGrid.vertices_spec _ hn (by omega), List.nil_append] at h
  exact ⟨vb, ib, h⟩

/-- A sequence of changes of resolution, on a mesh that holds the grid of the specification
for its side: the mesh then holds the grid of the specification for the last resolution. -/
theorem UpdateGridResolutions_spec (device : RenderDevice) (ctx : Option Handle)
    (buf : Option Handle) (rs : List Nat) :
    ∀ (self : EarthMesh), self.m_pDevice = some device → self.m_pContext = ctx →
      self.m_pVSConstants = buf → 2 ≤ self.m_iNbGridSidePts →
      self.m_gridVertices = (List.range (self.m_iNbGridSidePts * self.m_iNbGridSidePts)).map
        (fun k => ({ uv := specGridUV self.m_iNbGridSidePts k } : Vertex)) →
      self.m_triConnec = specGridIndices self.m_iNbGridSidePts →
      self.m_pGridVertexBuffer.isSome → self.m_pGridIndexBuffer.isSome →
      (∀ r ∈ rs, 2 ≤ r ∧ 6 * (r * r) < 2 ^ 31) →
      ∃ st, self.UpdateGridResolutions (List.map (fun r : Nat => (r : Int)) rs) = some st ∧
        st.m_pContext = ctx ∧ st.m_pVSConstants = buf ∧
        st.m_iNbGridSidePts = rs.getLastD self.m_iNbGridSidePts ∧
        st.m_gridVertices = (List.range (st.m_iNbGridSidePts * st.m_iNbGridSidePts)).map
          (fun k => ({ uv := specGridUV st.m_iNbGridSidePts k } : Vertex)) ∧
        st.m_triConnec = specGridIndices st.m_iNbGridSidePts := by
  induction rs with
  | nil =>
    intro self _ hctx hbuf _ hgv htri _ _ _
    exact ⟨self, rfl, hctx, hbuf, rfl, hgv, htri⟩
  | cons r rest ih =>
    intro self hdev hctx hbuf _ _ _ hvb hib hrs
    obtain ⟨hr2, hr6⟩ := hrs r (List.mem_cons_self _ _)
    have hrr : r ≤ r * r := Nat.le_mul_self r
    have e : ShadowsSample.intToUint32 (r : Int) = r :=
      ShadowsSample.intToUint32_natCast r (by omega)
    obtain ⟨vb, ib, h⟩ := CreateEarthGrid_spec
      { self with m_iNbGridSidePts := r } device hdev hr2 hr6 (Or.inr hvb) (Or.inr hib)
    obtain ⟨st1, h, q1, q2, q3, q4, q5, q6, q7, q8⟩ : ∃ st1 : EarthMesh,
        ({ self with m_iNbGridSidePts := r } : EarthMesh).CreateEarthGrid = some st1 ∧
        st1.m_pDevice = some device ∧ st1.m_pContext = ctx ∧ st1.m_pVSConstants = buf ∧
        st1.m_iNbGridSidePts = r ∧
        st1.m_gridVertices = (List.range (st1.m_iNbGridSidePts * st1.m_iNbGridSidePts)).map
          (fun k => ({ uv := specGridUV st1.m_iNbGridSidePts k } : Vertex)) ∧
        st1.m_triConnec = specGridIndices st1.m_iNbGridSidePts ∧
        st1.m_pGridVertexBuffer.isSome ∧ st1.m_pGridIndexBuffer.isSome :=
      ⟨_, h, hdev, hctx, hbuf, rfl, rfl, rfl, rfl, rfl⟩
    obtain ⟨st, hst, h1, h2, h3, h4, h5⟩ := ih st1 q1 q2 q3 (by rw [q4]; exact hr2) q5 q6 q7 q8
      (fun x hx => hrs x (List.mem_cons_of_mem _ hx))
    rw [q4] at h3
    have h3b : st.m_iNbGridSidePts = (r :: rest).getLastD self.m_iNbGridSidePts := by
      rw [List.getLastD_cons]
      exact h3
    refine ⟨st, ?_, h1, h2, h3b, h4, h5⟩
    rw [List.map_cons]
    unfold UpdateGridResolutions UpdateGridResolution
    simp only [e]
    rw [h]
    exact hst

/-- What holds of the first resolution and of every later one holds of the last one. -/
theorem getLastD_induction (P : Nat → Prop) (rs : List Nat) :
    ∀ n0 : Nat, P n0 → (∀ r ∈ rs, P r) → P (rs.getLastD n0) := by
  induction rs with
  | nil =>
    intro n0 h0 _
    exact h0
  | cons r rest ih =>
    intro n0 _ h
    rw [List.getLastD_cons]
    exact ih r (h r (List.mem_cons_self _ _)) (fun x hx => h x (List.mem_cons_of_mem _ hx))

end EarthMesh


/-- C22, for resolutions `n ≥ 2` for which `6 * n * n` fits a signed 32-bit integer, on a
mesh whose vectors are empty or have their buffers (a mesh as constructed has empty
vectors). `Create` with resolution `n0` returns, and so does every sequence of calls of
`UpdateGridResolution` after it. With `n` the last resolution (`n0` when there was no call),
the mesh then has side `n`, its vertex list is the list of the `n * n` vertices of the
specification, and its index list is the list of the `6 * (n-1) * (n-1)` indices of the
specification: neither depends on the earlier resolutions. `RenderEarth` returns, and the
last command it issues is a draw call of `6 * (n-1) * (n-1)` indices. -/
theorem EarthMesh.UpdateGridResolutions_grid (self : EarthMesh) (device : RenderDevice)
    (ctx : Handle) (n0 : Nat) (light : float3) (rs : List Nat)
    (pCtx : List TerrainCommand)
    (hv : self.m_gridVertices = [] ∨ self.m_pGridVertexBuffer.isSome)
    (ht : self.m_triConnec = [] ∨ self.m_pGridIndexBuffer.isSome)
    (hn0 : 2 ≤ n0 ∧ 6 * (n0 * n0) < 2 ^ 31)
    (hrs : ∀ r ∈ rs, 2 ≤ r ∧ 6 * (r * r) < 2 ^ 31) :
    ∃ (mesh st : EarthMesh) (out : List TerrainCommand) (Attribs : DrawAttribs),
      self.Create (some device) (some ctx) n0 light = some mesh ∧
      mesh.UpdateGridResolutions (List.map (fun r : Nat => (r : Int)) rs) = some st ∧
      st.m_iNbGridSidePts = rs.getLastD n0 ∧
      st.m_gridVertices = (List.range (rs.getLastD n0 * rs.getLastD n0)).map
        (fun k => ({ uv := specGridUV (rs.getLastD n0) k } : EarthMesh.Vertex)) ∧
      st.m_gridVertices.length = rs.getLastD n0 * rs.getLastD n0 ∧
      st.m_triConnec = specGridIndices (rs.getLastD n0) ∧
      st.m_triConnec.length = 6 * ((rs.getLastD n0 - 1) * (rs.getLastD n0 - 1)) ∧
      st.RenderEarth pCtx = some out ∧
      out.getLast? = some (TerrainCommand.DrawIndexed Attribs) ∧
      Attribs.NumIndices = 6 * ((rs.getLastD n0 - 1) * (rs.getLastD n0 - 1)) := by
  obtain ⟨epso, lpso, srb, verts, tri, vb, ib, heightMapSRV, textureSRV, cvb, cib, hcreate,
    hverts, htri, _, _⟩ := EarthMesh.Create_eq self device (some ctx) n0 light hn0.1 hn0.2
  rw [EarthMesh.kept_eq_nil _ _ hv,
    EarthMesh.CreateEarthGrid.vertices_spec n0 hn0.1 (by omega), List.nil_append] at hverts
  rw [EarthMesh.kept_eq_nil _ _ ht, EarthMesh.CreateEarthGrid.indices_spec n0 hn0.1 hn0.2,
    List.nil_append] at htri
  have htri2 : tri = specGridIndices n0 := (Option.some.inj htri).symm
  obtain ⟨mesh, hmesh, q1, q2, q3, q4, q5, q6, q7, q8⟩ : ∃ mesh : EarthMesh,
      self.Create (some device) (some ctx) n0 light = some mesh ∧
      mesh.m_pDevice = some device ∧ mesh.m_pContext = some ctx ∧
      mesh.m_pVSConstants = some
        (device.CreateUniformBuffer EarthMesh.sizeofGlobalConstants "VS constants CB") ∧
      mesh.m_iNbGridSidePts = n0 ∧ mesh.m_gridVertices = verts ∧ mesh.m_triConnec = tri ∧
      mesh.m_pGridVertexBuffer.isSome ∧ mesh.m_pGridIndexBuffer.isSome :=
    ⟨_, hcreate, rfl, rfl, rfl, rfl, rfl, rfl, rfl, rfl⟩
  obtain ⟨st, hst, h1, h2, h3, h4, h5⟩ := EarthMesh.UpdateGridResolutions_spec device
    (some ctx) _ rs mesh q1 q2 q3 (by rw [q4]; exact hn0.1) (by rw [q5, q4, hverts])
    (by rw [q6, q4, htri2]) q7 q8 hrs
  rw [q4] at h3
  rw [h3] at h4 h5
  have hlast : 2 ≤ rs.getLastD n0 ∧ 6 * (rs.getLastD n0 * rs.getLastD n0) < 2 ^ 31 :=
    EarthMesh.getLastD_induction (fun r => 2 ≤ r ∧ 6 * (r * r) < 2 ^ 31) rs n0 hn0 hrs
  have hm1 : (rs.getLastD n0 - 1) * (rs.getLastD n0 - 1) ≤ rs.getLastD n0 * rs.getLastD n0 :=
    Nat.mul_le_mul (Nat.sub_le _ _) (Nat.sub_le _ _)
  have hr := EarthMesh.RenderEarth_eq st ctx _ pCtx h1 h2 (by rw [h3]; exact hlast.1)
    (by
      rw [h3]
      have := Nat.le_mul_self (rs.getLastD n0)
      omega)
  refine ⟨mesh, st, _,
    { IndexType := VALUE_TYPE.VT_UINT32
      NumIndices :=
        (((st.m_iNbGridSidePts - 1) * (st.m_iNbGridSidePts - 1)) % 2 ^ 32 * 6) % 2 ^ 32
      Flags := DRAW_FLAGS.DRAW_FLAG_VERIFY_ALL },
    hmesh, hst, h3, h4, ?_, h5, ?_, hr, ?_, ?_⟩
  · rw [h4, List.length_map, List.length_range]
  · rw [h5, EarthMesh.specGridIndices_length]
  · rw [List.getLast?_append, List.getLast?_singleton]
    rfl
  · show (((st.m_iNbGridSidePts - 1) * (st.m_iNbGridSidePts - 1)) % 2 ^ 32 * 6) % 2 ^ 32 = _
    rw [h3]
    generalize (rs.getLastD n0 - 1) * (rs.getLastD n0 - 1) = m at *
    omega


/-- C22 on a mesh as constructed: `Create` with resolution 4, then the resolutions 2, 5
and 3. The mesh ends with the nine vertices and the four cells of a grid of side 3. -/
theorem EarthMesh.UpdateGridResolutions_grid_witness :
    ∃ (mesh st : EarthMesh),
      emptyMesh.Create (some (sampleDevice true)) (some 1) 4 {} = some mesh ∧
      mesh.UpdateGridResolutions [2, 5, 3] = some st ∧
      st.m_gridVertices.length = 9 ∧
      st.m_triConnec = [4, 1, 0, 4, 0, 3, 5, 2, 1, 5, 1, 4, 7, 4, 3, 7, 3, 6, 8, 5, 4, 8, 4, 7] := by
  obtain ⟨mesh, st, out, A, h1, h2, _, _, h5, h6, _⟩ := EarthMesh.UpdateGridResolutions_grid
    emptyMesh (sampleDevice true) 1 4 {} [2, 5, 3] [] (Or.inl rfl) (Or.inl rfl) (by decide)
    (by decide)
  exact ⟨mesh, st, h1, h2, h5.trans (by decide), h6.trans (by decide)⟩

/-- C22 as stated fails for a last resolution of 65537. `Create` with resolution 100 and
then `UpdateGridResolution` with 65537 both return. The product `n * n` has wrapped, so the
index list has at most 393210 indices, against `6 * 65536 * 65536`; and the unsigned product
`(n-1) * (n-1) * 6` has wrapped to 0, so `RenderEarth` draws no index. -/
theorem EarthMesh.UpdateGridResolutions_grid_counterexample :
    ∃ (mesh st : EarthMesh) (out : List TerrainCommand) (Attribs : DrawAttribs),
      emptyMesh.Create (some (sampleDevice true)) (some 1) 100 {} = some mesh ∧
      mesh.UpdateGridResolutions [65537] = some st ∧
      st.m_iNbGridSidePts = 65537 ∧
      st.m_triConnec.length ≤ 393210 ∧
      6 * ((65537 - 1) * (65537 - 1)) = 25769803776 ∧
      st.m_triConnec.length ≠ 6 * ((65537 - 1) * (65537 - 1)) ∧
      st.RenderEarth [] = some out ∧
      out.getLast? = some (TerrainCommand.DrawIndexed Attribs) ∧
      Attribs.NumIndices = 0 ∧
      Attribs.NumIndices ≠ 6 * ((65537 - 1) * (65537 - 1)) := by
  obtain ⟨epso, lpso, srb, verts, tri, vb, ib, heightMapSRV, textureSRV, cvb, cib, hcreate,
    _, _, _, htripos⟩ := EarthMesh.Create_eq emptyMesh (sampleDevice true) (some 1) 100 {}
      (by decide) (by decide)
  obtain ⟨mesh, hmesh, q1, q2, buf, q3, q6, q8⟩ : ∃ mesh : EarthMesh,
      emptyMesh.Create (some (sampleDevice true)) (some 1) 100 {} = some mesh ∧
      mesh.m_pDevice = some (sampleDevice true) ∧ mesh.m_pContext = some 1 ∧
      ∃ buf, mesh.m_pVSConstants = some buf ∧ mesh.m_triConnec = tri ∧
      mesh.m_pGridIndexBuffer.isSome :=
    ⟨_, hcreate, rfl, rfl, _, rfl, rfl, rfl⟩
  obtain ⟨tri2, vb2, ib2, h, hlen⟩ := EarthMesh.CreateEarthGrid_wrapped
    { mesh with m_iNbGridSidePts := 65537 } (sampleDevice true) q1 rfl
  rw [EarthMesh.kept_eq_nil _ _ (Or.inr q8)] at hlen
  obtain ⟨st, h, p1, p2, p3, p4⟩ : ∃ st : EarthMesh,
      ({ mesh with m_iNbGridSidePts := 65537 } : EarthMesh).CreateEarthGrid = some st ∧
      st.m_iNbGridSidePts = 65537 ∧ st.m_triConnec = tri2 ∧ st.m_pContext = some 1 ∧
      st.m_pVSConstants = some buf :=
    ⟨_, h, rfl, rfl, q2, q3⟩
  have e : ShadowsSample.intToUint32 65537 = 65537 := by decide
  have hupd : mesh.UpdateGridResolutions [65537] = some st := by
    unfold EarthMesh.UpdateGridResolutions EarthMesh.UpdateGridResolution
    simp only [e]
    rw [h]
    rfl
  have hr := EarthMesh.RenderEarth_eq st 1 buf [] p3 p4 (by rw [p1]; decide)
    (by rw [p1]; decide)
  have hlen2 : st.m_triConnec.length ≤ 393210 := by
    rw [p2]
    exact hlen
  have hnum : (((st.m_iNbGridSidePts - 1) * (st.m_iNbGridSidePts - 1)) % 2 ^ 32 * 6) % 2 ^ 32
      = 0 := by
    rw [p1]
    decide
  refine ⟨mesh, st, _,
    { IndexType := VALUE_TYPE.VT_UINT32
      NumIndices :=
        (((st.m_iNbGridSidePts - 1) * (st.m_iNbGridSidePts - 1)) % 2 ^ 32 * 6) % 2 ^ 32
      Flags := DRAW_FLAGS.DRAW_FLAG_VERIFY_ALL },
    hmesh, hupd, p1, hlen2, by decide, ?_, hr, ?_, hnum, ?_⟩
  · omega
  · rw [List.getLast?_append, List.getLast?_singleton]
    rfl
  · show (((st.m_iNbGridSidePts - 1) * (st.m_iNbGridSidePts - 1)) % 2 ^ 32 * 6) % 2 ^ 32 ≠ _
    rw [hnum]
    decide

end Diligent
